import Mathlib

/-!
# EAPOLSocket.c: packet codec and socket source

A shallow embedding of `eapolclient.tproj/EAPOLSocket.c`.

* Memory a pointer designates is a `List Byte`; a read at an offset past the
  end of the list yields `0`.  Every read the validators perform is guarded by
  a length test, exactly as in the C code.
* `unsigned int` values are natural numbers; the one subtraction that can wrap
  (`length -= sizeof(*eapol_p)`) is written modulo `2^32`.
* The `FILE * f` argument of the validators only selects whether diagnostic
  text is printed; printing has no influence on the value returned and is not
  part of the embedding.  The same holds for `my_log` / `eapolclient_log`.
* Calls that leave the file (receive callbacks, `sendto`, timer, wireless
  adapter, Supplicant, interest notification) are recorded as `Event`s.
-/

namespace EAPOL

/-- One octet of a buffer. -/
abbrev Byte := Fin 256

/-- The octet at offset `i` from a pointer. -/
def byteAt (p : List Byte) (i : Nat) : Byte := p.getD i 0

/-- The `n` octets starting at a pointer (what `bcopy(p, dst, n)` copies). -/
def readBytes (p : List Byte) (n : Nat) : List Byte :=
  (List.range n).map (fun i => byteAt p i)

/-- Network-order 16-bit load (`ntohs` of the two octets at offset `i`). -/
def ntohs_at (p : List Byte) (i : Nat) : Nat :=
  (byteAt p i).val * 256 + (byteAt p (i + 1)).val

/-- Six-octet Ethernet address, `struct ether_addr`. -/
structure ether_addr where
  o0 : Byte
  o1 : Byte
  o2 : Byte
  o3 : Byte
  o4 : Byte
  o5 : Byte
  deriving DecidableEq, Repr

/-- The six octets of an address in memory order. -/
def ether_addr.octets (a : ether_addr) : List Byte :=
  [a.o0, a.o1, a.o2, a.o3, a.o4, a.o5]

/-- The address stored at offset `off` from a pointer. -/
def ether_addr.load (p : List Byte) (off : Nat) : ether_addr :=
  ⟨byteAt p off, byteAt p (off + 1), byteAt p (off + 2),
   byteAt p (off + 3), byteAt p (off + 4), byteAt p (off + 5)⟩

/-- Number of values of `unsigned int` (32 bits). -/
def UINT_MOD : Nat := 4294967296

/-- Size of `struct ether_header`: destination (6), source (6), type (2). -/
def sizeof_ether_header : Nat := 14

/-- Modelled from the spec: `sizeof(EAPOLPacket)`; the struct is declared in
EAPOL.h, which is not part of the sources.  The spec gives the header as
version (u8), packet type (u8), body length (u16 big-endian): 4 octets. -/
def sizeof_EAPOLPacket : Nat := 4

/-- Modelled from the spec: `sizeof(EAPOLRC4KeyDescriptor)` (EAPOL.h is not part
of the sources): descriptor type (1), key length (2), replay counter (8),
IV (16), key index (1), signature (16); the key material that follows is a
flexible member. -/
def sizeof_EAPOLRC4KeyDescriptor : Nat := 1 + 2 + 8 + 16 + 1 + 16

/-- Modelled from the spec: `sizeof(EAPOLIEEE80211KeyDescriptor)` (EAPOL.h is not
part of the sources): descriptor type (1), key information (2), key length (2),
replay counter (8), nonce (32), IV (16), RSC (8), reserved (8), MIC (16),
key data length (2); the key data that follows is a flexible member. -/
def sizeof_EAPOLIEEE80211KeyDescriptor : Nat :=
  1 + 2 + 2 + 8 + 32 + 16 + 8 + 8 + 16 + 2

/-- Modelled from the spec: offset of `key_data_length` inside the IEEE 802.11
descriptor (the last two octets of the fixed part). -/
def offsetof_key_data_length : Nat := 1 + 2 + 2 + 8 + 32 + 16 + 8 + 8 + 16

/-- Modelled from the spec: EAPOL packet type values (enum in EAPOL.h). -/
def kEAPOLPacketTypeEAPPacket : Nat := 0
/-- Modelled from the spec: EAPOL packet type `Start`. -/
def kEAPOLPacketTypeStart : Nat := 1
/-- Modelled from the spec: EAPOL packet type `Logoff`. -/
def kEAPOLPacketTypeLogoff : Nat := 2
/-- Modelled from the spec: EAPOL packet type `Key`. -/
def kEAPOLPacketTypeKey : Nat := 3
/-- Modelled from the spec: EAPOL packet type `EncapsulatedASFAlert`. -/
def kEAPOLPacketTypeEncapsulatedASFAlert : Nat := 4

/-- Modelled from the spec: key descriptor type `RC4` (EAPOL.h). -/
def kEAPOLKeyDescriptorTypeRC4 : Nat := 1
/-- Modelled from the spec: key descriptor type `IEEE 802.11` (EAPOL.h). -/
def kEAPOLKeyDescriptorTypeIEEE80211 : Nat := 2

/-- Modelled from the spec: the EAPOL EtherType (EAPOL.h). -/
def EAPOL_802_1_X_ETHERTYPE : Nat := 0x888e
/-- The pre-authentication EtherType (`#define` in EAPOLSocket.c). -/
def IEEE80211_PREAUTH_ETHERTYPE : Nat := 0x88c7
/-- Modelled from the spec: the protocol version emitted (EAPOL.h). -/
def EAPOL_802_1_X_PROTOCOL_VERSION : Byte := 1
/-- Modelled from the spec: `EAPOL_802_1_X_GROUP_ADDRESS`, 01:80:C2:00:00:03. -/
def eapol_multicast : ether_addr := ⟨0x01, 0x80, 0xc2, 0x00, 0x00, 0x03⟩

/-- Size of the receive buffer. -/
def EAPOLSOCKET_RECV_BUFSIZE : Nat := 1600

/-- Modelled from the spec: `EAPOLPacketGetLength` (EAPOL.h), the big-endian
body length stored in octets 2 and 3 of the EAPOL header. -/
def EAPOLPacketGetLength (eapol_p : List Byte) : Nat := ntohs_at eapol_p 2

/-- The `packet_type` field of the EAPOL header (octet 1). -/
def EAPOLPacket_packet_type (eapol_p : List Byte) : Nat := (byteAt eapol_p 1).val

/-- The `body` member of an EAPOL packet: a pointer past the 4-octet header. -/
def EAPOLPacket_body (eapol_p : List Byte) : List Byte :=
  eapol_p.drop sizeof_EAPOLPacket

/-- Modelled from the spec: `EAPOLIEEE80211KeyDescriptorGetKeyDataLength`
(EAPOL.h), the big-endian `key_data_length` field of the descriptor. -/
def EAPOLIEEE80211KeyDescriptorGetKeyDataLength (descr_p : List Byte) : Nat :=
  ntohs_at descr_p offsetof_key_data_length

/-- The `descriptor_type` field: first octet of a key descriptor. -/
def descriptor_type (body : List Byte) : Nat := (byteAt body 0).val

/-- Embedding of `EAPOLPacketTypeValid`. -/
def EAPOLPacketTypeValid (type : Nat) : Bool :=
  if type ≥ kEAPOLPacketTypeEAPPacket ∧ type ≤ kEAPOLPacketTypeEncapsulatedASFAlert
  then true else false

/-- Embedding of `eapol_key_descriptor_valid`.  The subtraction
`body_length - sizeof(*ieee80211_descr_p)` is only evaluated after the test
`body_length < sizeof(*ieee80211_descr_p)` has failed, so it cannot wrap. -/
def eapol_key_descriptor_valid (body : List Byte) (body_length : Nat) : Bool :=
  if body_length < 1 then false
  else if descriptor_type body = kEAPOLKeyDescriptorTypeRC4 then
    if body_length < sizeof_EAPOLRC4KeyDescriptor then false
    else true
  else if descriptor_type body = kEAPOLKeyDescriptorTypeIEEE80211 then
    if body_length < sizeof_EAPOLIEEE80211KeyDescriptor then false
    else if EAPOLIEEE80211KeyDescriptorGetKeyDataLength body
        > body_length - sizeof_EAPOLIEEE80211KeyDescriptor then false
    else true
  else false

/-- Embedding of `ether_header_valid`. -/
def ether_header_valid (_eh_p : List Byte) (length : Nat) : Bool :=
  if length < sizeof_ether_header then false else true

/-- Embedding of `eapol_body_valid`.  `EAPPacketValid` is the external EAP
validator (EAPUtil), applied to the body pointer and the declared body length.
`length -= sizeof(*eapol_p)` is an `unsigned int` subtraction. -/
def eapol_body_valid (EAPPacketValid : List Byte → Nat → Bool)
    (eapol_p : List Byte) (length : Nat) : Bool :=
  let body_length := EAPOLPacketGetLength eapol_p
  let length := (length + UINT_MOD - sizeof_EAPOLPacket) % UINT_MOD
  if length < body_length then false
  else if EAPOLPacket_packet_type eapol_p = kEAPOLPacketTypeEAPPacket then
    EAPPacketValid (EAPOLPacket_body eapol_p) body_length
  else if EAPOLPacket_packet_type eapol_p = kEAPOLPacketTypeKey then
    eapol_key_descriptor_valid (EAPOLPacket_body eapol_p) body_length
  else if EAPOLPacket_packet_type eapol_p = kEAPOLPacketTypeStart
      ∨ EAPOLPacket_packet_type eapol_p = kEAPOLPacketTypeLogoff
      ∨ EAPOLPacket_packet_type eapol_p = kEAPOLPacketTypeEncapsulatedASFAlert then
    true
  else
    -- default: the type is reported as unrecognized; `ret` keeps its initial TRUE
    true

/-- Embedding of `eapol_header_valid`. -/
def eapol_header_valid (_eapol_p : List Byte) (length : Nat) : Bool :=
  if length < sizeof_EAPOLPacket then false else true

/-- Embedding of `eapol_packet_valid`. -/
def eapol_packet_valid (EAPPacketValid : List Byte → Nat → Bool)
    (eapol_p : List Byte) (length : Nat) : Bool :=
  if eapol_header_valid eapol_p length = false then false
  else eapol_body_valid EAPPacketValid eapol_p length

/-- Truncation of an integer value to one octet (store into a `uint8_t`). -/
def toByte (x : Nat) : Byte := ⟨x % 256, Nat.mod_lt x (by decide)⟩

/-- Network-order 16-bit store (`htons` of the low 16 bits of `x`). -/
def htons_bytes (x : Nat) : List Byte := [toByte (x / 256), toByte x]

/-- Modelled from the spec: `EAPOLControlMode` (declared in EAPOLControl.h, not
part of the sources): the closed set None, User, LoginWindow, System. -/
inductive EAPOLControlMode where
  | kEAPOLControlModeNone
  | kEAPOLControlModeUser
  | kEAPOLControlModeLoginWindow
  | kEAPOLControlModeSystem
  deriving DecidableEq, Repr

/-- The receive view handed to a callback, `EAPOLSocketReceiveData`:
`eapol_p` is the borrowed packet pointer (`none` is NULL). -/
structure EAPOLSocketReceiveData where
  eapol_p : Option (List Byte)
  length : Nat
  deriving DecidableEq, Repr

/-- An endpoint, `struct EAPOLSocket_s`.  `func` and `supp` are `none` when the
C pointer is NULL.  The back pointer `source` and the queue link are
represented by the position of the record inside the source. -/
structure EAPOLSocket where
  bssid : ether_addr
  func : Option Nat
  arg1 : Nat
  arg2 : Nat
  supp : Option Nat
  remove : Bool
  deriving DecidableEq, Repr

/-- An `EAPOLSocketRef`: which endpoint object of a source a pointer designates,
the one `source->sock` points to or the node at position `i` of the
`preauth_sockets` queue.  Two references are the same pointer exactly when
they are equal. -/
inductive EAPOLSocketRef where
  | main
  | preauth (i : Nat)
  deriving DecidableEq, Repr

/-- The socket source, `struct EAPOLSocketSource_s`.  Opaque handles owned by
other modules (`handler`, `wref`, `observer`, `scan_timer`, `store`) and the
interface name carry no state of this file and are left out; operations on
them appear as `Event`s. -/
structure EAPOLSocketSource where
  client : Option Nat
  ether : ether_addr
  rx : EAPOLSocketReceiveData
  mtu : Int
  is_wireless : Bool
  is_wpa_enterprise : Bool
  link_active : Bool
  authenticated : Bool
  interest : Option Nat
  ssid : Option String
  bssid : ether_addr
  bssid_valid : Bool
  process_removals : Bool
  sock : Option EAPOLSocket
  preauth_sockets : List EAPOLSocket
  preauth_sockets_count : Int
  mode : EAPOLControlMode
  deriving DecidableEq, Repr

/-- The file-scope tunables (`S_enable_preauth` and friends). -/
structure Globals where
  S_enable_preauth : Bool
  S_scan_delay_authenticated_secs : Int
  S_scan_delay_roam_secs : Int
  S_scan_period_secs : Int
  S_number_of_scans : Int
  S_debug : Bool
  deriving DecidableEq, Repr

/-- What the wireless adapter answers when queried: `wireless_ap_mac`
(`none` when it returns FALSE), `wireless_copy_ssid_string`,
`wireless_is_wpa_enterprise`. -/
structure Wireless where
  ap_mac : Option ether_addr
  ssid : Option String
  is_wpa_enterprise : Bool
  deriving DecidableEq, Repr

/-- An entry of the control dictionary that is read with `get_number`: the key
is absent, it holds something `get_number` rejects, or it holds a number. -/
inductive NumberEntry (α : Type) where
  | absent
  | invalid
  | number (value : α)
  deriving DecidableEq, Repr

/-- Modelled from the spec: `EAPOLClientControlCommand` (EAPOLControlTypes.h is
not part of the sources).  This file only compares it with `Run`. -/
inductive EAPOLClientControlCommand where
  | kEAPOLClientControlCommandRun
  | kEAPOLClientControlCommandOther (code : Nat)
  deriving DecidableEq, Repr

/-- The control dictionary as far as this file reads it: the command, the mode
and the configuration dictionary (a handle, `none` when the key is absent). -/
structure ControlDict where
  command : NumberEntry EAPOLClientControlCommand
  mode : NumberEntry EAPOLControlMode
  configuration : Option Nat
  deriving DecidableEq, Repr

/-- Calls that leave EAPOLSocket.c, in program order. -/
inductive Event where
  /-- Call `(*sock->func)(sock->arg1, sock->arg2, rx)`. -/
  | receive_callback (func arg1 arg2 : Nat) (rx : EAPOLSocketReceiveData)
  /-- Call `sendto(fd, eh_p, size, ...)`, with the `size` octets passed. -/
  | sendto (frame : List Byte)
  | Timer_cancel
  | Timer_set_relative (secs : Int)
  | wireless_scan_cancel
  | InterestNotificationRelease (interest : Nat)
  | Supplicant_free (supp : Option Nat)
  | EAPOLClientForceRenew (client : Nat)
  | EAPOLClientReportStatus (client : Nat) (status_dict : Nat)
  | usleep (usecs : Nat)
  | InterestNotificationCreate
  | wireless_set_wpa_pmk (bssid : Option ether_addr) (key_length : Int)
  | Supplicant_link_status_changed (supp : Option Nat) (active : Bool)
  | Supplicant_create_with_supplicant (bssid : ether_addr) (main_supp : Option Nat)
  | Supplicant_start (supp : Nat)
  | Supplicant_create
  | Supplicant_set_no_ui (supp : Nat)
  | Supplicant_update_configuration (supp : Nat) (config : Nat)
  | Supplicant_stop (supp : Option Nat)
  | Supplicant_control (supp : Option Nat) (command : EAPOLClientControlCommand)
      (control_dict : ControlDict)
  | exit (status : Nat)
  | EAPOLClientGetConfig
  | EAPOLClientDetach (client : Option Nat)
  | FDHandler_free
  | wireless_free
  | Timer_free
  | CFRunLoopRemoveObserver
  | wireless_set_key (type : Nat) (index : Int) (key_length : Int)
  deriving DecidableEq, Repr

/-- Whether an event is the invocation of an endpoint receive callback. -/
def Event.isCallback : Event → Bool
  | Event.receive_callback _ _ _ _ => true
  | _ => false

/-- The receive-callback invocations of a trace. -/
def callbacks (evs : List Event) : List Event := evs.filter Event.isCallback

/-- The object a reference designates; `none` for the NULL pointer
(`main` while `source->sock` is NULL) and for a position outside the queue. -/
def EAPOLSocketRef.deref (source : EAPOLSocketSource) :
    EAPOLSocketRef → Option EAPOLSocket
  | EAPOLSocketRef.main => source.sock
  | EAPOLSocketRef.preauth i => source.preauth_sockets[i]?

/-- The `TAILQ_FOREACH` loop of the lookup: position of the first node whose
BSSID compares equal (`bcmp`) to `bssid`, `none` when the loop runs out. -/
def lookupIdx (bssid : ether_addr) : List EAPOLSocket → Option Nat
  | [] => none
  | scan :: rest =>
    if scan.bssid = bssid then some 0 else (lookupIdx bssid rest).map (fun i => i + 1)

/-- Embedding of `EAPOLSocketSourceLookupPreauthSocket`. -/
def EAPOLSocketSourceLookupPreauthSocket (source : EAPOLSocketSource)
    (bssid : ether_addr) : Option EAPOLSocketRef :=
  (lookupIdx bssid source.preauth_sockets).map EAPOLSocketRef.preauth

/-- Embedding of `EAPOLSocketFree` for a non-NULL socket: the main endpoint
clears `source->sock`; a pre-auth endpoint is unlinked from the queue
(`TAILQ_REMOVE`) and the count is decremented. -/
def EAPOLSocketFree (source : EAPOLSocketSource) (sock : EAPOLSocketRef) :
    EAPOLSocketSource :=
  match sock with
  | EAPOLSocketRef.main => { source with sock := none }
  | EAPOLSocketRef.preauth i =>
    { source with
      preauth_sockets := source.preauth_sockets.eraseIdx i
      preauth_sockets_count := source.preauth_sockets_count - 1 }

/-- Embedding of `EAPOLSocketSourceReleaseHandshakeNotification`. -/
def EAPOLSocketSourceReleaseHandshakeNotification (source : EAPOLSocketSource) :
    Bool × EAPOLSocketSource × List Event :=
  match source.interest with
  | none => (false, source, [])
  | some i => (true, { source with interest := none },
      [Event.InterestNotificationRelease i])

/-- Embedding of `EAPOLSocketSourceUnscheduleHandshakeNotification`
(the non-embedded build). -/
def EAPOLSocketSourceUnscheduleHandshakeNotification (source : EAPOLSocketSource) :
    EAPOLSocketSource × List Event :=
  (EAPOLSocketSourceReleaseHandshakeNotification source).2

/-- Embedding of `EAPOLSocketSourceCancelScan`. -/
def EAPOLSocketSourceCancelScan : List Event :=
  [Event.Timer_cancel, Event.wireless_scan_cancel]

/-- Embedding of `EAPOLSocketSourceScheduleScan`. -/
def EAPOLSocketSourceScheduleScan (delay : Int) : List Event :=
  if delay < 0 then [] else [Event.Timer_set_relative delay]

/-- Embedding of `EAPOLSocketSourceRemoveSocketWithBSSID`. -/
def EAPOLSocketSourceRemoveSocketWithBSSID (source : EAPOLSocketSource)
    (bssid : ether_addr) : EAPOLSocketSource × List Event :=
  match EAPOLSocketSourceLookupPreauthSocket source bssid with
  | none => (source, [])
  | some sock =>
    (EAPOLSocketFree source sock,
      [Event.Supplicant_free ((sock.deref source).bind (fun s => s.supp))])

/-- Embedding of `EAPOLSocketSourceUpdateWirelessInfo` (wireless build). -/
def EAPOLSocketSourceUpdateWirelessInfo (g : Globals) (w : Wireless)
    (source : EAPOLSocketSource) : Bool × EAPOLSocketSource × List Event :=
  if source.is_wireless = false then (false, source, [])
  else
    match w.ap_mac with
    | none =>
      let changed := source.bssid_valid
      let s1 := { source with bssid_valid := false, is_wpa_enterprise := false }
      let r := EAPOLSocketSourceUnscheduleHandshakeNotification s1
      let s2 := { r.1 with ssid := none, authenticated := false }
      (changed, s2, r.2 ++ [Event.Timer_cancel, Event.wireless_scan_cancel])
    | some ap_mac =>
      let r1 : Bool × EAPOLSocketSource × List Event :=
        if source.bssid_valid = false ∨ ap_mac ≠ source.bssid then
          if g.S_enable_preauth = true then
            let r := EAPOLSocketSourceRemoveSocketWithBSSID source ap_mac
            let e := if r.1.bssid_valid = true
              then EAPOLSocketSourceScheduleScan g.S_scan_delay_roam_secs else []
            (true, r.1, r.2 ++ e)
          else (true, source, [])
        else (false, source, [])
      let s1 := r1.2.1
      let s2 := { s1 with bssid_valid := true, bssid := ap_mac,
                          is_wpa_enterprise := w.is_wpa_enterprise }
      let e2 := if s2.ssid ≠ none ∧ w.ssid ≠ none ∧ s2.ssid ≠ w.ssid
        then EAPOLSocketSourceCancelScan else []
      (r1.1, { s2 with ssid := w.ssid }, r1.2.2 ++ e2)

/-- The `ether_shost` field of the Ethernet header at `eh_p`. -/
def ether_shost (eh_p : List Byte) : ether_addr := ether_addr.load eh_p 6

/-- The `ether_type` field of the Ethernet header at `eh_p`, host order. -/
def ether_type_of (eh_p : List Byte) : Nat := ntohs_at eh_p 12

/-- The dispatch statement
`if (sock != NULL && sock->func != NULL) (*sock->func)(sock->arg1, sock->arg2, rx)`
for the object `sk` that `sock` designates (`none` when `sock` is NULL). -/
def dispatch (sk : Option EAPOLSocket) (rx : EAPOLSocketReceiveData) : List Event :=
  match sk with
  | none => []
  | some s =>
    match s.func with
    | none => []
    | some f => [Event.receive_callback f s.arg1 s.arg2 rx]

/-- Embedding of `EAPOLSocketSourceReceive`.  `n` and `buf` are what `recv`
returned and stored.  The callback itself is external: its invocation is
recorded, and `rx->eapol_p` is reset after it. -/
def EAPOLSocketSourceReceive (g : Globals) (w : Wireless)
    (EAPPacketValid : List Byte → Nat → Bool)
    (source : EAPOLSocketSource) (n : Int) (buf : List Byte) :
    EAPOLSocketSource × List Event :=
  if n ≤ 0 then (source, [])
  else
    let eh_p := buf
    if ether_header_valid eh_p n.toNat = false then (source, [])
    else
      let ether_type := ether_type_of eh_p
      if ¬ (ether_type = EAPOL_802_1_X_ETHERTYPE
            ∨ ether_type = IEEE80211_PREAUTH_ETHERTYPE) then (source, [])
      else
        let eapol_p := eh_p.drop sizeof_ether_header
        let length := n.toNat - sizeof_ether_header
        if eapol_header_valid eapol_p length = false then (source, [])
        else if eapol_body_valid EAPPacketValid eapol_p length = false then (source, [])
        else
          let r1 : EAPOLSocketSource × List Event :=
            if source.is_wireless = true ∧ ether_type = EAPOL_802_1_X_ETHERTYPE then
              if source.bssid_valid = false ∨ ether_shost eh_p ≠ source.bssid then
                (EAPOLSocketSourceUpdateWirelessInfo g w source).2
              else (source, [])
            else (source, [])
          let rx : EAPOLSocketReceiveData := { eapol_p := some eapol_p, length := length }
          let s2 := { r1.1 with rx := rx }
          let sock : Option EAPOLSocketRef :=
            if ether_type = EAPOL_802_1_X_ETHERTYPE then some EAPOLSocketRef.main
            else EAPOLSocketSourceLookupPreauthSocket s2 (ether_shost eh_p)
          ({ s2 with rx := { rx with eapol_p := none } },
            r1.2 ++ dispatch (sock.bind (fun r => r.deref s2)) rx)

/-- Modelled from the spec: `EAPOLPacketSetLength` (EAPOL.h), which stores the
body length in octets 2 and 3 of the header, big-endian.  The value is the
whole 4-octet EAPOL header written by the transmit path. -/
def eapol_header_bytes (packet_type : Nat) (body_length : Nat) : List Byte :=
  [EAPOL_802_1_X_PROTOCOL_VERSION, toByte packet_type] ++ htons_bytes body_length

/-- Embedding of `EAPOLSocketSourceTransmit`.  `body = none` is a NULL body.
`sent` is the value `sendto` returns (compared as on LP64, where `ssize_t` is
wider than `unsigned int`).  The result is `none` when `sock` designates no
endpoint of the source, and when the frame would not fit the 1600-octet stack
buffer (the C code then writes past it). -/
def EAPOLSocketSourceTransmit (g : Globals) (w : Wireless) (sent : Int)
    (source : EAPOLSocketSource) (sock : EAPOLSocketRef) (packet_type : Nat)
    (body : Option (List Byte)) (body_length : Nat) :
    Option (Int × EAPOLSocketSource × List Event) :=
  match sock.deref source with
  | none => none
  | some obj =>
    let body_length := if body.isSome then body_length else 0
    let size := sizeof_ether_header + sizeof_EAPOLPacket + body_length
    if size > 1600 then none
    else
      let payload : List Byte :=
        match body with
        | none => []
        | some b => readBytes b body_length
      let finish (src : EAPOLSocketSource) (evs : List Event) (dhost : ether_addr)
          (ether_type : Nat) : Option (Int × EAPOLSocketSource × List Event) :=
        let frame := dhost.octets ++ src.ether.octets ++ htons_bytes ether_type
          ++ eapol_header_bytes packet_type body_length ++ payload
        some (if sent < (size : Int) then -1 else 0, src, evs ++ [Event.sendto frame])
      if sock = EAPOLSocketRef.main then
        if source.is_wireless = true then
          if source.bssid_valid = false then
            let r := EAPOLSocketSourceUpdateWirelessInfo g w source
            if r.2.1.bssid_valid = false then some (-1, r.2.1, r.2.2)
            else finish r.2.1 r.2.2 r.2.1.bssid EAPOL_802_1_X_ETHERTYPE
          else finish source [] source.bssid EAPOL_802_1_X_ETHERTYPE
        else finish source [] eapol_multicast EAPOL_802_1_X_ETHERTYPE
      else finish source [] obj.bssid IEEE80211_PREAUTH_ETHERTYPE

/-! ## Status reports, PMK installation and deferred removal -/

/-- Modelled from the spec: `SupplicantState` (Supplicant.h is not part of the
sources), the closed set of states `Supplicant_get_state` can report. -/
inductive SupplicantState where
  | kSupplicantStateDisconnected
  | kSupplicantStateConnecting
  | kSupplicantStateAcquired
  | kSupplicantStateAuthenticating
  | kSupplicantStateAuthenticated
  | kSupplicantStateHeld
  | kSupplicantStateLogoff
  | kSupplicantStateInactive
  deriving DecidableEq, Repr

/-- Modelled from the spec: `EAPClientStatus` (EAPClientTypes.h is not part of the
sources).  This file only compares it with `UserInputRequired`; every other
value is `kEAPClientStatusOther`. -/
inductive EAPClientStatus where
  | kEAPClientStatusUserInputRequired
  | kEAPClientStatusOther (code : Nat)
  deriving DecidableEq, Repr

/-- Embedding of `EAPOLSocketMarkForRemoval`: `sock->remove = TRUE` on the
object designated, then `sock->source->process_removals = TRUE`. -/
def EAPOLSocketMarkForRemoval (source : EAPOLSocketSource) (sock : EAPOLSocketRef) :
    EAPOLSocketSource :=
  match sock with
  | EAPOLSocketRef.main =>
    { source with
      sock := source.sock.map (fun s => { s with remove := true })
      process_removals := true }
  | EAPOLSocketRef.preauth i =>
    { source with
      preauth_sockets := source.preauth_sockets.modify (fun s => { s with remove := true }) i
      process_removals := true }

/-- The `TAILQ_FOREACH` loop of `EAPOLSocketSourceMarkPreauthSocketsForRemoval`
with `k` nodes left to visit, the next one at position `i`. -/
def mark_loop : EAPOLSocketSource → Nat → Nat → EAPOLSocketSource
  | source, 0, _ => source
  | source, k + 1, i =>
    mark_loop (EAPOLSocketMarkForRemoval source (EAPOLSocketRef.preauth i)) k (i + 1)

/-- Embedding of `EAPOLSocketSourceMarkPreauthSocketsForRemoval`. -/
def EAPOLSocketSourceMarkPreauthSocketsForRemoval (source : EAPOLSocketSource) :
    EAPOLSocketSource :=
  mark_loop source source.preauth_sockets.length 0

/-- Embedding of `EAPOLSocketSourceForceRenew`. -/
def EAPOLSocketSourceForceRenew (source : EAPOLSocketSource) : List Event :=
  match source.client with
  | none => []
  | some client => [Event.EAPOLClientForceRenew client]

/-- Embedding of `EAPOLSocketSourceScheduleHandshakeNotification` (the
non-embedded build).  `created` is what `InterestNotificationCreate` returns
(`none` is NULL). -/
def EAPOLSocketSourceScheduleHandshakeNotification (source : EAPOLSocketSource)
    (created : Option Nat) : EAPOLSocketSource × List Event :=
  let r := EAPOLSocketSourceUnscheduleHandshakeNotification source
  let s1 := { r.1 with interest := created }
  let s2 := if s1.interest ≠ none then { s1 with authenticated := true } else s1
  (s2, r.2 ++ [Event.InterestNotificationCreate])

/-- Embedding of `EAPOLSocketSetPMK` (wireless build).  `created` is what
`InterestNotificationCreate` would return and `result` what
`wireless_set_wpa_pmk` returns.  `none` when `sock` designates no endpoint. -/
def EAPOLSocketSetPMK (source : EAPOLSocketSource) (sock : EAPOLSocketRef)
    (key_length : Int) (created : Option Nat) (result : Bool) :
    Option (Bool × EAPOLSocketSource × List Event) :=
  match sock.deref source with
  | none => none
  | some obj =>
    if source.is_wireless = false ∨ source.is_wpa_enterprise = false then
      some (false, source, [])
    else if sock = EAPOLSocketRef.main then
      let r := if key_length ≠ 0 ∧ source.authenticated = false
        then EAPOLSocketSourceScheduleHandshakeNotification source created
        else EAPOLSocketSourceUnscheduleHandshakeNotification source
      some (result, r.1, r.2 ++ [Event.wireless_set_wpa_pmk none key_length])
    else
      some (result, source, [Event.wireless_set_wpa_pmk (some obj.bssid) key_length])

/-- Embedding of `EAPOLSocketReportStatus`.  `supplicant_state` and
`client_status` are what `Supplicant_get_state(sock->supp, ...)` returns;
`status_dict` is the dictionary handle.  `none` when `sock` designates no
endpoint. -/
def EAPOLSocketReportStatus (g : Globals) (source : EAPOLSocketSource)
    (sock : EAPOLSocketRef) (status_dict : Nat) (supplicant_state : SupplicantState)
    (client_status : EAPClientStatus) : Option (EAPOLSocketSource × List Event) :=
  match sock.deref source with
  | none => none
  | some _ =>
    match source.client with
    | none => some (source, [])
    | some client =>
      if sock = EAPOLSocketRef.main then
        let r1 : EAPOLSocketSource × List Event :=
          match supplicant_state with
          | SupplicantState.kSupplicantStateInactive =>
            let r := EAPOLSocketSourceUnscheduleHandshakeNotification source
            ({ r.1 with authenticated := false }, r.2)
          | SupplicantState.kSupplicantStateAuthenticated =>
            if source.authenticated = false then
              let r := EAPOLSocketSourceUnscheduleHandshakeNotification source
              ({ r.1 with authenticated := true }, r.2 ++ EAPOLSocketSourceForceRenew r.1)
            else (source, [])
          | SupplicantState.kSupplicantStateHeld =>
            let r := EAPOLSocketSourceUnscheduleHandshakeNotification source
            let s1 := { r.1 with authenticated := false }
            (s1, r.2 ++ EAPOLSocketSourceForceRenew s1)
          | SupplicantState.kSupplicantStateLogoff =>
            (source, (if source.is_wireless = false then [Event.usleep (500 * 1000)] else [])
              ++ EAPOLSocketSourceForceRenew source)
          | _ => (source, [])
        let e2 := [Event.EAPOLClientReportStatus client status_dict]
        let r3 : EAPOLSocketSource × List Event :=
          if g.S_enable_preauth = true ∧ r1.1.is_wireless = true then
            match supplicant_state with
            | SupplicantState.kSupplicantStateAuthenticated =>
              (r1.1, EAPOLSocketSourceScheduleScan g.S_scan_delay_authenticated_secs)
            | _ =>
              (EAPOLSocketSourceMarkPreauthSocketsForRemoval r1.1,
                EAPOLSocketSourceCancelScan)
          else (r1.1, [])
        some (r3.1, r1.2 ++ e2 ++ r3.2)
      else
        match supplicant_state with
        | SupplicantState.kSupplicantStateHeld =>
          some (EAPOLSocketMarkForRemoval source sock, [])
        | SupplicantState.kSupplicantStateAuthenticated =>
          some (EAPOLSocketMarkForRemoval source sock, [])
        | SupplicantState.kSupplicantStateAuthenticating =>
          if client_status = EAPClientStatus.kEAPClientStatusUserInputRequired then
            some (EAPOLSocketMarkForRemoval source sock, [])
          else some (source, [])
        | _ => some (source, [])

/-- The first loop of `EAPOLSocketSourceRemovePreauthSockets`: the positions,
counted from `i`, of the nodes whose `remove` flag is set (`remove_list`). -/
def flagged_positions : List EAPOLSocket → Nat → List Nat
  | [], _ => []
  | scan :: rest, i =>
    if scan.remove = true then i :: flagged_positions rest (i + 1)
    else flagged_positions rest (i + 1)

/-- The second loop of `EAPOLSocketSourceRemovePreauthSockets`, with `k` entries
of `remove_list` already processed.  An entry points to the node that was at
position `p` when the list was collected; the `k` nodes freed so far all
preceded it, so that node is now at position `p - k`. -/
def remove_loop : EAPOLSocketSource → List Nat → Nat → EAPOLSocketSource × List Event
  | source, [], _ => (source, [])
  | source, p :: rest, k =>
    let sock := EAPOLSocketRef.preauth (p - k)
    let ev := Event.Supplicant_free ((sock.deref source).bind (fun s => s.supp))
    let r := remove_loop (EAPOLSocketFree source sock) rest (k + 1)
    (r.1, ev :: r.2)

/-- Embedding of `EAPOLSocketSourceRemovePreauthSockets`. -/
def EAPOLSocketSourceRemovePreauthSockets (source : EAPOLSocketSource) :
    EAPOLSocketSource × List Event :=
  remove_loop source (flagged_positions source.preauth_sockets 0) 0

/-- Embedding of `EAPOLSocketSourceObserver`. -/
def EAPOLSocketSourceObserver (source : EAPOLSocketSource) :
    EAPOLSocketSource × List Event :=
  if source.process_removals = true then
    let r := EAPOLSocketSourceRemovePreauthSockets source
    ({ r.1 with process_removals := false }, r.2)
  else (source, [])

/-! ## Remaining entry points and the run-loop transition system -/

/-- Embedding of `EAPOLSocketSourceHandshakeComplete` (the non-embedded build).
`supplicant_state` is what `Supplicant_get_state(source->sock->supp, ...)`
returns; `none` when `source->sock` is NULL (the C code dereferences it). -/
def EAPOLSocketSourceHandshakeComplete (source : EAPOLSocketSource)
    (supplicant_state : SupplicantState) : Option (EAPOLSocketSource × List Event) :=
  match source.sock with
  | none => none
  | some _ =>
    let e1 := if supplicant_state = SupplicantState.kSupplicantStateAuthenticated
      then EAPOLSocketSourceForceRenew source else []
    let r := EAPOLSocketSourceReleaseHandshakeNotification source
    some (r.2.1, e1 ++ r.2.2)

/-- A store through an endpoint pointer: the object designated is replaced by
`f` of it; `none` when `sock` designates no endpoint. -/
def EAPOLSocketRef.store (source : EAPOLSocketSource) (sock : EAPOLSocketRef)
    (f : EAPOLSocket → EAPOLSocket) : Option EAPOLSocketSource :=
  match sock.deref source with
  | none => none
  | some _ =>
    match sock with
    | EAPOLSocketRef.main => some { source with sock := source.sock.map f }
    | EAPOLSocketRef.preauth i =>
      some { source with preauth_sockets := source.preauth_sockets.modify f i }

/-- Embedding of `EAPOLSocketEnableReceive` (`func = none` is a NULL callback). -/
def EAPOLSocketEnableReceive (source : EAPOLSocketSource) (sock : EAPOLSocketRef)
    (func : Option Nat) (arg1 arg2 : Nat) : Option EAPOLSocketSource :=
  sock.store source (fun s => { s with func := func, arg1 := arg1, arg2 := arg2 })

/-- Embedding of `EAPOLSocketDisableReceive`. -/
def EAPOLSocketDisableReceive (source : EAPOLSocketSource) (sock : EAPOLSocketRef) :
    Option EAPOLSocketSource :=
  sock.store source (fun s => { s with func := none })

/-- Embedding of `EAPOLSocketSourceLinkStatusChanged`.  `active` is the boolean
found under the link key of the dynamic store, `none` when the value is
missing or not a boolean. -/
def EAPOLSocketSourceLinkStatusChanged (g : Globals) (w : Wireless)
    (source : EAPOLSocketSource) (active : Option Bool) :
    EAPOLSocketSource × List Event :=
  let s1 := match active with
    | some b => { source with link_active := b }
    | none => source
  let r : EAPOLSocketSource × List Event :=
    if s1.is_wireless = true then (EAPOLSocketSourceUpdateWirelessInfo g w s1).2
    else (s1, [])
  let e := match r.1.sock with
    | none => []
    | some m => [Event.Supplicant_link_status_changed m.supp r.1.link_active]
  (r.1, r.2 ++ e)

/-- A freshly allocated endpoint after `bzero`. -/
def zeroed_socket : EAPOLSocket :=
  { bssid := ⟨0, 0, 0, 0, 0, 0⟩, func := none, arg1 := 0, arg2 := 0,
    supp := none, remove := false }

/-- Embedding of `EAPOLSocketSourceCreateSocket`.  `bssid = none` is a NULL
BSSID (the main endpoint); `malloc_ok` tells whether `malloc` succeeds.  The
pointer returned is `none` for NULL. -/
def EAPOLSocketSourceCreateSocket (source : EAPOLSocketSource)
    (bssid : Option ether_addr) (malloc_ok : Bool) :
    Option EAPOLSocketRef × EAPOLSocketSource :=
  if malloc_ok = false then (none, source)
  else
    match bssid with
    | some b =>
      (some (EAPOLSocketRef.preauth source.preauth_sockets.length),
        { source with
          preauth_sockets := source.preauth_sockets ++ [{ zeroed_socket with bssid := b }]
          preauth_sockets_count := source.preauth_sockets_count + 1 })
    | none => (some EAPOLSocketRef.main, { source with sock := some zeroed_socket })

/-- One element of the BSSID list a scan delivers, together with what the
outside world answers if an endpoint is created for it: whether `malloc`
succeeds and what `Supplicant_create_with_supplicant` returns. -/
structure ScanEntry where
  bssid : ether_addr
  malloc_ok : Bool
  supp : Option Nat
  deriving DecidableEq, Repr

/-- The `for` loop of `EAPOLSocketSourceScanCallback` over the remaining list
elements.  `none` when `source->sock->supp` is evaluated while `source->sock`
is NULL. -/
def scan_loop : EAPOLSocketSource → List ScanEntry → Option (EAPOLSocketSource × List Event)
  | source, [] => some (source, [])
  | source, e :: rest =>
    if e.bssid = source.bssid then scan_loop source rest
    else if (EAPOLSocketSourceLookupPreauthSocket source e.bssid).isSome then
      scan_loop source rest
    else
      let c := EAPOLSocketSourceCreateSocket source (some e.bssid) e.malloc_ok
      match c.1 with
      | none => scan_loop c.2 rest
      | some sock =>
        match c.2.sock with
        | none => none
        | some m =>
          let ev := Event.Supplicant_create_with_supplicant e.bssid m.supp
          match e.supp with
          | none =>
            (scan_loop (EAPOLSocketFree c.2 sock) rest).map (fun r => (r.1, ev :: r.2))
          | some sp =>
            match sock.store c.2 (fun s => { s with supp := some sp }) with
            | none => none
            | some s3 =>
              (scan_loop s3 rest).map
                (fun r => (r.1, ev :: Event.Supplicant_start sp :: r.2))

/-- Embedding of `EAPOLSocketSourceScanCallback`; `bssid_list = none` is a NULL
list. -/
def EAPOLSocketSourceScanCallback (g : Globals) (source : EAPOLSocketSource)
    (bssid_list : Option (List ScanEntry)) : Option (EAPOLSocketSource × List Event) :=
  let r : Option (EAPOLSocketSource × List Event) :=
    match bssid_list with
    | none => some (source, [])
    | some l =>
      if source.bssid_valid = false then some (source, [])
      else scan_loop source l
  r.map (fun r => (r.1, r.2 ++
    (if g.S_scan_period_secs > 0 then EAPOLSocketSourceScheduleScan g.S_scan_period_secs
     else [])))

/-- Embedding of `EAPOLSocketSourceCreateSupplicant`.  `malloc_ok` tells whether
the allocation in `EAPOLSocketSourceCreateSocket` succeeds and `supp` is what
`Supplicant_create` returns.  The value returned is the Supplicant handle,
`none` for NULL. -/
def EAPOLSocketSourceCreateSupplicant (source : EAPOLSocketSource)
    (control_dict : Option ControlDict) (system_mode : Bool) (malloc_ok : Bool)
    (supp : Option Nat) : Option Nat × EAPOLSocketSource × List Event :=
  let mode0 := if system_mode = true then EAPOLControlMode.kEAPOLControlModeSystem
    else EAPOLControlMode.kEAPOLControlModeNone
  let parsed : Option (EAPOLControlMode × Option Nat) :=
    match control_dict with
    | none => some (mode0, none)
    | some d =>
      match d.command with
      | NumberEntry.number EAPOLClientControlCommand.kEAPOLClientControlCommandRun =>
        match d.mode with
        | NumberEntry.invalid => none
        | m =>
          match d.configuration with
          | none => none
          | some c =>
            some ((match m with
                   | NumberEntry.number v => v
                   | _ => mode0), some c)
      | _ => none
  match parsed with
  | none => (none, source, [Event.Supplicant_free none])
  | some (mode, config_dict) =>
    let s1 := { source with mode := mode }
    let c := EAPOLSocketSourceCreateSocket s1 none malloc_ok
    match c.1 with
    | none => (none, c.2, [Event.Supplicant_free none])
    | some sock =>
      match supp with
      | none =>
        (none, EAPOLSocketFree c.2 sock, [Event.Supplicant_create, Event.Supplicant_free none])
      | some sp =>
        let e1 := if mode = EAPOLControlMode.kEAPOLControlModeSystem
            ∨ mode = EAPOLControlMode.kEAPOLControlModeLoginWindow
          then [Event.Supplicant_set_no_ui sp] else []
        let e2 := match config_dict with
          | none => []
          | some cfg => [Event.Supplicant_update_configuration sp cfg]
        (some sp, { c.2 with sock := c.2.sock.map (fun s => { s with supp := some sp }) },
          [Event.Supplicant_create] ++ e1 ++ e2)

/-- Embedding of the success path of `EAPOLSocketSourceCreate` (on failure no
source exists): the zeroed structure with the fields assigned, the first call
of the link-status handler, then the controller attach whose result `client`
may be NULL.  `is_wireless` is what `wireless_bind` answered. -/
def EAPOLSocketSourceCreate (g : Globals) (w : Wireless) (ether : ether_addr)
    (is_wireless : Bool) (active : Option Bool) (client : Option Nat) :
    EAPOLSocketSource × List Event :=
  let s0 : EAPOLSocketSource :=
    { client := none, ether := ether, rx := { eapol_p := none, length := 0 },
      mtu := 1400, is_wireless := is_wireless, is_wpa_enterprise := false,
      link_active := false, authenticated := false, interest := none, ssid := none,
      bssid := ⟨0, 0, 0, 0, 0, 0⟩, bssid_valid := false, process_removals := false,
      sock := none, preauth_sockets := [], preauth_sockets_count := 0,
      mode := EAPOLControlMode.kEAPOLControlModeNone }
  let r := EAPOLSocketSourceLinkStatusChanged g w s0 active
  ({ r.1 with client := client }, r.2)

/-- The entry points through which the run loop, the Supplicants and the
start-up code change a source, each with what the outside world supplies to
that call.  Entry points that leave the structure untouched (the getters,
`EAPOLSocketSetKey`, the scan timer expiry) and the controller notification,
which either changes nothing or ends the process, are not listed.  Calls a
Supplicant makes from inside a receive callback appear as the operations that
follow the `Receive`. -/
inductive Op where
  | Receive (w : Wireless) (n : Int) (buf : List Byte)
  | Transmit (w : Wireless) (sent : Int) (sock : EAPOLSocketRef) (packet_type : Nat)
      (body : Option (List Byte)) (body_length : Nat)
  | LinkStatusChanged (w : Wireless) (active : Option Bool)
  | Observer
  | ScanCallback (bssid_list : Option (List ScanEntry))
  | HandshakeComplete (supplicant_state : SupplicantState)
  | EnableReceive (sock : EAPOLSocketRef) (func : Option Nat) (arg1 arg2 : Nat)
  | DisableReceive (sock : EAPOLSocketRef)
  | SetPMK (sock : EAPOLSocketRef) (key_length : Int) (created : Option Nat) (result : Bool)
  | ReportStatus (sock : EAPOLSocketRef) (status_dict : Nat)
      (supplicant_state : SupplicantState) (client_status : EAPClientStatus)
  | CreateSupplicant (control_dict : Option ControlDict) (system_mode : Bool)
      (malloc_ok : Bool) (supp : Option Nat)
  deriving DecidableEq, Repr

/-- The source after one operation; `none` when the operation is undefined in
that state (it follows a pointer that designates nothing, or overruns the
transmit buffer). -/
def step (g : Globals) (V : List Byte → Nat → Bool) (source : EAPOLSocketSource) :
    Op → Option EAPOLSocketSource
  | Op.Receive w n buf => some (EAPOLSocketSourceReceive g w V source n buf).1
  | Op.Transmit w sent sock packet_type body body_length =>
    (EAPOLSocketSourceTransmit g w sent source sock packet_type body body_length).map
      (fun r => r.2.1)
  | Op.LinkStatusChanged w active =>
    some (EAPOLSocketSourceLinkStatusChanged g w source active).1
  | Op.Observer => some (EAPOLSocketSourceObserver source).1
  | Op.ScanCallback bssid_list =>
    (EAPOLSocketSourceScanCallback g source bssid_list).map (fun r => r.1)
  | Op.HandshakeComplete supplicant_state =>
    (EAPOLSocketSourceHandshakeComplete source supplicant_state).map (fun r => r.1)
  | Op.EnableReceive sock func arg1 arg2 => EAPOLSocketEnableReceive source sock func arg1 arg2
  | Op.DisableReceive sock => EAPOLSocketDisableReceive source sock
  | Op.SetPMK sock key_length created result =>
    (EAPOLSocketSetPMK source sock key_length created result).map (fun r => r.2.1)
  | Op.ReportStatus sock status_dict supplicant_state client_status =>
    (EAPOLSocketReportStatus g source sock status_dict supplicant_state client_status).map
      (fun r => r.1)
  | Op.CreateSupplicant control_dict system_mode malloc_ok supp =>
    some (EAPOLSocketSourceCreateSupplicant source control_dict system_mode malloc_ok supp).2.1

/-- The source after a sequence of operations, `none` as soon as one of them is
undefined. -/
def run (g : Globals) (V : List Byte → Nat → Bool) :
    EAPOLSocketSource → List Op → Option EAPOLSocketSource
  | source, [] => some source
  | source, op :: rest =>
    match step g V source op with
    | none => none
    | some s1 => run g V s1 rest

/-- A state of a source that the program can be in: the one
`EAPOLSocketSourceCreate` returned, followed by any sequence of operations. -/
def Reachable (g : Globals) (V : List Byte → Nat → Bool) (s : EAPOLSocketSource) : Prop :=
  ∃ (w : Wireless) (ether : ether_addr) (is_wireless : Bool) (active : Option Bool)
    (client : Option Nat) (ops : List Op),
    run g V (EAPOLSocketSourceCreate g w ether is_wireless active client).1 ops = some s

/-- Whether an event is one of the calls a wireless refresh
(`EAPOLSocketSourceUpdateWirelessInfo`) can make. -/
def Event.isRefreshCall : Event → Bool
  | Event.Timer_cancel => true
  | Event.wireless_scan_cancel => true
  | Event.InterestNotificationRelease _ => true
  | Event.Timer_set_relative _ => true
  | Event.Supplicant_free _ => true
  | _ => false

/-- Whether an event is a force-renew request to the controller. -/
def Event.isForceRenew : Event → Bool
  | Event.EAPOLClientForceRenew _ => true
  | _ => false

/-- Whether an event forwards a status dictionary to the controller. -/
def Event.isStatusReport : Event → Bool
  | Event.EAPOLClientReportStatus _ _ => true
  | _ => false

/-- Whether an event arms or cancels the scan timer or cancels the driver scan. -/
def Event.isScanCall : Event → Bool
  | Event.Timer_cancel => true
  | Event.Timer_set_relative _ => true
  | Event.wireless_scan_cancel => true
  | _ => false

/-- The store `sock->remove = TRUE` on one endpoint record. -/
def flag_remove (s : EAPOLSocket) : EAPOLSocket := { s with remove := true }

/-- The state part of the second switch of `EAPOLSocketReportStatus` for a state
other than Authenticated (its `default` branch, guarded by
`S_enable_preauth && is_wireless`): every pre-auth endpoint is marked. -/
def preauth_teardown_state (g : Globals) (s : EAPOLSocketSource) : EAPOLSocketSource :=
  if g.S_enable_preauth = true ∧ s.is_wireless = true
  then EAPOLSocketSourceMarkPreauthSocketsForRemoval s else s

/-- The calls made by that same branch: the scan is cancelled. -/
def preauth_teardown_calls (g : Globals) (s : EAPOLSocketSource) : List Event :=
  if g.S_enable_preauth = true ∧ s.is_wireless = true
  then EAPOLSocketSourceCancelScan else []

/-- The removal invariant: whenever some pre-auth endpoint is flagged `remove`,
`process_removals` is set. -/
def removal_invariant (s : EAPOLSocketSource) : Prop :=
  ∀ e ∈ s.preauth_sockets, e.remove = true → s.process_removals = true

/-- The relation between the source before (`s`) and after (`s'`) a piece of code
that keeps the controller client and `process_removals`, never turns
`authenticated` on and never sets a `remove` flag. -/
def Quiet (s s' : EAPOLSocketSource) : Prop :=
  s'.client = s.client
  ∧ (s'.authenticated = true → s.authenticated = true)
  ∧ s'.process_removals = s.process_removals
  ∧ ∀ e ∈ s'.preauth_sockets, e.remove = true → ∃ e0 ∈ s.preauth_sockets, e0.remove = true

/-- The operations that can turn `authenticated` on: an Authenticated report of
the main Supplicant, and a PMK installation on the main endpoint with a
non-empty key for which the handshake subscription is created. -/
def Op.setsAuthenticated : Op → Bool
  | Op.ReportStatus EAPOLSocketRef.main _ SupplicantState.kSupplicantStateAuthenticated _ =>
    true
  | Op.SetPMK EAPOLSocketRef.main key_length (some _) _ => decide (key_length ≠ 0)
  | _ => false

/-- The reports of the main Supplicant in state Inactive or Held. -/
def Op.isInactiveOrHeldReport : Op → Bool
  | Op.ReportStatus EAPOLSocketRef.main _ SupplicantState.kSupplicantStateInactive _ => true
  | Op.ReportStatus EAPOLSocketRef.main _ SupplicantState.kSupplicantStateHeld _ => true
  | _ => false

/-- The reports of the main Supplicant in state Authenticated. -/
def Op.isAuthenticatedReport : Op → Bool
  | Op.ReportStatus EAPOLSocketRef.main _ SupplicantState.kSupplicantStateAuthenticated _ =>
    true
  | _ => false

/-! ## Tunables, the scan timer, controller notifications -/

/-- A value stored under a key of a property list, as far as the `S_get_plist_*`
helpers tell values apart: the key is absent, it holds something that is neither
a boolean nor a number, a boolean, or a number.  For a number, `converted` is
what `CFNumberGetValue(n, kCFNumberIntType, &ret)` stores when it returns TRUE,
and `none` when it returns FALSE. -/
inductive PlistValue where
  | absent
  | other
  | boolean (b : Bool)
  | number (converted : Option Int)
  deriving DecidableEq, Repr

/-- Embedding of `S_get_plist_boolean`; `v` is `CFDictionaryGetValue(plist, key)`. -/
def S_get_plist_boolean (v : PlistValue) (d : Bool) : Bool :=
  match v with
  | PlistValue.boolean b => b
  | _ => d

/-- Embedding of `S_get_plist_int`; `v` is `CFDictionaryGetValue(plist, key)`. -/
def S_get_plist_int (v : PlistValue) (d : Int) : Int :=
  match v with
  | PlistValue.number (some n) => n
  | _ => d

/-- The dictionary under `kPreauthentication` as far as this file reads it: the
values under its five keys. -/
structure PreauthenticationDict where
  EnablePreauthentication : PlistValue
  ScanDelayAuthenticatedSeconds : PlistValue
  ScanDelayRoamSeconds : PlistValue
  ScanPeriodSeconds : PlistValue
  NumberOfScans : PlistValue
  deriving DecidableEq, Repr

/-- What `SCPreferencesGetValue(prefs, kPreauthentication)` returns: nothing, a
value that is not a dictionary, or a dictionary. -/
inductive PreauthenticationValue where
  | absent
  | other
  | dictionary (plist : PreauthenticationDict)
  deriving DecidableEq, Repr

/-- The initialiser `SCAN_DELAY_AUTHENTICATED_SECS`. -/
def SCAN_DELAY_AUTHENTICATED_SECS : Int := 10
/-- The initialiser `SCAN_DELAY_ROAM_SECS`. -/
def SCAN_DELAY_ROAM_SECS : Int := 10
/-- The initialiser `SCAN_PERIOD_SECS`. -/
def SCAN_PERIOD_SECS : Int := -1
/-- The initialiser `NUMBER_OF_SCANS`. -/
def NUMBER_OF_SCANS : Int := 1

/-- Embedding of `EAPOLSocketSetGlobals`: the tunables after the call.  `prefs` is
`none` for a NULL preferences handle, else what is stored under
`kPreauthentication`. -/
def EAPOLSocketSetGlobals (g : Globals) (prefs : Option PreauthenticationValue) : Globals :=
  match prefs with
  | none => g
  | some (PreauthenticationValue.dictionary plist) =>
    { g with
      S_enable_preauth := S_get_plist_boolean plist.EnablePreauthentication false
      S_scan_delay_authenticated_secs :=
        S_get_plist_int plist.ScanDelayAuthenticatedSeconds SCAN_DELAY_AUTHENTICATED_SECS
      S_scan_delay_roam_secs :=
        S_get_plist_int plist.ScanDelayRoamSeconds SCAN_DELAY_ROAM_SECS
      S_scan_period_secs := S_get_plist_int plist.ScanPeriodSeconds SCAN_PERIOD_SECS
      S_number_of_scans := S_get_plist_int plist.NumberOfScans NUMBER_OF_SCANS }
  | some _ => g

/-- Modelled from the spec: the scan timer (Timer.c is not part of the sources),
a single one-shot timer.  `Timer_set_relative` arms it at the given delay in
place of whatever was pending and `Timer_cancel` disarms it; no other call
touches it.  `pending` is the delay it is armed with, `none` when it is idle. -/
def scan_timer_step (pending : Option Int) : Event → Option Int
  | Event.Timer_set_relative d => some d
  | Event.Timer_cancel => none
  | _ => pending

/-- The scan timer after a sequence of calls. -/
def scan_timer_after (pending : Option Int) (evs : List Event) : Option Int :=
  evs.foldl scan_timer_step pending

/-- The exit status `EX_OK` of `<sysexits.h>`. -/
def EX_OK : Nat := 0

/-- How a function that may end the process comes back: it returns to its
caller, or it calls `exit`. -/
inductive Outcome where
  | returned
  | exited (status : Nat)
  deriving DecidableEq, Repr

/-- Embedding of `EAPOLSocketSourceFree` for a non-NULL source: the calls it
makes, in order.  The structure is freed, so no state is returned.  The
observer handle is non-NULL exactly on a wireless source (it is created in
`EAPOLSocketSourceCreate` under `is_wireless`); `CFRelease` of the handles is
reference counting and is left out. -/
def EAPOLSocketSourceFree (source : EAPOLSocketSource) : List Event :=
  [Event.FDHandler_free]
    ++ (if source.is_wireless = true then [Event.wireless_free] else [])
    ++ (if source.is_wireless = true then [Event.CFRunLoopRemoveObserver] else [])
    ++ [Event.EAPOLClientDetach source.client, Event.Timer_free]
    ++ (EAPOLSocketSourceUnscheduleHandshakeNotification source).2

/-- Embedding of `EAPOLSocketSourceStop`; `none` when `source->sock` is NULL
(the C code dereferences it). -/
def EAPOLSocketSourceStop (source : EAPOLSocketSource) : Option (Outcome × List Event) :=
  match source.sock with
  | none => none
  | some m =>
    some (Outcome.exited EX_OK,
      [Event.Supplicant_stop m.supp] ++ EAPOLSocketSourceFree source ++ [Event.exit EX_OK])

/-- Embedding of `EAPOLSocketSourceClientNotification`.  `config` is what
`EAPOLClientGetConfig` answers, the result code and the control dictionary
(`none` is NULL); `control` is what `Supplicant_control` returns.  The source is
not changed by a call that returns.  `none` when `source->sock` is dereferenced
while NULL. -/
def EAPOLSocketSourceClientNotification (source : EAPOLSocketSource) (server_died : Bool)
    (config : Int × Option ControlDict) (control : Bool) : Option (Outcome × List Event) :=
  if server_died = true then
    if source.mode = EAPOLControlMode.kEAPOLControlModeUser then EAPOLSocketSourceStop source
    else some (Outcome.exited EX_OK, [Event.exit EX_OK])
  else
    let stop (evs : List Event) : Option (Outcome × List Event) :=
      (EAPOLSocketSourceStop source).map (fun r => (r.1, evs ++ r.2))
    if config.1 ≠ 0 then stop [Event.EAPOLClientGetConfig]
    else
      match config.2 with
      | none => stop [Event.EAPOLClientGetConfig]
      | some control_dict =>
        match control_dict.command with
        | NumberEntry.number command =>
          match source.sock with
          | none => none
          | some m =>
            let ev := [Event.EAPOLClientGetConfig,
              Event.Supplicant_control m.supp command control_dict]
            if control = true then stop ev
            else some (Outcome.returned, ev)
        | _ => stop [Event.EAPOLClientGetConfig]

/-- A run in which `EAPOLSocketSetGlobals` may be called between operations: each
operation is paired with the tunables in force when it runs. -/
def run_tunables (V : List Byte → Nat → Bool) :
    EAPOLSocketSource → List (Globals × Op) → Option EAPOLSocketSource
  | source, [] => some source
  | source, (g, op) :: rest =>
    match step g V source op with
    | none => none
    | some s1 => run_tunables V s1 rest

/-- The BSSIDs of the pre-auth sequence, in queue order. -/
def preauth_bssids (s : EAPOLSocketSource) : List ether_addr :=
  s.preauth_sockets.map (fun e => e.bssid)

/-- The BSSID invariant: no two pre-auth endpoints have the same BSSID. -/
def bssids_distinct (s : EAPOLSocketSource) : Prop := (preauth_bssids s).Nodup

/-- The main-BSSID invariant: while the source BSSID is known, no pre-auth
endpoint is bound to it. -/
def main_bssid_free (s : EAPOLSocketSource) : Prop :=
  s.bssid_valid = true → s.bssid ∉ preauth_bssids s

/-- What the scan callback is specified to create for a result list: going
through the list in order, an element is skipped when its BSSID is the source
BSSID `main` or is already `present` (bound to an endpoint that existed or was
created earlier in the same callback); otherwise an endpoint is created for it
and kept exactly when the creation succeeds (the allocation and
`Supplicant_create_with_supplicant`). -/
def scan_created (main : ether_addr) : List ether_addr → List ScanEntry → List ScanEntry
  | _, [] => []
  | present, e :: rest =>
    if e.bssid = main ∨ e.bssid ∈ present then scan_created main present rest
    else if e.malloc_ok = true ∧ e.supp.isSome = true then
      e :: scan_created main (present ++ [e.bssid]) rest
    else scan_created main present rest

/-- The endpoint record the scan callback leaves for a created element: zeroed,
bound to the element's BSSID, holding the Supplicant created for it. -/
def scan_endpoint (e : ScanEntry) : EAPOLSocket :=
  { zeroed_socket with bssid := e.bssid, supp := e.supp }

/-- Whether an event is a `Supplicant_stop` call. -/
def Event.isSupplicantStop : Event → Bool
  | Event.Supplicant_stop _ => true
  | _ => false

/-- Whether an event releases a handshake subscription. -/
def Event.isInterestRelease : Event → Bool
  | Event.InterestNotificationRelease _ => true
  | _ => false

/-- The relation between the source before (`s`) and after (`s'`) a piece of code
that creates no pre-auth endpoint, rebinds none, and leaves the source BSSID
as it is: the BSSIDs of the queue afterwards are those of before with some
possibly removed. -/
def KeepsBssids (s s' : EAPOLSocketSource) : Prop :=
  (preauth_bssids s').Sublist (preauth_bssids s)
    ∧ s'.bssid = s.bssid ∧ s'.bssid_valid = s.bssid_valid

/-- What a piece of code other than the scan callback, run under tunables `g`,
does to the BSSIDs: it adds none to the queue, and with pre-authentication
enabled it keeps `main_bssid_free` on a queue with distinct BSSIDs. -/
def BssidStep (g : Globals) (s s' : EAPOLSocketSource) : Prop :=
  (preauth_bssids s').Sublist (preauth_bssids s)
    ∧ (g.S_enable_preauth = true → bssids_distinct s → main_bssid_free s →
        main_bssid_free s')

/-- Whether an operation is the delivery of a scan result. -/
def Op.isScanCallback : Op → Bool
  | Op.ScanCallback _ => true
  | _ => false

/-- Embedding of `EAPOLSocketSetKey` (wireless build).  `type` is the
`wirelessKeyType` passed through and `result` what `wireless_set_key` returns.
`none` when `sock` designates no endpoint. -/
def EAPOLSocketSetKey (source : EAPOLSocketSource) (sock : EAPOLSocketRef) (type : Nat)
    (index key_length : Int) (result : Bool) :
    Option (Bool × EAPOLSocketSource × List Event) :=
  match sock.deref source with
  | none => none
  | some _ =>
    if source.is_wireless = false then some (false, source, [])
    else some (result, source, [Event.wireless_set_key type index key_length])

/-- The count invariant: `preauth_sockets_count` is the number of nodes of the
pre-auth queue. -/
def count_matches (s : EAPOLSocketSource) : Prop :=
  s.preauth_sockets_count = (s.preauth_sockets.length : Int)

/-- The calls an operation makes: the trace that goes with `step` (empty when
the operation is undefined in that state). -/
def step_calls (g : Globals) (V : List Byte → Nat → Bool) (source : EAPOLSocketSource) :
    Op → List Event
  | Op.Receive w n buf => (EAPOLSocketSourceReceive g w V source n buf).2
  | Op.Transmit w sent sock packet_type body body_length =>
    match EAPOLSocketSourceTransmit g w sent source sock packet_type body body_length with
    | none => []
    | some r => r.2.2
  | Op.LinkStatusChanged w active => (EAPOLSocketSourceLinkStatusChanged g w source active).2
  | Op.Observer => (EAPOLSocketSourceObserver source).2
  | Op.ScanCallback bssid_list =>
    match EAPOLSocketSourceScanCallback g source bssid_list with
    | none => []
    | some r => r.2
  | Op.HandshakeComplete supplicant_state =>
    match EAPOLSocketSourceHandshakeComplete source supplicant_state with
    | none => []
    | some r => r.2
  | Op.EnableReceive _ _ _ _ => []
  | Op.DisableReceive _ => []
  | Op.SetPMK sock key_length created result =>
    match EAPOLSocketSetPMK source sock key_length created result with
    | none => []
    | some r => r.2.2
  | Op.ReportStatus sock status_dict supplicant_state client_status =>
    match EAPOLSocketReportStatus g source sock status_dict supplicant_state client_status with
    | none => []
    | some r => r.2
  | Op.CreateSupplicant control_dict system_mode malloc_ok supp =>
    (EAPOLSocketSourceCreateSupplicant source control_dict system_mode malloc_ok supp).2.2

/-- Whether an event arms the scan timer (`Timer_set_relative` on `scan_timer`,
whose callback is `EAPOLSocketSourceInitiateScan`). -/
def Event.armsScanTimer : Event → Bool
  | Event.Timer_set_relative _ => true
  | _ => false

/-- Modelled from the spec: the delivery of scan results by the run loop.
`EAPOLSocketSourceScanCallback` is handed to `wireless_scan` only,
`wireless_scan` is called by `EAPOLSocketSourceInitiateScan` only, and that
function is reached only as the callback of the scan timer; so a scan result
is delivered only after `Timer_set_relative` has armed the timer.  `armed`
tells whether the timer has been armed so far.  Cancellation and the expiry
itself are not tracked, so every run of the program is among the runs
allowed.  The result is `none` for a scan result that arrives with the timer
never armed, and when an operation is undefined. -/
def run_scheduled (g : Globals) (V : List Byte → Nat → Bool) :
    Bool → EAPOLSocketSource → List Op → Option EAPOLSocketSource
  | _, source, [] => some source
  | armed, source, op :: rest =>
    if op.isScanCallback = true ∧ armed = false then none
    else
      match step g V source op with
      | none => none
      | some s1 =>
        run_scheduled g V (armed || (step_calls g V source op).any Event.armsScanTimer)
          s1 rest

/-- A state of a source that the program can be in when scan results arrive
only for scans that were scheduled: the source `EAPOLSocketSourceCreate`
returned, followed by a sequence of operations allowed by `run_scheduled`. -/
def ReachableScheduled (g : Globals) (V : List Byte → Nat → Bool)
    (s : EAPOLSocketSource) : Prop :=
  ∃ (w : Wireless) (ether : ether_addr) (is_wireless : Bool) (active : Option Bool)
    (client : Option Nat) (ops : List Op),
    run_scheduled g V
      ((EAPOLSocketSourceCreate g w ether is_wireless active client).2.any Event.armsScanTimer)
      (EAPOLSocketSourceCreate g w ether is_wireless active client).1 ops = some s

/-! ## Concrete inputs used by the worked instances -/

/-- An IEEE 802.11 key descriptor body of 100 octets whose `key_data_length`
field is 5: type octet 2, 92 zero octets, `00 05`, five octets of key data. -/
def ieee80211_body_100 : List Byte :=
  [2] ++ List.replicate 92 0 ++ [0, 5] ++ [1, 2, 3, 4, 5]

/-- An RC4 key descriptor body of 44 octets whose `key_length` field is
`0xFFFF`: type octet 1, `FF FF`, 41 zero octets. -/
def rc4_body_44 : List Byte := [1, 255, 255] ++ List.replicate 41 0

/-- The start-up values of the tunables (the static initialisers). -/
def default_globals : Globals :=
  { S_enable_preauth := false, S_scan_delay_authenticated_secs := 10,
    S_scan_delay_roam_secs := 10, S_scan_period_secs := -1,
    S_number_of_scans := 1, S_debug := false }

/-- A wireless adapter that reports no association. -/
def not_associated : Wireless := { ap_mac := none, ssid := none, is_wpa_enterprise := false }

/-- An EAP validator that accepts every EAP packet. -/
def accept_all : List Byte → Nat → Bool := fun _ _ => true

/-- A local MAC address, 00:11:22:33:44:55. -/
def local_mac : ether_addr := ⟨0x00, 0x11, 0x22, 0x33, 0x44, 0x55⟩

/-- The BSSID of a neighbouring access point, 02:00:00:00:00:0A. -/
def bssid_A : ether_addr := ⟨0x02, 0x00, 0x00, 0x00, 0x00, 0x0a⟩

/-- The BSSID of the associated access point, 02:00:00:00:00:0B. -/
def bssid_B : ether_addr := ⟨0x02, 0x00, 0x00, 0x00, 0x00, 0x0b⟩

/-- A main endpoint with callback 7 registered (arguments 1 and 2). -/
def main_sock : EAPOLSocket :=
  { bssid := ⟨0, 0, 0, 0, 0, 0⟩, func := some 7, arg1 := 1, arg2 := 2,
    supp := some 100, remove := false }

/-- A pre-auth endpoint bound to `bssid_A` with callback 8 registered. -/
def preauth_sock_A : EAPOLSocket :=
  { bssid := bssid_A, func := some 8, arg1 := 3, arg2 := 4,
    supp := some 101, remove := false }

/-- A wired source with a main endpoint and no pre-auth endpoints. -/
def wired_source : EAPOLSocketSource :=
  { client := some 1, ether := local_mac, rx := { eapol_p := none, length := 0 },
    mtu := 1400, is_wireless := false, is_wpa_enterprise := false,
    link_active := true, authenticated := false, interest := none, ssid := none,
    bssid := ⟨0, 0, 0, 0, 0, 0⟩, bssid_valid := false, process_removals := false,
    sock := some main_sock, preauth_sockets := [], preauth_sockets_count := 0,
    mode := EAPOLControlMode.kEAPOLControlModeUser }

/-- A wireless source associated to `bssid_B`, with a main endpoint and one
pre-auth endpoint bound to `bssid_A`. -/
def wireless_source : EAPOLSocketSource :=
  { client := some 1, ether := local_mac, rx := { eapol_p := none, length := 0 },
    mtu := 1400, is_wireless := true, is_wpa_enterprise := true,
    link_active := true, authenticated := true, interest := none,
    ssid := some "corp", bssid := bssid_B, bssid_valid := true,
    process_removals := false, sock := some main_sock,
    preauth_sockets := [preauth_sock_A], preauth_sockets_count := 1,
    mode := EAPOLControlMode.kEAPOLControlModeUser }

/-- The 14-octet Ethernet header of a frame sent by `src` to the local MAC. -/
def ether_header_from (src : ether_addr) (ether_type : Nat) : List Byte :=
  local_mac.octets ++ src.octets ++ htons_bytes ether_type

/-- An 18-octet EAPOL frame (EtherType 0x888E) of packet type 5, body length 0. -/
def frame_type5 : List Byte := ether_header_from bssid_B 0x888e ++ [1, 5, 0, 0]

/-- An 18-octet EAPOL Start frame (EtherType 0x888E), body length 0. -/
def frame_start : List Byte := ether_header_from bssid_B 0x888e ++ [1, 1, 0, 0]

/-- A pre-auth Start frame (EtherType 0x88C7), body length 0, sent by `bssid_A`. -/
def frame_preauth_start_A : List Byte := ether_header_from bssid_A 0x88c7 ++ [1, 1, 0, 0]

/-- An 18-octet EAPOL Key frame (EtherType 0x888E) with an empty body. -/
def frame_key_empty : List Byte := ether_header_from bssid_B 0x888e ++ [1, 3, 0, 0]

/-- A 24-octet EAPOL Start frame: body length 0 followed by six padding octets. -/
def frame_start_padded : List Byte :=
  ether_header_from bssid_B 0x888e ++ [1, 1, 0, 0] ++ [0xaa, 0xaa, 0xaa, 0xaa, 0xaa, 0xaa]

/-- The wireless source before it has learnt its BSSID. -/
def wireless_source_unassociated : EAPOLSocketSource :=
  { wireless_source with bssid_valid := false, bssid := ⟨0, 0, 0, 0, 0, 0⟩, ssid := none,
                         authenticated := false, preauth_sockets := [],
                         preauth_sockets_count := 0 }

/-- A wireless adapter associated to `bssid_B` on the WPA-enterprise network "corp". -/
def associated_B : Wireless :=
  { ap_mac := some bssid_B, ssid := some "corp", is_wpa_enterprise := true }

/-- A 4-octet EAPOL Start packet whose protocol version octet is 2. -/
def start_packet_v2 : List Byte := [2, 1, 0, 0]

/-- A 104-octet EAPOL Key packet, protocol version 1, carrying the 100-octet
IEEE 802.11 descriptor body. -/
def key_packet_ieee80211 : List Byte := [1, 3, 0, 100] ++ ieee80211_body_100

/-- The wireless source with pre-auth enabled tunables in force: the start-up
values with `S_enable_preauth` set. -/
def preauth_globals : Globals := { default_globals with S_enable_preauth := true }

/-- The wireless source before the main Supplicant has authenticated, holding
handshake subscription 9. -/
def wireless_source_pending : EAPOLSocketSource :=
  { wireless_source with authenticated := false, interest := some 9 }

/-- A second pre-auth endpoint, bound to `bssid_B`, with callback 9 registered. -/
def preauth_sock_B : EAPOLSocket :=
  { bssid := bssid_B, func := some 9, arg1 := 5, arg2 := 6,
    supp := some 102, remove := false }

/-- The BSSID of a third access point, 02:00:00:00:00:0C. -/
def bssid_C : ether_addr := ⟨0x02, 0x00, 0x00, 0x00, 0x00, 0x0c⟩

/-- A wireless source associated to `bssid_C` with two pre-auth endpoints, bound
to `bssid_A` and `bssid_B`. -/
def wireless_source_two : EAPOLSocketSource :=
  { wireless_source with bssid := bssid_C,
                         preauth_sockets := [preauth_sock_A, preauth_sock_B],
                         preauth_sockets_count := 2 }

/-- The source `EAPOLSocketSourceCreate` returns on an adapter associated to
`bssid_B` with the link up and the controller attached as client 1. -/
def started_source : EAPOLSocketSource :=
  (EAPOLSocketSourceCreate preauth_globals associated_B local_mac true (some true) (some 1)).1

/-- The same start-up with the controller attach failing (`client` is NULL). -/
def started_source_no_client : EAPOLSocketSource :=
  (EAPOLSocketSourceCreate preauth_globals associated_B local_mac true (some true) none).1

/-- The main Supplicant (handle 100) is created and installs a 32-octet PMK;
the handshake subscription is created with handle 5. -/
def pmk_ops : List Op :=
  [Op.CreateSupplicant none false true (some 100),
   Op.SetPMK EAPOLSocketRef.main 32 (some 5) true]

/-- The operations of `pmk_ops` followed by a Held report of the main Supplicant. -/
def pmk_then_held_ops : List Op :=
  pmk_ops ++ [Op.ReportStatus EAPOLSocketRef.main 55 SupplicantState.kSupplicantStateHeld
    (EAPClientStatus.kEAPClientStatusOther 0)]

/-- The source `started_source` becomes through `pmk_ops`. -/
def pmk_source : EAPOLSocketSource :=
  { client := some 1, ether := local_mac, rx := { eapol_p := none, length := 0 },
    mtu := 1400, is_wireless := true, is_wpa_enterprise := true,
    link_active := true, authenticated := true, interest := some 5,
    ssid := some "corp", bssid := bssid_B, bssid_valid := true,
    process_removals := false, sock := some { zeroed_socket with supp := some 100 },
    preauth_sockets := [], preauth_sockets_count := 0,
    mode := EAPOLControlMode.kEAPOLControlModeNone }

/-- The main Supplicant is created, a scan delivers `bssid_A` and `bssid_C` (pre-auth
Supplicants 101 and 103), the first pre-auth Supplicant registers callback 8 and
then reports Held. -/
def flagging_ops : List Op :=
  [Op.CreateSupplicant none false true (some 100),
   Op.ScanCallback (some [⟨bssid_A, true, some 101⟩, ⟨bssid_C, true, some 103⟩]),
   Op.EnableReceive (EAPOLSocketRef.preauth 0) (some 8) 3 4,
   Op.ReportStatus (EAPOLSocketRef.preauth 0) 55 SupplicantState.kSupplicantStateHeld
     (EAPClientStatus.kEAPClientStatusOther 0)]

/-- The source `started_source` becomes through `flagging_ops`: the endpoint bound
to `bssid_A` is flagged `remove` and still has callback 8 registered. -/
def flagged_source : EAPOLSocketSource :=
  { client := some 1, ether := local_mac, rx := { eapol_p := none, length := 0 },
    mtu := 1400, is_wireless := true, is_wpa_enterprise := true,
    link_active := true, authenticated := false, interest := none,
    ssid := some "corp", bssid := bssid_B, bssid_valid := true,
    process_removals := true, sock := some { zeroed_socket with supp := some 100 },
    preauth_sockets :=
      [{ bssid := bssid_A, func := some 8, arg1 := 3, arg2 := 4, supp := some 101,
         remove := true },
       { zeroed_socket with bssid := bssid_C, supp := some 103 }],
    preauth_sockets_count := 2,
    mode := EAPOLControlMode.kEAPOLControlModeNone }

/-- A wireless adapter associated to `bssid_A` on the same network "corp". -/
def associated_A : Wireless :=
  { ap_mac := some bssid_A, ssid := some "corp", is_wpa_enterprise := true }

/-- A wireless adapter associated to `bssid_A` on another network, "guest". -/
def associated_A_guest : Wireless :=
  { ap_mac := some bssid_A, ssid := some "guest", is_wpa_enterprise := true }

/-- A control dictionary with command `Run`, mode User and configuration handle 7. -/
def run_control_dict : ControlDict :=
  { command := NumberEntry.number EAPOLClientControlCommand.kEAPOLClientControlCommandRun,
    mode := NumberEntry.number EAPOLControlMode.kEAPOLControlModeUser,
    configuration := some 7 }

/-- The wired source running in System mode. -/
def wired_source_system : EAPOLSocketSource :=
  { wired_source with mode := EAPOLControlMode.kEAPOLControlModeSystem }

/-- A control dictionary with command `Run` and no `Configuration` entry. -/
def run_without_configuration : ControlDict :=
  { command := NumberEntry.number EAPOLClientControlCommand.kEAPOLClientControlCommandRun,
    mode := NumberEntry.absent, configuration := none }

/-- The wireless source with its main endpoint only. -/
def wireless_source_alone : EAPOLSocketSource :=
  { wireless_source with preauth_sockets := [], preauth_sockets_count := 0 }

/-- A scan result naming `bssid_A`, `bssid_B` and `bssid_C`, every creation succeeding
(Supplicants 101, 102 and 103). -/
def scan_list_ABC : List ScanEntry :=
  [⟨bssid_A, true, some 101⟩, ⟨bssid_B, true, some 102⟩, ⟨bssid_C, true, some 103⟩]

/-- A scan result that names `bssid_A` twice and `bssid_C` once. -/
def scan_list_AAC : List ScanEntry :=
  [⟨bssid_A, true, some 101⟩, ⟨bssid_A, true, some 102⟩, ⟨bssid_C, true, some 103⟩]

/-- With pre-authentication enabled: the main Supplicant is created and a scan
delivers `scan_list_AAC`. -/
def scanning_steps : List (Globals × Op) :=
  [(preauth_globals, Op.CreateSupplicant none false true (some 100)),
   (preauth_globals, Op.ScanCallback (some scan_list_AAC))]

/-- The source `started_source` becomes through `scanning_steps`. -/
def scanned_source : EAPOLSocketSource :=
  { client := some 1, ether := local_mac, rx := { eapol_p := none, length := 0 },
    mtu := 1400, is_wireless := true, is_wpa_enterprise := true,
    link_active := true, authenticated := false, interest := none,
    ssid := some "corp", bssid := bssid_B, bssid_valid := true,
    process_removals := false, sock := some { zeroed_socket with supp := some 100 },
    preauth_sockets :=
      [{ zeroed_socket with bssid := bssid_A, supp := some 101 },
       { zeroed_socket with bssid := bssid_C, supp := some 103 }],
    preauth_sockets_count := 2,
    mode := EAPOLControlMode.kEAPOLControlModeNone }

/-- With pre-authentication enabled: the main Supplicant is created and reports
Authenticated, which schedules a scan; the scan delivers `scan_list_AAC`; then
the link-status handler runs while the adapter is associated to `bssid_A`. -/
def roaming_ops : List Op :=
  [Op.CreateSupplicant none false true (some 100),
   Op.ReportStatus EAPOLSocketRef.main 55 SupplicantState.kSupplicantStateAuthenticated
     (EAPClientStatus.kEAPClientStatusOther 0),
   Op.ScanCallback (some scan_list_AAC),
   Op.LinkStatusChanged associated_A (some true)]

/-- The source `started_source` becomes through `roaming_ops`: the endpoint bound
to `bssid_A` is gone and `bssid_A` is the source BSSID. -/
def roamed_source : EAPOLSocketSource :=
  { scanned_source with
    authenticated := true,
    bssid := bssid_A,
    preauth_sockets := [{ zeroed_socket with bssid := bssid_C, supp := some 103 }],
    preauth_sockets_count := 1 }

/-- The wireless source before association with the handshake subscription 5
created: `authenticated` is set. -/
def wireless_source_subscribed : EAPOLSocketSource :=
  { wireless_source_unassociated with interest := some 5, authenticated := true }

/-- The same after the handshake notification has released the subscription. -/
def wireless_source_released : EAPOLSocketSource :=
  { wireless_source_unassociated with interest := none, authenticated := true }

/-- Two consecutive PMK installations on the main endpoint, both with a 32-octet
key and a subscription that would be created (handles 5 and 6). -/
def two_pmk_ops : List Op :=
  [Op.SetPMK EAPOLSocketRef.main 32 (some 5) true,
   Op.SetPMK EAPOLSocketRef.main 32 (some 6) true]

/-- The wireless source with the controller attach failed (`client` NULL). -/
def wireless_source_no_client : EAPOLSocketSource :=
  { wireless_source with client := none }

/-! ## Codec, trace and lookup lemmas -/

theorem callbacks_append (a b : List Event) : callbacks (a ++ b) = callbacks a ++ callbacks b := by
  simp [callbacks]

theorem callbacks_nil : callbacks [] = [] := rfl

theorem callbacks_dispatch (sk : Option EAPOLSocket) (rx : EAPOLSocketReceiveData) :
    callbacks (dispatch sk rx) = dispatch sk rx := by
  cases sk with
  | none => rfl
  | some s =>
    cases hf : s.func with
    | none => simp [dispatch, hf, callbacks]
    | some f => simp [dispatch, hf, callbacks, Event.isCallback]

theorem dispatch_length_le (sk : Option EAPOLSocket) (rx : EAPOLSocketReceiveData) :
    (dispatch sk rx).length ≤ 1 := by
  cases sk with
  | none => simp [dispatch]
  | some s =>
    cases hf : s.func with
    | none => simp [dispatch, hf]
    | some f => simp [dispatch, hf]

theorem unschedule_sock (s : EAPOLSocketSource) :
    (EAPOLSocketSourceUnscheduleHandshakeNotification s).1.sock = s.sock := by
  unfold EAPOLSocketSourceUnscheduleHandshakeNotification
    EAPOLSocketSourceReleaseHandshakeNotification
  cases s.interest <;> rfl

theorem unschedule_callbacks (s : EAPOLSocketSource) :
    callbacks (EAPOLSocketSourceUnscheduleHandshakeNotification s).2 = [] := by
  unfold EAPOLSocketSourceUnscheduleHandshakeNotification
    EAPOLSocketSourceReleaseHandshakeNotification
  cases s.interest <;> rfl

theorem schedule_scan_callbacks (d : Int) :
    callbacks (EAPOLSocketSourceScheduleScan d) = [] := by
  unfold EAPOLSocketSourceScheduleScan
  split <;> rfl

theorem remove_with_bssid_sock (s : EAPOLSocketSource) (b : ether_addr) :
    (EAPOLSocketSourceRemoveSocketWithBSSID s b).1.sock = s.sock := by
  unfold EAPOLSocketSourceRemoveSocketWithBSSID EAPOLSocketSourceLookupPreauthSocket
  cases lookupIdx b s.preauth_sockets <;> rfl

theorem remove_with_bssid_callbacks (s : EAPOLSocketSource) (b : ether_addr) :
    callbacks (EAPOLSocketSourceRemoveSocketWithBSSID s b).2 = [] := by
  unfold EAPOLSocketSourceRemoveSocketWithBSSID EAPOLSocketSourceLookupPreauthSocket
  cases lookupIdx b s.preauth_sockets <;> rfl

theorem update_wireless_sock (g : Globals) (w : Wireless) (s : EAPOLSocketSource) :
    (EAPOLSocketSourceUpdateWirelessInfo g w s).2.1.sock = s.sock := by
  unfold EAPOLSocketSourceUpdateWirelessInfo
  split
  · rfl
  · cases w.ap_mac with
    | none => simp [unschedule_sock]
    | some a =>
      simp only
      split
      · split
        · simp [remove_with_bssid_sock]
        · rfl
      · rfl

theorem update_wireless_callbacks (g : Globals) (w : Wireless) (s : EAPOLSocketSource) :
    callbacks (EAPOLSocketSourceUpdateWirelessInfo g w s).2.2 = [] := by
  have hc : callbacks EAPOLSocketSourceCancelScan = [] := rfl
  unfold EAPOLSocketSourceUpdateWirelessInfo
  split
  · rfl
  · cases w.ap_mac with
    | none =>
      simp only [callbacks_append, unschedule_callbacks]
      rfl
    | some a =>
      simp only
      split
      · split
        · simp only [callbacks_append, remove_with_bssid_callbacks]
          split <;> split <;>
            simp only [schedule_scan_callbacks, hc, callbacks_nil, List.append_nil]
        · simp only [callbacks_append]
          split <;> simp only [hc, callbacks_nil, List.append_nil]
      · simp only [callbacks_append]
        split <;> simp only [hc, callbacks_nil, List.append_nil]

theorem lookupIdx_getElem (b : ether_addr) (l : List EAPOLSocket) :
    (lookupIdx b l).bind (fun i => l[i]?) = l.find? (fun e => decide (e.bssid = b)) := by
  induction l with
  | nil => rfl
  | cons x xs ih =>
    unfold lookupIdx
    by_cases hx : x.bssid = b
    · simp [hx]
    · simp only [hx, if_false, List.find?_cons, decide_False]
      rw [← ih]
      cases lookupIdx b xs <;> simp

theorem lookup_deref (s : EAPOLSocketSource) (b : ether_addr) :
    (EAPOLSocketSourceLookupPreauthSocket s b).bind (fun r => r.deref s)
      = s.preauth_sockets.find? (fun e => decide (e.bssid = b)) := by
  unfold EAPOLSocketSourceLookupPreauthSocket
  rw [← lookupIdx_getElem]
  cases lookupIdx b s.preauth_sockets <;> rfl

/-! ## The receive path -/

theorem receive_of_valid (g : Globals) (w : Wireless) (V : List Byte → Nat → Bool)
    (source : EAPOLSocketSource) (n : Int) (buf : List Byte)
    (hn : 0 < n) (he : ether_header_valid buf n.toNat = true)
    (ht : ether_type_of buf = EAPOL_802_1_X_ETHERTYPE
      ∨ ether_type_of buf = IEEE80211_PREAUTH_ETHERTYPE)
    (hh : eapol_header_valid (buf.drop sizeof_ether_header)
      (n.toNat - sizeof_ether_header) = true)
    (hb : eapol_body_valid V (buf.drop sizeof_ether_header)
      (n.toNat - sizeof_ether_header) = true) :
    callbacks (EAPOLSocketSourceReceive g w V source n buf).2 =
      dispatch
        (if ether_type_of buf = EAPOL_802_1_X_ETHERTYPE then source.sock
         else source.preauth_sockets.find? (fun e => decide (e.bssid = ether_shost buf)))
        { eapol_p := some (buf.drop sizeof_ether_header),
          length := n.toNat - sizeof_ether_header } := by
  unfold EAPOLSocketSourceReceive
  simp only [not_le.mpr hn, he, ht, hh, hb, if_false, not_true_eq_false, Bool.true_eq_false]
  by_cases hE : ether_type_of buf = EAPOL_802_1_X_ETHERTYPE
  · simp only [hE, and_true, if_true, Option.bind, EAPOLSocketRef.deref, callbacks_append,
      callbacks_dispatch]
    split
    · split
      · simp only [update_wireless_callbacks, update_wireless_sock, List.nil_append]
      · rfl
    · rfl
  · simp only [hE, and_false, if_false, callbacks_append, callbacks_dispatch, callbacks_nil,
      List.nil_append]
    rw [← lookup_deref]
    rfl

theorem receive_of_invalid (g : Globals) (w : Wireless) (V : List Byte → Nat → Bool)
    (source : EAPOLSocketSource) (n : Int) (buf : List Byte)
    (h : ¬ (0 < n ∧ ether_header_valid buf n.toNat = true
      ∧ (ether_type_of buf = EAPOL_802_1_X_ETHERTYPE
        ∨ ether_type_of buf = IEEE80211_PREAUTH_ETHERTYPE)
      ∧ eapol_header_valid (buf.drop sizeof_ether_header)
        (n.toNat - sizeof_ether_header) = true
      ∧ eapol_body_valid V (buf.drop sizeof_ether_header)
        (n.toNat - sizeof_ether_header) = true)) :
    EAPOLSocketSourceReceive g w V source n buf = (source, []) := by
  unfold EAPOLSocketSourceReceive
  by_cases hn : n ≤ 0
  · simp [hn]
  · by_cases he : ether_header_valid buf n.toNat = false
    · simp [hn, he]
    · by_cases ht : ether_type_of buf = EAPOL_802_1_X_ETHERTYPE
        ∨ ether_type_of buf = IEEE80211_PREAUTH_ETHERTYPE
      · by_cases hh : eapol_header_valid (buf.drop sizeof_ether_header)
          (n.toNat - sizeof_ether_header) = false
        · simp [hn, he, ht, hh]
        · by_cases hb : eapol_body_valid V (buf.drop sizeof_ether_header)
            (n.toNat - sizeof_ether_header) = false
          · simp [hn, he, ht, hh, hb]
          · exfalso
            apply h
            simp only [Bool.not_eq_false] at he hh hb
            exact ⟨not_le.mp hn, he, ht, hh, hb⟩
      · simp [hn, he, ht]

theorem eapol_header_valid_iff (p : List Byte) (length : Nat) :
    eapol_header_valid p length = true ↔ 4 ≤ length := by
  unfold eapol_header_valid sizeof_EAPOLPacket
  by_cases h : length < 4
  · simp [h]
  · simp [h]; omega

theorem ether_header_valid_iff (p : List Byte) (length : Nat) :
    ether_header_valid p length = true ↔ 14 ≤ length := by
  unfold ether_header_valid sizeof_ether_header
  by_cases h : length < 14
  · simp [h]
  · simp [h]; omega

theorem uint_sub_header (length : Nat) (h4 : 4 ≤ length) (hu : length < UINT_MOD) :
    (length + UINT_MOD - sizeof_EAPOLPacket) % UINT_MOD = length - 4 := by
  simp only [UINT_MOD, sizeof_EAPOLPacket] at *
  omega

theorem eapol_body_valid_eq (V : List Byte → Nat → Bool) (p : List Byte) (length : Nat)
    (h4 : 4 ≤ length) (hu : length < UINT_MOD) :
    eapol_body_valid V p length =
      if length - 4 < EAPOLPacketGetLength p then false
      else if EAPOLPacket_packet_type p = kEAPOLPacketTypeEAPPacket then
        V (EAPOLPacket_body p) (EAPOLPacketGetLength p)
      else if EAPOLPacket_packet_type p = kEAPOLPacketTypeKey then
        eapol_key_descriptor_valid (EAPOLPacket_body p) (EAPOLPacketGetLength p)
      else true := by
  unfold eapol_body_valid
  simp only [uint_sub_header length h4 hu]
  split
  · rfl
  · split
    · rfl
    · split
      · rfl
      · split <;> rfl

theorem packet_type_invalid_iff (t : Nat) :
    EAPOLPacketTypeValid t = false ↔ 4 < t := by
  unfold EAPOLPacketTypeValid kEAPOLPacketTypeEAPPacket kEAPOLPacketTypeEncapsulatedASFAlert
  by_cases h : t ≤ 4
  · simp [h]
  · simp [h]; omega

theorem callback_mem_iff (f a1 a2 : Nat) (rx : EAPOLSocketReceiveData) (l : List Event) :
    Event.receive_callback f a1 a2 rx ∈ l ↔ Event.receive_callback f a1 a2 rx ∈ callbacks l := by
  simp [callbacks, Event.isCallback]

theorem dispatch_mem_iff (f a1 a2 : Nat) (sk : Option EAPOLSocket)
    (rx0 : EAPOLSocketReceiveData) :
    (∃ rx, Event.receive_callback f a1 a2 rx ∈ dispatch sk rx0)
      ↔ ∃ s, sk = some s ∧ s.func = some f ∧ s.arg1 = a1 ∧ s.arg2 = a2 := by
  cases sk with
  | none => simp [dispatch]
  | some s =>
    cases hf : s.func with
    | none => simp [dispatch, hf]
    | some f' =>
      simp only [dispatch, hf, List.mem_singleton, Event.receive_callback.injEq,
        Option.some.injEq, exists_eq_left']
      constructor
      · rintro ⟨rx, h1, h2, h3, _⟩
        exact ⟨h1.symm, h2.symm, h3.symm⟩
      · rintro ⟨h1, h2, h3⟩
        exact ⟨rx0, h1.symm, h2.symm, h3.symm, rfl⟩

theorem readBytes_length (p : List Byte) (n : Nat) : (readBytes p n).length = n := by
  simp [readBytes]

theorem readBytes_self (b : List Byte) : readBytes b b.length = b := by
  apply List.ext_getElem
  · simp [readBytes]
  · intro i h1 h2
    simp [readBytes, byteAt, List.getD_eq_getElem?_getD, List.getElem?_eq_getElem h2]

theorem toByte_val (t : Byte) : toByte t.val = t := by
  apply Fin.ext
  simp [toByte, Nat.mod_eq_of_lt t.isLt]

/-- C2: for a key body whose descriptor type octet is 2 (IEEE 802.11),
`eapol_key_descriptor_valid` accepts exactly when `body_length` covers the
95-octet fixed part and the big-endian `key_data_length` is at most
`body_length - 95`; so `key_data_length = body_length - 95` is accepted and one
more is rejected. -/
theorem ieee80211_key_descriptor_valid_iff (body : List Byte) (body_length : Nat)
    (h : descriptor_type body = kEAPOLKeyDescriptorTypeIEEE80211) :
    sizeof_EAPOLIEEE80211KeyDescriptor = 95 ∧
    (eapol_key_descriptor_valid body body_length = true ↔
      sizeof_EAPOLIEEE80211KeyDescriptor ≤ body_length ∧
      EAPOLIEEE80211KeyDescriptorGetKeyDataLength body
        ≤ body_length - sizeof_EAPOLIEEE80211KeyDescriptor) ∧
    (sizeof_EAPOLIEEE80211KeyDescriptor ≤ body_length →
      EAPOLIEEE80211KeyDescriptorGetKeyDataLength body
        = body_length - sizeof_EAPOLIEEE80211KeyDescriptor →
      eapol_key_descriptor_valid body body_length = true) ∧
    (sizeof_EAPOLIEEE80211KeyDescriptor ≤ body_length →
      EAPOLIEEE80211KeyDescriptorGetKeyDataLength body
        = body_length - sizeof_EAPOLIEEE80211KeyDescriptor + 1 →
      eapol_key_descriptor_valid body body_length = false) := by
  have hne : descriptor_type body ≠ kEAPOLKeyDescriptorTypeRC4 := by
    rw [h]; decide
  have key : eapol_key_descriptor_valid body body_length = true ↔
      sizeof_EAPOLIEEE80211KeyDescriptor ≤ body_length ∧
      EAPOLIEEE80211KeyDescriptorGetKeyDataLength body
        ≤ body_length - sizeof_EAPOLIEEE80211KeyDescriptor := by
    unfold eapol_key_descriptor_valid
    simp only [hne, h, if_true, if_false]
    have hs : sizeof_EAPOLIEEE80211KeyDescriptor = 95 := rfl
    by_cases h1 : body_length < 1
    · simp [h1, hs]; omega
    · by_cases h2 : body_length < sizeof_EAPOLIEEE80211KeyDescriptor
      · simp [h1, h2]; omega
      · by_cases h3 : EAPOLIEEE80211KeyDescriptorGetKeyDataLength body
            > body_length - sizeof_EAPOLIEEE80211KeyDescriptor
        · simp [h1, h2, h3]; omega
        · simp [h1, h2, h3]; omega
  refine ⟨rfl, key, ?_, ?_⟩
  · intro hb he
    exact key.mpr ⟨hb, by omega⟩
  · intro hb he
    cases hv : eapol_key_descriptor_valid body body_length with
    | false => rfl
    | true =>
      have := (key.mp hv).2
      omega

/-- Worked instance of C2: a 100-octet IEEE 802.11 body declaring 5 octets of
key data (exactly `100 - 95`) is accepted. -/
theorem ieee80211_key_descriptor_valid_iff_witness :
    descriptor_type ieee80211_body_100 = kEAPOLKeyDescriptorTypeIEEE80211 ∧
    EAPOLIEEE80211KeyDescriptorGetKeyDataLength ieee80211_body_100 = 5 ∧
    eapol_key_descriptor_valid ieee80211_body_100 100 = true ∧
    eapol_key_descriptor_valid ieee80211_body_100 99 = false :=
  ⟨by decide, by decide,
   (ieee80211_key_descriptor_valid_iff ieee80211_body_100 100 (by decide)).2.2.1
     (by decide) (by decide),
   (ieee80211_key_descriptor_valid_iff ieee80211_body_100 99 (by decide)).2.2.2
     (by decide) (by decide)⟩

/-- C4: for a key body whose descriptor type octet is 1 (RC4),
`eapol_key_descriptor_valid` accepts exactly when `body_length` covers the
44-octet fixed part; no other octet of the body (in particular `key_length`)
takes part in the decision. -/
theorem rc4_key_descriptor_valid_iff (body : List Byte) (body_length : Nat)
    (h : descriptor_type body = kEAPOLKeyDescriptorTypeRC4) :
    sizeof_EAPOLRC4KeyDescriptor = 44 ∧
    (eapol_key_descriptor_valid body body_length = true ↔
      sizeof_EAPOLRC4KeyDescriptor ≤ body_length) ∧
    (∀ body' : List Byte, descriptor_type body' = kEAPOLKeyDescriptorTypeRC4 →
      eapol_key_descriptor_valid body' body_length
        = eapol_key_descriptor_valid body body_length) := by
  have key : ∀ b : List Byte, descriptor_type b = kEAPOLKeyDescriptorTypeRC4 →
      eapol_key_descriptor_valid b body_length
        = decide (sizeof_EAPOLRC4KeyDescriptor ≤ body_length) := by
    intro b hb
    unfold eapol_key_descriptor_valid
    have hs : sizeof_EAPOLRC4KeyDescriptor = 44 := rfl
    by_cases h1 : body_length < 1
    · simp [h1, hs]; omega
    · by_cases h2 : body_length < sizeof_EAPOLRC4KeyDescriptor
      · simp [h1, hb, h2]
      · simp [h1, hb, h2]; omega
  refine ⟨rfl, ?_, ?_⟩
  · rw [key body h]; simp
  · intro b' hb'
    rw [key b' hb', key body h]

/-- Worked instance of C4: a 44-octet RC4 body is accepted although its
`key_length` field reads `0xFFFF`; with 43 octets it is rejected. -/
theorem rc4_key_descriptor_valid_iff_witness :
    descriptor_type rc4_body_44 = kEAPOLKeyDescriptorTypeRC4 ∧
    eapol_key_descriptor_valid rc4_body_44 44 = true ∧
    eapol_key_descriptor_valid rc4_body_44 43 = false :=
  ⟨by decide,
   (rc4_key_descriptor_valid_iff rc4_body_44 44 (by decide)).2.1.mpr (by decide),
   by
     have h := (rc4_key_descriptor_valid_iff rc4_body_44 43 (by decide)).2.1
     cases hv : eapol_key_descriptor_valid rc4_body_44 43 with
     | false => rfl
     | true => exact absurd (h.mp hv) (by decide)⟩

/-- C7: the header validators are exact length thresholds, whatever the buffer
holds: `ether_header_valid` is true exactly for `length >= 14`,
`eapol_header_valid` exactly for `length >= 4`.  A received frame of exactly 14
octets is dropped by `EAPOLSocketSourceReceive` with no callback and no change
of state, and `eapol_packet_valid` answers false for every `length < 4` without
consulting `eapol_body_valid` (for `length >= 4` it is `eapol_body_valid`). -/
theorem header_validators_are_thresholds :
    (∀ (eh_p : List Byte) (length : Nat),
      ether_header_valid eh_p length = true ↔ 14 ≤ length) ∧
    (∀ (eapol_p : List Byte) (length : Nat),
      eapol_header_valid eapol_p length = true ↔ 4 ≤ length) ∧
    (∀ (g : Globals) (w : Wireless) (V : List Byte → Nat → Bool)
        (source : EAPOLSocketSource) (buf : List Byte),
      EAPOLSocketSourceReceive g w V source 14 buf = (source, [])) ∧
    (∀ (V : List Byte → Nat → Bool) (eapol_p : List Byte) (length : Nat),
      length < 4 → eapol_packet_valid V eapol_p length = false) ∧
    (∀ (V : List Byte → Nat → Bool) (eapol_p : List Byte) (length : Nat),
      4 ≤ length →
      eapol_packet_valid V eapol_p length = eapol_body_valid V eapol_p length) := by
  refine ⟨ether_header_valid_iff, eapol_header_valid_iff, ?_, ?_, ?_⟩
  · intro g w V source buf
    apply receive_of_invalid
    rintro ⟨_, _, _, hh, _⟩
    have := (eapol_header_valid_iff _ _).mp hh
    simp [sizeof_ether_header] at this
  · intro V p length hl
    have hh : eapol_header_valid p length = false := by
      cases hv : eapol_header_valid p length with
      | false => rfl
      | true => have := (eapol_header_valid_iff p length).mp hv; omega
    simp [eapol_packet_valid, hh]
  · intro V p length hl
    have hh : eapol_header_valid p length = true := (eapol_header_valid_iff p length).mpr hl
    simp [eapol_packet_valid, hh]

/-- C8: for every readable event handled by `EAPOLSocketSourceReceive` at most
one endpoint callback is invoked, and one is invoked only if `recv` returned
`n > 0`, `ether_header_valid` holds for `n`, the EtherType is 0x888E or 0x88C7,
and `eapol_header_valid` and `eapol_body_valid` both hold for the `n - 14`
octets after the Ethernet header; a frame with any other EtherType is dropped. -/
theorem receive_invokes_at_most_one_callback (g : Globals) (w : Wireless)
    (V : List Byte → Nat → Bool) (source : EAPOLSocketSource) (n : Int)
    (buf : List Byte) :
    (callbacks (EAPOLSocketSourceReceive g w V source n buf).2).length ≤ 1 ∧
    (callbacks (EAPOLSocketSourceReceive g w V source n buf).2 ≠ [] →
      0 < n ∧ ether_header_valid buf n.toNat = true
      ∧ (ether_type_of buf = 0x888E ∨ ether_type_of buf = 0x88C7)
      ∧ eapol_header_valid (buf.drop 14) (n.toNat - 14) = true
      ∧ eapol_body_valid V (buf.drop 14) (n.toNat - 14) = true) ∧
    (¬ (ether_type_of buf = 0x888E ∨ ether_type_of buf = 0x88C7) →
      EAPOLSocketSourceReceive g w V source n buf = (source, [])) := by
  by_cases hv : 0 < n ∧ ether_header_valid buf n.toNat = true
      ∧ (ether_type_of buf = EAPOL_802_1_X_ETHERTYPE
        ∨ ether_type_of buf = IEEE80211_PREAUTH_ETHERTYPE)
      ∧ eapol_header_valid (buf.drop sizeof_ether_header)
        (n.toNat - sizeof_ether_header) = true
      ∧ eapol_body_valid V (buf.drop sizeof_ether_header)
        (n.toNat - sizeof_ether_header) = true
  · obtain ⟨hn, he, ht, hh, hb⟩ := hv
    refine ⟨?_, fun _ => ⟨hn, he, ht, hh, hb⟩, fun hnt => absurd ht hnt⟩
    rw [receive_of_valid g w V source n buf hn he ht hh hb]
    exact dispatch_length_le _ _
  · have hr := receive_of_invalid g w V source n buf hv
    refine ⟨?_, ?_, fun _ => hr⟩
    · rw [hr]; simp [callbacks]
    · intro hne
      rw [hr] at hne
      exact absurd rfl hne

/-- C9: for a frame that passes validation in `EAPOLSocketSourceReceive`, with
EtherType 0x888E the callbacks invoked are exactly the dispatch to the main
endpoint (`source->sock`); with EtherType 0x88C7 they are exactly the dispatch
to the first pre-auth endpoint whose BSSID equals the frame's source MAC, and
when no pre-auth endpoint has that BSSID nothing is invoked, whatever the main
endpoint has registered. -/
theorem receive_routes_by_ethertype (g : Globals) (w : Wireless)
    (V : List Byte → Nat → Bool) (source : EAPOLSocketSource) (n : Int)
    (buf : List Byte)
    (hn : 0 < n) (he : ether_header_valid buf n.toNat = true)
    (hh : eapol_header_valid (buf.drop 14) (n.toNat - 14) = true)
    (hb : eapol_body_valid V (buf.drop 14) (n.toNat - 14) = true) :
    (ether_type_of buf = 0x888E →
      callbacks (EAPOLSocketSourceReceive g w V source n buf).2
        = dispatch source.sock { eapol_p := some (buf.drop 14), length := n.toNat - 14 }) ∧
    (ether_type_of buf = 0x88C7 →
      callbacks (EAPOLSocketSourceReceive g w V source n buf).2
        = dispatch
            (source.preauth_sockets.find? (fun e => decide (e.bssid = ether_shost buf)))
            { eapol_p := some (buf.drop 14), length := n.toNat - 14 }
      ∧ ((∀ e ∈ source.preauth_sockets, e.bssid ≠ ether_shost buf) →
          callbacks (EAPOLSocketSourceReceive g w V source n buf).2 = [])) := by
  constructor
  · intro ht
    rw [receive_of_valid g w V source n buf hn he (Or.inl ht) hh hb]
    simp [ht, EAPOL_802_1_X_ETHERTYPE, sizeof_ether_header]
  · intro ht
    have hne : ether_type_of buf ≠ EAPOL_802_1_X_ETHERTYPE := by
      rw [ht]; decide
    have hcb := receive_of_valid g w V source n buf hn he (Or.inr ht) hh hb
    simp only [hne, if_false] at hcb
    refine ⟨hcb, ?_⟩
    intro hnone
    rw [hcb]
    have : source.preauth_sockets.find? (fun e => decide (e.bssid = ether_shost buf)) = none := by
      rw [List.find?_eq_none]
      intro x hx
      simpa using hnone x hx
    rw [this]
    rfl

/-- Worked instance of C9: on the wireless source a valid 0x88C7 frame sent by
`bssid_A` reaches the callback of the pre-auth endpoint bound to `bssid_A`
(callback 8), not the main endpoint's callback 7. -/
theorem receive_routes_by_ethertype_witness :
    callbacks (EAPOLSocketSourceReceive default_globals not_associated accept_all
        wireless_source 18 frame_preauth_start_A).2
      = [Event.receive_callback 8 3 4 { eapol_p := some [1, 1, 0, 0], length := 4 }] :=
  ((receive_routes_by_ethertype default_globals not_associated accept_all
      wireless_source 18 frame_preauth_start_A
      (by decide) (by decide) (by decide) (by decide)).2 (by decide)).1.trans (by decide)

/-- C1 as stated fails: on the wired source an 18-octet frame with EtherType
0x888E and packet type 5 (outside 0..4) passes every validator and the main
endpoint's callback is invoked. -/
theorem unknown_packet_type_is_dispatched :
    ether_header_valid frame_type5 18 = true ∧
    ether_type_of frame_type5 = 0x888E ∧
    EAPOLPacket_packet_type (frame_type5.drop 14) = 5 ∧
    EAPOLPacketTypeValid 5 = false ∧
    eapol_body_valid accept_all (frame_type5.drop 14) 4 = true ∧
    callbacks (EAPOLSocketSourceReceive default_globals not_associated accept_all
        wired_source 18 frame_type5).2
      = [Event.receive_callback 7 1 2 { eapol_p := some [1, 5, 0, 0], length := 4 }] := by
  decide

/-- C1 amended: for a received frame that passes Ethernet-header validation,
carries EtherType 0x888E or 0x88C7 and whose packet type is outside 0..4, the
type does not make the frame invalid: `eapol_body_valid` is true exactly when
the octets after the 4-octet EAPOL header cover the declared body length.
`EAPOLSocketSourceReceive` drops the frame (no callback, state unchanged) when
the EAPOL header is incomplete or the declared body is longer than what was
received, and otherwise performs the dispatch to the routed endpoint. -/
theorem unknown_packet_type_checked_by_length_only (g : Globals) (w : Wireless)
    (V : List Byte → Nat → Bool) (source : EAPOLSocketSource) (n : Int)
    (buf : List Byte)
    (hn : 0 < n) (hmax : n ≤ 1600)
    (he : ether_header_valid buf n.toNat = true)
    (ht : ether_type_of buf = 0x888E ∨ ether_type_of buf = 0x88C7)
    (hty : EAPOLPacketTypeValid (EAPOLPacket_packet_type (buf.drop 14)) = false) :
    (4 ≤ n.toNat - 14 →
      (eapol_body_valid V (buf.drop 14) (n.toNat - 14) = true
        ↔ EAPOLPacketGetLength (buf.drop 14) ≤ n.toNat - 14 - 4)) ∧
    (4 ≤ n.toNat - 14 ∧ EAPOLPacketGetLength (buf.drop 14) ≤ n.toNat - 14 - 4 →
      callbacks (EAPOLSocketSourceReceive g w V source n buf).2
        = dispatch
            (if ether_type_of buf = 0x888E then source.sock
             else source.preauth_sockets.find?
               (fun e => decide (e.bssid = ether_shost buf)))
            { eapol_p := some (buf.drop 14), length := n.toNat - 14 }) ∧
    (¬ (4 ≤ n.toNat - 14 ∧ EAPOLPacketGetLength (buf.drop 14) ≤ n.toNat - 14 - 4) →
      EAPOLSocketSourceReceive g w V source n buf = (source, [])) := by
  have hlt : n.toNat - 14 < UINT_MOD := by
    simp only [UINT_MOD]; omega
  have ht4 := (packet_type_invalid_iff _).mp hty
  have hbv : 4 ≤ n.toNat - 14 →
      (eapol_body_valid V (buf.drop 14) (n.toNat - 14) = true
        ↔ EAPOLPacketGetLength (buf.drop 14) ≤ n.toNat - 14 - 4) := by
    intro h4
    rw [eapol_body_valid_eq V _ _ h4 hlt]
    have h0 : EAPOLPacket_packet_type (buf.drop 14) ≠ kEAPOLPacketTypeEAPPacket := by
      simp only [kEAPOLPacketTypeEAPPacket]; omega
    have h3 : EAPOLPacket_packet_type (buf.drop 14) ≠ kEAPOLPacketTypeKey := by
      simp only [kEAPOLPacketTypeKey]; omega
    simp only [h0, h3, if_false]
    by_cases hl : n.toNat - 14 - 4 < EAPOLPacketGetLength (List.drop 14 buf)
    · simp [hl]
    · simp [hl]; omega
  refine ⟨hbv, ?_, ?_⟩
  · rintro ⟨h4, hl⟩
    exact receive_of_valid g w V source n buf hn he ht
      ((eapol_header_valid_iff _ _).mpr h4) ((hbv h4).mpr hl)
  · intro hneg
    apply receive_of_invalid
    rintro ⟨_, _, _, hh, hb⟩
    have h4 : 4 ≤ n.toNat - 14 := (eapol_header_valid_iff _ _).mp hh
    exact hneg ⟨h4, (hbv h4).mp hb⟩

/-- Worked instance of the amended C1: the 18-octet type-5 frame is dispatched
to the main endpoint of the wired source; cut to 17 octets it is dropped. -/
theorem unknown_packet_type_checked_by_length_only_witness :
    callbacks (EAPOLSocketSourceReceive default_globals not_associated accept_all
        wired_source 18 frame_type5).2
      = dispatch wired_source.sock { eapol_p := some (frame_type5.drop 14), length := 4 } ∧
    EAPOLSocketSourceReceive default_globals not_associated accept_all
        wired_source 17 frame_type5 = (wired_source, []) :=
  ⟨(unknown_packet_type_checked_by_length_only default_globals not_associated accept_all
      wired_source 18 frame_type5 (by decide) (by decide) (by decide) (by decide)
      (by decide)).2.1 (by decide),
   (unknown_packet_type_checked_by_length_only default_globals not_associated accept_all
      wired_source 17 frame_type5 (by decide) (by decide) (by decide) (by decide)
      (by decide)).2.2 (by decide)⟩

/-- C3: for every EAPOL packet and `length >= 4`, `eapol_body_valid` is false
whenever `length - 4` is smaller than the big-endian body length of the header,
whatever the packet type; for the types Start (1), Logoff (2) and
EncapsulatedASFAlert (4) it is true exactly when `length - 4 >= body_length`.
In particular a Start frame with body length 0 and EtherType 0x888E is
dispatched by `EAPOLSocketSourceReceive` to the callback registered on the main
endpoint. -/
theorem eapol_body_valid_length_rule (V : List Byte → Nat → Bool)
    (eapol_p : List Byte) (length : Nat) (h4 : 4 ≤ length) (hu : length < UINT_MOD) :
    (length - 4 < EAPOLPacketGetLength eapol_p →
      eapol_body_valid V eapol_p length = false) ∧
    (EAPOLPacket_packet_type eapol_p = kEAPOLPacketTypeStart
        ∨ EAPOLPacket_packet_type eapol_p = kEAPOLPacketTypeLogoff
        ∨ EAPOLPacket_packet_type eapol_p = kEAPOLPacketTypeEncapsulatedASFAlert →
      (eapol_body_valid V eapol_p length = true
        ↔ EAPOLPacketGetLength eapol_p ≤ length - 4)) ∧
    (∀ (g : Globals) (w : Wireless) (source : EAPOLSocketSource) (n : Int)
        (buf : List Byte) (m : EAPOLSocket) (f : Nat),
      18 ≤ n → ether_type_of buf = 0x888E →
      EAPOLPacket_packet_type (buf.drop 14) = kEAPOLPacketTypeStart →
      EAPOLPacketGetLength (buf.drop 14) = 0 →
      source.sock = some m → m.func = some f →
      eapol_body_valid V (buf.drop 14) (n.toNat - 14) = true ∧
      callbacks (EAPOLSocketSourceReceive g w V source n buf).2
        = [Event.receive_callback f m.arg1 m.arg2
            { eapol_p := some (buf.drop 14), length := n.toNat - 14 }]) := by
  refine ⟨?_, ?_, ?_⟩
  · intro hl
    rw [eapol_body_valid_eq V _ _ h4 hu]
    simp [hl]
  · intro hty
    rw [eapol_body_valid_eq V _ _ h4 hu]
    have h0 : EAPOLPacket_packet_type eapol_p ≠ kEAPOLPacketTypeEAPPacket := by
      simp only [kEAPOLPacketTypeStart, kEAPOLPacketTypeLogoff,
        kEAPOLPacketTypeEncapsulatedASFAlert, kEAPOLPacketTypeEAPPacket] at *
      omega
    have h3 : EAPOLPacket_packet_type eapol_p ≠ kEAPOLPacketTypeKey := by
      simp only [kEAPOLPacketTypeStart, kEAPOLPacketTypeLogoff,
        kEAPOLPacketTypeEncapsulatedASFAlert, kEAPOLPacketTypeKey] at *
      omega
    simp only [h0, h3, if_false]
    by_cases hl : length - 4 < EAPOLPacketGetLength eapol_p
    · simp [hl]
    · simp [hl]; omega
  · intro g w source n buf m f hn18 hty hst hzero hm hf
    have hb : eapol_body_valid V (buf.drop 14) (n.toNat - 14) = true := by
      unfold eapol_body_valid
      simp [hzero, hst, kEAPOLPacketTypeStart, kEAPOLPacketTypeEAPPacket,
        kEAPOLPacketTypeKey]
    refine ⟨hb, ?_⟩
    have hpos : 0 < n := by omega
    have he : ether_header_valid buf n.toNat = true :=
      (ether_header_valid_iff _ _).mpr (by omega)
    have hh : eapol_header_valid (buf.drop 14) (n.toNat - 14) = true :=
      (eapol_header_valid_iff _ _).mpr (by omega)
    rw [receive_of_valid g w V source n buf hpos he (Or.inl hty) hh hb]
    simp [hty, EAPOL_802_1_X_ETHERTYPE, hm, dispatch, hf, sizeof_ether_header]

/-- Worked instance of C3: the 18-octet Start frame with body length 0 is valid
and reaches callback 7 of the main endpoint of the wired source. -/
theorem eapol_body_valid_length_rule_witness :
    eapol_body_valid accept_all (frame_start.drop 14) 4 = true ∧
    callbacks (EAPOLSocketSourceReceive default_globals not_associated accept_all
        wired_source 18 frame_start).2
      = [Event.receive_callback 7 1 2 { eapol_p := some [1, 1, 0, 0], length := 4 }] :=
  (eapol_body_valid_length_rule accept_all (frame_start.drop 14) 4 (by decide)
      (by decide)).2.2 default_globals not_associated wired_source 18 frame_start
    main_sock 7 (by decide) (by decide) (by decide) (by decide) rfl rfl

/-- C5: for a Key (type 3) packet whose body is empty (body length 0) or whose
descriptor type octet is neither 1 (RC4) nor 2 (IEEE 802.11),
`eapol_key_descriptor_valid` is false, hence `eapol_body_valid` is false for
every length, and `EAPOLSocketSourceReceive` drops a frame carrying it without
invoking any callback. -/
theorem key_without_known_descriptor_is_dropped (V : List Byte → Nat → Bool)
    (eapol_p : List Byte)
    (hty : EAPOLPacket_packet_type eapol_p = kEAPOLPacketTypeKey)
    (hd : EAPOLPacketGetLength eapol_p = 0
      ∨ (descriptor_type (EAPOLPacket_body eapol_p) ≠ kEAPOLKeyDescriptorTypeRC4
        ∧ descriptor_type (EAPOLPacket_body eapol_p) ≠ kEAPOLKeyDescriptorTypeIEEE80211)) :
    eapol_key_descriptor_valid (EAPOLPacket_body eapol_p)
      (EAPOLPacketGetLength eapol_p) = false ∧
    (∀ length : Nat, eapol_body_valid V eapol_p length = false) ∧
    (∀ (g : Globals) (w : Wireless) (source : EAPOLSocketSource) (n : Int)
        (buf : List Byte), buf.drop 14 = eapol_p →
      EAPOLSocketSourceReceive g w V source n buf = (source, [])
      ∧ callbacks (EAPOLSocketSourceReceive g w V source n buf).2 = []) := by
  have hk : eapol_key_descriptor_valid (EAPOLPacket_body eapol_p)
      (EAPOLPacketGetLength eapol_p) = false := by
    unfold eapol_key_descriptor_valid
    rcases hd with h0 | ⟨h1, h2⟩
    · simp [h0]
    · simp [h1, h2]
  have hb : ∀ length : Nat, eapol_body_valid V eapol_p length = false := by
    intro length
    unfold eapol_body_valid
    have h0 : kEAPOLPacketTypeKey ≠ kEAPOLPacketTypeEAPPacket := by decide
    simp only [hty, h0, if_false, if_true, hk]
    split <;> rfl
  refine ⟨hk, hb, ?_⟩
  intro g w source n buf hbuf
  have hr : EAPOLSocketSourceReceive g w V source n buf = (source, []) := by
    apply receive_of_invalid
    rintro ⟨_, _, _, _, hv⟩
    rw [show List.drop sizeof_ether_header buf = eapol_p from hbuf, hb] at hv
    exact absurd hv (by decide)
  exact ⟨hr, by rw [hr]; rfl⟩

/-- Worked instance of C5: the Key frame with an empty body is dropped by the
wired source although its main endpoint has a callback registered. -/
theorem key_without_known_descriptor_is_dropped_witness :
    EAPOLPacket_packet_type (frame_key_empty.drop 14) = kEAPOLPacketTypeKey ∧
    EAPOLPacketGetLength (frame_key_empty.drop 14) = 0 ∧
    callbacks (EAPOLSocketSourceReceive default_globals not_associated accept_all
        wired_source 18 frame_key_empty).2 = [] :=
  ⟨by decide, by decide,
   ((key_without_known_descriptor_is_dropped accept_all (frame_key_empty.drop 14)
      (by decide) (Or.inl (by decide))).2.2 default_globals not_associated wired_source 18
      frame_key_empty rfl).2⟩

/-- C6: for every EAPOL packet and lengths `L <= L'` with `L >= 4 + body_length`,
`eapol_body_valid` returns the same boolean for `L` and for `L'` (same external
EAP validator), and `EAPOLSocketSourceReceive` invokes the same callbacks with
the same arguments whether `14 + L` or `14 + L'` octets of the frame were
received: octets that follow the declared body change neither validity nor
dispatch. -/
theorem trailing_octets_do_not_change_validity (V : List Byte → Nat → Bool)
    (eapol_p : List Byte) (L L' : Nat) (hle : L ≤ L')
    (hL : 4 + EAPOLPacketGetLength eapol_p ≤ L) (hu : L' < UINT_MOD) :
    eapol_body_valid V eapol_p L = eapol_body_valid V eapol_p L' ∧
    (∀ (g : Globals) (w : Wireless) (source : EAPOLSocketSource) (buf : List Byte),
      buf.drop 14 = eapol_p →
      ∀ f a1 a2 : Nat,
        (∃ rx, Event.receive_callback f a1 a2 rx
          ∈ (EAPOLSocketSourceReceive g w V source ((14 + L : Nat) : Int) buf).2)
        ↔ (∃ rx, Event.receive_callback f a1 a2 rx
          ∈ (EAPOLSocketSourceReceive g w V source ((14 + L' : Nat) : Int) buf).2)) := by
  have hveq : ∀ K : Nat, L ≤ K → K < UINT_MOD →
      eapol_body_valid V eapol_p K = eapol_body_valid V eapol_p L := by
    intro K hK hKu
    rw [eapol_body_valid_eq V eapol_p K (by omega) hKu,
      eapol_body_valid_eq V eapol_p L (by omega) (by omega)]
    have h1 : ¬ (K - 4 < EAPOLPacketGetLength eapol_p) := by omega
    have h2 : ¬ (L - 4 < EAPOLPacketGetLength eapol_p) := by omega
    simp only [h1, h2, if_false]
  refine ⟨(hveq L' hle hu).symm, ?_⟩
  intro g w source buf hbuf f a1 a2
  -- what a reception of `14 + K` octets invokes, for any `K` in range
  have hrecv : ∀ K : Nat, L ≤ K → K < UINT_MOD →
      ((∃ rx, Event.receive_callback f a1 a2 rx
          ∈ (EAPOLSocketSourceReceive g w V source ((14 + K : Nat) : Int) buf).2)
        ↔ ((ether_type_of buf = EAPOL_802_1_X_ETHERTYPE
              ∨ ether_type_of buf = IEEE80211_PREAUTH_ETHERTYPE)
            ∧ eapol_body_valid V eapol_p L = true)
          ∧ ∃ s, (if ether_type_of buf = EAPOL_802_1_X_ETHERTYPE then source.sock
                  else source.preauth_sockets.find?
                    (fun e => decide (e.bssid = ether_shost buf))) = some s
              ∧ s.func = some f ∧ s.arg1 = a1 ∧ s.arg2 = a2) := by
    intro K hK hKu
    have hpos : (0 : Int) < ((14 + K : Nat) : Int) := by omega
    have htn : ((14 + K : Nat) : Int).toNat = 14 + K := Int.toNat_ofNat _
    have he : ether_header_valid buf ((14 + K : Nat) : Int).toNat = true := by
      rw [htn]; exact (ether_header_valid_iff _ _).mpr (by omega)
    have hlen : ((14 + K : Nat) : Int).toNat - sizeof_ether_header = K := by
      rw [htn]; simp [sizeof_ether_header]
    have hh : eapol_header_valid (buf.drop sizeof_ether_header)
        (((14 + K : Nat) : Int).toNat - sizeof_ether_header) = true := by
      rw [hlen]; exact (eapol_header_valid_iff _ _).mpr (by omega)
    by_cases hv : (ether_type_of buf = EAPOL_802_1_X_ETHERTYPE
          ∨ ether_type_of buf = IEEE80211_PREAUTH_ETHERTYPE)
        ∧ eapol_body_valid V eapol_p L = true
    · have hb : eapol_body_valid V (buf.drop sizeof_ether_header)
          (((14 + K : Nat) : Int).toNat - sizeof_ether_header) = true := by
        rw [hlen, show List.drop sizeof_ether_header buf = eapol_p from hbuf,
          hveq K hK hKu]
        exact hv.2
      have hcb := receive_of_valid g w V source _ buf hpos he hv.1 hh hb
      constructor
      · rintro ⟨rx, hrx⟩
        rw [callback_mem_iff, hcb] at hrx
        exact ⟨hv, (dispatch_mem_iff f a1 a2 _ _).mp ⟨rx, hrx⟩⟩
      · rintro ⟨_, hs⟩
        obtain ⟨rx, hrx⟩ := (dispatch_mem_iff f a1 a2 _
          { eapol_p := some (buf.drop sizeof_ether_header),
            length := ((14 + K : Nat) : Int).toNat - sizeof_ether_header }).mpr hs
        refine ⟨rx, ?_⟩
        rw [callback_mem_iff, hcb]
        exact hrx
    · have hr : EAPOLSocketSourceReceive g w V source ((14 + K : Nat) : Int) buf
          = (source, []) := by
        apply receive_of_invalid
        rintro ⟨_, _, ht, _, hb⟩
        rw [hlen, show List.drop sizeof_ether_header buf = eapol_p from hbuf,
          hveq K hK hKu] at hb
        exact hv ⟨ht, hb⟩
      rw [hr]
      constructor
      · rintro ⟨rx, hrx⟩
        simp at hrx
      · rintro ⟨h, _⟩
        exact absurd h hv
  rw [hrecv L (le_refl L) (by omega), hrecv L' hle hu]

/-- Worked instance of C6: the Start frame with six padding octets is as valid
with all 10 octets after the Ethernet header as with the first 4. -/
theorem trailing_octets_do_not_change_validity_witness :
    eapol_body_valid accept_all (frame_start_padded.drop 14) 4 = true ∧
    eapol_body_valid accept_all (frame_start_padded.drop 14) 4
      = eapol_body_valid accept_all (frame_start_padded.drop 14) 10 :=
  ⟨by decide,
   (trailing_octets_do_not_change_validity accept_all (frame_start_padded.drop 14) 4 10
      (by decide) (by decide) (by decide)).1⟩

/-- C10: for the main endpoint of a non-wireless source with local MAC `m`,
every packet type octet `t` and body `b` of length `n <= 1582`,
`EAPOLSocketSourceTransmit` passes to `sendto` exactly the `18 + n` octets
`01:80:C2:00:00:03 ++ m ++ 88 8E ++ 01 ++ t ++ (n big-endian) ++ b` and leaves
the source unchanged; for Start without a body these are the destination, `m`,
`88 8E`, `01 01 00 00`; with a NULL body the length field is 0 and the frame has
18 octets whatever `body_length` was passed. -/
theorem transmit_wired_main_frame (g : Globals) (w : Wireless) (sent : Int)
    (source : EAPOLSocketSource) (main : EAPOLSocket) (t : Byte) (b : List Byte)
    (hw : source.is_wireless = false) (hm : source.sock = some main)
    (hn : b.length ≤ 1582) :
    EAPOLSocketSourceTransmit g w sent source EAPOLSocketRef.main t.val (some b) b.length
      = some (if sent < ((18 + b.length : Nat) : Int) then -1 else 0, source,
          [Event.sendto
            (([0x01, 0x80, 0xc2, 0x00, 0x00, 0x03] : List Byte) ++ source.ether.octets
              ++ [0x88, 0x8e] ++ [0x01, t, toByte (b.length / 256), toByte b.length]
              ++ b)]) ∧
    (([0x01, 0x80, 0xc2, 0x00, 0x00, 0x03] : List Byte) ++ source.ether.octets
      ++ [0x88, 0x8e] ++ [0x01, t, toByte (b.length / 256), toByte b.length]
      ++ b).length = 18 + b.length ∧
    (toByte (b.length / 256)).val * 256 + (toByte b.length).val = b.length ∧
    (∀ body_length : Nat,
      EAPOLSocketSourceTransmit g w sent source EAPOLSocketRef.main t.val none body_length
        = some (if sent < 18 then -1 else 0, source,
            [Event.sendto
              (([0x01, 0x80, 0xc2, 0x00, 0x00, 0x03] : List Byte) ++ source.ether.octets
                ++ [0x88, 0x8e] ++ [0x01, t, 0x00, 0x00])])) ∧
    (∀ body_length : Nat,
      EAPOLSocketSourceTransmit g w sent source EAPOLSocketRef.main
          kEAPOLPacketTypeStart none body_length
        = some (if sent < 18 then -1 else 0, source,
            [Event.sendto
              (([0x01, 0x80, 0xc2, 0x00, 0x00, 0x03] : List Byte) ++ source.ether.octets
                ++ [0x88, 0x8e] ++ [0x01, 0x01, 0x00, 0x00])])) := by
  refine ⟨?_, ?_, ?_, ?_, ?_⟩
  · have hsz : ¬ (sizeof_ether_header + sizeof_EAPOLPacket + b.length > 1600) := by
      simp only [sizeof_ether_header, sizeof_EAPOLPacket]; omega
    have hcast : ((sizeof_ether_header + sizeof_EAPOLPacket + b.length : Nat) : Int)
        = ((18 + b.length : Nat) : Int) := by
      simp only [sizeof_ether_header, sizeof_EAPOLPacket]
    simp only [EAPOLSocketSourceTransmit, EAPOLSocketRef.deref, hm, Option.isSome_some,
      if_true, hsz, if_false, hw, Bool.false_eq_true, readBytes_self, hcast,
      eapol_header_bytes, toByte_val, htons_bytes]
    rfl
  · simp [ether_addr.octets]; omega
  · simp only [toByte]
    have h1 : b.length / 256 % 256 = b.length / 256 := Nat.mod_eq_of_lt (by omega)
    rw [h1]
    omega
  · intro body_length
    simp only [EAPOLSocketSourceTransmit, EAPOLSocketRef.deref, hm, Option.isSome_none,
      Bool.false_eq_true, if_false, hw, eapol_header_bytes, toByte_val, htons_bytes]
    rfl
  · intro body_length
    simp only [EAPOLSocketSourceTransmit, EAPOLSocketRef.deref, hm, Option.isSome_none,
      Bool.false_eq_true, if_false, hw, eapol_header_bytes, htons_bytes]
    rfl

/-- Worked instance of C10: Start with no body on the wired source puts the 18
octets `01 80 C2 00 00 03 | 00 11 22 33 44 55 | 88 8E | 01 01 00 00` on the
link socket and returns 0 when all 18 are sent. -/
theorem transmit_wired_main_frame_witness :
    EAPOLSocketSourceTransmit default_globals not_associated 18 wired_source
        EAPOLSocketRef.main 1 none 0
      = some (0, wired_source,
          [Event.sendto [0x01, 0x80, 0xc2, 0x00, 0x00, 0x03,
                         0x00, 0x11, 0x22, 0x33, 0x44, 0x55,
                         0x88, 0x8e, 0x01, 0x01, 0x00, 0x00]]) :=
  ((transmit_wired_main_frame default_globals not_associated 18 wired_source main_sock 1 []
      rfl rfl (by decide)).2.2.2.2 0).trans (by decide)

/-! ## The transmit path -/

theorem update_wireless_ether (g : Globals) (w : Wireless) (s : EAPOLSocketSource) :
    (EAPOLSocketSourceUpdateWirelessInfo g w s).2.1.ether = s.ether := by
  unfold EAPOLSocketSourceUpdateWirelessInfo
  split
  · rfl
  · cases w.ap_mac with
    | none =>
      simp only [EAPOLSocketSourceUnscheduleHandshakeNotification,
        EAPOLSocketSourceReleaseHandshakeNotification]
      cases s.interest <;> rfl
    | some a =>
      simp only
      split
      · split
        · simp only [EAPOLSocketSourceRemoveSocketWithBSSID,
            EAPOLSocketSourceLookupPreauthSocket]
          cases lookupIdx a s.preauth_sockets <;> rfl
        · rfl
      · rfl

theorem unschedule_refresh_calls (s : EAPOLSocketSource) :
    (EAPOLSocketSourceUnscheduleHandshakeNotification s).2.all Event.isRefreshCall = true := by
  unfold EAPOLSocketSourceUnscheduleHandshakeNotification
    EAPOLSocketSourceReleaseHandshakeNotification
  cases s.interest <;> rfl

theorem schedule_scan_refresh_calls (d : Int) :
    (EAPOLSocketSourceScheduleScan d).all Event.isRefreshCall = true := by
  unfold EAPOLSocketSourceScheduleScan
  split <;> rfl

theorem remove_with_bssid_refresh_calls (s : EAPOLSocketSource) (b : ether_addr) :
    (EAPOLSocketSourceRemoveSocketWithBSSID s b).2.all Event.isRefreshCall = true := by
  unfold EAPOLSocketSourceRemoveSocketWithBSSID EAPOLSocketSourceLookupPreauthSocket
  cases lookupIdx b s.preauth_sockets <;> rfl

theorem update_wireless_refresh_calls (g : Globals) (w : Wireless) (s : EAPOLSocketSource) :
    (EAPOLSocketSourceUpdateWirelessInfo g w s).2.2.all Event.isRefreshCall = true := by
  have hc : EAPOLSocketSourceCancelScan.all Event.isRefreshCall = true := rfl
  have hn : ([] : List Event).all Event.isRefreshCall = true := rfl
  unfold EAPOLSocketSourceUpdateWirelessInfo
  split
  · rfl
  · cases w.ap_mac with
    | none =>
      simp only [List.all_append, unschedule_refresh_calls, Bool.true_and]
      rfl
    | some a =>
      simp only
      split
      · split
        · simp only [List.all_append, remove_with_bssid_refresh_calls, Bool.true_and]
          split <;> split <;>
            simp only [schedule_scan_refresh_calls, hc, hn, Bool.and_self]
        · simp only [List.all_append, hn, Bool.true_and]
          split <;> simp only [hc, hn]
      · simp only [List.all_append, hn, Bool.true_and]
        split <;> simp only [hc, hn]

theorem update_wireless_no_sendto (g : Globals) (w : Wireless) (s : EAPOLSocketSource)
    (frame : List Byte) :
    Event.sendto frame ∉ (EAPOLSocketSourceUpdateWirelessInfo g w s).2.2 := by
  intro h
  have := List.all_eq_true.mp (update_wireless_refresh_calls g w s) _ h
  simp [Event.isRefreshCall] at this

theorem octets_length (a : ether_addr) : a.octets.length = 6 := rfl

theorem frame_source_mac (d m : ether_addr) (rest : List Byte) :
    ((d.octets ++ m.octets ++ rest).drop 6).take 6 = m.octets := by
  simp [ether_addr.octets]

/-- C11: in every frame `EAPOLSocketSourceTransmit` builds the source MAC is the
source's own `ether`; for a pre-auth endpoint the destination is that
endpoint's BSSID and the EtherType is 0x88C7, the source is left unchanged (no
refresh) and neither the value returned nor the frame depends on the source's
`bssid` / `bssid_valid`; for the main endpoint of a wireless source whose BSSID
is known the destination is `source->bssid` and the EtherType is 0x888E. -/
theorem transmit_addressing (g : Globals) (w : Wireless) (sent : Int)
    (source : EAPOLSocketSource) (sock : EAPOLSocketRef) (t : Nat)
    (body : Option (List Byte)) (body_length : Nat)
    (hfit : 18 + (if body.isSome then body_length else 0) ≤ 1600) :
    (∀ ret s' evs frame,
      EAPOLSocketSourceTransmit g w sent source sock t body body_length = some (ret, s', evs) →
      Event.sendto frame ∈ evs →
      (frame.drop 6).take 6 = source.ether.octets) ∧
    (∀ i e, sock = EAPOLSocketRef.preauth i → source.preauth_sockets[i]? = some e →
      (∃ ret rest,
        EAPOLSocketSourceTransmit g w sent source sock t body body_length
          = some (ret, source,
              [Event.sendto (e.bssid.octets ++ source.ether.octets ++ [0x88, 0xc7] ++ rest)]))
      ∧ ∀ (b : ether_addr) (v : Bool),
        (EAPOLSocketSourceTransmit g w sent { source with bssid := b, bssid_valid := v }
            sock t body body_length).map (fun r => (r.1, r.2.2))
          = (EAPOLSocketSourceTransmit g w sent source sock t body body_length).map
              (fun r => (r.1, r.2.2))) ∧
    (∀ m, sock = EAPOLSocketRef.main → source.sock = some m →
      source.is_wireless = true → source.bssid_valid = true →
      ∃ ret rest,
        EAPOLSocketSourceTransmit g w sent source sock t body body_length
          = some (ret, source,
              [Event.sendto
                (source.bssid.octets ++ source.ether.octets ++ [0x88, 0x8e] ++ rest)])) := by
  have hsz : ¬ (sizeof_ether_header + sizeof_EAPOLPacket
      + (if body.isSome then body_length else 0) > 1600) := by
    simp only [sizeof_ether_header, sizeof_EAPOLPacket]; omega
  have h88c7 : htons_bytes IEEE80211_PREAUTH_ETHERTYPE = [0x88, 0xc7] := by decide
  have h888e : htons_bytes EAPOL_802_1_X_ETHERTYPE = [0x88, 0x8e] := by decide
  refine ⟨?_, ?_, ?_⟩
  · intro ret s' evs frame hT hmem
    unfold EAPOLSocketSourceTransmit at hT
    cases hd : sock.deref source with
    | none => simp [hd] at hT
    | some obj =>
      simp only [hd, hsz, if_false] at hT
      by_cases hmain : sock = EAPOLSocketRef.main
      · simp only [hmain, if_true] at hT
        by_cases hwl : source.is_wireless = true
        · simp only [hwl, if_true] at hT
          by_cases hbv : source.bssid_valid = false
          · simp only [hbv, if_true] at hT
            by_cases hbv2 : (EAPOLSocketSourceUpdateWirelessInfo g w source).2.1.bssid_valid
                = false
            · simp only [hbv2, if_true, Option.some.injEq, Prod.mk.injEq] at hT
              obtain ⟨_, _, rfl⟩ := hT
              exact absurd hmem (update_wireless_no_sendto g w source frame)
            · simp only [hbv2, if_false, Option.some.injEq, Prod.mk.injEq] at hT
              obtain ⟨_, _, rfl⟩ := hT
              rw [List.mem_append] at hmem
              rcases hmem with hmem | hmem
              · exact absurd hmem (update_wireless_no_sendto g w source frame)
              · simp only [List.mem_singleton, Event.sendto.injEq] at hmem
                rw [hmem, update_wireless_ether]
                simp only [List.append_assoc]
                rw [← List.append_assoc]
                exact frame_source_mac _ _ _
          · simp only [hbv, if_false, Option.some.injEq, Prod.mk.injEq, List.nil_append] at hT
            obtain ⟨_, _, rfl⟩ := hT
            simp only [List.mem_singleton, Event.sendto.injEq] at hmem
            rw [hmem]
            simp only [List.append_assoc]
            rw [← List.append_assoc]
            exact frame_source_mac _ _ _
        · simp only [hwl, if_false, Option.some.injEq, Prod.mk.injEq, List.nil_append] at hT
          obtain ⟨_, _, rfl⟩ := hT
          simp only [List.mem_singleton, Event.sendto.injEq] at hmem
          rw [hmem]
          simp only [List.append_assoc]
          rw [← List.append_assoc]
          exact frame_source_mac _ _ _
      · simp only [hmain, if_false, Option.some.injEq, Prod.mk.injEq, List.nil_append] at hT
        obtain ⟨_, _, rfl⟩ := hT
        simp only [List.mem_singleton, Event.sendto.injEq] at hmem
        rw [hmem]
        simp only [List.append_assoc]
        rw [← List.append_assoc]
        exact frame_source_mac _ _ _
  · intro i e hs he
    subst hs
    have hne : EAPOLSocketRef.preauth i ≠ EAPOLSocketRef.main := by intro h; cases h
    constructor
    · refine ⟨if sent < ((sizeof_ether_header + sizeof_EAPOLPacket
            + (if body.isSome then body_length else 0) : Nat) : Int) then -1 else 0,
          eapol_header_bytes t (if body.isSome then body_length else 0)
            ++ (match body with
                | none => []
                | some b => readBytes b (if body.isSome then body_length else 0)), ?_⟩
      simp only [EAPOLSocketSourceTransmit, EAPOLSocketRef.deref, he, hsz, if_false, hne,
        h88c7, List.nil_append, List.append_assoc]
      cases body <;> rfl
    · intro b v
      simp only [EAPOLSocketSourceTransmit, EAPOLSocketRef.deref, he, hsz, if_false, hne,
        List.nil_append, Option.map]
  · intro m hs hm hwl hbv
    subst hs
    refine ⟨if sent < ((sizeof_ether_header + sizeof_EAPOLPacket
          + (if body.isSome then body_length else 0) : Nat) : Int) then -1 else 0,
        eapol_header_bytes t (if body.isSome then body_length else 0)
          ++ (match body with
              | none => []
              | some b => readBytes b (if body.isSome then body_length else 0)), ?_⟩
    simp only [EAPOLSocketSourceTransmit, EAPOLSocketRef.deref, hm, hsz, if_false, if_true,
      hwl, hbv, h888e, List.nil_append, List.append_assoc, Bool.true_eq_false]
    cases body <;> rfl

/-- Worked instance of C11: a Start sent through the pre-auth endpoint of the
wireless source (associated to `bssid_B`) goes to `bssid_A` with EtherType
88 C7 and source MAC 00:11:22:33:44:55. -/
theorem transmit_addressing_witness :
    EAPOLSocketSourceTransmit default_globals not_associated 18 wireless_source
        (EAPOLSocketRef.preauth 0) 1 none 0
      = some (0, wireless_source,
          [Event.sendto [0x02, 0x00, 0x00, 0x00, 0x00, 0x0a,
                         0x00, 0x11, 0x22, 0x33, 0x44, 0x55,
                         0x88, 0xc7, 0x01, 0x01, 0x00, 0x00]]) ∧
    (([0x02, 0x00, 0x00, 0x00, 0x00, 0x0a, 0x00, 0x11, 0x22, 0x33, 0x44, 0x55,
       0x88, 0xc7, 0x01, 0x01, 0x00, 0x00] : List Byte).drop 6).take 6
      = wireless_source.ether.octets :=
  ⟨by decide,
   (transmit_addressing default_globals not_associated 18 wireless_source
      (EAPOLSocketRef.preauth 0) 1 none 0 (by decide)).1 0 wireless_source _ _
      (by decide) (List.mem_singleton.mpr rfl)⟩

theorem update_wireless_associated (g : Globals) (w : Wireless) (s : EAPOLSocketSource)
    (X : ether_addr) (hwl : s.is_wireless = true) (hX : w.ap_mac = some X) :
    (EAPOLSocketSourceUpdateWirelessInfo g w s).2.1.bssid_valid = true
      ∧ (EAPOLSocketSourceUpdateWirelessInfo g w s).2.1.bssid = X := by
  unfold EAPOLSocketSourceUpdateWirelessInfo
  simp [hwl, hX]

theorem update_wireless_not_associated (g : Globals) (w : Wireless) (s : EAPOLSocketSource)
    (hwl : s.is_wireless = true) (hX : w.ap_mac = none) :
    (EAPOLSocketSourceUpdateWirelessInfo g w s).2.1.bssid_valid = false := by
  unfold EAPOLSocketSourceUpdateWirelessInfo
  simp only [hwl, hX, Bool.true_eq_false, if_false,
    EAPOLSocketSourceUnscheduleHandshakeNotification,
    EAPOLSocketSourceReleaseHandshakeNotification]
  cases s.interest <;> rfl

/-- C12: for the main endpoint of a wireless source whose BSSID is unknown,
`EAPOLSocketSourceTransmit` performs one wireless refresh (its state and calls
are those of a single `EAPOLSocketSourceUpdateWirelessInfo`, which never calls
`sendto`); if the BSSID is still unknown afterwards (the adapter reports no AP
MAC) it returns -1 and nothing is passed to `sendto`; if the refresh reports
AP MAC `X` the frame goes out with destination `X` and EtherType 0x888E. -/
theorem transmit_refreshes_unknown_bssid (g : Globals) (w : Wireless) (sent : Int)
    (source : EAPOLSocketSource) (m : EAPOLSocket) (t : Nat)
    (body : Option (List Byte)) (body_length : Nat)
    (hm : source.sock = some m) (hwl : source.is_wireless = true)
    (hbv : source.bssid_valid = false)
    (hfit : 18 + (if body.isSome then body_length else 0) ≤ 1600) :
    (∀ frame, Event.sendto frame ∉ (EAPOLSocketSourceUpdateWirelessInfo g w source).2.2) ∧
    ((EAPOLSocketSourceUpdateWirelessInfo g w source).2.1.bssid_valid = false →
      EAPOLSocketSourceTransmit g w sent source EAPOLSocketRef.main t body body_length
        = some (-1, (EAPOLSocketSourceUpdateWirelessInfo g w source).2.1,
            (EAPOLSocketSourceUpdateWirelessInfo g w source).2.2)) ∧
    (w.ap_mac = none →
      (EAPOLSocketSourceUpdateWirelessInfo g w source).2.1.bssid_valid = false) ∧
    (∀ X, w.ap_mac = some X →
      ∃ ret rest,
        EAPOLSocketSourceTransmit g w sent source EAPOLSocketRef.main t body body_length
          = some (ret, (EAPOLSocketSourceUpdateWirelessInfo g w source).2.1,
              (EAPOLSocketSourceUpdateWirelessInfo g w source).2.2
                ++ [Event.sendto (X.octets ++ source.ether.octets ++ [0x88, 0x8e] ++ rest)])) := by
  have hsz : ¬ (sizeof_ether_header + sizeof_EAPOLPacket
      + (if body.isSome then body_length else 0) > 1600) := by
    simp only [sizeof_ether_header, sizeof_EAPOLPacket]; omega
  have h888e : htons_bytes EAPOL_802_1_X_ETHERTYPE = [0x88, 0x8e] := by decide
  refine ⟨update_wireless_no_sendto g w source, ?_, update_wireless_not_associated g w source hwl,
    ?_⟩
  · intro hstill
    simp only [EAPOLSocketSourceTransmit, EAPOLSocketRef.deref, hm, hsz, if_false, if_true,
      hwl, hbv, hstill]
  · intro X hX
    obtain ⟨hv, hb⟩ := update_wireless_associated g w source X hwl hX
    refine ⟨if sent < ((sizeof_ether_header + sizeof_EAPOLPacket
          + (if body.isSome then body_length else 0) : Nat) : Int) then -1 else 0,
        eapol_header_bytes t (if body.isSome then body_length else 0)
          ++ (match body with
              | none => []
              | some b => readBytes b (if body.isSome then body_length else 0)), ?_⟩
    simp only [EAPOLSocketSourceTransmit, EAPOLSocketRef.deref, hm, hsz, if_false, if_true,
      hwl, hbv, hv, hb, h888e, update_wireless_ether, List.append_assoc, Bool.true_eq_false]
    cases body <;> rfl

/-- Worked instance of C12: with no association the Start is not sent and -1 is
returned; once the adapter reports `bssid_B` the same call sends the frame to
`bssid_B`. -/
theorem transmit_refreshes_unknown_bssid_witness :
    EAPOLSocketSourceTransmit default_globals not_associated 18 wireless_source_unassociated
        EAPOLSocketRef.main 1 none 0
      = some (-1, { wireless_source_unassociated with is_wpa_enterprise := false },
          [Event.Timer_cancel, Event.wireless_scan_cancel]) ∧
    (EAPOLSocketSourceTransmit default_globals associated_B 18 wireless_source_unassociated
        EAPOLSocketRef.main 1 none 0).map (fun r => (r.1, r.2.2))
      = some (0,
          [Event.sendto [0x02, 0x00, 0x00, 0x00, 0x00, 0x0b,
                         0x00, 0x11, 0x22, 0x33, 0x44, 0x55,
                         0x88, 0x8e, 0x01, 0x01, 0x00, 0x00]]) :=
  ⟨((transmit_refreshes_unknown_bssid default_globals not_associated 18
      wireless_source_unassociated main_sock 1 none 0 rfl rfl rfl (by decide)).2.1
      (by decide)).trans (by decide),
   by decide⟩

/-! ## Re-framing a received packet -/

theorem toByte_of_lt (x : Nat) (h : x < 256) : (toByte x).val = x := by
  simp [toByte, Nat.mod_eq_of_lt h]

/-- C13 as stated fails: the 4-octet Start packet with protocol version 2 is
accepted by `eapol_packet_valid` with length exactly `4 + body_length`, but
re-framing its type and body with the framing of `EAPOLSocketSourceTransmit`
yields `01 01 00 00`, not the packet. -/
theorem reframing_rewrites_the_version :
    eapol_packet_valid accept_all start_packet_v2 4 = true ∧
    start_packet_v2.length = 4 + EAPOLPacketGetLength start_packet_v2 ∧
    eapol_header_bytes (EAPOLPacket_packet_type start_packet_v2)
        (EAPOLPacketGetLength start_packet_v2)
      ++ readBytes (EAPOLPacket_body start_packet_v2) (EAPOLPacketGetLength start_packet_v2)
      = [1, 1, 0, 0] ∧
    (EAPOLSocketSourceTransmit default_globals not_associated 18 wired_source
        EAPOLSocketRef.main (EAPOLPacket_packet_type start_packet_v2)
        (some (EAPOLPacket_body start_packet_v2)) (EAPOLPacketGetLength start_packet_v2)).map
        (fun r => r.2.2.map (fun e => match e with
          | Event.sendto frame => frame.drop 14
          | _ => []))
      = some [[1, 1, 0, 0]] ∧
    ([1, 1, 0, 0] : List Byte) ≠ start_packet_v2 := by
  decide

/-- C13 amended: for every EAPOL packet `f` accepted by `eapol_packet_valid` with
length exactly `4 + body_length`, re-framing its packet type and body with the
EAPOL framing of `EAPOLSocketSourceTransmit` reproduces `f` from its second
octet on and puts protocol version 0x01 in the first octet; hence the result
equals `f` exactly when `f` carries protocol version 0x01.  The frame the wired
main endpoint sends for that type and body is a 14-octet Ethernet header
followed by these octets. -/
theorem reframing_reproduces_packet (V : List Byte → Nat → Bool) (f : List Byte)
    (hlen : f.length = 4 + EAPOLPacketGetLength f)
    (hvalid : eapol_packet_valid V f f.length = true) :
    eapol_header_bytes (EAPOLPacket_packet_type f) (EAPOLPacketGetLength f)
        ++ readBytes (EAPOLPacket_body f) (EAPOLPacketGetLength f)
      = EAPOL_802_1_X_PROTOCOL_VERSION :: f.tail ∧
    (eapol_header_bytes (EAPOLPacket_packet_type f) (EAPOLPacketGetLength f)
        ++ readBytes (EAPOLPacket_body f) (EAPOLPacketGetLength f) = f
      ↔ byteAt f 0 = EAPOL_802_1_X_PROTOCOL_VERSION) ∧
    (∀ (g : Globals) (w : Wireless) (sent : Int) (source : EAPOLSocketSource)
        (m : EAPOLSocket),
      source.sock = some m → source.is_wireless = false →
      EAPOLPacketGetLength f ≤ 1582 →
      ∃ ret hdr, hdr.length = 14 ∧
        EAPOLSocketSourceTransmit g w sent source EAPOLSocketRef.main
            (EAPOLPacket_packet_type f) (some (EAPOLPacket_body f)) (EAPOLPacketGetLength f)
          = some (ret, source,
              [Event.sendto (hdr ++ (EAPOL_802_1_X_PROTOCOL_VERSION :: f.tail))])) := by
  have _hv := hvalid
  have key : eapol_header_bytes (EAPOLPacket_packet_type f) (EAPOLPacketGetLength f)
        ++ readBytes (EAPOLPacket_body f) (EAPOLPacketGetLength f)
      = EAPOL_802_1_X_PROTOCOL_VERSION :: f.tail := by
    match f, hlen with
    | [], h => simp only [List.length] at h; omega
    | [_], h => simp only [List.length] at h; omega
    | [_, _], h => simp only [List.length] at h; omega
    | [_, _, _], h => simp only [List.length] at h; omega
    | v :: t :: hi :: lo :: body, h =>
      have hbl : EAPOLPacketGetLength (v :: t :: hi :: lo :: body) = hi.val * 256 + lo.val := by
        simp [EAPOLPacketGetLength, ntohs_at, byteAt]
      have hbody : body.length = hi.val * 256 + lo.val := by
        rw [hbl] at h
        simp only [List.length_cons] at h
        omega
      have hhi : toByte ((hi.val * 256 + lo.val) / 256) = hi := by
        apply Fin.ext
        rw [toByte_of_lt _ (by have := hi.isLt; have := lo.isLt; omega)]
        have := lo.isLt
        omega
      have hlo : toByte (hi.val * 256 + lo.val) = lo := by
        apply Fin.ext
        simp only [toByte]
        have := lo.isLt
        omega
      have ht : toByte (EAPOLPacket_packet_type (v :: t :: hi :: lo :: body)) = t := by
        simp [EAPOLPacket_packet_type, byteAt, toByte_val]
      have hb : EAPOLPacket_body (v :: t :: hi :: lo :: body) = body := by
        simp [EAPOLPacket_body, sizeof_EAPOLPacket]
      rw [hb, hbl, ← hbody, readBytes_self]
      simp only [eapol_header_bytes, htons_bytes, ht]
      rw [hbody, hhi, hlo]
      rfl
  refine ⟨key, ?_, ?_⟩
  · rw [key]
    match f, hlen with
    | [], h => simp only [List.length] at h; omega
    | v :: rest, _ =>
      simp only [List.tail_cons, List.cons.injEq, and_true, byteAt, List.getD_cons_zero]
      exact eq_comm
  · intro g w sent source m hm hw hfit
    have hsz : ¬ (sizeof_ether_header + sizeof_EAPOLPacket + EAPOLPacketGetLength f > 1600) := by
      simp only [sizeof_ether_header, sizeof_EAPOLPacket]; omega
    refine ⟨if sent < ((sizeof_ether_header + sizeof_EAPOLPacket
        + EAPOLPacketGetLength f : Nat) : Int) then -1 else 0,
      eapol_multicast.octets ++ source.ether.octets ++ htons_bytes EAPOL_802_1_X_ETHERTYPE,
      by simp [ether_addr.octets, htons_bytes], ?_⟩
    rw [← key]
    simp only [EAPOLSocketSourceTransmit, EAPOLSocketRef.deref, hm, Option.isSome_some,
      if_true, hsz, if_false, hw, Bool.false_eq_true, List.nil_append, List.append_assoc]

/-- Worked instance of the amended C13: the 104-octet Key packet with an
IEEE 802.11 descriptor and protocol version 1 is accepted and is reproduced
octet for octet. -/
theorem reframing_reproduces_packet_witness :
    eapol_packet_valid accept_all key_packet_ieee80211 104 = true ∧
    eapol_header_bytes (EAPOLPacket_packet_type key_packet_ieee80211)
        (EAPOLPacketGetLength key_packet_ieee80211)
      ++ readBytes (EAPOLPacket_body key_packet_ieee80211)
        (EAPOLPacketGetLength key_packet_ieee80211)
      = key_packet_ieee80211 :=
  ⟨by decide,
   (reframing_reproduces_packet accept_all key_packet_ieee80211 (by decide)
      (by decide)).2.1.mpr (by decide)⟩

/-! ## Status reports -/

theorem unschedule_eq (s : EAPOLSocketSource) :
    EAPOLSocketSourceUnscheduleHandshakeNotification s
      = ({ s with interest := none },
          match s.interest with
          | none => []
          | some i => [Event.InterestNotificationRelease i]) := by
  unfold EAPOLSocketSourceUnscheduleHandshakeNotification
    EAPOLSocketSourceReleaseHandshakeNotification
  cases h : s.interest with
  | none =>
    simp only
    congr
    rw [← h]
  | some i => rfl

theorem mark_loop_eq (s : EAPOLSocketSource) (k i : Nat) :
    mark_loop s k i
      = { s with
          preauth_sockets := (mark_loop s k i).preauth_sockets
          process_removals := s.process_removals || decide (0 < k) } := by
  induction k generalizing s i with
  | zero => simp [mark_loop]
  | succ k ih =>
    have h := ih (EAPOLSocketMarkForRemoval s (EAPOLSocketRef.preauth i)) (i + 1)
    have hd : mark_loop s (k + 1) i
        = mark_loop (EAPOLSocketMarkForRemoval s (EAPOLSocketRef.preauth i)) k (i + 1) := rfl
    rw [hd]
    conv_lhs => rw [h]
    simp [EAPOLSocketMarkForRemoval]

theorem mark_loop_getElem? (s : EAPOLSocketSource) (k i j : Nat) :
    (mark_loop s k i).preauth_sockets[j]?
      = (s.preauth_sockets[j]?).map
          (fun a => if i ≤ j ∧ j < i + k then flag_remove a else a) := by
  induction k generalizing s i with
  | zero =>
    have hc : ¬ (i ≤ j ∧ j < i + 0) := by omega
    simp only [mark_loop, hc, if_false]
    cases s.preauth_sockets[j]? <;> rfl
  | succ k ih =>
    have hd : mark_loop s (k + 1) i
        = mark_loop (EAPOLSocketMarkForRemoval s (EAPOLSocketRef.preauth i)) k (i + 1) := rfl
    rw [hd, ih]
    simp only [EAPOLSocketMarkForRemoval, List.getElem?_modify]
    cases s.preauth_sockets[j]? with
    | none => rfl
    | some a =>
      simp only [Option.map_some', Functor.map, Option.some.injEq]
      by_cases hij : i = j
      · subst hij
        have h1 : ¬ (i + 1 ≤ i ∧ i < i + 1 + k) := by omega
        have h2 : i ≤ i ∧ i < i + (k + 1) := by omega
        simp only [h1, h2, if_true, if_false, and_self, flag_remove]
      · by_cases hc : i + 1 ≤ j ∧ j < i + 1 + k
        · have h2 : i ≤ j ∧ j < i + (k + 1) := by omega
          simp only [hij, hc, h2, if_true, if_false, and_self]
        · have h2 : ¬ (i ≤ j ∧ j < i + (k + 1)) := by omega
          simp only [hij, hc, h2, if_false]

theorem mark_all_preauth_sockets (s : EAPOLSocketSource) :
    (EAPOLSocketSourceMarkPreauthSocketsForRemoval s).preauth_sockets
      = s.preauth_sockets.map flag_remove := by
  apply List.ext_getElem?
  intro j
  unfold EAPOLSocketSourceMarkPreauthSocketsForRemoval
  rw [mark_loop_getElem?, List.getElem?_map]
  cases h : s.preauth_sockets[j]? with
  | none => rfl
  | some a =>
    have hj : j < s.preauth_sockets.length := by
      by_contra hge
      rw [List.getElem?_eq_none (by omega)] at h
      cases h
    have hc : 0 ≤ j ∧ j < 0 + s.preauth_sockets.length := by omega
    simp only [Option.map_some', hc, and_self, if_true]

theorem mark_all_eq (s : EAPOLSocketSource) :
    EAPOLSocketSourceMarkPreauthSocketsForRemoval s
      = { s with
          preauth_sockets := s.preauth_sockets.map flag_remove
          process_removals := s.process_removals || decide (0 < s.preauth_sockets.length) } := by
  rw [← mark_all_preauth_sockets]
  exact mark_loop_eq s s.preauth_sockets.length 0

theorem schedule_scan_no_force_renew (d : Int) :
    (EAPOLSocketSourceScheduleScan d).countP Event.isForceRenew = 0 := by
  unfold EAPOLSocketSourceScheduleScan
  split <;> rfl

theorem schedule_scan_no_status_report (d : Int) :
    (EAPOLSocketSourceScheduleScan d).countP Event.isStatusReport = 0 := by
  unfold EAPOLSocketSourceScheduleScan
  split <;> rfl

theorem release_no_force_renew (o : Option Nat) :
    (match o with
      | none => ([] : List Event)
      | some i => [Event.InterestNotificationRelease i]).countP Event.isForceRenew = 0 := by
  cases o <;> rfl

theorem release_no_status_report (o : Option Nat) :
    (match o with
      | none => ([] : List Event)
      | some i => [Event.InterestNotificationRelease i]).countP Event.isStatusReport = 0 := by
  cases o <;> rfl

theorem release_no_scan_call (o : Option Nat) :
    (match o with
      | none => ([] : List Event)
      | some i => [Event.InterestNotificationRelease i]).countP Event.isScanCall = 0 := by
  cases o <;> rfl

/-- C15: with a controller client attached, a main-supplicant report in state
Authenticated while `authenticated` is false releases the handshake
subscription (if any), calls force-renew once and sets `authenticated`; when
`authenticated` is already true it calls no force-renew and leaves
`authenticated` and the subscription as they are.  After any Authenticated
report `authenticated` is true, so a repeated report adds no force-renew: two
reports in a row call it at most once. -/
theorem report_authenticated_renews_once (g : Globals) (source : EAPOLSocketSource)
    (m : EAPOLSocket) (client dict : Nat) (cs : EAPClientStatus)
    (hm : source.sock = some m) (hc : source.client = some client) :
    (source.authenticated = false →
      EAPOLSocketReportStatus g source EAPOLSocketRef.main dict
          SupplicantState.kSupplicantStateAuthenticated cs
        = some ({ source with interest := none, authenticated := true },
            (match source.interest with
              | none => []
              | some i => [Event.InterestNotificationRelease i])
            ++ [Event.EAPOLClientForceRenew client]
            ++ [Event.EAPOLClientReportStatus client dict]
            ++ (if g.S_enable_preauth = true ∧ source.is_wireless = true
                then EAPOLSocketSourceScheduleScan g.S_scan_delay_authenticated_secs
                else []))) ∧
    (source.authenticated = true →
      EAPOLSocketReportStatus g source EAPOLSocketRef.main dict
          SupplicantState.kSupplicantStateAuthenticated cs
        = some (source,
            [Event.EAPOLClientReportStatus client dict]
            ++ (if g.S_enable_preauth = true ∧ source.is_wireless = true
                then EAPOLSocketSourceScheduleScan g.S_scan_delay_authenticated_secs
                else []))) ∧
    (∃ s1 e1 e2,
      EAPOLSocketReportStatus g source EAPOLSocketRef.main dict
          SupplicantState.kSupplicantStateAuthenticated cs = some (s1, e1)
      ∧ EAPOLSocketReportStatus g s1 EAPOLSocketRef.main dict
          SupplicantState.kSupplicantStateAuthenticated cs = some (s1, e2)
      ∧ s1.authenticated = true
      ∧ e1.countP Event.isForceRenew = (if source.authenticated = false then 1 else 0)
      ∧ e2.countP Event.isForceRenew = 0
      ∧ (e1 ++ e2).countP Event.isForceRenew ≤ 1) := by
  have hfalse : source.authenticated = false →
      EAPOLSocketReportStatus g source EAPOLSocketRef.main dict
          SupplicantState.kSupplicantStateAuthenticated cs
        = some ({ source with interest := none, authenticated := true },
            (match source.interest with
              | none => []
              | some i => [Event.InterestNotificationRelease i])
            ++ [Event.EAPOLClientForceRenew client]
            ++ [Event.EAPOLClientReportStatus client dict]
            ++ (if g.S_enable_preauth = true ∧ source.is_wireless = true
                then EAPOLSocketSourceScheduleScan g.S_scan_delay_authenticated_secs
                else [])) := by
    intro ha
    unfold EAPOLSocketReportStatus
    simp only [EAPOLSocketRef.deref, hm, hc, if_true, ha,
      unschedule_eq, EAPOLSocketSourceForceRenew, List.append_assoc]
    split <;> rfl
  have htrue : ∀ s : EAPOLSocketSource, s.sock = some m → s.client = some client →
      s.authenticated = true →
      EAPOLSocketReportStatus g s EAPOLSocketRef.main dict
          SupplicantState.kSupplicantStateAuthenticated cs
        = some (s,
            [Event.EAPOLClientReportStatus client dict]
            ++ (if g.S_enable_preauth = true ∧ s.is_wireless = true
                then EAPOLSocketSourceScheduleScan g.S_scan_delay_authenticated_secs
                else [])) := by
    intro s hsm hsc ha
    unfold EAPOLSocketReportStatus
    simp only [EAPOLSocketRef.deref, hsm, hsc, if_true, ha,
      Bool.true_eq_false, if_false, List.nil_append]
    split <;> rfl
  have hcount2 : ∀ s : EAPOLSocketSource,
      ([Event.EAPOLClientReportStatus client dict]
        ++ (if g.S_enable_preauth = true ∧ s.is_wireless = true
            then EAPOLSocketSourceScheduleScan g.S_scan_delay_authenticated_secs
            else [])).countP Event.isForceRenew = 0 := by
    intro s
    rw [List.countP_append]
    split
    · rw [schedule_scan_no_force_renew]; rfl
    · rfl
  refine ⟨hfalse, htrue source hm hc, ?_⟩
  by_cases ha : source.authenticated = false
  · refine ⟨_, _, _, hfalse ha, htrue _ hm hc rfl, rfl, ?_, hcount2 _, ?_⟩
    · simp only [ha, if_true, List.countP_append, release_no_force_renew]
      split
      · rw [schedule_scan_no_force_renew]; rfl
      · rfl
    · rw [List.countP_append, hcount2]
      simp only [List.countP_append, release_no_force_renew]
      split
      · rw [schedule_scan_no_force_renew]; simp [Event.isForceRenew]
      · simp [Event.isForceRenew]
  · have ha' : source.authenticated = true := by simpa using ha
    refine ⟨_, _, _, htrue source hm hc ha', htrue source hm hc ha', ha', ?_, hcount2 _, ?_⟩
    · simp only [ha, if_false]
      exact hcount2 source
    · rw [List.countP_append, hcount2]
      omega

/-- Worked instance of C15: the first Authenticated report of the pending
wireless source releases subscription 9, force-renews once, forwards the
status and, with pre-authentication enabled, arms the scan timer with 10 s. -/
theorem report_authenticated_renews_once_witness :
    EAPOLSocketReportStatus preauth_globals wireless_source_pending EAPOLSocketRef.main 55
        SupplicantState.kSupplicantStateAuthenticated (EAPClientStatus.kEAPClientStatusOther 0)
      = some ({ wireless_source_pending with interest := none, authenticated := true },
          [Event.InterestNotificationRelease 9, Event.EAPOLClientForceRenew 1,
           Event.EAPOLClientReportStatus 1 55, Event.Timer_set_relative 10]) :=
  ((report_authenticated_renews_once preauth_globals wireless_source_pending main_sock 1 55
      (EAPClientStatus.kEAPClientStatusOther 0) rfl rfl).1 rfl).trans (by decide)

theorem teardown_state_fields (g : Globals) (s : EAPOLSocketSource) :
    (preauth_teardown_state g s).authenticated = s.authenticated
      ∧ (preauth_teardown_state g s).interest = s.interest
      ∧ (preauth_teardown_state g s).sock = s.sock
      ∧ (preauth_teardown_state g s).client = s.client := by
  unfold preauth_teardown_state
  split
  · rw [mark_all_eq]
    exact ⟨rfl, rfl, rfl, rfl⟩
  · exact ⟨rfl, rfl, rfl, rfl⟩

theorem teardown_calls_counts (g : Globals) (s : EAPOLSocketSource) :
    (preauth_teardown_calls g s).countP Event.isForceRenew = 0
      ∧ (preauth_teardown_calls g s).countP Event.isStatusReport = 0 := by
  unfold preauth_teardown_calls
  split <;> exact ⟨rfl, rfl⟩

theorem report_status_main_other (g : Globals) (source : EAPOLSocketSource)
    (m : EAPOLSocket) (client dict : Nat) (cs : EAPClientStatus)
    (hm : source.sock = some m) (hc : source.client = some client)
    (st : SupplicantState)
    (hst : st = SupplicantState.kSupplicantStateConnecting
      ∨ st = SupplicantState.kSupplicantStateAcquired
      ∨ st = SupplicantState.kSupplicantStateAuthenticating
      ∨ st = SupplicantState.kSupplicantStateDisconnected) :
    EAPOLSocketReportStatus g source EAPOLSocketRef.main dict st cs
      = some (preauth_teardown_state g source,
          [Event.EAPOLClientReportStatus client dict] ++ preauth_teardown_calls g source) := by
  unfold EAPOLSocketReportStatus preauth_teardown_state preauth_teardown_calls
  rcases hst with h | h | h | h <;> subst h <;>
    simp only [EAPOLSocketRef.deref, hm, hc, if_true, List.nil_append] <;>
    split <;> rfl

theorem report_status_main_inactive (g : Globals) (source : EAPOLSocketSource)
    (m : EAPOLSocket) (client dict : Nat) (cs : EAPClientStatus)
    (hm : source.sock = some m) (hc : source.client = some client) :
    EAPOLSocketReportStatus g source EAPOLSocketRef.main dict
        SupplicantState.kSupplicantStateInactive cs
      = some (preauth_teardown_state g { source with interest := none, authenticated := false },
          (match source.interest with
            | none => []
            | some i => [Event.InterestNotificationRelease i])
          ++ [Event.EAPOLClientReportStatus client dict]
          ++ preauth_teardown_calls g source) := by
  unfold EAPOLSocketReportStatus preauth_teardown_state preauth_teardown_calls
  simp only [EAPOLSocketRef.deref, hm, hc, if_true, unschedule_eq, List.append_assoc]
  split <;> rfl

theorem report_status_main_held (g : Globals) (source : EAPOLSocketSource)
    (m : EAPOLSocket) (client dict : Nat) (cs : EAPClientStatus)
    (hm : source.sock = some m) (hc : source.client = some client) :
    EAPOLSocketReportStatus g source EAPOLSocketRef.main dict
        SupplicantState.kSupplicantStateHeld cs
      = some (preauth_teardown_state g { source with interest := none, authenticated := false },
          (match source.interest with
            | none => []
            | some i => [Event.InterestNotificationRelease i])
          ++ [Event.EAPOLClientForceRenew client]
          ++ [Event.EAPOLClientReportStatus client dict]
          ++ preauth_teardown_calls g source) := by
  unfold EAPOLSocketReportStatus preauth_teardown_state preauth_teardown_calls
  simp only [EAPOLSocketRef.deref, hm, hc, if_true, unschedule_eq, List.append_assoc,
    EAPOLSocketSourceForceRenew]
  split <;> rfl

theorem report_status_main_logoff (g : Globals) (source : EAPOLSocketSource)
    (m : EAPOLSocket) (client dict : Nat) (cs : EAPClientStatus)
    (hm : source.sock = some m) (hc : source.client = some client) :
    EAPOLSocketReportStatus g source EAPOLSocketRef.main dict
        SupplicantState.kSupplicantStateLogoff cs
      = some (preauth_teardown_state g source,
          (if source.is_wireless = false then [Event.usleep 500000] else [])
          ++ [Event.EAPOLClientForceRenew client]
          ++ [Event.EAPOLClientReportStatus client dict]
          ++ preauth_teardown_calls g source) := by
  unfold EAPOLSocketReportStatus preauth_teardown_state preauth_teardown_calls
  simp only [EAPOLSocketRef.deref, hm, hc, if_true, List.append_assoc,
    EAPOLSocketSourceForceRenew]
  split <;> rfl

theorem report_status_main_auth_first (g : Globals) (source : EAPOLSocketSource)
    (m : EAPOLSocket) (client dict : Nat) (cs : EAPClientStatus)
    (hm : source.sock = some m) (hc : source.client = some client)
    (ha : source.authenticated = false) :
    EAPOLSocketReportStatus g source EAPOLSocketRef.main dict
        SupplicantState.kSupplicantStateAuthenticated cs
      = some ({ source with interest := none, authenticated := true },
          (match source.interest with
            | none => []
            | some i => [Event.InterestNotificationRelease i])
          ++ [Event.EAPOLClientForceRenew client]
          ++ [Event.EAPOLClientReportStatus client dict]
          ++ (if g.S_enable_preauth = true ∧ source.is_wireless = true
              then EAPOLSocketSourceScheduleScan g.S_scan_delay_authenticated_secs
              else [])) := by
  unfold EAPOLSocketReportStatus
  simp only [EAPOLSocketRef.deref, hm, hc, if_true, ha,
    unschedule_eq, EAPOLSocketSourceForceRenew, List.append_assoc]
  split <;> rfl

theorem report_status_main_auth_again (g : Globals) (source : EAPOLSocketSource)
    (m : EAPOLSocket) (client dict : Nat) (cs : EAPClientStatus)
    (hm : source.sock = some m) (hc : source.client = some client)
    (ha : source.authenticated = true) :
    EAPOLSocketReportStatus g source EAPOLSocketRef.main dict
        SupplicantState.kSupplicantStateAuthenticated cs
      = some (source,
          [Event.EAPOLClientReportStatus client dict]
          ++ (if g.S_enable_preauth = true ∧ source.is_wireless = true
              then EAPOLSocketSourceScheduleScan g.S_scan_delay_authenticated_secs
              else [])) := by
  unfold EAPOLSocketReportStatus
  simp only [EAPOLSocketRef.deref, hm, hc, if_true, ha,
    Bool.true_eq_false, if_false, List.nil_append]
  split <;> rfl

theorem report_authenticated_forwards (g : Globals) (source : EAPOLSocketSource)
    (m : EAPOLSocket) (client dict : Nat) (cs : EAPClientStatus)
    (hm : source.sock = some m) (hc : source.client = some client) :
    ∃ s' evs,
      EAPOLSocketReportStatus g source EAPOLSocketRef.main dict
          SupplicantState.kSupplicantStateAuthenticated cs = some (s', evs)
      ∧ evs.countP Event.isStatusReport = 1 := by
  have hs : (if g.S_enable_preauth = true ∧ source.is_wireless = true
      then EAPOLSocketSourceScheduleScan g.S_scan_delay_authenticated_secs
      else []).countP Event.isStatusReport = 0 := by
    split
    · exact schedule_scan_no_status_report _
    · rfl
  by_cases ha : source.authenticated = false
  · refine ⟨_, _, report_status_main_auth_first g source m client dict cs hm hc ha, ?_⟩
    simp only [List.countP_append, release_no_status_report, hs]
    rfl
  · have ha' : source.authenticated = true := by simpa using ha
    refine ⟨_, _, report_status_main_auth_again g source m client dict cs hm hc ha', ?_⟩
    simp only [List.countP_append, hs]
    rfl

theorem usleep_counts (b : Bool) :
    (if b = false then [Event.usleep 500000] else []).countP Event.isForceRenew = 0
      ∧ (if b = false then [Event.usleep 500000] else []).countP Event.isStatusReport = 0 := by
  cases b <;> exact ⟨rfl, rfl⟩

/-- C16: with a controller client attached, a main-supplicant report in state
Inactive or Held clears `authenticated` (and the handshake subscription);
force-renew is called exactly once for Held and for Logoff and not at all for
Inactive; Logoff leaves `authenticated` as it is; Connecting, Acquired,
Authenticating and Disconnected change neither `authenticated` nor the
subscription and call no force-renew.  In every state, Authenticated included,
the status dictionary is forwarded to the controller exactly once. -/
theorem report_main_state_table (g : Globals) (source : EAPOLSocketSource)
    (m : EAPOLSocket) (client dict : Nat) (cs : EAPClientStatus)
    (hm : source.sock = some m) (hc : source.client = some client) :
    (∃ s' evs,
      EAPOLSocketReportStatus g source EAPOLSocketRef.main dict
          SupplicantState.kSupplicantStateInactive cs = some (s', evs)
      ∧ evs = (match source.interest with
                | none => []
                | some i => [Event.InterestNotificationRelease i])
              ++ [Event.EAPOLClientReportStatus client dict]
              ++ preauth_teardown_calls g source
      ∧ s'.authenticated = false ∧ s'.interest = none
      ∧ evs.countP Event.isForceRenew = 0 ∧ evs.countP Event.isStatusReport = 1) ∧
    (∃ s' evs,
      EAPOLSocketReportStatus g source EAPOLSocketRef.main dict
          SupplicantState.kSupplicantStateHeld cs = some (s', evs)
      ∧ evs = (match source.interest with
                | none => []
                | some i => [Event.InterestNotificationRelease i])
              ++ [Event.EAPOLClientForceRenew client]
              ++ [Event.EAPOLClientReportStatus client dict]
              ++ preauth_teardown_calls g source
      ∧ s'.authenticated = false ∧ s'.interest = none
      ∧ evs.countP Event.isForceRenew = 1 ∧ evs.countP Event.isStatusReport = 1) ∧
    (∃ s' evs,
      EAPOLSocketReportStatus g source EAPOLSocketRef.main dict
          SupplicantState.kSupplicantStateLogoff cs = some (s', evs)
      ∧ evs = (if source.is_wireless = false then [Event.usleep 500000] else [])
              ++ [Event.EAPOLClientForceRenew client]
              ++ [Event.EAPOLClientReportStatus client dict]
              ++ preauth_teardown_calls g source
      ∧ s'.authenticated = source.authenticated ∧ s'.interest = source.interest
      ∧ evs.countP Event.isForceRenew = 1 ∧ evs.countP Event.isStatusReport = 1) ∧
    (∀ st, st = SupplicantState.kSupplicantStateConnecting
        ∨ st = SupplicantState.kSupplicantStateAcquired
        ∨ st = SupplicantState.kSupplicantStateAuthenticating
        ∨ st = SupplicantState.kSupplicantStateDisconnected →
      ∃ s' evs,
        EAPOLSocketReportStatus g source EAPOLSocketRef.main dict st cs = some (s', evs)
        ∧ evs = [Event.EAPOLClientReportStatus client dict] ++ preauth_teardown_calls g source
        ∧ s'.authenticated = source.authenticated ∧ s'.interest = source.interest
        ∧ evs.countP Event.isForceRenew = 0 ∧ evs.countP Event.isStatusReport = 1) ∧
    (∃ s' evs,
      EAPOLSocketReportStatus g source EAPOLSocketRef.main dict
          SupplicantState.kSupplicantStateAuthenticated cs = some (s', evs)
      ∧ evs.countP Event.isStatusReport = 1) := by
  have hT := teardown_calls_counts g source
  refine ⟨?_, ?_, ?_, ?_, ?_⟩
  · refine ⟨_, _, report_status_main_inactive g source m client dict cs hm hc, rfl, ?_, ?_, ?_, ?_⟩
    · exact (teardown_state_fields g _).1
    · exact (teardown_state_fields g _).2.1
    · simp only [List.countP_append, release_no_force_renew, hT.1]
      rfl
    · simp only [List.countP_append, release_no_status_report, hT.2]
      rfl
  · refine ⟨_, _, report_status_main_held g source m client dict cs hm hc, rfl, ?_, ?_, ?_, ?_⟩
    · exact (teardown_state_fields g _).1
    · exact (teardown_state_fields g _).2.1
    · simp only [List.countP_append, release_no_force_renew, hT.1]
      rfl
    · simp only [List.countP_append, release_no_status_report, hT.2]
      rfl
  · refine ⟨_, _, report_status_main_logoff g source m client dict cs hm hc, rfl, ?_, ?_, ?_, ?_⟩
    · exact (teardown_state_fields g _).1
    · exact (teardown_state_fields g _).2.1
    · simp only [List.countP_append, (usleep_counts source.is_wireless).1, hT.1]
      rfl
    · simp only [List.countP_append, (usleep_counts source.is_wireless).2, hT.2]
      rfl
  · intro st hst
    refine ⟨_, _, report_status_main_other g source m client dict cs hm hc st hst, rfl,
      ?_, ?_, ?_, ?_⟩
    · exact (teardown_state_fields g _).1
    · exact (teardown_state_fields g _).2.1
    · simp only [List.countP_append, hT.1]
      rfl
    · simp only [List.countP_append, hT.2]
      rfl
  · have h15 := report_authenticated_forwards g source m client dict cs hm hc
    exact h15

/-- Worked instance of C16: a Held report on the pending wireless source (no
pre-authentication) releases subscription 9, force-renews once and forwards
the status; a Logoff report on the wired source sleeps 500 ms, force-renews
once and forwards the status. -/
theorem report_main_state_table_witness :
    EAPOLSocketReportStatus default_globals wireless_source_pending EAPOLSocketRef.main 55
        SupplicantState.kSupplicantStateHeld (EAPClientStatus.kEAPClientStatusOther 0)
      = some ({ wireless_source_pending with interest := none, authenticated := false },
          [Event.InterestNotificationRelease 9, Event.EAPOLClientForceRenew 1,
           Event.EAPOLClientReportStatus 1 55]) ∧
    (∃ s' evs,
      EAPOLSocketReportStatus default_globals wired_source EAPOLSocketRef.main 55
          SupplicantState.kSupplicantStateLogoff (EAPClientStatus.kEAPClientStatusOther 0)
        = some (s', evs)
      ∧ evs = [Event.usleep 500000, Event.EAPOLClientForceRenew 1,
               Event.EAPOLClientReportStatus 1 55]) :=
  ⟨by decide,
   have h := (report_main_state_table default_globals wired_source main_sock 1 55
      (EAPClientStatus.kEAPClientStatusOther 0) rfl rfl).2.2.1
   match h with
   | ⟨s', evs, h1, h2, _⟩ => ⟨s', evs, h1, h2.trans (by decide)⟩⟩

theorem report_status_main_not_authenticated (g : Globals) (source : EAPOLSocketSource)
    (m : EAPOLSocket) (client dict : Nat) (cs : EAPClientStatus)
    (hm : source.sock = some m) (hc : source.client = some client)
    (st : SupplicantState) (hst : st ≠ SupplicantState.kSupplicantStateAuthenticated) :
    ∃ r1 pre,
      EAPOLSocketReportStatus g source EAPOLSocketRef.main dict st cs
        = some (preauth_teardown_state g r1, pre ++ preauth_teardown_calls g source)
      ∧ pre.countP Event.isScanCall = 0
      ∧ r1.preauth_sockets = source.preauth_sockets
      ∧ r1.process_removals = source.process_removals
      ∧ r1.is_wireless = source.is_wireless := by
  cases st with
  | kSupplicantStateAuthenticated => exact absurd rfl hst
  | kSupplicantStateInactive =>
    refine ⟨_, _, report_status_main_inactive g source m client dict cs hm hc, ?_, rfl, rfl, rfl⟩
    simp only [List.countP_append, release_no_scan_call]
    rfl
  | kSupplicantStateHeld =>
    refine ⟨_, _, report_status_main_held g source m client dict cs hm hc, ?_, rfl, rfl, rfl⟩
    simp only [List.countP_append, release_no_scan_call]
    rfl
  | kSupplicantStateLogoff =>
    refine ⟨_, _, report_status_main_logoff g source m client dict cs hm hc, ?_, rfl, rfl, rfl⟩
    simp only [List.countP_append]
    cases source.is_wireless <;> rfl
  | kSupplicantStateConnecting =>
    exact ⟨_, _, report_status_main_other g source m client dict cs hm hc _ (Or.inl rfl),
      rfl, rfl, rfl, rfl⟩
  | kSupplicantStateAcquired =>
    exact ⟨_, _, report_status_main_other g source m client dict cs hm hc _ (Or.inr (Or.inl rfl)),
      rfl, rfl, rfl, rfl⟩
  | kSupplicantStateAuthenticating =>
    exact ⟨_, _, report_status_main_other g source m client dict cs hm hc _
      (Or.inr (Or.inr (Or.inl rfl))), rfl, rfl, rfl, rfl⟩
  | kSupplicantStateDisconnected =>
    exact ⟨_, _, report_status_main_other g source m client dict cs hm hc _
      (Or.inr (Or.inr (Or.inr rfl))), rfl, rfl, rfl, rfl⟩

/-- C17: with a controller client attached, pre-authentication enabled and a
wireless source, a main-supplicant report in state Authenticated ends by arming
the scan timer with `S_scan_delay_authenticated_secs` (nothing when that value
is negative) and marks no endpoint; a report in any other state ends by
cancelling the scan timer and the driver scan and leaves `remove` set on every
pre-auth endpoint, with `process_removals` set when there is at least one.
When pre-authentication is disabled or the source is not wireless, the report
makes no scan call and marks no endpoint. -/
theorem report_main_drives_preauth (g : Globals) (source : EAPOLSocketSource)
    (m : EAPOLSocket) (client dict : Nat) (cs : EAPClientStatus)
    (hm : source.sock = some m) (hc : source.client = some client) :
    (g.S_enable_preauth = true → source.is_wireless = true →
      ∃ s' pre,
        EAPOLSocketReportStatus g source EAPOLSocketRef.main dict
            SupplicantState.kSupplicantStateAuthenticated cs
          = some (s', pre ++ EAPOLSocketSourceScheduleScan g.S_scan_delay_authenticated_secs)
        ∧ pre.countP Event.isScanCall = 0
        ∧ s'.preauth_sockets = source.preauth_sockets
        ∧ s'.process_removals = source.process_removals
        ∧ (g.S_scan_delay_authenticated_secs < 0 →
            EAPOLSocketSourceScheduleScan g.S_scan_delay_authenticated_secs = [])
        ∧ (0 ≤ g.S_scan_delay_authenticated_secs →
            EAPOLSocketSourceScheduleScan g.S_scan_delay_authenticated_secs
              = [Event.Timer_set_relative g.S_scan_delay_authenticated_secs])) ∧
    (g.S_enable_preauth = true → source.is_wireless = true →
      ∀ st, st ≠ SupplicantState.kSupplicantStateAuthenticated →
      ∃ s' pre,
        EAPOLSocketReportStatus g source EAPOLSocketRef.main dict st cs
          = some (s', pre ++ [Event.Timer_cancel, Event.wireless_scan_cancel])
        ∧ pre.countP Event.isScanCall = 0
        ∧ s'.preauth_sockets = source.preauth_sockets.map flag_remove
        ∧ (∀ e ∈ s'.preauth_sockets, e.remove = true)
        ∧ s'.process_removals
            = (source.process_removals || decide (0 < source.preauth_sockets.length))) ∧
    (¬ (g.S_enable_preauth = true ∧ source.is_wireless = true) →
      ∀ st, ∃ s' evs,
        EAPOLSocketReportStatus g source EAPOLSocketRef.main dict st cs = some (s', evs)
        ∧ evs.countP Event.isScanCall = 0
        ∧ s'.preauth_sockets = source.preauth_sockets
        ∧ s'.process_removals = source.process_removals) := by
  refine ⟨?_, ?_, ?_⟩
  · intro hp hw
    have hcond : g.S_enable_preauth = true ∧ source.is_wireless = true := ⟨hp, hw⟩
    have hsched : (g.S_scan_delay_authenticated_secs < 0 →
          EAPOLSocketSourceScheduleScan g.S_scan_delay_authenticated_secs = [])
        ∧ (0 ≤ g.S_scan_delay_authenticated_secs →
          EAPOLSocketSourceScheduleScan g.S_scan_delay_authenticated_secs
            = [Event.Timer_set_relative g.S_scan_delay_authenticated_secs]) := by
      unfold EAPOLSocketSourceScheduleScan
      constructor
      · intro h; simp [h]
      · intro h; simp [not_lt.mpr h]
    by_cases ha : source.authenticated = false
    · have h := report_status_main_auth_first g source m client dict cs hm hc ha
      simp only [hcond, and_self, if_true] at h
      refine ⟨_, _, h, ?_, rfl, rfl, hsched⟩
      simp only [List.countP_append, release_no_scan_call]
      rfl
    · have ha' : source.authenticated = true := by simpa using ha
      have h := report_status_main_auth_again g source m client dict cs hm hc ha'
      simp only [hcond, and_self, if_true] at h
      exact ⟨_, _, h, rfl, rfl, rfl, hsched⟩
  · intro hp hw st hst
    obtain ⟨r1, pre, h, hpre, hl, hpr, hwl⟩ :=
      report_status_main_not_authenticated g source m client dict cs hm hc st hst
    have hcond : g.S_enable_preauth = true ∧ source.is_wireless = true := ⟨hp, hw⟩
    have hcond1 : g.S_enable_preauth = true ∧ r1.is_wireless = true := ⟨hp, hwl.trans hw⟩
    simp only [preauth_teardown_state, preauth_teardown_calls, hcond, hcond1, and_self,
      if_true, EAPOLSocketSourceCancelScan, mark_all_eq] at h
    refine ⟨_, _, h, hpre, ?_, ?_, ?_⟩
    · simp only [hl]
    · intro e he
      simp only [List.mem_map] at he
      obtain ⟨a, _, rfl⟩ := he
      rfl
    · simp only [hl, hpr]
  · intro hcond st
    by_cases hst : st = SupplicantState.kSupplicantStateAuthenticated
    · subst hst
      by_cases ha : source.authenticated = false
      · have h := report_status_main_auth_first g source m client dict cs hm hc ha
        simp only [hcond, if_false, List.append_nil] at h
        refine ⟨_, _, h, ?_, rfl, rfl⟩
        simp only [List.countP_append, release_no_scan_call]
        rfl
      · have ha' : source.authenticated = true := by simpa using ha
        have h := report_status_main_auth_again g source m client dict cs hm hc ha'
        simp only [hcond, if_false, List.append_nil] at h
        exact ⟨_, _, h, rfl, rfl, rfl⟩
    · obtain ⟨r1, pre, h, hpre, hl, hpr, hwl⟩ :=
        report_status_main_not_authenticated g source m client dict cs hm hc st hst
      have hcond1 : ¬ (g.S_enable_preauth = true ∧ r1.is_wireless = true) := by
        rw [hwl]; exact hcond
      simp only [preauth_teardown_state, preauth_teardown_calls, hcond, hcond1,
        if_false, List.append_nil] at h
      exact ⟨_, _, h, hpre, hl, hpr⟩

/-- Worked instance of C17: with pre-authentication enabled, a Held report on
the wireless source with two pre-auth endpoints cancels the scan and flags
both endpoints. -/
theorem report_main_drives_preauth_witness :
    EAPOLSocketReportStatus preauth_globals wireless_source_two EAPOLSocketRef.main 55
        SupplicantState.kSupplicantStateHeld (EAPClientStatus.kEAPClientStatusOther 0)
      = some ({ wireless_source_two with
                authenticated := false
                preauth_sockets := [flag_remove preauth_sock_A, flag_remove preauth_sock_B]
                process_removals := true },
          [Event.EAPOLClientForceRenew 1, Event.EAPOLClientReportStatus 1 55,
           Event.Timer_cancel, Event.wireless_scan_cancel]) ∧
    (∃ s' pre,
      EAPOLSocketReportStatus preauth_globals wireless_source_two EAPOLSocketRef.main 55
          SupplicantState.kSupplicantStateHeld (EAPClientStatus.kEAPClientStatusOther 0)
        = some (s', pre ++ [Event.Timer_cancel, Event.wireless_scan_cancel])
      ∧ ∀ e ∈ s'.preauth_sockets, e.remove = true) :=
  ⟨by decide,
   match (report_main_drives_preauth preauth_globals wireless_source_two main_sock 1 55
      (EAPClientStatus.kEAPClientStatusOther 0) rfl rfl).2.1 rfl rfl
      SupplicantState.kSupplicantStateHeld (by decide) with
   | ⟨s', pre, h1, _, _, h4, _⟩ => ⟨s', pre, h1, h4⟩⟩

/-- C18: with a controller client attached, a status report from the Supplicant
of the pre-auth endpoint at position `i` flags that endpoint (`remove`) and
sets `process_removals` exactly when its state is Held, or Authenticated, or
Authenticating with client status UserInputRequired; otherwise the source is
left as it is.  In every case no call leaves the file (no force-renew, nothing
forwarded to the controller), and the main endpoint, `authenticated`, the
handshake subscription and every other pre-auth endpoint are unchanged. -/
theorem report_preauth_flags_own_endpoint (g : Globals) (source : EAPOLSocketSource)
    (i : Nat) (e : EAPOLSocket) (client dict : Nat) (st : SupplicantState)
    (cs : EAPClientStatus)
    (he : source.preauth_sockets[i]? = some e) (hc : source.client = some client) :
    ((st = SupplicantState.kSupplicantStateHeld
        ∨ st = SupplicantState.kSupplicantStateAuthenticated
        ∨ (st = SupplicantState.kSupplicantStateAuthenticating
            ∧ cs = EAPClientStatus.kEAPClientStatusUserInputRequired)) →
      EAPOLSocketReportStatus g source (EAPOLSocketRef.preauth i) dict st cs
        = some ({ source with
                  preauth_sockets := source.preauth_sockets.modify flag_remove i
                  process_removals := true }, [])) ∧
    (¬ (st = SupplicantState.kSupplicantStateHeld
        ∨ st = SupplicantState.kSupplicantStateAuthenticated
        ∨ (st = SupplicantState.kSupplicantStateAuthenticating
            ∧ cs = EAPClientStatus.kEAPClientStatusUserInputRequired)) →
      EAPOLSocketReportStatus g source (EAPOLSocketRef.preauth i) dict st cs
        = some (source, [])) ∧
    (source.preauth_sockets.modify flag_remove i)[i]? = some (flag_remove e) ∧
    (∀ s' evs,
      EAPOLSocketReportStatus g source (EAPOLSocketRef.preauth i) dict st cs = some (s', evs) →
      evs = [] ∧ s'.sock = source.sock ∧ s'.authenticated = source.authenticated
      ∧ s'.interest = source.interest ∧ s'.client = source.client
      ∧ ∀ j, j ≠ i → s'.preauth_sockets[j]? = source.preauth_sockets[j]?) := by
  have hne : EAPOLSocketRef.preauth i ≠ EAPOLSocketRef.main := by intro h; cases h
  have hyes : (st = SupplicantState.kSupplicantStateHeld
        ∨ st = SupplicantState.kSupplicantStateAuthenticated
        ∨ (st = SupplicantState.kSupplicantStateAuthenticating
            ∧ cs = EAPClientStatus.kEAPClientStatusUserInputRequired)) →
      EAPOLSocketReportStatus g source (EAPOLSocketRef.preauth i) dict st cs
        = some ({ source with
                  preauth_sockets := source.preauth_sockets.modify flag_remove i
                  process_removals := true }, []) := by
    intro h
    have h1 : EAPOLSocketReportStatus g source (EAPOLSocketRef.preauth i) dict st cs
        = some (EAPOLSocketMarkForRemoval source (EAPOLSocketRef.preauth i), []) := by
      unfold EAPOLSocketReportStatus
      rcases h with h | h | ⟨h, h'⟩
      · subst h
        simp only [EAPOLSocketRef.deref, he, hc, hne, if_false]
      · subst h
        simp only [EAPOLSocketRef.deref, he, hc, hne, if_false]
      · subst h
        subst h'
        simp only [EAPOLSocketRef.deref, he, hc, hne, if_false, if_true]
    exact h1
  have hno : ¬ (st = SupplicantState.kSupplicantStateHeld
        ∨ st = SupplicantState.kSupplicantStateAuthenticated
        ∨ (st = SupplicantState.kSupplicantStateAuthenticating
            ∧ cs = EAPClientStatus.kEAPClientStatusUserInputRequired)) →
      EAPOLSocketReportStatus g source (EAPOLSocketRef.preauth i) dict st cs
        = some (source, []) := by
    intro h
    unfold EAPOLSocketReportStatus
    cases st with
    | kSupplicantStateHeld => exact absurd (Or.inl rfl) h
    | kSupplicantStateAuthenticated => exact absurd (Or.inr (Or.inl rfl)) h
    | kSupplicantStateAuthenticating =>
      have hcs : cs ≠ EAPClientStatus.kEAPClientStatusUserInputRequired :=
        fun hcs => h (Or.inr (Or.inr ⟨rfl, hcs⟩))
      simp only [EAPOLSocketRef.deref, he, hc, hne, if_false, hcs]
    | kSupplicantStateInactive => simp only [EAPOLSocketRef.deref, he, hc, hne, if_false]
    | kSupplicantStateLogoff => simp only [EAPOLSocketRef.deref, he, hc, hne, if_false]
    | kSupplicantStateConnecting => simp only [EAPOLSocketRef.deref, he, hc, hne, if_false]
    | kSupplicantStateAcquired => simp only [EAPOLSocketRef.deref, he, hc, hne, if_false]
    | kSupplicantStateDisconnected => simp only [EAPOLSocketRef.deref, he, hc, hne, if_false]
  refine ⟨hyes, hno, ?_, ?_⟩
  · rw [List.getElem?_modify_eq, he]
    rfl
  · intro s' evs h
    by_cases hF : st = SupplicantState.kSupplicantStateHeld
        ∨ st = SupplicantState.kSupplicantStateAuthenticated
        ∨ (st = SupplicantState.kSupplicantStateAuthenticating
            ∧ cs = EAPClientStatus.kEAPClientStatusUserInputRequired)
    · rw [hyes hF] at h
      simp only [Option.some.injEq, Prod.mk.injEq] at h
      obtain ⟨rfl, rfl⟩ := h
      refine ⟨rfl, rfl, rfl, rfl, rfl, ?_⟩
      intro j hj
      exact List.getElem?_modify_ne flag_remove _ (Ne.symm hj)
    · rw [hno hF] at h
      simp only [Option.some.injEq, Prod.mk.injEq] at h
      obtain ⟨rfl, rfl⟩ := h
      exact ⟨rfl, rfl, rfl, rfl, rfl, fun _ _ => rfl⟩

/-- Worked instance of C18: a Held report from the Supplicant of the first
pre-auth endpoint of the wireless source with two pre-auth endpoints flags
that endpoint only and makes no call. -/
theorem report_preauth_flags_own_endpoint_witness :
    EAPOLSocketReportStatus default_globals wireless_source_two (EAPOLSocketRef.preauth 0) 55
        SupplicantState.kSupplicantStateHeld (EAPClientStatus.kEAPClientStatusOther 0)
      = some ({ wireless_source_two with
                preauth_sockets := [flag_remove preauth_sock_A, preauth_sock_B]
                process_removals := true }, []) :=
  ((report_preauth_flags_own_endpoint default_globals wireless_source_two 0 preauth_sock_A 1 55
      SupplicantState.kSupplicantStateHeld (EAPClientStatus.kEAPClientStatusOther 0)
      rfl rfl).1 (Or.inl rfl)).trans (by decide)

/-! ## Deferred removal -/

theorem flagged_positions_cons_true (x : EAPOLSocket) (xs : List EAPOLSocket) (i : Nat)
    (h : x.remove = true) :
    flagged_positions (x :: xs) i = i :: flagged_positions xs (i + 1) := by
  simp [flagged_positions, h]

theorem flagged_positions_cons_false (x : EAPOLSocket) (xs : List EAPOLSocket) (i : Nat)
    (h : x.remove = false) :
    flagged_positions (x :: xs) i = flagged_positions xs (i + 1) := by
  simp [flagged_positions, h]

theorem eraseIdx_append_cons (pre : List EAPOLSocket) (x : EAPOLSocket)
    (xs : List EAPOLSocket) : (pre ++ x :: xs).eraseIdx pre.length = pre ++ xs := by
  induction pre with
  | nil => rfl
  | cons p ps ih => simp [ih]

theorem getElem?_append_cons (pre : List EAPOLSocket) (x : EAPOLSocket)
    (xs : List EAPOLSocket) : (pre ++ x :: xs)[pre.length]? = some x := by
  induction pre with
  | nil => simp
  | cons p ps ih => simpa using ih

theorem remove_loop_spec (l : List EAPOLSocket) :
    ∀ (s : EAPOLSocketSource) (pre : List EAPOLSocket) (k : Nat),
      s.preauth_sockets = pre ++ l →
      remove_loop s (flagged_positions l (pre.length + k)) k
        = ({ s with
             preauth_sockets := pre ++ l.filter (fun e => !e.remove)
             preauth_sockets_count :=
               s.preauth_sockets_count - ((l.filter (fun e => e.remove)).length : Int) },
           (l.filter (fun e => e.remove)).map (fun e => Event.Supplicant_free e.supp)) := by
  induction l with
  | nil =>
    intro s pre k hs
    simp only [flagged_positions, remove_loop, List.filter_nil, List.append_nil, List.length_nil,
      Int.ofNat_zero, Nat.cast_zero, sub_zero, List.map_nil, Prod.mk.injEq, and_true]
    rw [List.append_nil] at hs
    rw [← hs]
  | cons x xs ih =>
    intro s pre k hs
    by_cases hx : x.remove = true
    · rw [flagged_positions_cons_true x xs _ hx]
      have hfree : EAPOLSocketFree s (EAPOLSocketRef.preauth (pre.length + k - k))
          = { s with preauth_sockets := pre ++ xs
                     preauth_sockets_count := s.preauth_sockets_count - 1 } := by
        simp only [Nat.add_sub_cancel, EAPOLSocketFree, hs, eraseIdx_append_cons]
      have hderef : (EAPOLSocketRef.preauth (pre.length + k - k)).deref s = some x := by
        simp only [Nat.add_sub_cancel, EAPOLSocketRef.deref, hs, getElem?_append_cons]
      have hih := ih { s with preauth_sockets := pre ++ xs
                              preauth_sockets_count := s.preauth_sockets_count - 1 }
        pre (k + 1) rfl
      simp only [remove_loop, hfree, hderef, Option.bind]
      rw [show pre.length + k + 1 = pre.length + (k + 1) from rfl, hih]
      simp only [List.filter_cons, hx, Bool.not_true, if_true, List.map_cons,
        List.length_cons, Prod.mk.injEq, and_true, Bool.false_eq_true, if_false]
      congr 1
      push_cast
      ring
    · have hx' : x.remove = false := by simpa using hx
      rw [flagged_positions_cons_false x xs _ hx']
      have hpos : pre.length + k + 1 = (pre ++ [x]).length + k := by
        simp only [List.length_append, List.length_singleton]
        omega
      have hs' : s.preauth_sockets = (pre ++ [x]) ++ xs := by
        rw [hs]; simp
      rw [hpos, ih s (pre ++ [x]) k hs']
      simp only [List.filter_cons, hx', Bool.not_false, if_true, Bool.false_eq_true, if_false,
        List.append_assoc, List.singleton_append]

theorem remove_preauth_sockets_eq (s : EAPOLSocketSource) :
    EAPOLSocketSourceRemovePreauthSockets s
      = ({ s with
           preauth_sockets := s.preauth_sockets.filter (fun e => !e.remove)
           preauth_sockets_count :=
             s.preauth_sockets_count
               - ((s.preauth_sockets.filter (fun e => e.remove)).length : Int) },
         (s.preauth_sockets.filter (fun e => e.remove)).map
           (fun e => Event.Supplicant_free e.supp)) := by
  have h := remove_loop_spec s.preauth_sockets s [] 0 rfl
  simpa [EAPOLSocketSourceRemovePreauthSockets] using h

/-! ## Invariants of the transition system -/

theorem quiet_refl (s : EAPOLSocketSource) : Quiet s s :=
  ⟨rfl, fun h => h, rfl, fun e he hr => ⟨e, he, hr⟩⟩

theorem quiet_trans {a b c : EAPOLSocketSource} (h1 : Quiet a b) (h2 : Quiet b c) :
    Quiet a c := by
  obtain ⟨c1, a1, p1, f1⟩ := h1
  obtain ⟨c2, a2, p2, f2⟩ := h2
  refine ⟨c2.trans c1, fun h => a1 (a2 h), p2.trans p1, ?_⟩
  intro e he hr
  obtain ⟨e0, he0, hr0⟩ := f2 e he hr
  exact f1 e0 he0 hr0

theorem quiet_invariant {s s' : EAPOLSocketSource} (h : Quiet s s')
    (hi : removal_invariant s) : removal_invariant s' := by
  intro e he hr
  obtain ⟨e0, he0, hr0⟩ := h.2.2.2 e he hr
  rw [h.2.2.1]
  exact hi e0 he0 hr0

theorem quiet_unschedule (s : EAPOLSocketSource) :
    Quiet s (EAPOLSocketSourceUnscheduleHandshakeNotification s).1 := by
  rw [unschedule_eq]
  exact ⟨rfl, fun h => h, rfl, fun e he hr => ⟨e, he, hr⟩⟩

theorem quiet_free_preauth (s : EAPOLSocketSource) (i : Nat) :
    Quiet s (EAPOLSocketFree s (EAPOLSocketRef.preauth i)) := by
  refine ⟨rfl, fun h => h, rfl, ?_⟩
  intro e he hr
  exact ⟨e, List.eraseIdx_subset _ _ he, hr⟩

theorem quiet_free_main (s : EAPOLSocketSource) :
    Quiet s (EAPOLSocketFree s EAPOLSocketRef.main) :=
  ⟨rfl, fun h => h, rfl, fun e he hr => ⟨e, he, hr⟩⟩

theorem quiet_remove_with_bssid (s : EAPOLSocketSource) (b : ether_addr) :
    Quiet s (EAPOLSocketSourceRemoveSocketWithBSSID s b).1 := by
  unfold EAPOLSocketSourceRemoveSocketWithBSSID EAPOLSocketSourceLookupPreauthSocket
  cases lookupIdx b s.preauth_sockets with
  | none => exact quiet_refl s
  | some i => exact quiet_free_preauth s i

theorem quiet_update_wireless (g : Globals) (w : Wireless) (s : EAPOLSocketSource) :
    Quiet s (EAPOLSocketSourceUpdateWirelessInfo g w s).2.1 := by
  unfold EAPOLSocketSourceUpdateWirelessInfo
  split
  · exact quiet_refl s
  · cases w.ap_mac with
    | none =>
      simp only [unschedule_eq]
      exact ⟨rfl, fun h => Bool.noConfusion h, rfl, fun e he hr => ⟨e, he, hr⟩⟩
    | some a =>
      simp only
      split
      · split
        · have hq := quiet_remove_with_bssid s a
          exact ⟨hq.1, hq.2.1, hq.2.2.1, hq.2.2.2⟩
        · exact ⟨rfl, fun h => h, rfl, fun e he hr => ⟨e, he, hr⟩⟩
      · exact ⟨rfl, fun h => h, rfl, fun e he hr => ⟨e, he, hr⟩⟩

theorem quiet_receive (g : Globals) (w : Wireless) (V : List Byte → Nat → Bool)
    (s : EAPOLSocketSource) (n : Int) (buf : List Byte) :
    Quiet s (EAPOLSocketSourceReceive g w V s n buf).1 := by
  by_cases hv : 0 < n ∧ ether_header_valid buf n.toNat = true
      ∧ (ether_type_of buf = EAPOL_802_1_X_ETHERTYPE
        ∨ ether_type_of buf = IEEE80211_PREAUTH_ETHERTYPE)
      ∧ eapol_header_valid (buf.drop sizeof_ether_header)
        (n.toNat - sizeof_ether_header) = true
      ∧ eapol_body_valid V (buf.drop sizeof_ether_header)
        (n.toNat - sizeof_ether_header) = true
  · obtain ⟨hn, he, ht, hh, hb⟩ := hv
    unfold EAPOLSocketSourceReceive
    simp only [not_le.mpr hn, he, ht, hh, hb, if_false, not_true_eq_false, Bool.true_eq_false]
    split
    · split
      · have hq := quiet_update_wireless g w s
        exact ⟨hq.1, hq.2.1, hq.2.2.1, hq.2.2.2⟩
      · exact quiet_refl s
    · exact quiet_refl s
  · rw [receive_of_invalid g w V s n buf hv]
    exact quiet_refl s

theorem quiet_transmit (g : Globals) (w : Wireless) (sent : Int) (s : EAPOLSocketSource)
    (sock : EAPOLSocketRef) (t : Nat) (body : Option (List Byte)) (body_length : Nat)
    (r : Int × EAPOLSocketSource × List Event)
    (h : EAPOLSocketSourceTransmit g w sent s sock t body body_length = some r) :
    Quiet s r.2.1 := by
  unfold EAPOLSocketSourceTransmit at h
  cases hd : sock.deref s with
  | none => simp [hd] at h
  | some obj =>
    simp only [hd] at h
    by_cases hsz : sizeof_ether_header + sizeof_EAPOLPacket
        + (if body.isSome then body_length else 0) > 1600
    · simp [hsz] at h
    · simp only [hsz, if_false] at h
      by_cases hmain : sock = EAPOLSocketRef.main
      · simp only [hmain, if_true] at h
        by_cases hwl : s.is_wireless = true
        · simp only [hwl, if_true] at h
          by_cases hbv : s.bssid_valid = false
          · simp only [hbv, if_true] at h
            by_cases hbv2 : (EAPOLSocketSourceUpdateWirelessInfo g w s).2.1.bssid_valid = false
            · simp only [hbv2, if_true, Option.some.injEq] at h
              subst h
              exact quiet_update_wireless g w s
            · simp only [hbv2, if_false, Bool.true_eq_false, Bool.false_eq_true, Option.some.injEq] at h
              subst h
              exact quiet_update_wireless g w s
          · simp only [hbv, if_false, Bool.true_eq_false, Bool.false_eq_true, Option.some.injEq] at h
            subst h
            exact quiet_refl s
        · simp only [hwl, if_false, Bool.true_eq_false, Bool.false_eq_true, Option.some.injEq] at h
          subst h
          exact quiet_refl s
      · simp only [hmain, if_false, Bool.true_eq_false, Bool.false_eq_true, Option.some.injEq] at h
        subst h
        exact quiet_refl s

theorem quiet_link_status (g : Globals) (w : Wireless) (s : EAPOLSocketSource)
    (active : Option Bool) :
    Quiet s (EAPOLSocketSourceLinkStatusChanged g w s active).1 := by
  unfold EAPOLSocketSourceLinkStatusChanged
  have h1 : Quiet s (match active with
      | some b => { s with link_active := b }
      | none => s) := by
    cases active <;> exact ⟨rfl, fun h => h, rfl, fun e he hr => ⟨e, he, hr⟩⟩
  simp only
  split
  · exact quiet_trans h1 (quiet_update_wireless g w _)
  · exact h1

theorem mem_modify (f : EAPOLSocket → EAPOLSocket) (l : List EAPOLSocket) :
    ∀ (i : Nat) (e : EAPOLSocket), e ∈ l.modify f i → e ∈ l ∨ ∃ a ∈ l, e = f a := by
  induction l with
  | nil => intro i e h; simp at h
  | cons x xs ih =>
    intro i e h
    cases i with
    | zero =>
      simp only [List.modify_zero_cons, List.mem_cons] at h
      rcases h with h | h
      · exact Or.inr ⟨x, List.mem_cons_self _ _, h⟩
      · exact Or.inl (List.mem_cons_of_mem _ h)
    | succ i =>
      simp only [List.modify_succ_cons, List.mem_cons] at h
      rcases h with h | h
      · exact Or.inl (h ▸ List.mem_cons_self _ _)
      · rcases ih i e h with h' | ⟨a, ha, hfa⟩
        · exact Or.inl (List.mem_cons_of_mem _ h')
        · exact Or.inr ⟨a, List.mem_cons_of_mem _ ha, hfa⟩

theorem quiet_store (s s' : EAPOLSocketSource) (sock : EAPOLSocketRef)
    (f : EAPOLSocket → EAPOLSocket) (hf : ∀ a, (f a).remove = a.remove)
    (h : sock.store s f = some s') : Quiet s s' := by
  unfold EAPOLSocketRef.store at h
  cases hd : sock.deref s with
  | none => simp [hd] at h
  | some obj =>
    simp only [hd] at h
    cases sock with
    | main =>
      simp only [Option.some.injEq] at h
      subst h
      exact ⟨rfl, fun h => h, rfl, fun e he hr => ⟨e, he, hr⟩⟩
    | preauth i =>
      simp only [Option.some.injEq] at h
      subst h
      refine ⟨rfl, fun h => h, rfl, ?_⟩
      intro e he hr
      rcases mem_modify f _ i e he with h' | ⟨a, ha, hfa⟩
      · exact ⟨e, h', hr⟩
      · refine ⟨a, ha, ?_⟩
        rw [← hf a, ← hfa]
        exact hr

theorem quiet_create_socket (s : EAPOLSocketSource) (bssid : Option ether_addr)
    (malloc_ok : Bool) : Quiet s (EAPOLSocketSourceCreateSocket s bssid malloc_ok).2 := by
  unfold EAPOLSocketSourceCreateSocket
  split
  · exact quiet_refl s
  · cases bssid with
    | none => exact ⟨rfl, fun h => h, rfl, fun e he hr => ⟨e, he, hr⟩⟩
    | some b =>
      refine ⟨rfl, fun h => h, rfl, ?_⟩
      intro e he hr
      simp only [List.mem_append, List.mem_singleton] at he
      rcases he with he | he
      · exact ⟨e, he, hr⟩
      · rw [he] at hr
        exact Bool.noConfusion hr

theorem quiet_scan_loop (l : List ScanEntry) :
    ∀ (s : EAPOLSocketSource) (r : EAPOLSocketSource × List Event),
      scan_loop s l = some r → Quiet s r.1 := by
  induction l with
  | nil =>
    intro s r h
    simp only [scan_loop, Option.some.injEq] at h
    subst h
    exact quiet_refl s
  | cons e rest ih =>
    intro s r h
    unfold scan_loop at h
    by_cases h1 : e.bssid = s.bssid
    · simp only [h1, if_true] at h
      exact ih s r h
    · simp only [h1, if_false] at h
      by_cases h2 : (EAPOLSocketSourceLookupPreauthSocket s e.bssid).isSome = true
      · simp only [h2, if_true] at h
        exact ih s r h
      · simp only [h2, Bool.false_eq_true, if_false] at h
        have hq := quiet_create_socket s (some e.bssid) e.malloc_ok
        cases hc : (EAPOLSocketSourceCreateSocket s (some e.bssid) e.malloc_ok).1 with
        | none =>
          simp only [hc] at h
          exact quiet_trans hq (ih _ r h)
        | some sock =>
          simp only [hc] at h
          cases hm : (EAPOLSocketSourceCreateSocket s (some e.bssid) e.malloc_ok).2.sock with
          | none => simp [hm] at h
          | some m =>
            simp only [hm] at h
            cases hs : e.supp with
            | none =>
              simp only [hs] at h
              cases hr0 : scan_loop (EAPOLSocketFree
                  (EAPOLSocketSourceCreateSocket s (some e.bssid) e.malloc_ok).2 sock) rest with
              | none => simp [hr0] at h
              | some r0 =>
              simp only [hr0, Option.map, Option.some.injEq] at h
              subst h
              have hfree : Quiet (EAPOLSocketSourceCreateSocket s (some e.bssid) e.malloc_ok).2
                  (EAPOLSocketFree (EAPOLSocketSourceCreateSocket s (some e.bssid) e.malloc_ok).2
                    sock) := by
                cases sock with
                | main => exact quiet_free_main _
                | preauth i => exact quiet_free_preauth _ i
              exact quiet_trans hq (quiet_trans hfree (ih _ r0 hr0))
            | some sp =>
              simp only [hs] at h
              cases hst : sock.store (EAPOLSocketSourceCreateSocket s (some e.bssid) e.malloc_ok).2
                  (fun s => { s with supp := some sp }) with
              | none => simp [hst] at h
              | some s3 =>
                simp only [hst] at h
                cases hr0 : scan_loop s3 rest with
                | none => simp [hr0] at h
                | some r0 =>
                simp only [hr0, Option.map, Option.some.injEq] at h
                subst h
                have hq3 := quiet_store _ s3 sock
                  (fun s => { s with supp := some sp }) (fun _ => rfl) hst
                exact quiet_trans hq (quiet_trans hq3 (ih _ r0 hr0))

theorem quiet_scan_callback (g : Globals) (s : EAPOLSocketSource)
    (bssid_list : Option (List ScanEntry)) (r : EAPOLSocketSource × List Event)
    (h : EAPOLSocketSourceScanCallback g s bssid_list = some r) : Quiet s r.1 := by
  unfold EAPOLSocketSourceScanCallback at h
  simp only [Option.map_eq_some'] at h
  obtain ⟨r0, hr0, rfl⟩ := h
  cases bssid_list with
  | none =>
    simp only [Option.some.injEq] at hr0
    subst hr0
    exact quiet_refl s
  | some l =>
    simp only at hr0
    split at hr0
    · simp only [Option.some.injEq] at hr0
      subst hr0
      exact quiet_refl s
    · exact quiet_scan_loop l s r0 hr0

theorem quiet_handshake_complete (s : EAPOLSocketSource) (st : SupplicantState)
    (r : EAPOLSocketSource × List Event)
    (h : EAPOLSocketSourceHandshakeComplete s st = some r) : Quiet s r.1 := by
  unfold EAPOLSocketSourceHandshakeComplete at h
  cases hs : s.sock with
  | none => simp [hs] at h
  | some m =>
    simp only [hs, Option.some.injEq] at h
    subst h
    exact quiet_unschedule s

theorem quiet_create_supplicant (s : EAPOLSocketSource) (control_dict : Option ControlDict)
    (system_mode malloc_ok : Bool) (supp : Option Nat) :
    Quiet s (EAPOLSocketSourceCreateSupplicant s control_dict system_mode malloc_ok supp).2.1 := by
  unfold EAPOLSocketSourceCreateSupplicant
  simp only
  split
  · exact quiet_refl s
  · rename_i mode config heq
    have hq : Quiet s { s with mode := mode } :=
      ⟨rfl, fun h => h, rfl, fun e he hr => ⟨e, he, hr⟩⟩
    have hc := quiet_create_socket { s with mode := mode } none malloc_ok
    split
    · exact quiet_trans hq hc
    · rename_i sock hsock
      split
      · have hfree : Quiet (EAPOLSocketSourceCreateSocket { s with mode := mode } none malloc_ok).2
            (EAPOLSocketFree (EAPOLSocketSourceCreateSocket { s with mode := mode } none
              malloc_ok).2 sock) := by
          cases sock with
          | main => exact quiet_free_main _
          | preauth i => exact quiet_free_preauth _ i
        exact quiet_trans hq (quiet_trans hc hfree)
      · exact quiet_trans hq (quiet_trans hc
          ⟨rfl, fun h => h, rfl, fun e he hr => ⟨e, he, hr⟩⟩)

theorem invariant_of_all_flagged_set (s : EAPOLSocketSource)
    (h : s.preauth_sockets ≠ [] → s.process_removals = true) : removal_invariant s := by
  intro e he _
  exact h (List.ne_nil_of_mem he)

theorem invariant_mark_all (s : EAPOLSocketSource) :
    removal_invariant (EAPOLSocketSourceMarkPreauthSocketsForRemoval s) := by
  rw [mark_all_eq]
  apply invariant_of_all_flagged_set
  intro hne
  simp only [List.map_eq_nil_iff, ne_eq] at hne
  have : 0 < s.preauth_sockets.length := List.length_pos.mpr hne
  simp [this]

theorem invariant_teardown (g : Globals) (s : EAPOLSocketSource)
    (h : removal_invariant s) : removal_invariant (preauth_teardown_state g s) := by
  unfold preauth_teardown_state
  split
  · exact invariant_mark_all s
  · exact h

theorem observer_facts (s : EAPOLSocketSource) :
    (EAPOLSocketSourceObserver s).1.client = s.client
      ∧ (EAPOLSocketSourceObserver s).1.authenticated = s.authenticated
      ∧ (removal_invariant s → removal_invariant (EAPOLSocketSourceObserver s).1) := by
  unfold EAPOLSocketSourceObserver
  split
  · rw [remove_preauth_sockets_eq]
    refine ⟨rfl, rfl, ?_⟩
    intro _ e he hr
    simp only [List.mem_filter, Bool.not_eq_true'] at he
    rw [he.2] at hr
    exact Bool.noConfusion hr
  · exact ⟨rfl, rfl, fun h => h⟩

theorem set_pmk_facts (s : EAPOLSocketSource) (sock : EAPOLSocketRef) (key_length : Int)
    (created : Option Nat) (result : Bool) (r : Bool × EAPOLSocketSource × List Event)
    (h : EAPOLSocketSetPMK s sock key_length created result = some r) :
    r.2.1.client = s.client
      ∧ r.2.1.preauth_sockets = s.preauth_sockets
      ∧ r.2.1.process_removals = s.process_removals
      ∧ (r.2.1.authenticated = true →
          s.authenticated = true
            ∨ (sock = EAPOLSocketRef.main ∧ key_length ≠ 0 ∧ created ≠ none)) := by
  unfold EAPOLSocketSetPMK at h
  cases hd : sock.deref s with
  | none => simp [hd] at h
  | some obj =>
    simp only [hd] at h
    split at h
    · simp only [Option.some.injEq] at h
      subst h
      exact ⟨rfl, rfl, rfl, fun h => Or.inl h⟩
    · split at h
      · rename_i hmain
        split at h
        · rename_i hk
          simp only [Option.some.injEq] at h
          subst h
          unfold EAPOLSocketSourceScheduleHandshakeNotification
          rw [unschedule_eq]
          cases created with
          | none => exact ⟨rfl, rfl, rfl, fun h => Or.inl h⟩
          | some c => exact ⟨rfl, rfl, rfl, fun _ => Or.inr ⟨hmain, hk.1, by simp⟩⟩
        · simp only [Option.some.injEq] at h
          subst h
          rw [unschedule_eq]
          exact ⟨rfl, rfl, rfl, fun h => Or.inl h⟩
      · simp only [Option.some.injEq] at h
        subst h
        exact ⟨rfl, rfl, rfl, fun h => Or.inl h⟩

theorem report_status_preauth_cases (g : Globals) (s : EAPOLSocketSource) (i : Nat)
    (e : EAPOLSocket) (client dict : Nat) (st : SupplicantState) (cs : EAPClientStatus)
    (he : s.preauth_sockets[i]? = some e) (hc : s.client = some client) :
    EAPOLSocketReportStatus g s (EAPOLSocketRef.preauth i) dict st cs
        = some (EAPOLSocketMarkForRemoval s (EAPOLSocketRef.preauth i), [])
      ∨ EAPOLSocketReportStatus g s (EAPOLSocketRef.preauth i) dict st cs = some (s, []) := by
  have hne : EAPOLSocketRef.preauth i ≠ EAPOLSocketRef.main := by intro h; cases h
  unfold EAPOLSocketReportStatus
  cases st with
  | kSupplicantStateHeld =>
    left; simp only [EAPOLSocketRef.deref, he, hc, hne, if_false]
  | kSupplicantStateAuthenticated =>
    left; simp only [EAPOLSocketRef.deref, he, hc, hne, if_false]
  | kSupplicantStateAuthenticating =>
    by_cases hcs : cs = EAPClientStatus.kEAPClientStatusUserInputRequired
    · left; simp only [EAPOLSocketRef.deref, he, hc, hne, if_false, hcs, if_true]
    · right; simp only [EAPOLSocketRef.deref, he, hc, hne, if_false, hcs]
  | kSupplicantStateInactive =>
    right; simp only [EAPOLSocketRef.deref, he, hc, hne, if_false]
  | kSupplicantStateLogoff =>
    right; simp only [EAPOLSocketRef.deref, he, hc, hne, if_false]
  | kSupplicantStateConnecting =>
    right; simp only [EAPOLSocketRef.deref, he, hc, hne, if_false]
  | kSupplicantStateAcquired =>
    right; simp only [EAPOLSocketRef.deref, he, hc, hne, if_false]
  | kSupplicantStateDisconnected =>
    right; simp only [EAPOLSocketRef.deref, he, hc, hne, if_false]

theorem report_status_no_client (g : Globals) (s : EAPOLSocketSource) (sock : EAPOLSocketRef)
    (dict : Nat) (st : SupplicantState) (cs : EAPClientStatus)
    (r : EAPOLSocketSource × List Event) (hc : s.client = none)
    (h : EAPOLSocketReportStatus g s sock dict st cs = some r) : r = (s, []) := by
  unfold EAPOLSocketReportStatus at h
  cases hd : sock.deref s with
  | none => simp [hd] at h
  | some obj =>
    simp only [hd, hc, Option.some.injEq] at h
    exact h.symm

theorem report_status_facts (g : Globals) (s : EAPOLSocketSource) (sock : EAPOLSocketRef)
    (dict : Nat) (st : SupplicantState) (cs : EAPClientStatus)
    (r : EAPOLSocketSource × List Event)
    (h : EAPOLSocketReportStatus g s sock dict st cs = some r) :
    r.1.client = s.client
      ∧ (removal_invariant s → removal_invariant r.1)
      ∧ (r.1.authenticated = true →
          s.authenticated = true
            ∨ (sock = EAPOLSocketRef.main
                ∧ st = SupplicantState.kSupplicantStateAuthenticated))
      ∧ (s.client ≠ none → sock = EAPOLSocketRef.main →
          st = SupplicantState.kSupplicantStateInactive
            ∨ st = SupplicantState.kSupplicantStateHeld →
          r.1.authenticated = false) := by
  cases hcl : s.client with
  | none =>
    have hr := report_status_no_client g s sock dict st cs r hcl h
    subst hr
    exact ⟨hcl, fun hi => hi, fun ha => Or.inl ha, fun hne => absurd rfl hne⟩
  | some client =>
    have hderef : ∃ obj, sock.deref s = some obj := by
      cases hd : sock.deref s with
      | none => unfold EAPOLSocketReportStatus at h; simp [hd] at h
      | some obj => exact ⟨obj, rfl⟩
    obtain ⟨obj, hd⟩ := hderef
    cases sock with
    | preauth i =>
      have he : s.preauth_sockets[i]? = some obj := hd
      rcases report_status_preauth_cases g s i obj client dict st cs he hcl with h' | h'
      · rw [h'] at h
        simp only [Option.some.injEq] at h
        subst h
        refine ⟨hcl, fun _ _ _ _ => rfl, fun ha => Or.inl ha, ?_⟩
        intro _ hm
        cases hm
      · rw [h'] at h
        simp only [Option.some.injEq] at h
        subst h
        refine ⟨hcl, fun hi => hi, fun ha => Or.inl ha, ?_⟩
        intro _ hm
        cases hm
    | main =>
      have hm : s.sock = some obj := hd
      by_cases hst : st = SupplicantState.kSupplicantStateAuthenticated
      · subst hst
        by_cases ha : s.authenticated = false
        · rw [report_status_main_auth_first g s obj client dict cs hm hcl ha] at h
          simp only [Option.some.injEq] at h
          subst h
          refine ⟨hcl, fun hi => hi, fun _ => Or.inr ⟨rfl, rfl⟩, ?_⟩
          intro _ _ hst
          rcases hst with hst | hst <;> cases hst
        · have ha' : s.authenticated = true := by simpa using ha
          rw [report_status_main_auth_again g s obj client dict cs hm hcl ha'] at h
          simp only [Option.some.injEq] at h
          subst h
          refine ⟨hcl, fun hi => hi, fun ha => Or.inl ha, ?_⟩
          intro _ _ hst
          rcases hst with hst | hst <;> cases hst
      · cases st with
        | kSupplicantStateAuthenticated => exact absurd rfl hst
        | kSupplicantStateInactive =>
          rw [report_status_main_inactive g s obj client dict cs hm hcl] at h
          simp only [Option.some.injEq] at h
          subst h
          have hf := teardown_state_fields g { s with interest := none, authenticated := false }
          refine ⟨hf.2.2.2.trans hcl, fun hi => invariant_teardown g _ hi, ?_, ?_⟩
          · intro ha
            rw [hf.1] at ha
            exact Bool.noConfusion ha
          · intro _ _ _
            exact hf.1
        | kSupplicantStateHeld =>
          rw [report_status_main_held g s obj client dict cs hm hcl] at h
          simp only [Option.some.injEq] at h
          subst h
          have hf := teardown_state_fields g { s with interest := none, authenticated := false }
          refine ⟨hf.2.2.2.trans hcl, fun hi => invariant_teardown g _ hi, ?_, ?_⟩
          · intro ha
            rw [hf.1] at ha
            exact Bool.noConfusion ha
          · intro _ _ _
            exact hf.1
        | kSupplicantStateLogoff =>
          rw [report_status_main_logoff g s obj client dict cs hm hcl] at h
          simp only [Option.some.injEq] at h
          subst h
          have hf := teardown_state_fields g s
          refine ⟨hf.2.2.2.trans hcl, fun hi => invariant_teardown g _ hi, ?_, ?_⟩
          · intro ha
            rw [hf.1] at ha
            exact Or.inl ha
          · intro _ _ hst
            rcases hst with hst | hst <;> cases hst
        | kSupplicantStateConnecting =>
          rw [report_status_main_other g s obj client dict cs hm hcl _ (Or.inl rfl)] at h
          simp only [Option.some.injEq] at h
          subst h
          have hf := teardown_state_fields g s
          refine ⟨hf.2.2.2.trans hcl, fun hi => invariant_teardown g _ hi, ?_, ?_⟩
          · intro ha
            rw [hf.1] at ha
            exact Or.inl ha
          · intro _ _ hst
            rcases hst with hst | hst <;> cases hst
        | kSupplicantStateAcquired =>
          rw [report_status_main_other g s obj client dict cs hm hcl _ (Or.inr (Or.inl rfl))] at h
          simp only [Option.some.injEq] at h
          subst h
          have hf := teardown_state_fields g s
          refine ⟨hf.2.2.2.trans hcl, fun hi => invariant_teardown g _ hi, ?_, ?_⟩
          · intro ha
            rw [hf.1] at ha
            exact Or.inl ha
          · intro _ _ hst
            rcases hst with hst | hst <;> cases hst
        | kSupplicantStateAuthenticating =>
          rw [report_status_main_other g s obj client dict cs hm hcl _
            (Or.inr (Or.inr (Or.inl rfl)))] at h
          simp only [Option.some.injEq] at h
          subst h
          have hf := teardown_state_fields g s
          refine ⟨hf.2.2.2.trans hcl, fun hi => invariant_teardown g _ hi, ?_, ?_⟩
          · intro ha
            rw [hf.1] at ha
            exact Or.inl ha
          · intro _ _ hst
            rcases hst with hst | hst <;> cases hst
        | kSupplicantStateDisconnected =>
          rw [report_status_main_other g s obj client dict cs hm hcl _
            (Or.inr (Or.inr (Or.inr rfl)))] at h
          simp only [Option.some.injEq] at h
          subst h
          have hf := teardown_state_fields g s
          refine ⟨hf.2.2.2.trans hcl, fun hi => invariant_teardown g _ hi, ?_, ?_⟩
          · intro ha
            rw [hf.1] at ha
            exact Or.inl ha
          · intro _ _ hst
            rcases hst with hst | hst <;> cases hst

theorem facts_of_quiet {s s' : EAPOLSocketSource} (op : Op) (hq : Quiet s s')
    (hop : op.isInactiveOrHeldReport = false) :
    s'.client = s.client
      ∧ (removal_invariant s → removal_invariant s')
      ∧ (s'.authenticated = true → s.authenticated = true ∨ op.setsAuthenticated = true)
      ∧ (s.client ≠ none → op.isInactiveOrHeldReport = true → s'.authenticated = false) := by
  refine ⟨hq.1, quiet_invariant hq, fun h => Or.inl (hq.2.1 h), ?_⟩
  intro _ h
  rw [hop] at h
  exact Bool.noConfusion h

theorem step_facts (g : Globals) (V : List Byte → Nat → Bool) (s s' : EAPOLSocketSource)
    (op : Op) (h : step g V s op = some s') :
    s'.client = s.client
      ∧ (removal_invariant s → removal_invariant s')
      ∧ (s'.authenticated = true → s.authenticated = true ∨ op.setsAuthenticated = true)
      ∧ (s.client ≠ none → op.isInactiveOrHeldReport = true → s'.authenticated = false) := by
  cases op with
  | Receive w n buf =>
    simp only [step, Option.some.injEq] at h
    subst h
    exact facts_of_quiet _ (quiet_receive g w V s n buf) rfl
  | Transmit w sent sock t body bl =>
    simp only [step, Option.map_eq_some'] at h
    obtain ⟨r, hr, rfl⟩ := h
    exact facts_of_quiet _ (quiet_transmit g w sent s sock t body bl r hr) rfl
  | LinkStatusChanged w active =>
    simp only [step, Option.some.injEq] at h
    subst h
    exact facts_of_quiet _ (quiet_link_status g w s active) rfl
  | Observer =>
    simp only [step, Option.some.injEq] at h
    subst h
    have hf := observer_facts s
    refine ⟨hf.1, hf.2.2, fun ha => Or.inl (hf.2.1 ▸ ha), ?_⟩
    intro _ hop
    exact Bool.noConfusion hop
  | ScanCallback l =>
    simp only [step, Option.map_eq_some'] at h
    obtain ⟨r, hr, rfl⟩ := h
    exact facts_of_quiet _ (quiet_scan_callback g s l r hr) rfl
  | HandshakeComplete st =>
    simp only [step, Option.map_eq_some'] at h
    obtain ⟨r, hr, rfl⟩ := h
    exact facts_of_quiet _ (quiet_handshake_complete s st r hr) rfl
  | EnableReceive sock func a1 a2 =>
    simp only [step, EAPOLSocketEnableReceive] at h
    exact facts_of_quiet _ (quiet_store s s' sock
      (fun x => { x with func := func, arg1 := a1, arg2 := a2 }) (fun _ => rfl) h) rfl
  | DisableReceive sock =>
    simp only [step, EAPOLSocketDisableReceive] at h
    exact facts_of_quiet _ (quiet_store s s' sock
      (fun x => { x with func := none }) (fun _ => rfl) h) rfl
  | SetPMK sock key_length created result =>
    simp only [step, Option.map_eq_some'] at h
    obtain ⟨r, hr, rfl⟩ := h
    obtain ⟨hc, hl, hp, ha⟩ := set_pmk_facts s sock key_length created result r hr
    refine ⟨hc, ?_, ?_, ?_⟩
    · intro hi e he hrm
      rw [hp]
      rw [hl] at he
      exact hi e he hrm
    · intro hau
      rcases ha hau with h1 | ⟨h1, h2, h3⟩
      · exact Or.inl h1
      · right
        subst h1
        cases created with
        | none => exact absurd rfl h3
        | some c => simp [Op.setsAuthenticated, h2]
    · intro _ hop
      cases sock <;> exact Bool.noConfusion hop
  | ReportStatus sock dict st cs =>
    simp only [step, Option.map_eq_some'] at h
    obtain ⟨r, hr, rfl⟩ := h
    obtain ⟨hc, hi, ha, hd⟩ := report_status_facts g s sock dict st cs r hr
    refine ⟨hc, hi, ?_, ?_⟩
    · intro hau
      rcases ha hau with h1 | ⟨h1, h2⟩
      · exact Or.inl h1
      · right
        subst h1
        subst h2
        rfl
    · intro hcl hop
      cases sock with
      | preauth i => exact Bool.noConfusion hop
      | main =>
        cases st with
        | kSupplicantStateInactive => exact hd hcl rfl (Or.inl rfl)
        | kSupplicantStateHeld => exact hd hcl rfl (Or.inr rfl)
        | kSupplicantStateAuthenticated => exact Bool.noConfusion hop
        | kSupplicantStateLogoff => exact Bool.noConfusion hop
        | kSupplicantStateConnecting => exact Bool.noConfusion hop
        | kSupplicantStateAcquired => exact Bool.noConfusion hop
        | kSupplicantStateAuthenticating => exact Bool.noConfusion hop
        | kSupplicantStateDisconnected => exact Bool.noConfusion hop
  | CreateSupplicant cd sm mo sp =>
    simp only [step, Option.some.injEq] at h
    subst h
    exact facts_of_quiet _ (quiet_create_supplicant s cd sm mo sp) rfl

theorem run_cons (g : Globals) (V : List Byte → Nat → Bool) (s s' : EAPOLSocketSource)
    (op : Op) (rest : List Op) (h : run g V s (op :: rest) = some s') :
    ∃ s1, step g V s op = some s1 ∧ run g V s1 rest = some s' := by
  simp only [run] at h
  cases hs : step g V s op with
  | none => simp [hs] at h
  | some s1 =>
    simp only [hs] at h
    exact ⟨s1, rfl, h⟩

theorem run_client (g : Globals) (V : List Byte → Nat → Bool) (ops : List Op) :
    ∀ (s s' : EAPOLSocketSource), run g V s ops = some s' → s'.client = s.client := by
  induction ops with
  | nil =>
    intro s s' h
    simp only [run, Option.some.injEq] at h
    rw [h]
  | cons op rest ih =>
    intro s s' h
    obtain ⟨s1, h1, h2⟩ := run_cons g V s s' op rest h
    rw [ih s1 s' h2, (step_facts g V s s1 op h1).1]

theorem run_invariant (g : Globals) (V : List Byte → Nat → Bool) (ops : List Op) :
    ∀ (s s' : EAPOLSocketSource), run g V s ops = some s' →
      removal_invariant s → removal_invariant s' := by
  induction ops with
  | nil =>
    intro s s' h hi
    simp only [run, Option.some.injEq] at h
    rw [← h]
    exact hi
  | cons op rest ih =>
    intro s s' h hi
    obtain ⟨s1, h1, h2⟩ := run_cons g V s s' op rest h
    exact ih s1 s' h2 ((step_facts g V s s1 op h1).2.1 hi)

theorem create_facts (g : Globals) (w : Wireless) (ether : ether_addr) (is_wireless : Bool)
    (active : Option Bool) (client : Option Nat) :
    (EAPOLSocketSourceCreate g w ether is_wireless active client).1.client = client
      ∧ (EAPOLSocketSourceCreate g w ether is_wireless active client).1.authenticated = false
      ∧ removal_invariant (EAPOLSocketSourceCreate g w ether is_wireless active client).1 := by
  have hq := quiet_link_status g w
    { client := none, ether := ether, rx := { eapol_p := none, length := 0 },
      mtu := 1400, is_wireless := is_wireless, is_wpa_enterprise := false,
      link_active := false, authenticated := false, interest := none, ssid := none,
      bssid := ⟨0, 0, 0, 0, 0, 0⟩, bssid_valid := false, process_removals := false,
      sock := none, preauth_sockets := [], preauth_sockets_count := 0,
      mode := EAPOLControlMode.kEAPOLControlModeNone } active
  refine ⟨rfl, ?_, ?_⟩
  · cases ha : (EAPOLSocketSourceCreate g w ether is_wireless active client).1.authenticated with
    | false => rfl
    | true => exact Bool.noConfusion (hq.2.1 ha)
  · intro e he hr
    obtain ⟨e0, he0, _⟩ := hq.2.2.2 e he hr
    simp at he0

theorem run_authenticated_cause (g : Globals) (V : List Byte → Nat → Bool) (ops : List Op) :
    ∀ (s0 s : EAPOLSocketSource), run g V s0 ops = some s → s0.client ≠ none →
      s.authenticated = true →
      (s0.authenticated = true ∧ ∀ o ∈ ops, o.isInactiveOrHeldReport = false)
        ∨ ∃ pre op post, ops = pre ++ op :: post ∧ op.setsAuthenticated = true
            ∧ ∀ o ∈ post, o.isInactiveOrHeldReport = false := by
  induction ops with
  | nil =>
    intro s0 s h _ ha
    simp only [run, Option.some.injEq] at h
    subst h
    exact Or.inl ⟨ha, fun o ho => by simp at ho⟩
  | cons op rest ih =>
    intro s0 s h hc ha
    obtain ⟨s1, h1, h2⟩ := run_cons g V s0 s op rest h
    obtain ⟨f1, _, f3, f4⟩ := step_facts g V s0 s1 op h1
    have hc1 : s1.client ≠ none := by rw [f1]; exact hc
    rcases ih s1 s h2 hc1 ha with ⟨ha1, hrest⟩ | ⟨pre, op', post, hops, hset, hpost⟩
    · rcases f3 ha1 with ha0 | hset
      · left
        refine ⟨ha0, ?_⟩
        intro o ho
        simp only [List.mem_cons] at ho
        rcases ho with ho | ho
        · subst ho
          cases hd : o.isInactiveOrHeldReport with
          | false => rfl
          | true =>
            have := f4 hc hd
            rw [ha1] at this
            exact Bool.noConfusion this
        · exact hrest o ho
      · right
        exact ⟨[], op, rest, rfl, hset, hrest⟩
    · right
      exact ⟨op :: pre, op', post, by rw [hops]; rfl, hset, hpost⟩

theorem reachable_invariant (g : Globals) (V : List Byte → Nat → Bool)
    (s : EAPOLSocketSource) (hr : Reachable g V s) : removal_invariant s := by
  obtain ⟨w, ether, is_wireless, active, client, ops, h⟩ := hr
  exact run_invariant g V ops _ s h (create_facts g w ether is_wireless active client).2.2

theorem observer_sweep (s : EAPOLSocketSource) (hi : removal_invariant s) :
    (EAPOLSocketSourceObserver s).1.preauth_sockets
        = s.preauth_sockets.filter (fun e => !e.remove)
      ∧ (EAPOLSocketSourceObserver s).1.process_removals = false
      ∧ (EAPOLSocketSourceObserver s).2
          = (s.preauth_sockets.filter (fun e => e.remove)).map
              (fun e => Event.Supplicant_free e.supp) := by
  unfold EAPOLSocketSourceObserver
  by_cases hp : s.process_removals = true
  · rw [if_pos hp, remove_preauth_sockets_eq]
    exact ⟨rfl, rfl, rfl⟩
  · rw [if_neg hp]
    have hall : ∀ e ∈ s.preauth_sockets, e.remove = false := by
      intro e he
      cases hr : e.remove with
      | false => rfl
      | true => exact absurd (hi e he hr) hp
    refine ⟨?_, ?_, ?_⟩
    · symm
      rw [List.filter_eq_self]
      intro e he
      simp [hall e he]
    · simpa using hp
    · have : s.preauth_sockets.filter (fun e => e.remove) = [] := by
        rw [List.filter_eq_nil_iff]
        intro e he
        simp [hall e he]
      rw [this]
      rfl

/-- C14 (counterexample): starting from the source `EAPOLSocketSourceCreate`
returns, the main Supplicant is created and installs a 32-octet PMK for which
the handshake subscription is created.  `authenticated` is then true although
no operation of the run is an Authenticated report.  With the controller
attach failed (`client` NULL) it stays true through a following Held report of
the main Supplicant. -/
theorem set_pmk_sets_authenticated :
    (run preauth_globals accept_all started_source pmk_ops).map (fun s => s.authenticated)
        = some true
      ∧ (∀ o ∈ pmk_ops, o.isAuthenticatedReport = false)
      ∧ (run preauth_globals accept_all started_source_no_client pmk_then_held_ops).map
          (fun s => s.authenticated) = some true
      ∧ (∀ o ∈ pmk_then_held_ops, o.isAuthenticatedReport = false) := by
  refine ⟨by decide, by decide, by decide, by decide⟩

/-- C14 (amended): on a source whose controller attach succeeded, whenever
`authenticated` is true after a run of operations, the run contains an
operation that sets it (an Authenticated report of the main Supplicant, or
`EAPOLSocketSetPMK` on the main endpoint with a non-empty key whose handshake
subscription is created) after which the main Supplicant reported neither
Inactive nor Held; and no other operation turns `authenticated` on, in any
state. -/
theorem authenticated_since_last_inactive_or_held (g : Globals)
    (V : List Byte → Nat → Bool) (w : Wireless) (ether : ether_addr) (is_wireless : Bool)
    (active : Option Bool) (client : Nat) (ops : List Op) (s : EAPOLSocketSource)
    (hrun : run g V (EAPOLSocketSourceCreate g w ether is_wireless active (some client)).1 ops
      = some s)
    (ha : s.authenticated = true) :
    (∃ pre op post, ops = pre ++ op :: post ∧ op.setsAuthenticated = true
        ∧ ∀ o ∈ post, o.isInactiveOrHeldReport = false)
      ∧ ∀ (s1 s2 : EAPOLSocketSource) (op : Op), step g V s1 op = some s2 →
          s1.authenticated = false → s2.authenticated = true →
          op.setsAuthenticated = true := by
  obtain ⟨hc, hf, _⟩ := create_facts g w ether is_wireless active (some client)
  constructor
  · rcases run_authenticated_cause g V ops _ s hrun (by rw [hc]; simp) ha with ⟨h0, _⟩ | h
    · rw [hf] at h0
      exact Bool.noConfusion h0
    · exact h
  · intro s1 s2 op hs h1 h2
    rcases (step_facts g V s1 s2 op hs).2.2.1 h2 with h | h
    · rw [h1] at h
      exact Bool.noConfusion h
    · exact h

theorem authenticated_since_last_inactive_or_held_witness :
    run preauth_globals accept_all
        (EAPOLSocketSourceCreate preauth_globals associated_B local_mac true (some true)
          (some 1)).1 pmk_ops = some pmk_source
      ∧ pmk_source.authenticated = true
      ∧ ∃ pre op post, pmk_ops = pre ++ op :: post ∧ op.setsAuthenticated = true
          ∧ ∀ o ∈ post, o.isInactiveOrHeldReport = false :=
  ⟨by decide, by decide,
    (authenticated_since_last_inactive_or_held preauth_globals accept_all associated_B
      local_mac true (some true) 1 pmk_ops pmk_source (by decide) (by decide)).1⟩

/-- C19: in every reachable state a pre-auth endpoint flagged `remove` implies
`process_removals`; hence after `EAPOLSocketSourceObserver` the pre-auth
sequence is the previous one without its flagged endpoints, in the previous
order, no endpoint in it is flagged, `process_removals` is false, and
`Supplicant_free` has been called for exactly the flagged endpoints. -/
theorem observer_frees_every_flagged_endpoint (g : Globals) (V : List Byte → Nat → Bool)
    (s : EAPOLSocketSource) (hr : Reachable g V s) :
    removal_invariant s
      ∧ (EAPOLSocketSourceObserver s).1.preauth_sockets
          = s.preauth_sockets.filter (fun e => !e.remove)
      ∧ (∀ e ∈ (EAPOLSocketSourceObserver s).1.preauth_sockets, e.remove = false)
      ∧ (EAPOLSocketSourceObserver s).1.process_removals = false
      ∧ (EAPOLSocketSourceObserver s).2
          = (s.preauth_sockets.filter (fun e => e.remove)).map
              (fun e => Event.Supplicant_free e.supp) := by
  have hi := reachable_invariant g V s hr
  obtain ⟨h1, h2, h3⟩ := observer_sweep s hi
  refine ⟨hi, h1, ?_, h2, h3⟩
  intro e he
  rw [h1] at he
  simpa using (List.mem_filter.mp he).2

theorem observer_frees_every_flagged_endpoint_witness :
    Reachable preauth_globals accept_all flagged_source
      ∧ (EAPOLSocketSourceObserver flagged_source).1.preauth_sockets
          = [{ zeroed_socket with bssid := bssid_C, supp := some 103 }]
      ∧ (EAPOLSocketSourceObserver flagged_source).2 = [Event.Supplicant_free (some 101)] :=
  ⟨⟨associated_B, local_mac, true, some true, some 1, flagging_ops, by decide⟩,
    (observer_frees_every_flagged_endpoint preauth_globals accept_all flagged_source
      ⟨associated_B, local_mac, true, some true, some 1, flagging_ops, by decide⟩).2.1.trans
      (by decide),
    (observer_frees_every_flagged_endpoint preauth_globals accept_all flagged_source
      ⟨associated_B, local_mac, true, some true, some 1, flagging_ops, by decide⟩).2.2.2.2.trans
      (by decide)⟩

/-- C20 (counterexample): `flagged_source` is reached from the start-up source;
its endpoint bound to `bssid_A` is flagged `remove` and not yet swept.  A valid
0x88C7 Start frame sent by `bssid_A` still invokes that endpoint's callback. -/
theorem flagged_endpoint_still_receives :
    run preauth_globals accept_all started_source flagging_ops = some flagged_source
      ∧ flagged_source.preauth_sockets.map (fun e => (e.bssid, e.remove))
          = [(bssid_A, true), (bssid_C, false)]
      ∧ callbacks (EAPOLSocketSourceReceive preauth_globals associated_B accept_all
          flagged_source 18 frame_preauth_start_A).2
          = [Event.receive_callback 8 3 4 { eapol_p := some [1, 1, 0, 0], length := 4 }] := by
  refine ⟨by decide, by decide, by decide⟩

/-- C20 (amended): `EAPOLSocketSourceReceive` does not consult the `remove`
flag.  For a valid 0x88C7 frame the callback of the first pre-auth endpoint
whose BSSID equals the source MAC is invoked whether or not that endpoint is
flagged.  Only the sweep ends the dispatch: in a reachable state in which
every endpoint with that BSSID is flagged, the same frame received after
`EAPOLSocketSourceObserver` invokes no callback. -/
theorem receive_dispatches_until_swept (g : Globals) (w : Wireless)
    (V : List Byte → Nat → Bool) (source : EAPOLSocketSource) (n : Int) (buf : List Byte)
    (e : EAPOLSocket)
    (hn : 0 < n) (he : ether_header_valid buf n.toNat = true)
    (ht : ether_type_of buf = IEEE80211_PREAUTH_ETHERTYPE)
    (hh : eapol_header_valid (buf.drop 14) (n.toNat - 14) = true)
    (hb : eapol_body_valid V (buf.drop 14) (n.toNat - 14) = true)
    (hfind : source.preauth_sockets.find? (fun x => decide (x.bssid = ether_shost buf))
      = some e) :
    callbacks (EAPOLSocketSourceReceive g w V source n buf).2
        = dispatch (some e) { eapol_p := some (buf.drop 14), length := n.toNat - 14 }
      ∧ (∀ f, e.func = some f →
          callbacks (EAPOLSocketSourceReceive g w V source n buf).2
            = [Event.receive_callback f e.arg1 e.arg2
                { eapol_p := some (buf.drop 14), length := n.toNat - 14 }])
      ∧ (Reachable g V source →
          (∀ x ∈ source.preauth_sockets, x.bssid = ether_shost buf → x.remove = true) →
          callbacks (EAPOLSocketSourceReceive g w V
            (EAPOLSocketSourceObserver source).1 n buf).2 = []) := by
  have hne : ¬ ether_type_of buf = EAPOL_802_1_X_ETHERTYPE := by
    rw [ht]
    decide
  have h1 := receive_of_valid g w V source n buf hn he (Or.inr ht) hh hb
  rw [if_neg hne, hfind] at h1
  refine ⟨h1, ?_, ?_⟩
  · intro f hf
    rw [h1]
    simp only [dispatch, hf]
    rfl
  · intro hr hall
    have h2 := receive_of_valid g w V (EAPOLSocketSourceObserver source).1 n buf hn he
      (Or.inr ht) hh hb
    rw [if_neg hne, (observer_sweep source (reachable_invariant g V source hr)).1] at h2
    rw [h2]
    have hnone : (source.preauth_sockets.filter (fun e => !e.remove)).find?
        (fun x => decide (x.bssid = ether_shost buf)) = none := by
      rw [List.find?_eq_none]
      intro x hx
      obtain ⟨hx1, hx2⟩ := List.mem_filter.mp hx
      intro hb
      have hbs : x.bssid = ether_shost buf := by simpa using hb
      rw [hall x hx1 hbs] at hx2
      exact Bool.noConfusion hx2
    rw [hnone]
    rfl

theorem receive_dispatches_until_swept_witness :
    callbacks (EAPOLSocketSourceReceive preauth_globals associated_B accept_all
        flagged_source 18 frame_preauth_start_A).2
        = dispatch
            (some { bssid := bssid_A, func := some 8, arg1 := 3, arg2 := 4,
                    supp := some 101, remove := true })
            { eapol_p := some (frame_preauth_start_A.drop 14), length := 4 }
      ∧ callbacks (EAPOLSocketSourceReceive preauth_globals associated_B accept_all
          (EAPOLSocketSourceObserver flagged_source).1 18 frame_preauth_start_A).2 = [] :=
  ⟨(receive_dispatches_until_swept preauth_globals associated_B accept_all flagged_source 18
      frame_preauth_start_A _ (by decide) (by decide) (by decide) (by decide) (by decide)
      (by decide)).1,
    (receive_dispatches_until_swept preauth_globals associated_B accept_all flagged_source 18
      frame_preauth_start_A
      { bssid := bssid_A, func := some 8, arg1 := 3, arg2 := 4, supp := some 101,
        remove := true }
      (by decide) (by decide) (by decide) (by decide) (by decide) (by decide)).2.2
      ⟨associated_B, local_mac, true, some true, some 1, flagging_ops, by decide⟩
      (by decide)⟩

theorem scan_timer_after_append (p : Option Int) (a b : List Event) :
    scan_timer_after p (a ++ b) = scan_timer_after (scan_timer_after p a) b := by
  unfold scan_timer_after
  rw [List.foldl_append]

theorem scan_timer_after_cancel (p : Option Int) :
    scan_timer_after p EAPOLSocketSourceCancelScan = none := rfl

theorem scan_timer_after_schedule (p : Option Int) (d : Int) :
    scan_timer_after p (EAPOLSocketSourceScheduleScan d) = if d < 0 then p else some d := by
  unfold EAPOLSocketSourceScheduleScan
  split <;> rfl

theorem update_wireless_none_eq (g : Globals) (w : Wireless) (s : EAPOLSocketSource)
    (hwl : s.is_wireless = true) (hX : w.ap_mac = none) :
    EAPOLSocketSourceUpdateWirelessInfo g w s
      = (s.bssid_valid,
          { s with bssid_valid := false, is_wpa_enterprise := false, interest := none,
                   ssid := none, authenticated := false },
          (match s.interest with
            | none => []
            | some i => [Event.InterestNotificationRelease i])
            ++ [Event.Timer_cancel, Event.wireless_scan_cancel]) := by
  have hnw : ¬ s.is_wireless = false := by rw [hwl]; decide
  unfold EAPOLSocketSourceUpdateWirelessInfo
  rw [if_neg hnw]
  simp only [hX]
  rw [unschedule_eq]

/-- C24: on a wireless source, when the adapter reports no AP MAC,
`EAPOLSocketSourceUpdateWirelessInfo` returns whether the BSSID was known
before, and leaves the BSSID unknown, `is_wpa_enterprise` false, no SSID,
`authenticated` false and no handshake subscription (the one held is
released); its last two calls cancel the scan timer and the driver scan, so
no scan is pending; every other field, `link_active`, `mode` and the pre-auth
sequence among them, is unchanged. -/
theorem refresh_when_not_associated (g : Globals) (w : Wireless)
    (source : EAPOLSocketSource) (pending : Option Int)
    (hwl : source.is_wireless = true) (hX : w.ap_mac = none) :
    (EAPOLSocketSourceUpdateWirelessInfo g w source).1 = source.bssid_valid
      ∧ ((EAPOLSocketSourceUpdateWirelessInfo g w source).1 = true
          ↔ source.bssid_valid = true)
      ∧ (EAPOLSocketSourceUpdateWirelessInfo g w source).2.1
          = { source with bssid_valid := false, is_wpa_enterprise := false,
                          interest := none, ssid := none, authenticated := false }
      ∧ (EAPOLSocketSourceUpdateWirelessInfo g w source).2.1.link_active = source.link_active
      ∧ (EAPOLSocketSourceUpdateWirelessInfo g w source).2.1.mode = source.mode
      ∧ (EAPOLSocketSourceUpdateWirelessInfo g w source).2.1.preauth_sockets
          = source.preauth_sockets
      ∧ (EAPOLSocketSourceUpdateWirelessInfo g w source).2.2
          = (match source.interest with
              | none => []
              | some i => [Event.InterestNotificationRelease i])
            ++ [Event.Timer_cancel, Event.wireless_scan_cancel]
      ∧ scan_timer_after pending (EAPOLSocketSourceUpdateWirelessInfo g w source).2.2
          = none := by
  rw [update_wireless_none_eq g w source hwl hX]
  refine ⟨rfl, Iff.rfl, rfl, rfl, rfl, rfl, rfl, ?_⟩
  rw [scan_timer_after_append]
  rfl

theorem refresh_when_not_associated_witness :
    (EAPOLSocketSourceUpdateWirelessInfo preauth_globals not_associated
        wireless_source_pending).1 = true
      ∧ (EAPOLSocketSourceUpdateWirelessInfo preauth_globals not_associated
          wireless_source_pending).2.2
          = [Event.InterestNotificationRelease 9, Event.Timer_cancel,
              Event.wireless_scan_cancel] :=
  ⟨(refresh_when_not_associated preauth_globals not_associated wireless_source_pending none
      (by decide) (by decide)).1.trans (by decide),
   (refresh_when_not_associated preauth_globals not_associated wireless_source_pending none
      (by decide) (by decide)).2.2.2.2.2.2.1.trans (by decide)⟩

theorem lookupIdx_eraseIdx (b : ether_addr) (l : List EAPOLSocket) :
    (match lookupIdx b l with
      | none => l
      | some i => l.eraseIdx i) = l.eraseP (fun e => decide (e.bssid = b)) := by
  induction l with
  | nil => rfl
  | cons x xs ih =>
    unfold lookupIdx
    by_cases hx : x.bssid = b
    · simp [hx]
    · rw [if_neg hx, List.eraseP_cons_of_neg (by simpa using hx), ← ih]
      cases lookupIdx b xs <;> rfl

theorem lookupIdx_isSome (b : ether_addr) (l : List EAPOLSocket) :
    (lookupIdx b l).isSome = (l.find? (fun e => decide (e.bssid = b))).isSome := by
  rw [← lookupIdx_getElem]
  induction l with
  | nil => rfl
  | cons x xs ih =>
    unfold lookupIdx
    by_cases hx : x.bssid = b
    · simp [hx]
    · rw [if_neg hx]
      cases h : lookupIdx b xs with
      | none => simp
      | some i =>
        rw [h] at ih
        simpa using ih

theorem remove_with_bssid_eq (s : EAPOLSocketSource) (X : ether_addr) :
    EAPOLSocketSourceRemoveSocketWithBSSID s X
      = (match s.preauth_sockets.find? (fun e => decide (e.bssid = X)) with
          | none => (s, [])
          | some e =>
            ({ s with
               preauth_sockets := s.preauth_sockets.eraseP (fun e => decide (e.bssid = X))
               preauth_sockets_count := s.preauth_sockets_count - 1 },
              [Event.Supplicant_free e.supp])) := by
  have h1 := lookupIdx_eraseIdx X s.preauth_sockets
  have h2 := lookupIdx_getElem X s.preauth_sockets
  unfold EAPOLSocketSourceRemoveSocketWithBSSID EAPOLSocketSourceLookupPreauthSocket
  cases hl : lookupIdx X s.preauth_sockets with
  | none =>
    rw [hl] at h2
    simp only [Option.bind] at h2
    rw [← h2]
    rfl
  | some i =>
    rw [hl] at h1 h2
    simp only [Option.bind] at h2
    simp only at h1
    cases hf : s.preauth_sockets.find? (fun e => decide (e.bssid = X)) with
    | none =>
      rw [hf] at h2
      simp only [Option.map, EAPOLSocketFree, EAPOLSocketRef.deref, h2, h1]
      exfalso
      have := lookupIdx_isSome X s.preauth_sockets
      rw [hl, hf] at this
      exact Bool.noConfusion this
    | some e =>
      rw [hf] at h2
      simp only [Option.map, EAPOLSocketFree, EAPOLSocketRef.deref, h2, h1, Option.bind]
theorem remove_with_bssid_fields (s : EAPOLSocketSource) (X : ether_addr) :
    (EAPOLSocketSourceRemoveSocketWithBSSID s X).1.bssid_valid = s.bssid_valid
      ∧ (EAPOLSocketSourceRemoveSocketWithBSSID s X).1.ssid = s.ssid
      ∧ (EAPOLSocketSourceRemoveSocketWithBSSID s X).1.bssid = s.bssid
      ∧ (EAPOLSocketSourceRemoveSocketWithBSSID s X).1.preauth_sockets
          = s.preauth_sockets.eraseP (fun e => decide (e.bssid = X))
      ∧ scan_timer_after none (EAPOLSocketSourceRemoveSocketWithBSSID s X).2 = none
      ∧ ∀ p, scan_timer_after p (EAPOLSocketSourceRemoveSocketWithBSSID s X).2 = p := by
  rw [remove_with_bssid_eq]
  cases hf : s.preauth_sockets.find? (fun e => decide (e.bssid = X)) with
  | none =>
    refine ⟨rfl, rfl, rfl, ?_, rfl, fun _ => rfl⟩
    simp only
    rw [List.eraseP_of_forall_not]
    intro a ha
    simpa using List.find?_eq_none.mp hf a ha
  | some e => exact ⟨rfl, rfl, rfl, rfl, rfl, fun _ => rfl⟩

theorem update_wireless_changed_eq (g : Globals) (w : Wireless) (s : EAPOLSocketSource)
    (X : ether_addr) (hwl : s.is_wireless = true) (hX : w.ap_mac = some X)
    (hp : g.S_enable_preauth = true) (hch : s.bssid_valid = false ∨ X ≠ s.bssid) :
    EAPOLSocketSourceUpdateWirelessInfo g w s
      = (true,
          { (EAPOLSocketSourceRemoveSocketWithBSSID s X).1 with
            bssid_valid := true, bssid := X, is_wpa_enterprise := w.is_wpa_enterprise,
            ssid := w.ssid },
          (EAPOLSocketSourceRemoveSocketWithBSSID s X).2
            ++ (if s.bssid_valid = true
                then EAPOLSocketSourceScheduleScan g.S_scan_delay_roam_secs else [])
            ++ (if s.ssid ≠ none ∧ w.ssid ≠ none ∧ s.ssid ≠ w.ssid
                then EAPOLSocketSourceCancelScan else [])) := by
  have hnw : ¬ s.is_wireless = false := by rw [hwl]; decide
  obtain ⟨h1, h2, _⟩ := remove_with_bssid_fields s X
  unfold EAPOLSocketSourceUpdateWirelessInfo
  rw [if_neg hnw]
  simp only [hX]
  rw [if_pos hch, if_pos hp]
  simp only [h1, h2]

theorem update_wireless_same_eq (g : Globals) (w : Wireless) (s : EAPOLSocketSource)
    (X : ether_addr) (hwl : s.is_wireless = true) (hX : w.ap_mac = some X)
    (hv : s.bssid_valid = true) (hb : X = s.bssid) :
    EAPOLSocketSourceUpdateWirelessInfo g w s
      = (false,
          { s with bssid_valid := true, bssid := X, is_wpa_enterprise := w.is_wpa_enterprise,
                   ssid := w.ssid },
          if s.ssid ≠ none ∧ w.ssid ≠ none ∧ s.ssid ≠ w.ssid
          then EAPOLSocketSourceCancelScan else []) := by
  have hnw : ¬ s.is_wireless = false := by rw [hwl]; decide
  have hch : ¬ (s.bssid_valid = false ∨ X ≠ s.bssid) := by
    rw [hv]
    simp [hb]
  unfold EAPOLSocketSourceUpdateWirelessInfo
  rw [if_neg hnw]
  simp only [hX]
  rw [if_neg hch]
  simp only [List.nil_append]

theorem update_wireless_disabled_eq (g : Globals) (w : Wireless) (s : EAPOLSocketSource)
    (X : ether_addr) (hwl : s.is_wireless = true) (hX : w.ap_mac = some X)
    (hp : g.S_enable_preauth = false) :
    (EAPOLSocketSourceUpdateWirelessInfo g w s).2.1
      = { s with bssid_valid := true, bssid := X, is_wpa_enterprise := w.is_wpa_enterprise,
                 ssid := w.ssid } := by
  have hnw : ¬ s.is_wireless = false := by rw [hwl]; decide
  have hnp : ¬ g.S_enable_preauth = true := by rw [hp]; decide
  unfold EAPOLSocketSourceUpdateWirelessInfo
  rw [if_neg hnw]
  simp only [hX]
  by_cases hch : s.bssid_valid = false ∨ X ≠ s.bssid
  · rw [if_pos hch, if_neg hnp]
  · rw [if_neg hch]
/-- C25: on a wireless source with pre-authentication enabled, when the adapter
reports AP MAC `X`: if the BSSID was unknown or differed from `X`,
`EAPOLSocketSourceUpdateWirelessInfo` first removes the pre-auth endpoint bound
to `X` (the first one in the queue, freeing its Supplicant; nothing when there
is none) and then, only when a BSSID was known before (a roam), arms the scan
timer with `S_scan_delay_roam_secs`; if the BSSID was `X` already it does
neither.  It then sets the BSSID to `X`, and when the old and the new SSID are
both present and differ it cancels the scan after that, so that no scan is
pending whatever was armed before. -/
theorem refresh_when_associated (g : Globals) (w : Wireless) (source : EAPOLSocketSource)
    (X : ether_addr) (pending : Option Int)
    (hwl : source.is_wireless = true) (hX : w.ap_mac = some X)
    (hp : g.S_enable_preauth = true) :
    ((source.bssid_valid = false ∨ X ≠ source.bssid) →
      EAPOLSocketSourceUpdateWirelessInfo g w source
        = (true,
            { (EAPOLSocketSourceRemoveSocketWithBSSID source X).1 with
              bssid_valid := true, bssid := X, is_wpa_enterprise := w.is_wpa_enterprise,
              ssid := w.ssid },
            (EAPOLSocketSourceRemoveSocketWithBSSID source X).2
              ++ (if source.bssid_valid = true
                  then EAPOLSocketSourceScheduleScan g.S_scan_delay_roam_secs else [])
              ++ (if source.ssid ≠ none ∧ w.ssid ≠ none ∧ source.ssid ≠ w.ssid
                  then EAPOLSocketSourceCancelScan else [])))
      ∧ EAPOLSocketSourceRemoveSocketWithBSSID source X
          = (match source.preauth_sockets.find? (fun e => decide (e.bssid = X)) with
              | none => (source, [])
              | some e =>
                ({ source with
                   preauth_sockets :=
                     source.preauth_sockets.eraseP (fun e => decide (e.bssid = X))
                   preauth_sockets_count := source.preauth_sockets_count - 1 },
                  [Event.Supplicant_free e.supp]))
      ∧ (source.bssid_valid = true → X = source.bssid →
          EAPOLSocketSourceUpdateWirelessInfo g w source
            = (false,
                { source with bssid_valid := true, bssid := X,
                              is_wpa_enterprise := w.is_wpa_enterprise, ssid := w.ssid },
                if source.ssid ≠ none ∧ w.ssid ≠ none ∧ source.ssid ≠ w.ssid
                then EAPOLSocketSourceCancelScan else []))
      ∧ (EAPOLSocketSourceUpdateWirelessInfo g w source).2.1.bssid_valid = true
      ∧ (EAPOLSocketSourceUpdateWirelessInfo g w source).2.1.bssid = X
      ∧ (source.ssid ≠ none ∧ w.ssid ≠ none ∧ source.ssid ≠ w.ssid →
          scan_timer_after pending (EAPOLSocketSourceUpdateWirelessInfo g w source).2.2 = none)
      ∧ (¬ (source.ssid ≠ none ∧ w.ssid ≠ none ∧ source.ssid ≠ w.ssid) →
          scan_timer_after pending (EAPOLSocketSourceUpdateWirelessInfo g w source).2.2
            = if source.bssid_valid = true ∧ X ≠ source.bssid
                ∧ 0 ≤ g.S_scan_delay_roam_secs
              then some g.S_scan_delay_roam_secs else pending) := by
  obtain ⟨hv, hb⟩ := update_wireless_associated g w source X hwl hX
  refine ⟨update_wireless_changed_eq g w source X hwl hX hp, remove_with_bssid_eq source X,
    update_wireless_same_eq g w source X hwl hX, hv, hb, ?_, ?_⟩
  · intro hs
    by_cases hch : source.bssid_valid = false ∨ X ≠ source.bssid
    · rw [update_wireless_changed_eq g w source X hwl hX hp hch, if_pos hs]
      simp only
      rw [scan_timer_after_append]
      rfl
    · have hv' : source.bssid_valid = true := by
        cases h : source.bssid_valid with
        | true => rfl
        | false => exact absurd (Or.inl h) hch
      have hb' : X = source.bssid := by
        by_contra hne
        exact hch (Or.inr hne)
      rw [update_wireless_same_eq g w source X hwl hX hv' hb', if_pos hs]
      rfl
  · intro hs
    by_cases hch : source.bssid_valid = false ∨ X ≠ source.bssid
    · rw [update_wireless_changed_eq g w source X hwl hX hp hch, if_neg hs]
      simp only [List.append_nil]
      rw [scan_timer_after_append, (remove_with_bssid_fields source X).2.2.2.2.2 pending]
      by_cases hvv : source.bssid_valid = true
      · have hne : X ≠ source.bssid := by
          rcases hch with h | h
          · rw [hvv] at h
            exact Bool.noConfusion h
          · exact h
        rw [if_pos hvv, scan_timer_after_schedule]
        by_cases hd : g.S_scan_delay_roam_secs < 0
        · rw [if_pos hd, if_neg (fun h => absurd h.2.2 (not_le.mpr hd))]
        · rw [if_neg hd, if_pos ⟨hvv, hne, not_lt.mp hd⟩]
      · rw [if_neg hvv, if_neg (fun h => hvv h.1)]
        rfl
    · have hv' : source.bssid_valid = true := by
        cases h : source.bssid_valid with
        | true => rfl
        | false => exact absurd (Or.inl h) hch
      have hb' : X = source.bssid := by
        by_contra hne
        exact hch (Or.inr hne)
      rw [update_wireless_same_eq g w source X hwl hX hv' hb', if_neg hs,
        if_neg (fun h => h.2.1 hb')]
      rfl

theorem refresh_when_associated_witness :
    EAPOLSocketSourceUpdateWirelessInfo preauth_globals associated_A wireless_source
        = (true,
            { wireless_source with bssid := bssid_A, preauth_sockets := [],
                                   preauth_sockets_count := 0 },
            [Event.Supplicant_free (some 101), Event.Timer_set_relative 10])
      ∧ scan_timer_after (some 3)
          (EAPOLSocketSourceUpdateWirelessInfo preauth_globals associated_A_guest
            wireless_source).2.2 = none :=
  ⟨((refresh_when_associated preauth_globals associated_A wireless_source bssid_A none
      (by decide) (by decide) (by decide)).1 (Or.inr (by decide))).trans (by decide),
   (refresh_when_associated preauth_globals associated_A_guest wireless_source bssid_A
      (some 3) (by decide) (by decide) (by decide)).2.2.2.2.2.1 (by decide)⟩

theorem free_no_supplicant_stop (s : EAPOLSocketSource) :
    (EAPOLSocketSourceFree s).countP Event.isSupplicantStop = 0 := by
  unfold EAPOLSocketSourceFree
  rw [unschedule_eq]
  cases s.is_wireless <;> cases s.interest <;> rfl

/-- C26: with the main endpoint present, the stop path is `Supplicant_stop` on
the main Supplicant, then `EAPOLSocketSourceFree`, then `exit(EX_OK)`.
`EAPOLSocketSourceClientNotification` takes it when the server died and the
mode is User; when the server died in any other mode it only calls
`exit(EX_OK)` (no `Supplicant_stop`, nothing transmitted); otherwise it fetches
the control dictionary, and takes the stop path when the fetch fails, returns
no dictionary, or the dictionary holds no numeric command; with a numeric
command it calls `Supplicant_control` with the command and the dictionary and
takes the stop path exactly when that returns TRUE, returning to the caller
otherwise. -/
theorem client_notification_decision (source : EAPOLSocketSource) (m : EAPOLSocket)
    (config : Int × Option ControlDict) (control : Bool)
    (hm : source.sock = some m) :
    EAPOLSocketSourceStop source
        = some (Outcome.exited EX_OK,
            [Event.Supplicant_stop m.supp] ++ EAPOLSocketSourceFree source
              ++ [Event.exit EX_OK])
      ∧ (source.mode = EAPOLControlMode.kEAPOLControlModeUser →
          EAPOLSocketSourceClientNotification source true config control
            = EAPOLSocketSourceStop source)
      ∧ (source.mode ≠ EAPOLControlMode.kEAPOLControlModeUser →
          EAPOLSocketSourceClientNotification source true config control
            = some (Outcome.exited EX_OK, [Event.exit EX_OK]))
      ∧ (∀ d command, config = (0, some d) → d.command = NumberEntry.number command →
          (control = true →
            EAPOLSocketSourceClientNotification source false config control
              = some (Outcome.exited EX_OK,
                  [Event.EAPOLClientGetConfig, Event.Supplicant_control m.supp command d]
                    ++ ([Event.Supplicant_stop m.supp] ++ EAPOLSocketSourceFree source
                      ++ [Event.exit EX_OK])))
          ∧ (control = false →
            EAPOLSocketSourceClientNotification source false config control
              = some (Outcome.returned,
                  [Event.EAPOLClientGetConfig, Event.Supplicant_control m.supp command d])))
      ∧ (config.1 ≠ 0 ∨ config.2 = none
            ∨ (∃ d, config.2 = some d ∧ ∀ command, d.command ≠ NumberEntry.number command) →
          EAPOLSocketSourceClientNotification source false config control
            = some (Outcome.exited EX_OK,
                [Event.EAPOLClientGetConfig]
                  ++ ([Event.Supplicant_stop m.supp] ++ EAPOLSocketSourceFree source
                    ++ [Event.exit EX_OK])))
      ∧ ([Event.exit EX_OK].countP Event.isSupplicantStop = 0
          ∧ ([Event.Supplicant_stop m.supp] ++ EAPOLSocketSourceFree source
              ++ [Event.exit EX_OK]).countP Event.isSupplicantStop = 1) := by
  have hstop : EAPOLSocketSourceStop source
      = some (Outcome.exited EX_OK,
          [Event.Supplicant_stop m.supp] ++ EAPOLSocketSourceFree source
            ++ [Event.exit EX_OK]) := by
    unfold EAPOLSocketSourceStop
    rw [hm]
  refine ⟨hstop, ?_, ?_, ?_, ?_, ?_⟩
  · intro hmode
    unfold EAPOLSocketSourceClientNotification
    rw [if_pos rfl, if_pos hmode]
  · intro hmode
    unfold EAPOLSocketSourceClientNotification
    rw [if_pos rfl, if_neg hmode]
  · intro d command hc hd
    subst hc
    constructor
    · intro hcontrol
      unfold EAPOLSocketSourceClientNotification
      simp only [Bool.false_eq_true, if_false, ne_eq, not_true_eq_false, hd, hm, hcontrol,
        if_true, hstop, Option.map]
    · intro hcontrol
      unfold EAPOLSocketSourceClientNotification
      simp only [Bool.false_eq_true, if_false, ne_eq, not_true_eq_false, hd, hm, hcontrol]
  · intro h
    unfold EAPOLSocketSourceClientNotification
    rcases h with h | h | ⟨d, h, hd⟩
    · simp only [Bool.false_eq_true, if_false, ne_eq, h, not_false_eq_true, if_true, hstop,
        Option.map]
    · by_cases h0 : config.1 ≠ 0
      · simp only [Bool.false_eq_true, if_false, ne_eq, h0, not_false_eq_true, if_true, hstop,
          Option.map]
      · simp only [Bool.false_eq_true, if_false, h0, h, hstop, Option.map]
    · by_cases h0 : config.1 ≠ 0
      · simp only [Bool.false_eq_true, if_false, ne_eq, h0, not_false_eq_true, if_true, hstop,
          Option.map]
      · simp only [Bool.false_eq_true, if_false, h0, h]
        cases hcmd : d.command with
        | number c => exact absurd hcmd (hd c)
        | absent => simp only [hstop, Option.map]
        | invalid => simp only [hstop, Option.map]
  · refine ⟨rfl, ?_⟩
    rw [List.countP_append, List.countP_append, free_no_supplicant_stop]
    rfl

theorem client_notification_decision_witness :
    EAPOLSocketSourceClientNotification wired_source_system true (0, some run_control_dict)
        false = some (Outcome.exited EX_OK, [Event.exit EX_OK])
      ∧ EAPOLSocketSourceClientNotification wired_source true (0, some run_control_dict)
          false
          = some (Outcome.exited EX_OK,
              [Event.Supplicant_stop (some 100), Event.FDHandler_free,
               Event.EAPOLClientDetach (some 1), Event.Timer_free, Event.exit EX_OK]) :=
  ⟨(client_notification_decision wired_source_system main_sock (0, some run_control_dict)
      false (by decide)).2.2.1 (by decide),
   ((client_notification_decision wired_source main_sock (0, some run_control_dict)
      false (by decide)).2.1 (by decide)).trans (by decide)⟩

/-- C27: when a control dictionary is supplied whose command is missing or not a
number, or is a number other than Run, or whose Mode entry is present but not a
number, or whose Configuration entry is absent, `EAPOLSocketSourceCreateSupplicant`
returns NULL and leaves the source exactly as it was (no main endpoint is
created, `mode` is not assigned); its only call is `Supplicant_free` on the NULL
handle.  A later call on the source it leaves therefore behaves as on the
original source; with a well-formed dictionary, a successful allocation and a
Supplicant `sp` it returns `sp`, assigns the mode and installs the main
endpoint. -/
theorem create_supplicant_rejects_bad_control (source : EAPOLSocketSource) (d : ControlDict)
    (system_mode malloc_ok : Bool) (supp : Option Nat)
    (hbad : d.command = NumberEntry.absent ∨ d.command = NumberEntry.invalid
      ∨ (∃ c, d.command = NumberEntry.number c
          ∧ c ≠ EAPOLClientControlCommand.kEAPOLClientControlCommandRun)
      ∨ d.mode = NumberEntry.invalid ∨ d.configuration = none) :
    EAPOLSocketSourceCreateSupplicant source (some d) system_mode malloc_ok supp
        = (none, source, [Event.Supplicant_free none])
      ∧ (EAPOLSocketSourceCreateSupplicant source (some d) system_mode malloc_ok supp).2.1.sock
          = source.sock
      ∧ (EAPOLSocketSourceCreateSupplicant source (some d) system_mode malloc_ok supp).2.1.mode
          = source.mode
      ∧ (∀ d2 sm2 mo2 sp2,
          EAPOLSocketSourceCreateSupplicant
              (EAPOLSocketSourceCreateSupplicant source (some d) system_mode malloc_ok supp).2.1
              d2 sm2 mo2 sp2
            = EAPOLSocketSourceCreateSupplicant source d2 sm2 mo2 sp2)
      ∧ (∀ (md : EAPOLControlMode) (cfg sp : Nat),
          (EAPOLSocketSourceCreateSupplicant
              (EAPOLSocketSourceCreateSupplicant source (some d) system_mode malloc_ok supp).2.1
              (some { command := NumberEntry.number
                        EAPOLClientControlCommand.kEAPOLClientControlCommandRun,
                      mode := NumberEntry.number md, configuration := some cfg })
              system_mode true (some sp)).1 = some sp
          ∧ (EAPOLSocketSourceCreateSupplicant
              (EAPOLSocketSourceCreateSupplicant source (some d) system_mode malloc_ok supp).2.1
              (some { command := NumberEntry.number
                        EAPOLClientControlCommand.kEAPOLClientControlCommandRun,
                      mode := NumberEntry.number md, configuration := some cfg })
              system_mode true (some sp)).2.1
              = { source with mode := md,
                              sock := some { zeroed_socket with supp := some sp } }) := by
  have h : EAPOLSocketSourceCreateSupplicant source (some d) system_mode malloc_ok supp
      = (none, source, [Event.Supplicant_free none]) := by
    unfold EAPOLSocketSourceCreateSupplicant
    rcases hbad with h | h | ⟨c, h, hc⟩ | h | h
    · simp only [h]
    · simp only [h]
    · cases c with
      | kEAPOLClientControlCommandRun => exact absurd rfl hc
      | kEAPOLClientControlCommandOther code => simp only [h]
    · cases hcmd : d.command with
      | absent => simp only [hcmd]
      | invalid => simp only [hcmd]
      | number c =>
        cases c with
        | kEAPOLClientControlCommandRun => simp only [hcmd, h]
        | kEAPOLClientControlCommandOther code => simp only [hcmd]
    · cases hcmd : d.command with
      | absent => simp only [hcmd]
      | invalid => simp only [hcmd]
      | number c =>
        cases c with
        | kEAPOLClientControlCommandRun =>
          cases hmode : d.mode with
          | invalid => simp only [hcmd, hmode]
          | absent => simp only [hcmd, hmode, h]
          | number v => simp only [hcmd, hmode, h]
        | kEAPOLClientControlCommandOther code => simp only [hcmd]
  rw [h]
  refine ⟨rfl, rfl, rfl, fun _ _ _ _ => rfl, ?_⟩
  intro md cfg sp
  unfold EAPOLSocketSourceCreateSupplicant EAPOLSocketSourceCreateSocket
  constructor <;> simp

theorem create_supplicant_rejects_bad_control_witness :
    EAPOLSocketSourceCreateSupplicant started_source (some run_without_configuration)
        false true (some 100)
      = (none, started_source, [Event.Supplicant_free none]) :=
  (create_supplicant_rejects_bad_control started_source run_without_configuration false true
    (some 100) (Or.inr (Or.inr (Or.inr (Or.inr (by decide)))))).1

/-- C28: on a wireless WPA-enterprise source with `authenticated` false,
`EAPOLSocketSetPMK` on the main endpoint with a non-empty key for which
subscription `i` is created leaves the source holding `i` (and `authenticated`
set).  A following call with key length 0 releases `i`, once, and leaves no
subscription; every further call with key length 0 releases nothing and leaves
the source as it is. -/
theorem empty_pmk_releases_once (source : EAPOLSocketSource) (m : EAPOLSocket)
    (key_length : Int) (i : Nat) (result : Bool)
    (hm : source.sock = some m) (hwl : source.is_wireless = true)
    (hwpa : source.is_wpa_enterprise = true) (hauth : source.authenticated = false)
    (hk : key_length ≠ 0) :
    EAPOLSocketSetPMK source EAPOLSocketRef.main key_length (some i) result
        = some (result, { source with interest := some i, authenticated := true },
            (match source.interest with
              | none => []
              | some j => [Event.InterestNotificationRelease j])
            ++ [Event.InterestNotificationCreate]
            ++ [Event.wireless_set_wpa_pmk none key_length])
      ∧ (∀ created result2,
          EAPOLSocketSetPMK { source with interest := some i, authenticated := true }
              EAPOLSocketRef.main 0 created result2
            = some (result2, { source with interest := none, authenticated := true },
                [Event.InterestNotificationRelease i, Event.wireless_set_wpa_pmk none 0]))
      ∧ [Event.InterestNotificationRelease i,
          Event.wireless_set_wpa_pmk none 0].countP Event.isInterestRelease = 1
      ∧ (∀ created result3,
          EAPOLSocketSetPMK { source with interest := none, authenticated := true }
              EAPOLSocketRef.main 0 created result3
            = some (result3, { source with interest := none, authenticated := true },
                [Event.wireless_set_wpa_pmk none 0]))
      ∧ [Event.wireless_set_wpa_pmk none 0].countP Event.isInterestRelease = 0 := by
  have hcond : ¬ (source.is_wireless = false ∨ source.is_wpa_enterprise = false) := by
    rw [hwl, hwpa]
    decide
  refine ⟨?_, ?_, rfl, ?_, rfl⟩
  · unfold EAPOLSocketSetPMK
    simp only [EAPOLSocketRef.deref, hm, if_true]
    rw [if_neg hcond, if_pos ⟨hk, hauth⟩]
    unfold EAPOLSocketSourceScheduleHandshakeNotification
    rw [unschedule_eq]
    simp [hm]
  · intro created result2
    unfold EAPOLSocketSetPMK
    simp only [EAPOLSocketRef.deref, hm, if_true]
    rw [if_neg hcond, if_neg (by simp)]
    rw [unschedule_eq]
    simp [hm]
  · intro created result3
    unfold EAPOLSocketSetPMK
    simp only [EAPOLSocketRef.deref, hm, if_true]
    rw [if_neg hcond, if_neg (by simp)]
    rw [unschedule_eq]
    simp [hm]

theorem empty_pmk_releases_once_witness :
    EAPOLSocketSetPMK wireless_source_unassociated EAPOLSocketRef.main 32 (some 5) true
      = some (true,
          { wireless_source_unassociated with interest := some 5, authenticated := true },
          [Event.InterestNotificationCreate, Event.wireless_set_wpa_pmk none 32]) :=
  (empty_pmk_releases_once wireless_source_unassociated main_sock 32 5 true (by decide)
    (by decide) (by decide) (by decide) (by decide)).1.trans (by decide)

theorem get_plist_int_cases (v : PlistValue) (d : Int) :
    (∀ n, v = PlistValue.number (some n) → S_get_plist_int v d = n)
      ∧ ((∀ n, v ≠ PlistValue.number (some n)) → S_get_plist_int v d = d) := by
  constructor
  · intro n h
    rw [h]
    rfl
  · intro h
    cases v with
    | absent => rfl
    | other => rfl
    | boolean b => rfl
    | number c =>
      cases c with
      | none => rfl
      | some n => exact absurd rfl (h n)

theorem get_plist_boolean_cases (v : PlistValue) (d : Bool) :
    (∀ b, v = PlistValue.boolean b → S_get_plist_boolean v d = b)
      ∧ ((∀ b, v ≠ PlistValue.boolean b) → S_get_plist_boolean v d = d) := by
  constructor
  · intro b h
    rw [h]
    rfl
  · intro h
    cases v with
    | absent => rfl
    | other => rfl
    | number c => rfl
    | boolean b => exact absurd rfl (h b)

/-- C29: after `EAPOLSocketSetGlobals` with preferences that hold a
Preauthentication dictionary, `S_enable_preauth` is the boolean stored under
EnablePreauthentication and false when the key is absent or not a boolean; each
of the four integer tunables is the number stored under its key when there is
one that converts to `int`, and otherwise its default (10, 10, -1, 1).  None
of the five depends on the earlier values.  With NULL preferences, or when the
value under Preauthentication is absent or not a dictionary, every tunable is
unchanged. -/
theorem set_globals_reads_preauthentication (g : Globals) (plist : PreauthenticationDict) :
    ((∀ b, plist.EnablePreauthentication = PlistValue.boolean b →
        (EAPOLSocketSetGlobals g (some (PreauthenticationValue.dictionary plist))).S_enable_preauth
          = b)
      ∧ ((∀ b, plist.EnablePreauthentication ≠ PlistValue.boolean b) →
        (EAPOLSocketSetGlobals g (some (PreauthenticationValue.dictionary plist))).S_enable_preauth
          = false))
    ∧ ((∀ n, plist.ScanDelayAuthenticatedSeconds = PlistValue.number (some n) →
        (EAPOLSocketSetGlobals g (some (PreauthenticationValue.dictionary plist))
          ).S_scan_delay_authenticated_secs = n)
      ∧ ((∀ n, plist.ScanDelayAuthenticatedSeconds ≠ PlistValue.number (some n)) →
        (EAPOLSocketSetGlobals g (some (PreauthenticationValue.dictionary plist))
          ).S_scan_delay_authenticated_secs = 10))
    ∧ ((∀ n, plist.ScanDelayRoamSeconds = PlistValue.number (some n) →
        (EAPOLSocketSetGlobals g (some (PreauthenticationValue.dictionary plist))
          ).S_scan_delay_roam_secs = n)
      ∧ ((∀ n, plist.ScanDelayRoamSeconds ≠ PlistValue.number (some n)) →
        (EAPOLSocketSetGlobals g (some (PreauthenticationValue.dictionary plist))
          ).S_scan_delay_roam_secs = 10))
    ∧ ((∀ n, plist.ScanPeriodSeconds = PlistValue.number (some n) →
        (EAPOLSocketSetGlobals g (some (PreauthenticationValue.dictionary plist))
          ).S_scan_period_secs = n)
      ∧ ((∀ n, plist.ScanPeriodSeconds ≠ PlistValue.number (some n)) →
        (EAPOLSocketSetGlobals g (some (PreauthenticationValue.dictionary plist))
          ).S_scan_period_secs = -1))
    ∧ ((∀ n, plist.NumberOfScans = PlistValue.number (some n) →
        (EAPOLSocketSetGlobals g (some (PreauthenticationValue.dictionary plist))
          ).S_number_of_scans = n)
      ∧ ((∀ n, plist.NumberOfScans ≠ PlistValue.number (some n)) →
        (EAPOLSocketSetGlobals g (some (PreauthenticationValue.dictionary plist))
          ).S_number_of_scans = 1))
    ∧ (∀ g2 : Globals,
        EAPOLSocketSetGlobals g2 (some (PreauthenticationValue.dictionary plist))
          = { EAPOLSocketSetGlobals g (some (PreauthenticationValue.dictionary plist)) with
              S_debug := g2.S_debug })
    ∧ (EAPOLSocketSetGlobals g (some (PreauthenticationValue.dictionary plist))).S_debug
        = g.S_debug
    ∧ EAPOLSocketSetGlobals g none = g
    ∧ EAPOLSocketSetGlobals g (some PreauthenticationValue.absent) = g
    ∧ EAPOLSocketSetGlobals g (some PreauthenticationValue.other) = g := by
  refine ⟨?_, ?_, ?_, ?_, ?_, fun _ => rfl, rfl, rfl, rfl, rfl⟩
  · exact get_plist_boolean_cases plist.EnablePreauthentication false
  · exact get_plist_int_cases plist.ScanDelayAuthenticatedSeconds SCAN_DELAY_AUTHENTICATED_SECS
  · exact get_plist_int_cases plist.ScanDelayRoamSeconds SCAN_DELAY_ROAM_SECS
  · exact get_plist_int_cases plist.ScanPeriodSeconds SCAN_PERIOD_SECS
  · exact get_plist_int_cases plist.NumberOfScans NUMBER_OF_SCANS

theorem lookup_isSome_iff (s : EAPOLSocketSource) (b : ether_addr) :
    (EAPOLSocketSourceLookupPreauthSocket s b).isSome = true ↔ b ∈ preauth_bssids s := by
  unfold EAPOLSocketSourceLookupPreauthSocket preauth_bssids
  have hmap : (Option.map EAPOLSocketRef.preauth (lookupIdx b s.preauth_sockets)).isSome
      = (lookupIdx b s.preauth_sockets).isSome := by
    cases lookupIdx b s.preauth_sockets <;> rfl
  rw [hmap, lookupIdx_isSome, List.find?_isSome]
  simp only [decide_eq_true_eq, List.mem_map]

theorem scan_state_nil (s : EAPOLSocketSource) :
    { s with
      preauth_sockets := s.preauth_sockets ++ ([] : List ScanEntry).map scan_endpoint
      preauth_sockets_count :=
        s.preauth_sockets_count + (([] : List ScanEntry).length : Int) } = s := by
  cases s
  simp

theorem free_appended (s : EAPOLSocketSource) (z : EAPOLSocket) :
    EAPOLSocketFree
        { s with preauth_sockets := s.preauth_sockets ++ [z]
                 preauth_sockets_count := s.preauth_sockets_count + 1 }
        (EAPOLSocketRef.preauth s.preauth_sockets.length) = s := by
  cases s
  simp [EAPOLSocketFree, List.eraseIdx_append_of_length_le]

theorem modify_appended (f : EAPOLSocket → EAPOLSocket) (z : EAPOLSocket)
    (l : List EAPOLSocket) : (l ++ [z]).modify f l.length = l ++ [f z] := by
  induction l with
  | nil => rfl
  | cons x xs ih =>
    simp only [List.cons_append, List.length_cons, List.modify_succ_cons, ih]

theorem store_appended (s : EAPOLSocketSource) (z : EAPOLSocket)
    (f : EAPOLSocket → EAPOLSocket) :
    (EAPOLSocketRef.preauth s.preauth_sockets.length).store
        { s with preauth_sockets := s.preauth_sockets ++ [z]
                 preauth_sockets_count := s.preauth_sockets_count + 1 } f
      = some { s with preauth_sockets := s.preauth_sockets ++ [f z]
                      preauth_sockets_count := s.preauth_sockets_count + 1 } := by
  unfold EAPOLSocketRef.store
  simp [EAPOLSocketRef.deref, modify_appended]

theorem create_socket_fail (s : EAPOLSocketSource) (b : Option ether_addr) :
    EAPOLSocketSourceCreateSocket s b false = (none, s) := by
  unfold EAPOLSocketSourceCreateSocket
  simp

theorem create_socket_preauth (s : EAPOLSocketSource) (b : ether_addr) :
    EAPOLSocketSourceCreateSocket s (some b) true
      = (some (EAPOLSocketRef.preauth s.preauth_sockets.length),
          { s with preauth_sockets := s.preauth_sockets ++ [{ zeroed_socket with bssid := b }]
                   preauth_sockets_count := s.preauth_sockets_count + 1 }) := by
  unfold EAPOLSocketSourceCreateSocket
  simp

theorem scan_loop_spec (l : List ScanEntry) :
    ∀ (s : EAPOLSocketSource) (m : EAPOLSocket), s.sock = some m →
      ∃ evs, scan_loop s l
          = some ({ s with
                    preauth_sockets := s.preauth_sockets
                      ++ (scan_created s.bssid (preauth_bssids s) l).map scan_endpoint
                    preauth_sockets_count := s.preauth_sockets_count
                      + ((scan_created s.bssid (preauth_bssids s) l).length : Int) }, evs)
        ∧ ∀ ev ∈ evs, ev.isScanCall = false := by
  induction l with
  | nil =>
    intro s m _
    refine ⟨[], ?_, fun ev hev => by simp at hev⟩
    unfold scan_loop scan_created
    rw [scan_state_nil]
  | cons e rest ih =>
    intro s m hm
    unfold scan_loop scan_created
    by_cases h1 : e.bssid = s.bssid
    · rw [if_pos h1, if_pos (Or.inl h1)]
      exact ih s m hm
    · rw [if_neg h1]
      by_cases h2 : (EAPOLSocketSourceLookupPreauthSocket s e.bssid).isSome = true
      · rw [if_pos h2, if_pos (Or.inr ((lookup_isSome_iff s e.bssid).mp h2))]
        exact ih s m hm
      · have hnot : ¬ (e.bssid = s.bssid ∨ e.bssid ∈ preauth_bssids s) := by
          rintro (h | h)
          · exact h1 h
          · exact h2 ((lookup_isSome_iff s e.bssid).mpr h)
        rw [if_neg h2, if_neg hnot]
        cases hmo : e.malloc_ok with
        | false =>
          rw [create_socket_fail]
          simp only [Bool.false_eq_true, false_and, if_false]
          exact ih s m hm
        | true =>
          rw [create_socket_preauth]
          simp only [hm, true_and]
          cases hs : e.supp with
          | none =>
            simp only [Option.isSome_none, Bool.false_eq_true, if_false]
            have hfree := free_appended s { zeroed_socket with bssid := e.bssid }
            simp only [hm] at hfree
            rw [hfree]
            obtain ⟨evs, h, hev⟩ := ih s m hm
            refine ⟨Event.Supplicant_create_with_supplicant e.bssid m.supp :: evs, ?_, ?_⟩
            · rw [h]
              simp [hm]
            · intro ev hmem
              rcases List.mem_cons.mp hmem with h' | h'
              · rw [h']
                rfl
              · exact hev ev h'
          | some sp =>
            simp only [Option.isSome_some, if_true]
            have hstore := store_appended s { zeroed_socket with bssid := e.bssid }
              (fun x => { x with supp := some sp })
            simp only [hm] at hstore
            rw [hstore]
            have hm3 : ({ s with
                preauth_sockets := s.preauth_sockets
                  ++ [{ zeroed_socket with bssid := e.bssid, supp := some sp }]
                preauth_sockets_count := s.preauth_sockets_count + 1 } :
                  EAPOLSocketSource).sock = some m := hm
            obtain ⟨evs, h, hev⟩ := ih _ m hm3
            refine ⟨Event.Supplicant_create_with_supplicant e.bssid m.supp
              :: Event.Supplicant_start sp :: evs, ?_, ?_⟩
            · simp only [hm] at h ⊢
              rw [h]
              simp only [Option.map, preauth_bssids, List.map_append, List.map_cons,
                List.map_nil, scan_endpoint, hs, hm, List.append_assoc, List.singleton_append,
                List.length_cons, Nat.cast_add, Nat.cast_one]
              congr 3
              omega
            · intro ev hmem
              rcases List.mem_cons.mp hmem with h' | h'
              · rw [h']
                rfl
              · rcases List.mem_cons.mp h' with h'' | h''
                · rw [h'']
                  rfl
                · exact hev ev h''

theorem scan_created_sound (main : ether_addr) (l : List ScanEntry) :
    ∀ (present : List ether_addr), ∀ e ∈ scan_created main present l,
      e ∈ l ∧ e.bssid ≠ main ∧ e.bssid ∉ present
        ∧ e.malloc_ok = true ∧ e.supp.isSome = true := by
  induction l with
  | nil =>
    intro present e he
    simp [scan_created] at he
  | cons x rest ih =>
    intro present e he
    unfold scan_created at he
    by_cases h1 : x.bssid = main ∨ x.bssid ∈ present
    · rw [if_pos h1] at he
      obtain ⟨h, hrest⟩ := ih present e he
      exact ⟨List.mem_cons_of_mem _ h, hrest⟩
    · rw [if_neg h1] at he
      by_cases h2 : x.malloc_ok = true ∧ x.supp.isSome = true
      · rw [if_pos h2] at he
        rcases List.mem_cons.mp he with h | h
        · subst h
          exact ⟨List.mem_cons_self _ _, fun h => h1 (Or.inl h), fun h => h1 (Or.inr h), h2⟩
        · obtain ⟨h3, h4, h5, h6⟩ := ih _ e h
          exact ⟨List.mem_cons_of_mem _ h3, h4,
            fun hp => h5 (List.mem_append_left _ hp), h6⟩
      · rw [if_neg h2] at he
        obtain ⟨h, hrest⟩ := ih present e he
        exact ⟨List.mem_cons_of_mem _ h, hrest⟩

theorem scan_created_sublist (main : ether_addr) (l : List ScanEntry) :
    ∀ (present : List ether_addr), (scan_created main present l).Sublist l := by
  induction l with
  | nil =>
    intro present
    simp [scan_created]
  | cons x rest ih =>
    intro present
    unfold scan_created
    split
    · exact (ih present).cons x
    · split
      · exact (ih _).cons₂ x
      · exact (ih present).cons x

theorem scan_created_complete (main : ether_addr) (l : List ScanEntry) :
    ∀ (present : List ether_addr), ∀ e ∈ l, e.bssid ≠ main →
      (∀ e2 ∈ l, e2.bssid = e.bssid → e2.malloc_ok = true ∧ e2.supp.isSome = true) →
      e.bssid ∈ present ++ (scan_created main present l).map (fun c => c.bssid) := by
  induction l with
  | nil =>
    intro present e he
    simp at he
  | cons x rest ih =>
    intro present e he hne hall
    have hrest : ∀ e2 ∈ rest, e2.bssid = e.bssid →
        e2.malloc_ok = true ∧ e2.supp.isSome = true :=
      fun e2 h2 => hall e2 (List.mem_cons_of_mem _ h2)
    unfold scan_created
    by_cases h1 : x.bssid = main ∨ x.bssid ∈ present
    · rw [if_pos h1]
      rcases List.mem_cons.mp he with h | h
      · subst h
        rcases h1 with h1 | h1
        · exact absurd h1 hne
        · exact List.mem_append_left _ h1
      · exact ih present e h hne hrest
    · rw [if_neg h1]
      by_cases h2 : x.malloc_ok = true ∧ x.supp.isSome = true
      · rw [if_pos h2]
        rcases List.mem_cons.mp he with h | h
        · subst h
          simp
        · have := ih (present ++ [x.bssid]) e h hne hrest
          simpa [List.append_assoc] using this
      · rw [if_neg h2]
        rcases List.mem_cons.mp he with h | h
        · subst h
          exact absurd (hall e (List.mem_cons_self _ _) rfl) h2
        · exact ih present e h hne hrest

theorem scan_created_none (main : ether_addr) (l : List ScanEntry) :
    ∀ (present : List ether_addr),
      (∀ e ∈ l, e.bssid = main ∨ e.bssid ∈ present) → scan_created main present l = [] := by
  induction l with
  | nil =>
    intro present _
    rfl
  | cons x rest ih =>
    intro present h
    unfold scan_created
    rw [if_pos (h x (List.mem_cons_self _ _))]
    exact ih present (fun e he => h e (List.mem_cons_of_mem _ he))

theorem scan_created_failed (main : ether_addr) (l1 : List ScanEntry) (e : ScanEntry)
    (l2 : List ScanEntry) (hfail : ¬ (e.malloc_ok = true ∧ e.supp.isSome = true)) :
    ∀ (present : List ether_addr),
      scan_created main present (l1 ++ e :: l2) = scan_created main present (l1 ++ l2) := by
  induction l1 with
  | nil =>
    intro present
    simp only [List.nil_append]
    rw [scan_created]
    by_cases h1 : e.bssid = main ∨ e.bssid ∈ present
    · rw [if_pos h1]
    · rw [if_neg h1, if_neg hfail]
  | cons x rest ih =>
    intro present
    simp only [List.cons_append]
    unfold scan_created
    split
    · exact ih present
    · split
      · rw [ih]
      · exact ih present

theorem scan_created_nodup (main : ether_addr) (l : List ScanEntry) :
    ∀ (present : List ether_addr), present.Nodup →
      (present ++ (scan_created main present l).map (fun c => c.bssid)).Nodup := by
  induction l with
  | nil =>
    intro present h
    simpa [scan_created] using h
  | cons x rest ih =>
    intro present h
    unfold scan_created
    by_cases h1 : x.bssid = main ∨ x.bssid ∈ present
    · rw [if_pos h1]
      exact ih present h
    · rw [if_neg h1]
      by_cases h2 : x.malloc_ok = true ∧ x.supp.isSome = true
      · rw [if_pos h2]
        have hn : (present ++ [x.bssid]).Nodup := by
          rw [List.nodup_append]
          refine ⟨h, List.nodup_singleton _, ?_⟩
          intro a ha hb
          rw [List.mem_singleton] at hb
          subst hb
          exact h1 (Or.inr ha)
        have := ih (present ++ [x.bssid]) hn
        simpa [List.append_assoc] using this
      · rw [if_neg h2]
        exact ih present h

theorem scan_callback_eq (g : Globals) (s : EAPOLSocketSource) (m : EAPOLSocket)
    (L : List ScanEntry) (hm : s.sock = some m) (hv : s.bssid_valid = true) :
    ∃ evs, EAPOLSocketSourceScanCallback g s (some L)
        = some ({ s with
                  preauth_sockets := s.preauth_sockets
                    ++ (scan_created s.bssid (preauth_bssids s) L).map scan_endpoint
                  preauth_sockets_count := s.preauth_sockets_count
                    + ((scan_created s.bssid (preauth_bssids s) L).length : Int) },
            evs ++ (if g.S_scan_period_secs > 0
                    then EAPOLSocketSourceScheduleScan g.S_scan_period_secs else []))
      ∧ ∀ ev ∈ evs, ev.isScanCall = false := by
  obtain ⟨evs, h, hev⟩ := scan_loop_spec L s m hm
  refine ⟨evs, ?_, hev⟩
  have hnv : ¬ s.bssid_valid = false := by rw [hv]; decide
  unfold EAPOLSocketSourceScanCallback
  simp only
  rw [if_neg hnv, h]
  rfl

theorem scan_callback_skip (g : Globals) (s : EAPOLSocketSource)
    (bssid_list : Option (List ScanEntry))
    (h : bssid_list = none ∨ s.bssid_valid = false) :
    EAPOLSocketSourceScanCallback g s bssid_list
      = some (s, if g.S_scan_period_secs > 0
                 then EAPOLSocketSourceScheduleScan g.S_scan_period_secs else []) := by
  unfold EAPOLSocketSourceScanCallback
  cases bssid_list with
  | none => rfl
  | some l =>
    rcases h with h | h
    · cases h
    · simp only [h, if_true, Option.map, List.nil_append]

/-- C23: with the main endpoint present and the source BSSID known, the scan
callback for a result list `L` appends to the pre-auth queue, in list order,
one endpoint for each element of `scan_created` and leaves the endpoints that
existed as they are.  The elements created are elements of `L` whose BSSID
differs from the source BSSID and was not bound before, and whose creation
succeeded; a BSSID of `L` other than the source BSSID is bound afterwards
whenever its creations succeed; an element whose creation fails is dropped and
the callback goes on as if it were not in the list.  When every creation
succeeds, the same callback run again on the result creates nothing.  With no
list, or with the source BSSID unknown, the source is unchanged. -/
theorem scan_callback_creates_endpoints (g : Globals) (source : EAPOLSocketSource)
    (m : EAPOLSocket) (L : List ScanEntry)
    (hm : source.sock = some m) (hv : source.bssid_valid = true) :
    (∃ evs, EAPOLSocketSourceScanCallback g source (some L)
        = some ({ source with
                  preauth_sockets := source.preauth_sockets
                    ++ (scan_created source.bssid (preauth_bssids source) L).map scan_endpoint
                  preauth_sockets_count := source.preauth_sockets_count
                    + ((scan_created source.bssid (preauth_bssids source) L).length : Int) },
            evs))
      ∧ (scan_created source.bssid (preauth_bssids source) L).Sublist L
      ∧ (∀ e ∈ scan_created source.bssid (preauth_bssids source) L,
          e ∈ L ∧ e.bssid ≠ source.bssid ∧ e.bssid ∉ preauth_bssids source
            ∧ e.malloc_ok = true ∧ e.supp.isSome = true)
      ∧ (∀ e ∈ L, e.bssid ≠ source.bssid →
          (∀ e2 ∈ L, e2.bssid = e.bssid → e2.malloc_ok = true ∧ e2.supp.isSome = true) →
          e.bssid ∈ preauth_bssids source
            ++ (scan_created source.bssid (preauth_bssids source) L).map (fun c => c.bssid))
      ∧ (∀ l1 e l2, L = l1 ++ e :: l2 → ¬ (e.malloc_ok = true ∧ e.supp.isSome = true) →
          scan_created source.bssid (preauth_bssids source) L
            = scan_created source.bssid (preauth_bssids source) (l1 ++ l2))
      ∧ ((∀ e ∈ L, e.malloc_ok = true ∧ e.supp.isSome = true) →
          ∃ evs2, EAPOLSocketSourceScanCallback g
              { source with
                preauth_sockets := source.preauth_sockets
                  ++ (scan_created source.bssid (preauth_bssids source) L).map scan_endpoint
                preauth_sockets_count := source.preauth_sockets_count
                  + ((scan_created source.bssid (preauth_bssids source) L).length : Int) }
              (some L)
            = some ({ source with
                preauth_sockets := source.preauth_sockets
                  ++ (scan_created source.bssid (preauth_bssids source) L).map scan_endpoint
                preauth_sockets_count := source.preauth_sockets_count
                  + ((scan_created source.bssid (preauth_bssids source) L).length : Int) },
              evs2))
      ∧ (EAPOLSocketSourceScanCallback g source none).map (fun r => r.1) = some source
      ∧ (EAPOLSocketSourceScanCallback g { source with bssid_valid := false } (some L)).map
          (fun r => r.1) = some { source with bssid_valid := false } := by
  refine ⟨?_, scan_created_sublist _ L _, scan_created_sound _ L _,
    scan_created_complete _ L _, ?_, ?_, ?_, ?_⟩
  · obtain ⟨evs, h, _⟩ := scan_callback_eq g source m L hm hv
    exact ⟨_, h⟩
  · intro l1 e l2 hL hfail
    rw [hL]
    exact scan_created_failed _ l1 e l2 hfail _
  · intro hall
    have hnone : scan_created source.bssid
        (preauth_bssids source
          ++ (scan_created source.bssid (preauth_bssids source) L).map (fun c => c.bssid)) L
        = [] := by
      apply scan_created_none
      intro e he
      by_cases hb : e.bssid = source.bssid
      · exact Or.inl hb
      · exact Or.inr (scan_created_complete _ L _ e he hb (fun e2 h2 _ => hall e2 h2))
    obtain ⟨evs, h, _⟩ := scan_callback_eq g
      { source with
        preauth_sockets := source.preauth_sockets
          ++ (scan_created source.bssid (preauth_bssids source) L).map scan_endpoint
        preauth_sockets_count := source.preauth_sockets_count
          + ((scan_created source.bssid (preauth_bssids source) L).length : Int) } m L hm hv
    refine ⟨evs ++ (if g.S_scan_period_secs > 0
      then EAPOLSocketSourceScheduleScan g.S_scan_period_secs else []), ?_⟩
    rw [h]
    have hb : preauth_bssids
        { source with
          preauth_sockets := source.preauth_sockets
            ++ (scan_created source.bssid (preauth_bssids source) L).map scan_endpoint
          preauth_sockets_count := source.preauth_sockets_count
            + ((scan_created source.bssid (preauth_bssids source) L).length : Int) }
        = preauth_bssids source
          ++ (scan_created source.bssid (preauth_bssids source) L).map (fun c => c.bssid) := by
      simp [preauth_bssids, scan_endpoint, Function.comp_def]
    simp only [hb, hnone, List.map_nil, List.append_nil, List.length_nil, Nat.cast_zero,
      add_zero]
  · rw [scan_callback_skip g source none (Or.inl rfl)]
    rfl
  · rw [scan_callback_skip g _ (some L) (Or.inr rfl)]
    rfl

theorem scan_callback_creates_endpoints_witness :
    (∃ evs, EAPOLSocketSourceScanCallback preauth_globals wireless_source_alone
        (some scan_list_ABC)
        = some ({ wireless_source_alone with
                  preauth_sockets :=
                    [{ zeroed_socket with bssid := bssid_A, supp := some 101 },
                     { zeroed_socket with bssid := bssid_C, supp := some 103 }]
                  preauth_sockets_count := 2 }, evs))
      ∧ ∃ evs2, EAPOLSocketSourceScanCallback preauth_globals
          { wireless_source_alone with
            preauth_sockets :=
              [{ zeroed_socket with bssid := bssid_A, supp := some 101 },
               { zeroed_socket with bssid := bssid_C, supp := some 103 }]
            preauth_sockets_count := 2 } (some scan_list_ABC)
        = some ({ wireless_source_alone with
                  preauth_sockets :=
                    [{ zeroed_socket with bssid := bssid_A, supp := some 101 },
                     { zeroed_socket with bssid := bssid_C, supp := some 103 }]
                  preauth_sockets_count := 2 }, evs2) :=
  ⟨(scan_callback_creates_endpoints preauth_globals wireless_source_alone main_sock
      scan_list_ABC (by decide) (by decide)).1,
   (scan_callback_creates_endpoints preauth_globals wireless_source_alone main_sock
      scan_list_ABC (by decide) (by decide)).2.2.2.2.2.1 (by decide)⟩

theorem scan_timer_after_quiet (evs : List Event) :
    ∀ (p : Option Int), (∀ ev ∈ evs, ev.isScanCall = false) → scan_timer_after p evs = p := by
  induction evs with
  | nil =>
    intro p _
    rfl
  | cons x xs ih =>
    intro p h
    have hx := h x (List.mem_cons_self _ _)
    have hstep : scan_timer_step p x = p := by
      cases x <;> first | rfl | exact Bool.noConfusion hx
    show scan_timer_after (scan_timer_step p x) xs = p
    rw [hstep]
    exact ih p (fun ev hev => h ev (List.mem_cons_of_mem _ hev))

/-- C30: `EAPOLSocketSourceScheduleScan` with a negative delay makes no call, so
the scan timer stays as it was and no scan follows from it; with a delay
`d ≥ 0` (0 included) its one call arms the scan timer at `d` seconds.  The
timer being single, after two successive calls the second of which has a
delay `d2 ≥ 0` it is armed at `d2` only, whatever the first call armed.  The
scan callback, whatever the list and the BSSID state, makes no timer or scan
call before its last step and ends by scheduling the next scan exactly when
`S_scan_period_secs > 0`. -/
theorem schedule_scan_arms_the_single_timer (g : Globals) (source : EAPOLSocketSource)
    (m : EAPOLSocket) (bssid_list : Option (List ScanEntry)) (pending : Option Int)
    (d d1 d2 : Int) (hm : source.sock = some m) :
    (d < 0 → EAPOLSocketSourceScheduleScan d = []
        ∧ scan_timer_after pending (EAPOLSocketSourceScheduleScan d) = pending)
      ∧ (0 ≤ d → EAPOLSocketSourceScheduleScan d = [Event.Timer_set_relative d]
        ∧ scan_timer_after pending (EAPOLSocketSourceScheduleScan d) = some d)
      ∧ (0 ≤ d2 →
          scan_timer_after pending
            (EAPOLSocketSourceScheduleScan d1 ++ EAPOLSocketSourceScheduleScan d2) = some d2)
      ∧ (d2 < 0 →
          scan_timer_after pending
            (EAPOLSocketSourceScheduleScan d1 ++ EAPOLSocketSourceScheduleScan d2)
            = scan_timer_after pending (EAPOLSocketSourceScheduleScan d1))
      ∧ ∃ s1 evs, EAPOLSocketSourceScanCallback g source bssid_list
            = some (s1, evs ++ (if g.S_scan_period_secs > 0
                then [Event.Timer_set_relative g.S_scan_period_secs] else []))
          ∧ (∀ ev ∈ evs, ev.isScanCall = false)
          ∧ scan_timer_after pending
              (evs ++ (if g.S_scan_period_secs > 0
                then [Event.Timer_set_relative g.S_scan_period_secs] else []))
              = (if g.S_scan_period_secs > 0 then some g.S_scan_period_secs else pending) := by
  have htail : (if g.S_scan_period_secs > 0
      then EAPOLSocketSourceScheduleScan g.S_scan_period_secs else [])
      = (if g.S_scan_period_secs > 0
          then [Event.Timer_set_relative g.S_scan_period_secs] else []) := by
    by_cases hp : g.S_scan_period_secs > 0
    · rw [if_pos hp, if_pos hp]
      unfold EAPOLSocketSourceScheduleScan
      rw [if_neg (by omega)]
    · rw [if_neg hp, if_neg hp]
  have htimer : ∀ evs : List Event, (∀ ev ∈ evs, ev.isScanCall = false) →
      scan_timer_after pending
        (evs ++ (if g.S_scan_period_secs > 0
          then [Event.Timer_set_relative g.S_scan_period_secs] else []))
        = (if g.S_scan_period_secs > 0 then some g.S_scan_period_secs else pending) := by
    intro evs hev
    rw [scan_timer_after_append, scan_timer_after_quiet evs pending hev]
    by_cases hp : g.S_scan_period_secs > 0
    · rw [if_pos hp, if_pos hp]
      rfl
    · rw [if_neg hp, if_neg hp]
      rfl
  refine ⟨?_, ?_, ?_, ?_, ?_⟩
  · intro hd
    rw [scan_timer_after_schedule, if_pos hd]
    unfold EAPOLSocketSourceScheduleScan
    rw [if_pos hd]
    exact ⟨rfl, rfl⟩
  · intro hd
    rw [scan_timer_after_schedule, if_neg (by omega)]
    unfold EAPOLSocketSourceScheduleScan
    rw [if_neg (by omega)]
    exact ⟨rfl, rfl⟩
  · intro hd
    rw [scan_timer_after_append, scan_timer_after_schedule, if_neg (by omega)]
  · intro hd
    rw [scan_timer_after_append, scan_timer_after_schedule _ d2, if_pos hd]
  · by_cases hskip : bssid_list = none ∨ source.bssid_valid = false
    · refine ⟨source, [], ?_, fun ev hev => by simp at hev, htimer [] (fun ev hev => by simp at hev)⟩
      rw [scan_callback_skip g source bssid_list hskip, htail]
      rfl
    · cases bssid_list with
      | none => exact absurd (Or.inl rfl) hskip
      | some L =>
        have hv : source.bssid_valid = true := by
          cases h : source.bssid_valid with
          | true => rfl
          | false => exact absurd (Or.inr h) hskip
        obtain ⟨evs, h, hev⟩ := scan_callback_eq g source m L hm hv
        rw [htail] at h
        exact ⟨_, evs, h, hev, htimer evs hev⟩

theorem schedule_scan_arms_the_single_timer_witness :
    scan_timer_after none
        (EAPOLSocketSourceScheduleScan 10 ++ EAPOLSocketSourceScheduleScan 0) = some 0
      ∧ scan_timer_after (some 7) (EAPOLSocketSourceScheduleScan (-1)) = some 7 :=
  ⟨(schedule_scan_arms_the_single_timer preauth_globals wireless_source_alone main_sock
      (some scan_list_ABC) none (-1) 10 0 (by decide)).2.2.1 (by decide),
   ((schedule_scan_arms_the_single_timer preauth_globals wireless_source_alone main_sock
      (some scan_list_ABC) (some 7) (-1) 10 0 (by decide)).1 (by decide)).2⟩

theorem keeps_refl (s : EAPOLSocketSource) : KeepsBssids s s :=
  ⟨List.Sublist.refl _, rfl, rfl⟩

theorem keeps_trans {a b c : EAPOLSocketSource} (h1 : KeepsBssids a b)
    (h2 : KeepsBssids b c) : KeepsBssids a c :=
  ⟨h2.1.trans h1.1, h2.2.1.trans h1.2.1, h2.2.2.trans h1.2.2⟩

theorem keeps_distinct {s s' : EAPOLSocketSource} (h : KeepsBssids s s')
    (hd : bssids_distinct s) : bssids_distinct s' :=
  List.Nodup.sublist h.1 hd

theorem keeps_main_free {s s' : EAPOLSocketSource} (h : KeepsBssids s s')
    (hf : main_bssid_free s) : main_bssid_free s' := by
  intro hv hmem
  rw [h.2.2] at hv
  rw [h.2.1] at hmem
  exact hf hv (h.1.subset hmem)

theorem keeps_unschedule (s : EAPOLSocketSource) :
    KeepsBssids s (EAPOLSocketSourceUnscheduleHandshakeNotification s).1 := by
  rw [unschedule_eq]
  exact keeps_refl s

theorem keeps_free (s : EAPOLSocketSource) (sock : EAPOLSocketRef) :
    KeepsBssids s (EAPOLSocketFree s sock) := by
  cases sock with
  | main => exact keeps_refl s
  | preauth i =>
    refine ⟨?_, rfl, rfl⟩
    unfold preauth_bssids EAPOLSocketFree
    exact (List.eraseIdx_sublist _ _).map _

theorem bssids_modify (f : EAPOLSocket → EAPOLSocket) (hf : ∀ a, (f a).bssid = a.bssid)
    (l : List EAPOLSocket) :
    ∀ i : Nat, (l.modify f i).map (fun e => e.bssid) = l.map (fun e => e.bssid) := by
  induction l with
  | nil =>
    intro i
    cases i <;> rfl
  | cons x xs ih =>
    intro i
    cases i with
    | zero => simp [List.modify_zero_cons, hf]
    | succ i => simp [List.modify_succ_cons, ih i]

theorem keeps_store (s s' : EAPOLSocketSource) (sock : EAPOLSocketRef)
    (f : EAPOLSocket → EAPOLSocket) (hf : ∀ a, (f a).bssid = a.bssid)
    (h : sock.store s f = some s') : KeepsBssids s s' := by
  unfold EAPOLSocketRef.store at h
  cases hd : sock.deref s with
  | none => simp [hd] at h
  | some obj =>
    simp only [hd] at h
    cases sock with
    | main =>
      simp only [Option.some.injEq] at h
      subst h
      exact keeps_refl s
    | preauth i =>
      simp only [Option.some.injEq] at h
      subst h
      refine ⟨?_, rfl, rfl⟩
      unfold preauth_bssids
      simp only
      rw [bssids_modify f hf]

theorem keeps_mark (s : EAPOLSocketSource) (sock : EAPOLSocketRef) :
    KeepsBssids s (EAPOLSocketMarkForRemoval s sock) := by
  cases sock with
  | main => exact keeps_refl s
  | preauth i =>
    refine ⟨?_, rfl, rfl⟩
    unfold preauth_bssids EAPOLSocketMarkForRemoval
    simp only
    rw [bssids_modify (fun x => { x with remove := true }) (fun _ => rfl)]

theorem keeps_mark_all (s : EAPOLSocketSource) :
    KeepsBssids s (EAPOLSocketSourceMarkPreauthSocketsForRemoval s) := by
  rw [mark_all_eq]
  refine ⟨?_, rfl, rfl⟩
  unfold preauth_bssids
  simp only [List.map_map]
  exact List.Sublist.refl _

theorem keeps_teardown (g : Globals) (s : EAPOLSocketSource) :
    KeepsBssids s (preauth_teardown_state g s) := by
  unfold preauth_teardown_state
  split
  · exact keeps_mark_all s
  · exact keeps_refl s

theorem keeps_observer (s : EAPOLSocketSource) :
    KeepsBssids s (EAPOLSocketSourceObserver s).1 := by
  unfold EAPOLSocketSourceObserver
  split
  · rw [remove_preauth_sockets_eq]
    refine ⟨?_, rfl, rfl⟩
    unfold preauth_bssids
    exact (List.filter_sublist _).map _
  · exact keeps_refl s

theorem keeps_handshake_complete (s : EAPOLSocketSource) (st : SupplicantState)
    (r : EAPOLSocketSource × List Event)
    (h : EAPOLSocketSourceHandshakeComplete s st = some r) : KeepsBssids s r.1 := by
  unfold EAPOLSocketSourceHandshakeComplete at h
  cases hs : s.sock with
  | none => simp [hs] at h
  | some m =>
    simp only [hs, Option.some.injEq] at h
    subst h
    exact keeps_unschedule s

theorem keeps_create_socket_main (s : EAPOLSocketSource) (malloc_ok : Bool) :
    KeepsBssids s (EAPOLSocketSourceCreateSocket s none malloc_ok).2 := by
  unfold EAPOLSocketSourceCreateSocket
  split
  · exact keeps_refl s
  · exact keeps_refl s

theorem keeps_create_supplicant (s : EAPOLSocketSource) (control_dict : Option ControlDict)
    (system_mode malloc_ok : Bool) (supp : Option Nat) :
    KeepsBssids s
      (EAPOLSocketSourceCreateSupplicant s control_dict system_mode malloc_ok supp).2.1 := by
  unfold EAPOLSocketSourceCreateSupplicant
  simp only
  split
  · exact keeps_refl s
  · rename_i mode config heq
    have hq : KeepsBssids s { s with mode := mode } := keeps_refl s
    have hc := keeps_create_socket_main { s with mode := mode } malloc_ok
    split
    · exact keeps_trans hq hc
    · rename_i sock hsock
      split
      · exact keeps_trans hq (keeps_trans hc (keeps_free _ sock))
      · exact keeps_trans hq (keeps_trans hc ⟨List.Sublist.refl _, rfl, rfl⟩)

theorem keeps_set_pmk (s : EAPOLSocketSource) (sock : EAPOLSocketRef) (key_length : Int)
    (created : Option Nat) (result : Bool) (r : Bool × EAPOLSocketSource × List Event)
    (h : EAPOLSocketSetPMK s sock key_length created result = some r) :
    KeepsBssids s r.2.1 := by
  unfold EAPOLSocketSetPMK at h
  cases hd : sock.deref s with
  | none => simp [hd] at h
  | some obj =>
    simp only [hd] at h
    split at h
    · simp only [Option.some.injEq] at h
      subst h
      exact keeps_refl s
    · split at h
      · split at h
        · simp only [Option.some.injEq] at h
          subst h
          unfold EAPOLSocketSourceScheduleHandshakeNotification
          rw [unschedule_eq]
          cases created with
          | none => exact keeps_refl s
          | some c => exact keeps_refl s
        · simp only [Option.some.injEq] at h
          subst h
          exact keeps_unschedule s
      · simp only [Option.some.injEq] at h
        subst h
        exact keeps_refl s
theorem keeps_report_status (g : Globals) (s : EAPOLSocketSource) (sock : EAPOLSocketRef)
    (dict : Nat) (st : SupplicantState) (cs : EAPClientStatus)
    (r : EAPOLSocketSource × List Event)
    (h : EAPOLSocketReportStatus g s sock dict st cs = some r) : KeepsBssids s r.1 := by
  cases hcl : s.client with
  | none =>
    have hr := report_status_no_client g s sock dict st cs r hcl h
    subst hr
    exact keeps_refl s
  | some client =>
    have hderef : ∃ obj, sock.deref s = some obj := by
      cases hd : sock.deref s with
      | none => unfold EAPOLSocketReportStatus at h; simp [hd] at h
      | some obj => exact ⟨obj, rfl⟩
    obtain ⟨obj, hd⟩ := hderef
    cases sock with
    | preauth i =>
      have he : s.preauth_sockets[i]? = some obj := hd
      rcases report_status_preauth_cases g s i obj client dict st cs he hcl with h' | h'
      · rw [h'] at h
        simp only [Option.some.injEq] at h
        subst h
        exact keeps_mark s _
      · rw [h'] at h
        simp only [Option.some.injEq] at h
        subst h
        exact keeps_refl s
    | main =>
      have hm : s.sock = some obj := hd
      have hk : KeepsBssids s { s with interest := none, authenticated := false } :=
        keeps_refl s
      cases st with
      | kSupplicantStateAuthenticated =>
        by_cases ha : s.authenticated = false
        · rw [report_status_main_auth_first g s obj client dict cs hm hcl ha] at h
          simp only [Option.some.injEq] at h
          subst h
          exact keeps_refl s
        · have ha' : s.authenticated = true := by simpa using ha
          rw [report_status_main_auth_again g s obj client dict cs hm hcl ha'] at h
          simp only [Option.some.injEq] at h
          subst h
          exact keeps_refl s
      | kSupplicantStateInactive =>
        rw [report_status_main_inactive g s obj client dict cs hm hcl] at h
        simp only [Option.some.injEq] at h
        subst h
        exact keeps_trans hk (keeps_teardown g _)
      | kSupplicantStateHeld =>
        rw [report_status_main_held g s obj client dict cs hm hcl] at h
        simp only [Option.some.injEq] at h
        subst h
        exact keeps_trans hk (keeps_teardown g _)
      | kSupplicantStateLogoff =>
        rw [report_status_main_logoff g s obj client dict cs hm hcl] at h
        simp only [Option.some.injEq] at h
        subst h
        exact keeps_teardown g s
      | kSupplicantStateConnecting =>
        rw [report_status_main_other g s obj client dict cs hm hcl _ (Or.inl rfl)] at h
        simp only [Option.some.injEq] at h
        subst h
        exact keeps_teardown g s
      | kSupplicantStateAcquired =>
        rw [report_status_main_other g s obj client dict cs hm hcl _ (Or.inr (Or.inl rfl))] at h
        simp only [Option.some.injEq] at h
        subst h
        exact keeps_teardown g s
      | kSupplicantStateAuthenticating =>
        rw [report_status_main_other g s obj client dict cs hm hcl _
          (Or.inr (Or.inr (Or.inl rfl)))] at h
        simp only [Option.some.injEq] at h
        subst h
        exact keeps_teardown g s
      | kSupplicantStateDisconnected =>
        rw [report_status_main_other g s obj client dict cs hm hcl _
          (Or.inr (Or.inr (Or.inr rfl)))] at h
        simp only [Option.some.injEq] at h
        subst h
        exact keeps_teardown g s

theorem bssids_eraseP (X : ether_addr) (l : List EAPOLSocket) :
    (l.eraseP (fun e => decide (e.bssid = X))).map (fun e => e.bssid)
      = (l.map (fun e => e.bssid)).erase X := by
  induction l with
  | nil => rfl
  | cons x xs ih =>
    by_cases hx : x.bssid = X
    · rw [List.eraseP_cons_of_pos (by simpa using hx)]
      simp [hx]
    · rw [List.eraseP_cons_of_neg (by simpa using hx), List.map_cons, List.map_cons,
        List.erase_cons_tail (by simpa using hx), ih]

/-- What a wireless refresh does to the BSSIDs: it never adds one to the queue;
with pre-authentication enabled it keeps the main-BSSID invariant. -/
theorem update_wireless_bssids (g : Globals) (w : Wireless) (s : EAPOLSocketSource) :
    (preauth_bssids (EAPOLSocketSourceUpdateWirelessInfo g w s).2.1).Sublist (preauth_bssids s)
      ∧ (g.S_enable_preauth = true → bssids_distinct s → main_bssid_free s →
          main_bssid_free (EAPOLSocketSourceUpdateWirelessInfo g w s).2.1) := by
  by_cases hwl : s.is_wireless = true
  · cases hX : w.ap_mac with
    | none =>
      rw [update_wireless_none_eq g w s hwl hX]
      refine ⟨List.Sublist.refl _, ?_⟩
      intro _ _ _ hv
      exact Bool.noConfusion hv
    | some X =>
      by_cases hp : g.S_enable_preauth = true
      · by_cases hch : s.bssid_valid = false ∨ X ≠ s.bssid
        · have h21 : (EAPOLSocketSourceUpdateWirelessInfo g w s).2.1
              = { (EAPOLSocketSourceRemoveSocketWithBSSID s X).1 with
                  bssid_valid := true, bssid := X, is_wpa_enterprise := w.is_wpa_enterprise,
                  ssid := w.ssid } := by
            rw [update_wireless_changed_eq g w s X hwl hX hp hch]
          rw [h21]
          have hb : preauth_bssids
              { (EAPOLSocketSourceRemoveSocketWithBSSID s X).1 with
                bssid_valid := true, bssid := X, is_wpa_enterprise := w.is_wpa_enterprise,
                ssid := w.ssid } = (preauth_bssids s).erase X := by
            unfold preauth_bssids
            simp only
            rw [(remove_with_bssid_fields s X).2.2.2.1, bssids_eraseP]
          unfold main_bssid_free
          rw [hb]
          refine ⟨List.erase_sublist _ _, ?_⟩
          intro _ hd _ _ hmem
          exact ((List.Nodup.mem_erase_iff hd).mp hmem).1 rfl
        · have hv' : s.bssid_valid = true := by
            cases h : s.bssid_valid with
            | true => rfl
            | false => exact absurd (Or.inl h) hch
          have hb' : X = s.bssid := by
            by_contra hne
            exact hch (Or.inr hne)
          rw [update_wireless_same_eq g w s X hwl hX hv' hb']
          refine ⟨List.Sublist.refl _, ?_⟩
          intro _ _ hf _ hmem
          have hmem' : X ∈ preauth_bssids s := hmem
          rw [hb'] at hmem'
          exact hf hv' hmem'
      · have hp' : g.S_enable_preauth = false := by simpa using hp
        rw [update_wireless_disabled_eq g w s X hwl hX hp']
        exact ⟨List.Sublist.refl _, fun h => absurd h hp⟩
  · have h : EAPOLSocketSourceUpdateWirelessInfo g w s = (false, s, []) := by
      unfold EAPOLSocketSourceUpdateWirelessInfo
      rw [if_pos (by simpa using hwl)]
    rw [h]
    exact ⟨List.Sublist.refl _, fun _ _ hf => hf⟩
theorem bssid_step_of_keeps (g : Globals) {s s' : EAPOLSocketSource}
    (h : KeepsBssids s s') : BssidStep g s s' :=
  ⟨h.1, fun _ _ hf => keeps_main_free h hf⟩

theorem bssid_step_trans {g : Globals} {a b c : EAPOLSocketSource}
    (h1 : BssidStep g a b) (h2 : BssidStep g b c) : BssidStep g a c :=
  ⟨h2.1.trans h1.1,
    fun hp hd hf => h2.2 hp (List.Nodup.sublist h1.1 hd) (h1.2 hp hd hf)⟩

theorem bssid_step_update (g : Globals) (w : Wireless) (s : EAPOLSocketSource) :
    BssidStep g s (EAPOLSocketSourceUpdateWirelessInfo g w s).2.1 :=
  update_wireless_bssids g w s

theorem bssid_step_receive (g : Globals) (w : Wireless) (V : List Byte → Nat → Bool)
    (s : EAPOLSocketSource) (n : Int) (buf : List Byte) :
    BssidStep g s (EAPOLSocketSourceReceive g w V s n buf).1 := by
  by_cases hv : 0 < n ∧ ether_header_valid buf n.toNat = true
      ∧ (ether_type_of buf = EAPOL_802_1_X_ETHERTYPE
        ∨ ether_type_of buf = IEEE80211_PREAUTH_ETHERTYPE)
      ∧ eapol_header_valid (buf.drop sizeof_ether_header)
        (n.toNat - sizeof_ether_header) = true
      ∧ eapol_body_valid V (buf.drop sizeof_ether_header)
        (n.toNat - sizeof_ether_header) = true
  · obtain ⟨hn, he, ht, hh, hb⟩ := hv
    unfold EAPOLSocketSourceReceive
    simp only [not_le.mpr hn, he, ht, hh, hb, if_false, not_true_eq_false, Bool.true_eq_false]
    split
    · split
      · exact bssid_step_trans (bssid_step_update g w s)
          (bssid_step_of_keeps g ⟨List.Sublist.refl _, rfl, rfl⟩)
      · exact bssid_step_of_keeps g ⟨List.Sublist.refl _, rfl, rfl⟩
    · exact bssid_step_of_keeps g ⟨List.Sublist.refl _, rfl, rfl⟩
  · rw [receive_of_invalid g w V s n buf hv]
    exact bssid_step_of_keeps g (keeps_refl s)

theorem bssid_step_transmit (g : Globals) (w : Wireless) (sent : Int) (s : EAPOLSocketSource)
    (sock : EAPOLSocketRef) (t : Nat) (body : Option (List Byte)) (body_length : Nat)
    (r : Int × EAPOLSocketSource × List Event)
    (h : EAPOLSocketSourceTransmit g w sent s sock t body body_length = some r) :
    BssidStep g s r.2.1 := by
  unfold EAPOLSocketSourceTransmit at h
  cases hd : sock.deref s with
  | none => simp [hd] at h
  | some obj =>
    simp only [hd] at h
    by_cases hsz : sizeof_ether_header + sizeof_EAPOLPacket
        + (if body.isSome then body_length else 0) > 1600
    · simp [hsz] at h
    · simp only [hsz, if_false] at h
      by_cases hmain : sock = EAPOLSocketRef.main
      · simp only [hmain, if_true] at h
        by_cases hwl : s.is_wireless = true
        · simp only [hwl, if_true] at h
          by_cases hbv : s.bssid_valid = false
          · simp only [hbv, if_true] at h
            by_cases hbv2 : (EAPOLSocketSourceUpdateWirelessInfo g w s).2.1.bssid_valid = false
            · simp only [hbv2, if_true, Option.some.injEq] at h
              subst h
              exact bssid_step_update g w s
            · simp only [hbv2, if_false, Bool.true_eq_false, Bool.false_eq_true,
                Option.some.injEq] at h
              subst h
              exact bssid_step_update g w s
          · simp only [hbv, if_false, Bool.true_eq_false, Bool.false_eq_true,
              Option.some.injEq] at h
            subst h
            exact bssid_step_of_keeps g (keeps_refl s)
        · simp only [hwl, if_false, Bool.true_eq_false, Bool.false_eq_true,
            Option.some.injEq] at h
          subst h
          exact bssid_step_of_keeps g (keeps_refl s)
      · simp only [hmain, if_false, Bool.true_eq_false, Bool.false_eq_true,
          Option.some.injEq] at h
        subst h
        exact bssid_step_of_keeps g (keeps_refl s)

theorem bssid_step_link_status (g : Globals) (w : Wireless) (s : EAPOLSocketSource)
    (active : Option Bool) :
    BssidStep g s (EAPOLSocketSourceLinkStatusChanged g w s active).1 := by
  unfold EAPOLSocketSourceLinkStatusChanged
  have h1 : BssidStep g s (match active with
      | some b => { s with link_active := b }
      | none => s) := by
    cases active <;> exact bssid_step_of_keeps g ⟨List.Sublist.refl _, rfl, rfl⟩
  simp only
  split
  · exact bssid_step_trans h1 (bssid_step_update g w _)
  · exact h1

theorem scan_loop_no_main (l : List ScanEntry) :
    ∀ (s : EAPOLSocketSource) (r : EAPOLSocketSource × List Event),
      s.sock = none → scan_loop s l = some r → r.1 = s := by
  induction l with
  | nil =>
    intro s r _ h
    simp only [scan_loop, Option.some.injEq] at h
    rw [← h]
  | cons e rest ih =>
    intro s r hs h
    unfold scan_loop at h
    by_cases h1 : e.bssid = s.bssid
    · rw [if_pos h1] at h
      exact ih s r hs h
    · rw [if_neg h1] at h
      by_cases h2 : (EAPOLSocketSourceLookupPreauthSocket s e.bssid).isSome = true
      · rw [if_pos h2] at h
        exact ih s r hs h
      · rw [if_neg h2] at h
        cases hmo : e.malloc_ok with
        | false =>
          rw [hmo, create_socket_fail] at h
          exact ih s r hs h
        | true =>
          rw [hmo, create_socket_preauth] at h
          simp [hs] at h

theorem bssid_step_scan_callback (g : Globals) (s : EAPOLSocketSource)
    (bssid_list : Option (List ScanEntry)) (r : EAPOLSocketSource × List Event)
    (h : EAPOLSocketSourceScanCallback g s bssid_list = some r) :
    (bssids_distinct s → bssids_distinct r.1)
      ∧ (bssids_distinct s → main_bssid_free s → main_bssid_free r.1) := by
  by_cases hskip : bssid_list = none ∨ s.bssid_valid = false
  · rw [scan_callback_skip g s bssid_list hskip] at h
    simp only [Option.some.injEq] at h
    subst h
    exact ⟨fun hd => hd, fun _ hf => hf⟩
  · cases bssid_list with
    | none => exact absurd (Or.inl rfl) hskip
    | some L =>
      have hv : s.bssid_valid = true := by
        cases hb : s.bssid_valid with
        | true => rfl
        | false => exact absurd (Or.inr hb) hskip
      cases hs : s.sock with
      | none =>
        unfold EAPOLSocketSourceScanCallback at h
        simp only [Option.map_eq_some'] at h
        obtain ⟨r0, hr0, rfl⟩ := h
        rw [if_neg (by rw [hv]; decide)] at hr0
        rw [scan_loop_no_main L s r0 hs hr0]
        exact ⟨fun hd => hd, fun _ hf => hf⟩
      | some m =>
        obtain ⟨evs, heq, _⟩ := scan_callback_eq g s m L hs hv
        rw [heq] at h
        simp only [Option.some.injEq] at h
        subst h
        have hb : preauth_bssids
            { s with
              preauth_sockets := s.preauth_sockets
                ++ (scan_created s.bssid (preauth_bssids s) L).map scan_endpoint
              preauth_sockets_count := s.preauth_sockets_count
                + ((scan_created s.bssid (preauth_bssids s) L).length : Int) }
            = preauth_bssids s
              ++ (scan_created s.bssid (preauth_bssids s) L).map (fun c => c.bssid) := by
          simp [preauth_bssids, scan_endpoint, Function.comp_def]
        constructor
        · intro hd
          unfold bssids_distinct
          rw [hb]
          exact scan_created_nodup _ L _ hd
        · intro _ hf hv2 hmem
          have hmem' : s.bssid ∈ preauth_bssids s
              ++ (scan_created s.bssid (preauth_bssids s) L).map (fun c => c.bssid) := by
            rw [← hb]
            exact hmem
          rcases List.mem_append.mp hmem' with h1 | h1
          · exact hf hv h1
          · obtain ⟨c, hc, hcb⟩ := List.mem_map.mp h1
            exact (scan_created_sound _ L _ c hc).2.1 hcb

theorem step_bssid_facts (g : Globals) (V : List Byte → Nat → Bool)
    (s s' : EAPOLSocketSource) (op : Op) (h : step g V s op = some s') :
    (bssids_distinct s → bssids_distinct s')
      ∧ (g.S_enable_preauth = true → bssids_distinct s → main_bssid_free s →
          main_bssid_free s')
      ∧ (op.isScanCallback = false → (preauth_bssids s').Sublist (preauth_bssids s)) := by
  have hstep : ∀ {a b : EAPOLSocketSource}, BssidStep g a b →
      (bssids_distinct a → bssids_distinct b)
        ∧ (g.S_enable_preauth = true → bssids_distinct a → main_bssid_free a →
            main_bssid_free b)
        ∧ (op.isScanCallback = false → (preauth_bssids b).Sublist (preauth_bssids a)) :=
    fun hb => ⟨fun hd => List.Nodup.sublist hb.1 hd, hb.2, fun _ => hb.1⟩
  cases op with
  | Receive w n buf =>
    simp only [step, Option.some.injEq] at h
    subst h
    exact hstep (bssid_step_receive g w V s n buf)
  | Transmit w sent sock t body bl =>
    simp only [step, Option.map_eq_some'] at h
    obtain ⟨r, hr, rfl⟩ := h
    exact hstep (bssid_step_transmit g w sent s sock t body bl r hr)
  | LinkStatusChanged w active =>
    simp only [step, Option.some.injEq] at h
    subst h
    exact hstep (bssid_step_link_status g w s active)
  | Observer =>
    simp only [step, Option.some.injEq] at h
    subst h
    exact hstep (bssid_step_of_keeps g (keeps_observer s))
  | ScanCallback l =>
    simp only [step, Option.map_eq_some'] at h
    obtain ⟨r, hr, rfl⟩ := h
    have hs := bssid_step_scan_callback g s l r hr
    exact ⟨hs.1, fun _ => hs.2, fun hop => Bool.noConfusion hop⟩
  | HandshakeComplete st =>
    simp only [step, Option.map_eq_some'] at h
    obtain ⟨r, hr, rfl⟩ := h
    exact hstep (bssid_step_of_keeps g (keeps_handshake_complete s st r hr))
  | EnableReceive sock func a1 a2 =>
    simp only [step, EAPOLSocketEnableReceive] at h
    exact hstep (bssid_step_of_keeps g (keeps_store s s' sock
      (fun x => { x with func := func, arg1 := a1, arg2 := a2 }) (fun _ => rfl) h))
  | DisableReceive sock =>
    simp only [step, EAPOLSocketDisableReceive] at h
    exact hstep (bssid_step_of_keeps g (keeps_store s s' sock
      (fun x => { x with func := none }) (fun _ => rfl) h))
  | SetPMK sock key_length created result =>
    simp only [step, Option.map_eq_some'] at h
    obtain ⟨r, hr, rfl⟩ := h
    exact hstep (bssid_step_of_keeps g (keeps_set_pmk s sock key_length created result r hr))
  | ReportStatus sock dict st cs =>
    simp only [step, Option.map_eq_some'] at h
    obtain ⟨r, hr, rfl⟩ := h
    exact hstep (bssid_step_of_keeps g (keeps_report_status g s sock dict st cs r hr))
  | CreateSupplicant cd sm mo sp =>
    simp only [step, Option.some.injEq] at h
    subst h
    exact hstep (bssid_step_of_keeps g (keeps_create_supplicant s cd sm mo sp))

theorem run_tunables_cons (V : List Byte → Nat → Bool) (s s' : EAPOLSocketSource)
    (p : Globals × Op) (rest : List (Globals × Op))
    (h : run_tunables V s (p :: rest) = some s') :
    ∃ s1, step p.1 V s p.2 = some s1 ∧ run_tunables V s1 rest = some s' := by
  obtain ⟨g, op⟩ := p
  simp only [run_tunables] at h
  cases hs : step g V s op with
  | none => simp [hs] at h
  | some s1 =>
    simp only [hs] at h
    exact ⟨s1, rfl, h⟩

theorem run_tunables_distinct (V : List Byte → Nat → Bool) (steps : List (Globals × Op)) :
    ∀ (s s' : EAPOLSocketSource), run_tunables V s steps = some s' →
      bssids_distinct s → bssids_distinct s' := by
  induction steps with
  | nil =>
    intro s s' h hd
    simp only [run_tunables, Option.some.injEq] at h
    rw [← h]
    exact hd
  | cons p rest ih =>
    intro s s' h hd
    obtain ⟨s1, h1, h2⟩ := run_tunables_cons V s s' p rest h
    exact ih s1 s' h2 ((step_bssid_facts p.1 V s s1 p.2 h1).1 hd)

theorem run_tunables_main_free (V : List Byte → Nat → Bool) (steps : List (Globals × Op)) :
    ∀ (s s' : EAPOLSocketSource), run_tunables V s steps = some s' →
      (∀ p ∈ steps, p.1.S_enable_preauth = true) →
      bssids_distinct s → main_bssid_free s → main_bssid_free s' := by
  induction steps with
  | nil =>
    intro s s' h _ _ hf
    simp only [run_tunables, Option.some.injEq] at h
    rw [← h]
    exact hf
  | cons p rest ih =>
    intro s s' h hen hd hf
    obtain ⟨s1, h1, h2⟩ := run_tunables_cons V s s' p rest h
    have hp := hen p (List.mem_cons_self _ _)
    obtain ⟨f1, f2, _⟩ := step_bssid_facts p.1 V s s1 p.2 h1
    exact ih s1 s' h2 (fun q hq => hen q (List.mem_cons_of_mem _ hq)) (f1 hd) (f2 hp hd hf)

theorem run_tunables_no_scan (V : List Byte → Nat → Bool) (steps : List (Globals × Op)) :
    ∀ (s s' : EAPOLSocketSource), run_tunables V s steps = some s' →
      (∀ p ∈ steps, p.2.isScanCallback = false) →
      (preauth_bssids s').Sublist (preauth_bssids s) := by
  induction steps with
  | nil =>
    intro s s' h _
    simp only [run_tunables, Option.some.injEq] at h
    rw [← h]
  | cons p rest ih =>
    intro s s' h hns
    obtain ⟨s1, h1, h2⟩ := run_tunables_cons V s s' p rest h
    have hp := hns p (List.mem_cons_self _ _)
    exact (ih s1 s' h2 (fun q hq => hns q (List.mem_cons_of_mem _ hq))).trans
      ((step_bssid_facts p.1 V s s1 p.2 h1).2.2 hp)

theorem create_bssids (g : Globals) (w : Wireless) (ether : ether_addr) (is_wireless : Bool)
    (active : Option Bool) (client : Option Nat) :
    preauth_bssids (EAPOLSocketSourceCreate g w ether is_wireless active client).1 = [] := by
  have hq := (bssid_step_link_status g w
    { client := none, ether := ether, rx := { eapol_p := none, length := 0 },
      mtu := 1400, is_wireless := is_wireless, is_wpa_enterprise := false,
      link_active := false, authenticated := false, interest := none, ssid := none,
      bssid := ⟨0, 0, 0, 0, 0, 0⟩, bssid_valid := false, process_removals := false,
      sock := none, preauth_sockets := [], preauth_sockets_count := 0,
      mode := EAPOLControlMode.kEAPOLControlModeNone } active).1
  exact List.eq_nil_of_sublist_nil hq
theorem run_as_tunables (g : Globals) (V : List Byte → Nat → Bool) (ops : List Op) :
    ∀ s : EAPOLSocketSource,
      run g V s ops = run_tunables V s (ops.map (fun op => (g, op))) := by
  induction ops with
  | nil =>
    intro s
    rfl
  | cons op rest ih =>
    intro s
    simp only [run, run_tunables, List.map_cons]
    cases step g V s op with
    | none => rfl
    | some s1 => exact ih s1

/-- C21: in every state reached from the source `EAPOLSocketSourceCreate` returns
by any sequence of operations, each run under whatever tunables are in force
at that time, no two endpoints of the pre-auth queue have the same BSSID.
Every single operation keeps this invariant, in particular the scan callback
(whatever the list, repeated BSSIDs included), the wireless refresh, the
removal sweep and Supplicant creation; so it also holds in every state that
is reachable under fixed tunables. -/
theorem preauth_bssids_stay_distinct (V : List Byte → Nat → Bool) (g : Globals)
    (w : Wireless) (ether : ether_addr) (is_wireless : Bool) (active : Option Bool)
    (client : Option Nat) (steps : List (Globals × Op)) (s : EAPOLSocketSource)
    (hrun : run_tunables V
      (EAPOLSocketSourceCreate g w ether is_wireless active client).1 steps = some s) :
    (s.preauth_sockets.map (fun e => e.bssid)).Nodup
      ∧ (∀ (g1 : Globals) (s1 s2 : EAPOLSocketSource) (op : Op),
          step g1 V s1 op = some s2 → bssids_distinct s1 → bssids_distinct s2)
      ∧ (∀ (g1 : Globals) (s1 : EAPOLSocketSource) (L : Option (List ScanEntry))
            (r : EAPOLSocketSource × List Event),
          EAPOLSocketSourceScanCallback g1 s1 L = some r →
          bssids_distinct s1 → bssids_distinct r.1)
      ∧ (∀ (g1 : Globals) (w1 : Wireless) (s1 : EAPOLSocketSource),
          bssids_distinct s1 →
          bssids_distinct (EAPOLSocketSourceUpdateWirelessInfo g1 w1 s1).2.1)
      ∧ (∀ s1 : EAPOLSocketSource,
          bssids_distinct s1 → bssids_distinct (EAPOLSocketSourceObserver s1).1)
      ∧ (∀ (s1 : EAPOLSocketSource) (cd : Option ControlDict) (sm mo : Bool)
            (sp : Option Nat),
          bssids_distinct s1 →
          bssids_distinct (EAPOLSocketSourceCreateSupplicant s1 cd sm mo sp).2.1)
      ∧ (∀ (g1 : Globals) (s1 : EAPOLSocketSource), Reachable g1 V s1 →
          bssids_distinct s1) := by
  have h0 : ∀ (g0 : Globals) (w0 : Wireless) (e0 : ether_addr) (iw : Bool)
      (a0 : Option Bool) (c0 : Option Nat),
      bssids_distinct (EAPOLSocketSourceCreate g0 w0 e0 iw a0 c0).1 := by
    intro g0 w0 e0 iw a0 c0
    unfold bssids_distinct
    rw [create_bssids]
    exact List.nodup_nil
  refine ⟨?_, ?_, ?_, ?_, ?_, ?_, ?_⟩
  · exact run_tunables_distinct V steps _ s hrun (h0 g w ether is_wireless active client)
  · intro g1 s1 s2 op hs
    exact (step_bssid_facts g1 V s1 s2 op hs).1
  · intro g1 s1 L r hr
    exact (bssid_step_scan_callback g1 s1 L r hr).1
  · intro g1 w1 s1 hd
    exact List.Nodup.sublist (update_wireless_bssids g1 w1 s1).1 hd
  · intro s1 hd
    exact keeps_distinct (keeps_observer s1) hd
  · intro s1 cd sm mo sp hd
    exact keeps_distinct (keeps_create_supplicant s1 cd sm mo sp) hd
  · intro g1 s1 hr
    obtain ⟨w1, e1, iw, a1, c1, ops, h⟩ := hr
    rw [run_as_tunables] at h
    exact run_tunables_distinct V _ _ s1 h (h0 g1 w1 e1 iw a1 c1)

theorem preauth_bssids_stay_distinct_witness :
    run_tunables accept_all started_source scanning_steps = some scanned_source
      ∧ (scanned_source.preauth_sockets.map (fun e => e.bssid)).Nodup
      ∧ scanned_source.preauth_sockets.map (fun e => e.bssid) = [bssid_A, bssid_C] :=
  ⟨by decide,
    (preauth_bssids_stay_distinct accept_all preauth_globals associated_B local_mac true
      (some true) (some 1) scanning_steps scanned_source (by decide)).1,
    by decide⟩

theorem unschedule_never_arms (s : EAPOLSocketSource) :
    (EAPOLSocketSourceUnscheduleHandshakeNotification s).2.any Event.armsScanTimer = false := by
  unfold EAPOLSocketSourceUnscheduleHandshakeNotification
    EAPOLSocketSourceReleaseHandshakeNotification
  cases s.interest <;> rfl

theorem update_wireless_disabled_never_arms (g : Globals) (w : Wireless)
    (s : EAPOLSocketSource) (hp : g.S_enable_preauth = false) :
    (EAPOLSocketSourceUpdateWirelessInfo g w s).2.2.any Event.armsScanTimer = false := by
  have hc : EAPOLSocketSourceCancelScan.any Event.armsScanTimer = false := rfl
  have hn : ([] : List Event).any Event.armsScanTimer = false := rfl
  unfold EAPOLSocketSourceUpdateWirelessInfo
  split
  · rfl
  · cases w.ap_mac with
    | none =>
      simp only [List.any_append, unschedule_never_arms, Bool.false_or]
      rfl
    | some a =>
      simp only [hp, Bool.false_eq_true, if_false]
      split
      · simp only [List.any_append, hn, Bool.false_or]
        split <;> simp only [hc, hn]
      · simp only [List.any_append, hn, Bool.false_or]
        split <;> simp only [hc, hn]

theorem dispatch_never_arms (sk : Option EAPOLSocket) (rx : EAPOLSocketReceiveData) :
    (dispatch sk rx).any Event.armsScanTimer = false := by
  unfold dispatch
  cases sk with
  | none => rfl
  | some k =>
    simp only
    cases k.func <;> rfl

theorem receive_disabled_never_arms (g : Globals) (w : Wireless)
    (V : List Byte → Nat → Bool) (s : EAPOLSocketSource) (n : Int) (buf : List Byte)
    (hp : g.S_enable_preauth = false) :
    (EAPOLSocketSourceReceive g w V s n buf).2.any Event.armsScanTimer = false := by
  by_cases hv : 0 < n ∧ ether_header_valid buf n.toNat = true
      ∧ (ether_type_of buf = EAPOL_802_1_X_ETHERTYPE
        ∨ ether_type_of buf = IEEE80211_PREAUTH_ETHERTYPE)
      ∧ eapol_header_valid (buf.drop sizeof_ether_header)
        (n.toNat - sizeof_ether_header) = true
      ∧ eapol_body_valid V (buf.drop sizeof_ether_header)
        (n.toNat - sizeof_ether_header) = true
  · obtain ⟨hn, he, ht, hh, hb⟩ := hv
    unfold EAPOLSocketSourceReceive
    simp only [not_le.mpr hn, he, ht, hh, hb, if_false, not_true_eq_false, Bool.true_eq_false,
      List.any_append, dispatch_never_arms, Bool.or_false]
    split
    · split
      · exact update_wireless_disabled_never_arms g w s hp
      · rfl
    · rfl
  · rw [receive_of_invalid g w V s n buf hv]
    rfl

theorem transmit_disabled_never_arms (g : Globals) (w : Wireless) (sent : Int)
    (s : EAPOLSocketSource) (sock : EAPOLSocketRef) (t : Nat) (body : Option (List Byte))
    (body_length : Nat) (r : Int × EAPOLSocketSource × List Event)
    (hp : g.S_enable_preauth = false)
    (h : EAPOLSocketSourceTransmit g w sent s sock t body body_length = some r) :
    r.2.2.any Event.armsScanTimer = false := by
  have hu := update_wireless_disabled_never_arms g w s hp
  unfold EAPOLSocketSourceTransmit at h
  cases hd : sock.deref s with
  | none => simp [hd] at h
  | some obj =>
    simp only [hd] at h
    by_cases hsz : sizeof_ether_header + sizeof_EAPOLPacket
        + (if body.isSome then body_length else 0) > 1600
    · simp [hsz] at h
    · simp only [hsz, if_false] at h
      by_cases hmain : sock = EAPOLSocketRef.main
      · simp only [hmain, if_true] at h
        by_cases hwl : s.is_wireless = true
        · simp only [hwl, if_true] at h
          by_cases hbv : s.bssid_valid = false
          · simp only [hbv, if_true] at h
            by_cases hbv2 : (EAPOLSocketSourceUpdateWirelessInfo g w s).2.1.bssid_valid = false
            · simp only [hbv2, if_true, Option.some.injEq] at h
              subst h
              exact hu
            · simp only [hbv2, if_false, Bool.true_eq_false, Bool.false_eq_true,
                Option.some.injEq] at h
              subst h
              simp only [List.any_append, hu, Bool.false_or]
              rfl
          · simp only [hbv, if_false, Bool.true_eq_false, Bool.false_eq_true,
              Option.some.injEq] at h
            subst h
            rfl
        · simp only [hwl, if_false, Bool.true_eq_false, Bool.false_eq_true,
            Option.some.injEq] at h
          subst h
          rfl
      · simp only [hmain, if_false, Bool.true_eq_false, Bool.false_eq_true,
          Option.some.injEq] at h
        subst h
        rfl

theorem link_status_disabled_never_arms (g : Globals) (w : Wireless)
    (s : EAPOLSocketSource) (active : Option Bool) (hp : g.S_enable_preauth = false) :
    (EAPOLSocketSourceLinkStatusChanged g w s active).2.any Event.armsScanTimer = false := by
  unfold EAPOLSocketSourceLinkStatusChanged
  simp only [List.any_append, Bool.or_eq_false_iff]
  constructor
  · split
    · exact update_wireless_disabled_never_arms g w _ hp
    · rfl
  · split <;> rfl

theorem supplicant_free_never_arms (l : List EAPOLSocket) :
    (l.map (fun e => Event.Supplicant_free e.supp)).any Event.armsScanTimer = false := by
  induction l with
  | nil => rfl
  | cons x xs ih =>
    simp only [List.map_cons, List.any_cons, ih, Bool.or_false]
    rfl

theorem observer_never_arms (s : EAPOLSocketSource) :
    (EAPOLSocketSourceObserver s).2.any Event.armsScanTimer = false := by
  unfold EAPOLSocketSourceObserver
  split
  · rw [remove_preauth_sockets_eq]
    exact supplicant_free_never_arms _
  · rfl

theorem force_renew_never_arms (s : EAPOLSocketSource) :
    (EAPOLSocketSourceForceRenew s).any Event.armsScanTimer = false := by
  unfold EAPOLSocketSourceForceRenew
  cases s.client <;> rfl

theorem handshake_complete_never_arms (s : EAPOLSocketSource) (st : SupplicantState)
    (r : EAPOLSocketSource × List Event)
    (h : EAPOLSocketSourceHandshakeComplete s st = some r) :
    r.2.any Event.armsScanTimer = false := by
  unfold EAPOLSocketSourceHandshakeComplete at h
  cases hs : s.sock with
  | none => simp [hs] at h
  | some m =>
    simp only [hs, Option.some.injEq] at h
    subst h
    have hu := unschedule_never_arms s
    unfold EAPOLSocketSourceUnscheduleHandshakeNotification at hu
    simp only [List.any_append, hu, Bool.or_false]
    split
    · exact force_renew_never_arms s
    · rfl

theorem set_pmk_never_arms (s : EAPOLSocketSource) (sock : EAPOLSocketRef) (key_length : Int)
    (created : Option Nat) (result : Bool) (r : Bool × EAPOLSocketSource × List Event)
    (h : EAPOLSocketSetPMK s sock key_length created result = some r) :
    r.2.2.any Event.armsScanTimer = false := by
  unfold EAPOLSocketSetPMK at h
  cases hd : sock.deref s with
  | none => simp [hd] at h
  | some obj =>
    simp only [hd] at h
    split at h
    · simp only [Option.some.injEq] at h
      subst h
      rfl
    · split at h
      · split at h
        · simp only [Option.some.injEq] at h
          subst h
          unfold EAPOLSocketSourceScheduleHandshakeNotification
          simp only [List.any_append]
          cases created <;>
            simp only [List.any_append, unschedule_never_arms, Bool.false_or] <;> rfl
        · simp only [Option.some.injEq] at h
          subst h
          simp only [List.any_append, unschedule_never_arms, Bool.false_or]
          rfl
      · simp only [Option.some.injEq] at h
        subst h
        rfl

theorem teardown_calls_disabled (g : Globals) (s : EAPOLSocketSource)
    (hp : g.S_enable_preauth = false) : preauth_teardown_calls g s = [] := by
  unfold preauth_teardown_calls
  simp [hp]

theorem report_status_disabled_never_arms (g : Globals) (s : EAPOLSocketSource)
    (sock : EAPOLSocketRef) (dict : Nat) (st : SupplicantState) (cs : EAPClientStatus)
    (r : EAPOLSocketSource × List Event) (hp : g.S_enable_preauth = false)
    (h : EAPOLSocketReportStatus g s sock dict st cs = some r) :
    r.2.any Event.armsScanTimer = false := by
  have hoff : ∀ d : Int, (if g.S_enable_preauth = true ∧ s.is_wireless = true
      then EAPOLSocketSourceScheduleScan d else []) = [] := by
    intro d
    simp [hp]
  have husleep : (if s.is_wireless = false then [Event.usleep 500000] else []).any
      Event.armsScanTimer = false := by
    split <;> rfl
  cases hcl : s.client with
  | none =>
    have hr := report_status_no_client g s sock dict st cs r hcl h
    subst hr
    rfl
  | some client =>
    have hderef : ∃ obj, sock.deref s = some obj := by
      cases hd : sock.deref s with
      | none => unfold EAPOLSocketReportStatus at h; simp [hd] at h
      | some obj => exact ⟨obj, rfl⟩
    obtain ⟨obj, hd⟩ := hderef
    cases sock with
    | preauth i =>
      have he : s.preauth_sockets[i]? = some obj := hd
      rcases report_status_preauth_cases g s i obj client dict st cs he hcl with h' | h'
      · rw [h'] at h
        simp only [Option.some.injEq] at h
        subst h
        rfl
      · rw [h'] at h
        simp only [Option.some.injEq] at h
        subst h
        rfl
    | main =>
      have hm : s.sock = some obj := hd
      cases st with
      | kSupplicantStateAuthenticated =>
        by_cases ha : s.authenticated = false
        · rw [report_status_main_auth_first g s obj client dict cs hm hcl ha] at h
          simp only [Option.some.injEq] at h
          subst h
          simp only [hoff, List.any_append]
          cases s.interest <;> rfl
        · have ha' : s.authenticated = true := by simpa using ha
          rw [report_status_main_auth_again g s obj client dict cs hm hcl ha'] at h
          simp only [Option.some.injEq] at h
          subst h
          simp only [hoff, List.any_append]
          rfl
      | kSupplicantStateInactive =>
        rw [report_status_main_inactive g s obj client dict cs hm hcl] at h
        simp only [Option.some.injEq] at h
        subst h
        simp only [teardown_calls_disabled g s hp, List.any_append]
        cases s.interest <;> rfl
      | kSupplicantStateHeld =>
        rw [report_status_main_held g s obj client dict cs hm hcl] at h
        simp only [Option.some.injEq] at h
        subst h
        simp only [teardown_calls_disabled g s hp, List.any_append]
        cases s.interest <;> rfl
      | kSupplicantStateLogoff =>
        rw [report_status_main_logoff g s obj client dict cs hm hcl] at h
        simp only [Option.some.injEq] at h
        subst h
        simp only [teardown_calls_disabled g s hp, List.any_append, husleep, Bool.false_or]
        rfl
      | kSupplicantStateConnecting =>
        rw [report_status_main_other g s obj client dict cs hm hcl _ (Or.inl rfl)] at h
        simp only [Option.some.injEq] at h
        subst h
        simp only [teardown_calls_disabled g s hp, List.any_append]
        rfl
      | kSupplicantStateAcquired =>
        rw [report_status_main_other g s obj client dict cs hm hcl _ (Or.inr (Or.inl rfl))] at h
        simp only [Option.some.injEq] at h
        subst h
        simp only [teardown_calls_disabled g s hp, List.any_append]
        rfl
      | kSupplicantStateAuthenticating =>
        rw [report_status_main_other g s obj client dict cs hm hcl _
          (Or.inr (Or.inr (Or.inl rfl)))] at h
        simp only [Option.some.injEq] at h
        subst h
        simp only [teardown_calls_disabled g s hp, List.any_append]
        rfl
      | kSupplicantStateDisconnected =>
        rw [report_status_main_other g s obj client dict cs hm hcl _
          (Or.inr (Or.inr (Or.inr rfl)))] at h
        simp only [Option.some.injEq] at h
        subst h
        simp only [teardown_calls_disabled g s hp, List.any_append]
        rfl

theorem create_supplicant_never_arms (s : EAPOLSocketSource)
    (control_dict : Option ControlDict) (system_mode malloc_ok : Bool) (supp : Option Nat) :
    (EAPOLSocketSourceCreateSupplicant s control_dict system_mode malloc_ok supp).2.2.any
      Event.armsScanTimer = false := by
  unfold EAPOLSocketSourceCreateSupplicant
  simp only
  split
  · rfl
  · rename_i mode config heq
    split
    · rfl
    · split
      · rfl
      · simp only [List.any_append]
        have h1 : ∀ sp : Nat, (if mode = EAPOLControlMode.kEAPOLControlModeSystem
            ∨ mode = EAPOLControlMode.kEAPOLControlModeLoginWindow
            then [Event.Supplicant_set_no_ui sp] else []).any Event.armsScanTimer = false := by
          intro sp
          split <;> rfl
        rw [h1]
        cases config <;> rfl

theorem step_calls_disabled_never_arm (g : Globals) (V : List Byte → Nat → Bool)
    (s : EAPOLSocketSource) (op : Op) (hp : g.S_enable_preauth = false)
    (hop : op.isScanCallback = false) :
    (step_calls g V s op).any Event.armsScanTimer = false := by
  cases op with
  | Receive w n buf => exact receive_disabled_never_arms g w V s n buf hp
  | Transmit w sent sock t body bl =>
    simp only [step_calls]
    cases hr : EAPOLSocketSourceTransmit g w sent s sock t body bl with
    | none => rfl
    | some r => exact transmit_disabled_never_arms g w sent s sock t body bl r hp hr
  | LinkStatusChanged w active => exact link_status_disabled_never_arms g w s active hp
  | Observer => exact observer_never_arms s
  | ScanCallback l => exact Bool.noConfusion hop
  | HandshakeComplete st =>
    simp only [step_calls]
    cases hr : EAPOLSocketSourceHandshakeComplete s st with
    | none => rfl
    | some r => exact handshake_complete_never_arms s st r hr
  | EnableReceive sock func a1 a2 => rfl
  | DisableReceive sock => rfl
  | SetPMK sock key_length created result =>
    simp only [step_calls]
    cases hr : EAPOLSocketSetPMK s sock key_length created result with
    | none => rfl
    | some r => exact set_pmk_never_arms s sock key_length created result r hr
  | ReportStatus sock dict st cs =>
    simp only [step_calls]
    cases hr : EAPOLSocketReportStatus g s sock dict st cs with
    | none => rfl
    | some r => exact report_status_disabled_never_arms g s sock dict st cs r hp hr
  | CreateSupplicant cd sm mo sp => exact create_supplicant_never_arms s cd sm mo sp

theorem run_of_run_scheduled (g : Globals) (V : List Byte → Nat → Bool) (ops : List Op) :
    ∀ (armed : Bool) (s s' : EAPOLSocketSource),
      run_scheduled g V armed s ops = some s' → run g V s ops = some s' := by
  induction ops with
  | nil =>
    intro armed s s' h
    simpa [run_scheduled, run] using h
  | cons op rest ih =>
    intro armed s s' h
    unfold run_scheduled at h
    split at h
    · cases h
    · unfold run
      cases hs : step g V s op with
      | none => simp [hs] at h
      | some s1 =>
        simp only [hs] at h ⊢
        exact ih _ s1 s' h

theorem run_scheduled_disabled (g : Globals) (V : List Byte → Nat → Bool)
    (hp : g.S_enable_preauth = false) (ops : List Op) :
    ∀ (s s' : EAPOLSocketSource), run_scheduled g V false s ops = some s' →
      (preauth_bssids s').Sublist (preauth_bssids s) := by
  induction ops with
  | nil =>
    intro s s' h
    simp only [run_scheduled, Option.some.injEq] at h
    rw [← h]
  | cons op rest ih =>
    intro s s' h
    unfold run_scheduled at h
    by_cases hop : op.isScanCallback = true
    · rw [if_pos ⟨hop, rfl⟩] at h
      cases h
    · have hop' : op.isScanCallback = false := by simpa using hop
      rw [if_neg (fun hc => hop hc.1)] at h
      cases hs : step g V s op with
      | none => simp [hs] at h
      | some s1 =>
        simp only [hs, step_calls_disabled_never_arm g V s op hp hop', Bool.or_false] at h
        exact (ih s1 s' h).trans ((step_bssid_facts g V s s1 op hs).2.2 hop')

theorem create_disabled_never_arms (g : Globals) (w : Wireless) (ether : ether_addr)
    (is_wireless : Bool) (active : Option Bool) (client : Option Nat)
    (hp : g.S_enable_preauth = false) :
    (EAPOLSocketSourceCreate g w ether is_wireless active client).2.any Event.armsScanTimer
      = false := by
  unfold EAPOLSocketSourceCreate
  exact link_status_disabled_never_arms g w _ active hp

theorem reachable_main_free (g : Globals) (V : List Byte → Nat → Bool)
    (s : EAPOLSocketSource) (hen : g.S_enable_preauth = true) (hr : Reachable g V s) :
    main_bssid_free s := by
  obtain ⟨w, ether, iw, active, client, ops, hrun⟩ := hr
  have hnil := create_bssids g w ether iw active client
  have hd0 : bssids_distinct (EAPOLSocketSourceCreate g w ether iw active client).1 := by
    unfold bssids_distinct
    rw [hnil]
    exact List.nodup_nil
  have hf0 : main_bssid_free (EAPOLSocketSourceCreate g w ether iw active client).1 := by
    intro _ hmem
    rw [hnil] at hmem
    simp at hmem
  rw [run_as_tunables] at hrun
  refine run_tunables_main_free V _ _ s hrun ?_ hd0 hf0
  intro p hmem
  obtain ⟨op, _, rfl⟩ := List.mem_map.mp hmem
  exact hen

/-- C22: in every reachable state of a socket source in which the source BSSID
is known, no endpoint of the pre-auth queue has a BSSID equal to
`source.bssid`.  Reachable means: the source `EAPOLSocketSourceCreate` returned
followed by any operations under the tunables `g`, a scan result arriving
only after the scan timer was armed.  The scan callback keeps the invariant
under any tunables, because it never creates an endpoint for the source
BSSID, and with `S_enable_preauth` set the wireless refresh keeps it, because
it removes the endpoint bound to a new BSSID before adopting it; with
`S_enable_preauth` set the invariant holds even when scan results arrive at
any time.  The removal sits inside `if (S_enable_preauth)`: when the tunable
is not set no scan is ever scheduled, so the pre-auth queue stays empty. -/
theorem known_bssid_has_no_preauth_endpoint (g : Globals) (V : List Byte → Nat → Bool)
    (s : EAPOLSocketSource) (hr : ReachableScheduled g V s) (hv : s.bssid_valid = true) :
    (∀ e ∈ s.preauth_sockets, e.bssid ≠ s.bssid)
      ∧ (g.S_enable_preauth = false → s.preauth_sockets = [])
      ∧ Reachable g V s
      ∧ (∀ s1 : EAPOLSocketSource, g.S_enable_preauth = true → Reachable g V s1 →
          s1.bssid_valid = true → ∀ e ∈ s1.preauth_sockets, e.bssid ≠ s1.bssid)
      ∧ (∀ (g1 : Globals) (s1 : EAPOLSocketSource) (L : Option (List ScanEntry))
            (r : EAPOLSocketSource × List Event),
          EAPOLSocketSourceScanCallback g1 s1 L = some r →
          bssids_distinct s1 → main_bssid_free s1 → main_bssid_free r.1)
      ∧ (∀ (g1 : Globals) (w1 : Wireless) (s1 : EAPOLSocketSource),
          g1.S_enable_preauth = true → bssids_distinct s1 → main_bssid_free s1 →
          main_bssid_free (EAPOLSocketSourceUpdateWirelessInfo g1 w1 s1).2.1) := by
  have hfree_of : ∀ s1 : EAPOLSocketSource, main_bssid_free s1 → s1.bssid_valid = true →
      ∀ e ∈ s1.preauth_sockets, e.bssid ≠ s1.bssid := by
    intro s1 hf hv1 e he hb
    apply hf hv1
    rw [← hb]
    exact List.mem_map.mpr ⟨e, he, rfl⟩
  obtain ⟨w, ether, iw, active, client, ops, hrun⟩ := hr
  have hreach : Reachable g V s :=
    ⟨w, ether, iw, active, client, ops, run_of_run_scheduled g V ops _ _ s hrun⟩
  have hempty : g.S_enable_preauth = false → s.preauth_sockets = [] := by
    intro hp
    rw [create_disabled_never_arms g w ether iw active client hp] at hrun
    have hsub := run_scheduled_disabled g V hp ops _ s hrun
    rw [create_bssids] at hsub
    have hnil := List.eq_nil_of_sublist_nil hsub
    unfold preauth_bssids at hnil
    exact List.map_eq_nil_iff.mp hnil
  refine ⟨?_, hempty, hreach, ?_, ?_, ?_⟩
  · cases hp : g.S_enable_preauth with
    | true => exact hfree_of s (reachable_main_free g V s hp hreach) hv
    | false =>
      intro e he
      rw [hempty hp] at he
      simp at he
  · intro s1 hen hr1 hv1
    exact hfree_of s1 (reachable_main_free g V s1 hen hr1) hv1
  · intro g1 s1 L r hr1
    exact (bssid_step_scan_callback g1 s1 L r hr1).2
  · intro g1 w1 s1
    exact (update_wireless_bssids g1 w1 s1).2

theorem known_bssid_has_no_preauth_endpoint_witness :
    ReachableScheduled preauth_globals accept_all roamed_source
      ∧ roamed_source.bssid = bssid_A
      ∧ roamed_source.preauth_sockets.map (fun e => e.bssid) = [bssid_C]
      ∧ ∀ e ∈ roamed_source.preauth_sockets, e.bssid ≠ roamed_source.bssid :=
  ⟨⟨associated_B, local_mac, true, some true, some 1, roaming_ops, by decide⟩,
    by decide, by decide,
    (known_bssid_has_no_preauth_endpoint preauth_globals accept_all roamed_source
      ⟨associated_B, local_mac, true, some true, some 1, roaming_ops, by decide⟩
      (by decide)).1⟩

/-- C31: `EAPOLSocketSetKey` on a source that is not wireless, and
`EAPOLSocketSetPMK` on a source that is not wireless or not WPA-enterprise,
return FALSE, make no call at all (the wireless adapter is not called, no
subscription is created or released) and leave the source exactly as it
was, for the main endpoint and for a pre-auth endpoint alike. -/
theorem key_installation_refused_off_wireless (source : EAPOLSocketSource)
    (sock : EAPOLSocketRef) (obj : EAPOLSocket) (type : Nat) (index key_length : Int)
    (created : Option Nat) (result : Bool)
    (hd : sock.deref source = some obj) :
    (source.is_wireless = false →
        EAPOLSocketSetKey source sock type index key_length result
          = some (false, source, []))
      ∧ (source.is_wireless = false ∨ source.is_wpa_enterprise = false →
        EAPOLSocketSetPMK source sock key_length created result
          = some (false, source, [])) := by
  constructor
  · intro hw
    unfold EAPOLSocketSetKey
    rw [hd]
    simp only
    rw [if_pos hw]
  · intro hw
    unfold EAPOLSocketSetPMK
    rw [hd]
    simp only
    rw [if_pos hw]

theorem key_installation_refused_off_wireless_witness :
    EAPOLSocketSetKey wired_source EAPOLSocketRef.main 1 0 16 true
        = some (false, wired_source, [])
      ∧ EAPOLSocketSetPMK wired_source EAPOLSocketRef.main 32 (some 5) true
        = some (false, wired_source, []) :=
  ⟨(key_installation_refused_off_wireless wired_source EAPOLSocketRef.main main_sock 1 0 16
      (some 5) true (by decide)).1 (by decide),
   (key_installation_refused_off_wireless wired_source EAPOLSocketRef.main main_sock 1 0 32
      (some 5) true (by decide)).2 (Or.inl (by decide))⟩

theorem set_pmk_main_schedules (source : EAPOLSocketSource) (m : EAPOLSocket)
    (key_length : Int) (i : Nat) (result : Bool)
    (hm : source.sock = some m) (hwl : source.is_wireless = true)
    (hwpa : source.is_wpa_enterprise = true) (hauth : source.authenticated = false)
    (hk : key_length ≠ 0) :
    EAPOLSocketSetPMK source EAPOLSocketRef.main key_length (some i) result
      = some (result, { source with interest := some i, authenticated := true },
          (match source.interest with
            | none => []
            | some j => [Event.InterestNotificationRelease j])
          ++ [Event.InterestNotificationCreate]
          ++ [Event.wireless_set_wpa_pmk none key_length]) := by
  have hcond : ¬ (source.is_wireless = false ∨ source.is_wpa_enterprise = false) := by
    rw [hwl, hwpa]
    decide
  unfold EAPOLSocketSetPMK
  simp only [EAPOLSocketRef.deref, hm, if_true]
  rw [if_neg hcond, if_pos ⟨hk, hauth⟩]
  unfold EAPOLSocketSourceScheduleHandshakeNotification
  rw [unschedule_eq]
  simp [hm]

theorem set_pmk_main_unschedules (source : EAPOLSocketSource) (m : EAPOLSocket)
    (key_length : Int) (created : Option Nat) (result : Bool)
    (hm : source.sock = some m) (hwl : source.is_wireless = true)
    (hwpa : source.is_wpa_enterprise = true)
    (hc : key_length = 0 ∨ source.authenticated = true) :
    EAPOLSocketSetPMK source EAPOLSocketRef.main key_length created result
      = some (result, { source with interest := none },
          (match source.interest with
            | none => []
            | some j => [Event.InterestNotificationRelease j])
          ++ [Event.wireless_set_wpa_pmk none key_length]) := by
  have hcond : ¬ (source.is_wireless = false ∨ source.is_wpa_enterprise = false) := by
    rw [hwl, hwpa]
    decide
  have hno : ¬ (key_length ≠ 0 ∧ source.authenticated = false) := by
    rintro ⟨h1, h2⟩
    rcases hc with h | h
    · exact h1 h
    · rw [h] at h2
      exact Bool.noConfusion h2
  unfold EAPOLSocketSetPMK
  simp only [EAPOLSocketRef.deref, hm, if_true]
  rw [if_neg hcond, if_neg hno]
  rw [unschedule_eq]
  simp [hm]

theorem handshake_complete_eq (source : EAPOLSocketSource) (m : EAPOLSocket)
    (st : SupplicantState) (hm : source.sock = some m) :
    EAPOLSocketSourceHandshakeComplete source st
      = some ({ source with interest := none },
          (if st = SupplicantState.kSupplicantStateAuthenticated
            then EAPOLSocketSourceForceRenew source else [])
          ++ (match source.interest with
              | none => []
              | some j => [Event.InterestNotificationRelease j])) := by
  unfold EAPOLSocketSourceHandshakeComplete EAPOLSocketSourceReleaseHandshakeNotification
  rw [hm]
  cases hi : source.interest with
  | none =>
    simp only
    congr
    cases source
    simp_all
  | some j =>
    cases source
    simp_all

/-- C32 (counterexample): on a wireless WPA-enterprise source with a controller,
`authenticated` false and no subscription, the main endpoint installs a
32-octet PMK and subscription 5 is created.  The handshake-complete
notification is processed while the Supplicant is still Authenticating, then
the Authenticated status report.  No force-renew is invoked by any of the
three. -/
theorem handshake_before_report_never_renews :
    EAPOLSocketSetPMK wireless_source_unassociated EAPOLSocketRef.main 32 (some 5) true
        = some (true, wireless_source_subscribed,
            [Event.InterestNotificationCreate, Event.wireless_set_wpa_pmk none 32])
      ∧ EAPOLSocketSourceHandshakeComplete wireless_source_subscribed
          SupplicantState.kSupplicantStateAuthenticating
        = some (wireless_source_released, [Event.InterestNotificationRelease 5])
      ∧ EAPOLSocketReportStatus preauth_globals wireless_source_released EAPOLSocketRef.main 55
          SupplicantState.kSupplicantStateAuthenticated
          (EAPClientStatus.kEAPClientStatusOther 0)
        = some (wireless_source_released,
            [Event.EAPOLClientReportStatus 1 55, Event.Timer_set_relative 10])
      ∧ ([Event.InterestNotificationCreate, Event.wireless_set_wpa_pmk none 32]
          ++ [Event.InterestNotificationRelease 5]
          ++ [Event.EAPOLClientReportStatus 1 55, Event.Timer_set_relative 10]).countP
          Event.isForceRenew = 0 := by
  refine ⟨by decide, by decide, by decide, by decide⟩

/-- C32 (amended): on a wireless WPA-enterprise source with a controller,
`authenticated` false and no subscription, after the main endpoint has
installed a non-empty PMK and subscription `i` was created, the Authenticated
status report invokes no force-renew, whether it is processed before or after
the handshake-complete notification, and the notification invokes force-renew
once exactly when it finds the main Supplicant in state Authenticated (`st`).
So by the time both are processed force-renew has been invoked once if the
notification found the Supplicant Authenticated, as it does after the report,
and not at all otherwise; in both orders the subscription is released and
`authenticated` stays set. -/
theorem renew_needs_authenticated_at_handshake (g : Globals) (source : EAPOLSocketSource)
    (m : EAPOLSocket) (client i dict : Nat) (key_length : Int) (result : Bool)
    (cs : EAPClientStatus) (st : SupplicantState)
    (hm : source.sock = some m) (hc : source.client = some client)
    (hwl : source.is_wireless = true) (hwpa : source.is_wpa_enterprise = true)
    (hauth : source.authenticated = false) (hint : source.interest = none)
    (hk : key_length ≠ 0) :
    EAPOLSocketSetPMK source EAPOLSocketRef.main key_length (some i) result
        = some (result, { source with interest := some i, authenticated := true },
            [Event.InterestNotificationCreate, Event.wireless_set_wpa_pmk none key_length])
      ∧ (∃ report_calls,
          EAPOLSocketReportStatus g { source with interest := some i, authenticated := true }
              EAPOLSocketRef.main dict SupplicantState.kSupplicantStateAuthenticated cs
            = some ({ source with interest := some i, authenticated := true }, report_calls)
          ∧ report_calls.countP Event.isForceRenew = 0)
      ∧ EAPOLSocketSourceHandshakeComplete
          { source with interest := some i, authenticated := true } st
        = some ({ source with interest := none, authenticated := true },
            (if st = SupplicantState.kSupplicantStateAuthenticated
              then [Event.EAPOLClientForceRenew client] else [])
            ++ [Event.InterestNotificationRelease i])
      ∧ (∃ report_calls,
          EAPOLSocketReportStatus g { source with interest := none, authenticated := true }
              EAPOLSocketRef.main dict SupplicantState.kSupplicantStateAuthenticated cs
            = some ({ source with interest := none, authenticated := true }, report_calls)
          ∧ report_calls.countP Event.isForceRenew = 0)
      ∧ ((if st = SupplicantState.kSupplicantStateAuthenticated
            then [Event.EAPOLClientForceRenew client] else [])
          ++ [Event.InterestNotificationRelease i]).countP Event.isForceRenew
          = (if st = SupplicantState.kSupplicantStateAuthenticated then 1 else 0) := by
  have hreport : ∀ s : EAPOLSocketSource, s.sock = some m → s.client = some client →
      s.authenticated = true →
      ∃ report_calls,
        EAPOLSocketReportStatus g s EAPOLSocketRef.main dict
            SupplicantState.kSupplicantStateAuthenticated cs = some (s, report_calls)
          ∧ report_calls.countP Event.isForceRenew = 0 := by
    intro s hsm hsc hsa
    refine ⟨_, report_status_main_auth_again g s m client dict cs hsm hsc hsa, ?_⟩
    rw [List.countP_append]
    split
    · rw [schedule_scan_no_force_renew]
      rfl
    · rfl
  refine ⟨?_, hreport _ hm hc rfl, ?_, hreport _ hm hc rfl, ?_⟩
  · rw [set_pmk_main_schedules source m key_length i result hm hwl hwpa hauth hk, hint]
    rfl
  · have h := handshake_complete_eq
      { source with interest := some i, authenticated := true } m st hm
    rw [h]
    simp only [EAPOLSocketSourceForceRenew, hc]
  · split <;> rfl

theorem renew_needs_authenticated_at_handshake_witness :
    EAPOLSocketSourceHandshakeComplete wireless_source_subscribed
        SupplicantState.kSupplicantStateAuthenticated
      = some (wireless_source_released,
          [Event.EAPOLClientForceRenew 1, Event.InterestNotificationRelease 5]) :=
  (renew_needs_authenticated_at_handshake preauth_globals wireless_source_unassociated
    main_sock 1 5 55 32 true (EAPClientStatus.kEAPClientStatusOther 0)
    SupplicantState.kSupplicantStateAuthenticated (by decide) (by decide) (by decide)
    (by decide) (by decide) (by decide) (by decide)).2.2.1

/-- C33 (counterexample): on the wireless WPA-enterprise source with
`authenticated` false, two consecutive `EAPOLSocketSetPMK` calls on the main
endpoint, each with a 32-octet key and a subscription that would be created,
and no status report in between, leave no handshake subscription. -/
theorem second_pmk_releases_the_subscription :
    (run preauth_globals accept_all wireless_source_unassociated two_pmk_ops).map
        (fun s => (s.interest, s.authenticated)) = some (none, true)
      ∧ (run preauth_globals accept_all wireless_source_unassociated
          (two_pmk_ops.take 1)).map (fun s => (s.interest, s.authenticated))
          = some (some 5, true) := by
  refine ⟨by decide, by decide⟩

theorem run_pmk_when_authenticated (g : Globals) (V : List Byte → Nat → Bool)
    (m : EAPOLSocket) (calls : List (Int × Nat × Bool)) :
    ∀ s : EAPOLSocketSource, s.sock = some m → s.is_wireless = true →
      s.is_wpa_enterprise = true → s.authenticated = true → s.interest = none →
      run g V s (calls.map (fun c => Op.SetPMK EAPOLSocketRef.main c.1 (some c.2.1) c.2.2))
        = some s := by
  induction calls with
  | nil =>
    intro s _ _ _ _ _
    rfl
  | cons c rest ih =>
    intro s hm hwl hwpa ha hi
    have hs : { s with interest := none } = s := by
      cases s
      simp_all
    simp only [List.map_cons, run, step,
      set_pmk_main_unschedules s m c.1 (some c.2.1) c.2.2 hm hwl hwpa (Or.inr ha),
      Option.map, hs]
    exact ih s hm hwl hwpa ha hi

/-- C33 (amended): for the main endpoint of a wireless WPA-enterprise source with
`authenticated` false, the first `EAPOLSocketSetPMK` call with a non-empty key
schedules the handshake notification: with the subscription created, a
subscription is active after it, and `authenticated` is set.  Each further
consecutive call with a non-empty key finds `authenticated` set and takes the
unschedule branch: after two or more such calls no subscription is active. -/
theorem first_pmk_subscribes_later_ones_release (g : Globals) (V : List Byte → Nat → Bool)
    (source : EAPOLSocketSource) (m : EAPOLSocket) (key_length : Int) (i : Nat)
    (result : Bool) (later : List (Int × Nat × Bool))
    (hm : source.sock = some m) (hwl : source.is_wireless = true)
    (hwpa : source.is_wpa_enterprise = true) (hauth : source.authenticated = false)
    (hk : key_length ≠ 0) :
    run g V source
        (Op.SetPMK EAPOLSocketRef.main key_length (some i) result
          :: later.map (fun c => Op.SetPMK EAPOLSocketRef.main c.1 (some c.2.1) c.2.2))
      = some { source with
               authenticated := true
               interest := if later = [] then some i else none } := by
  have h1 := set_pmk_main_schedules source m key_length i result hm hwl hwpa hauth hk
  cases later with
  | nil =>
    simp only [List.map_nil, run, step, h1, Option.map, if_true]
  | cons c rest =>
    have h2 := set_pmk_main_unschedules
      { source with interest := some i, authenticated := true } m c.1 (some c.2.1) c.2.2
      hm hwl hwpa (Or.inr rfl)
    have h3 := run_pmk_when_authenticated g V m rest
      { source with interest := none, authenticated := true } hm hwl hwpa rfl rfl
    simp only [List.map_cons, run, step, h1, h2, Option.map]
    rw [h3]
    simp

theorem first_pmk_subscribes_later_ones_release_witness :
    run preauth_globals accept_all wireless_source_unassociated
        [Op.SetPMK EAPOLSocketRef.main 32 (some 5) true]
      = some wireless_source_subscribed :=
  (first_pmk_subscribes_later_ones_release preauth_globals accept_all
    wireless_source_unassociated main_sock 32 5 true [] (by decide) (by decide) (by decide)
    (by decide) (by decide)).trans (by decide)

/-- C35: when the source has no controller client, `EAPOLSocketReportStatus`
returns at once for every endpoint and every Supplicant state: the source is
unchanged (`authenticated`, the subscription and every `remove` flag among the
rest) and no call is made, so no force-renew is invoked and the scan timer is
not touched.  In particular a pre-auth Supplicant reporting Held or
Authenticated is not flagged for removal.  No operation attaches a controller
later, so the same holds for every status report in every state the source
goes through afterwards. -/
theorem report_status_without_controller (g : Globals) (source : EAPOLSocketSource)
    (sock : EAPOLSocketRef) (obj : EAPOLSocket) (dict : Nat) (st : SupplicantState)
    (cs : EAPClientStatus) (pending : Option Int)
    (hc : source.client = none) (hd : sock.deref source = some obj) :
    EAPOLSocketReportStatus g source sock dict st cs = some (source, [])
      ∧ (∀ r, EAPOLSocketReportStatus g source sock dict st cs = some r →
          r.1.authenticated = source.authenticated ∧ r.1.interest = source.interest
            ∧ r.1.preauth_sockets = source.preauth_sockets
            ∧ r.1.process_removals = source.process_removals
            ∧ r.2.countP Event.isForceRenew = 0
            ∧ scan_timer_after pending r.2 = pending)
      ∧ (∀ (V : List Byte → Nat → Bool) (ops : List Op) (s1 : EAPOLSocketSource)
          (sock1 : EAPOLSocketRef) (dict1 : Nat) (st1 : SupplicantState)
          (cs1 : EAPClientStatus) (r : EAPOLSocketSource × List Event),
          run g V source ops = some s1 →
          EAPOLSocketReportStatus g s1 sock1 dict1 st1 cs1 = some r → r = (s1, [])) := by
  have h : EAPOLSocketReportStatus g source sock dict st cs = some (source, []) := by
    unfold EAPOLSocketReportStatus
    rw [hd]
    simp only [hc]
  refine ⟨h, ?_, ?_⟩
  · intro r hr
    rw [h] at hr
    simp only [Option.some.injEq] at hr
    subst hr
    exact ⟨rfl, rfl, rfl, rfl, rfl, rfl⟩
  · intro V ops s1 sock1 dict1 st1 cs1 r hrun hr
    have hc1 : s1.client = none := (run_client g V ops source s1 hrun).trans hc
    exact report_status_no_client g s1 sock1 dict1 st1 cs1 r hc1 hr

theorem report_status_without_controller_witness :
    EAPOLSocketReportStatus preauth_globals wireless_source_no_client
        (EAPOLSocketRef.preauth 0) 55 SupplicantState.kSupplicantStateHeld
        (EAPClientStatus.kEAPClientStatusOther 0)
      = some (wireless_source_no_client, []) :=
  (report_status_without_controller preauth_globals wireless_source_no_client
    (EAPOLSocketRef.preauth 0) preauth_sock_A 55 SupplicantState.kSupplicantStateHeld
    (EAPClientStatus.kEAPClientStatusOther 0) none (by decide) (by decide)).1

theorem transmit_frame_shape (g : Globals) (w : Wireless) (sent : Int)
    (source : EAPOLSocketSource) (sock : EAPOLSocketRef) (t : Nat) (b : List Byte)
    (hn : b.length ≤ 1582) :
    ∀ ret s' evs frame,
      EAPOLSocketSourceTransmit g w sent source sock t (some b) b.length = some (ret, s', evs) →
      Event.sendto frame ∈ evs →
      ∃ dhost shost : ether_addr, ∃ ether_type : Nat,
        frame = dhost.octets ++ shost.octets ++ htons_bytes ether_type
          ++ eapol_header_bytes t b.length ++ b := by
  have hsz : ¬ (sizeof_ether_header + sizeof_EAPOLPacket + b.length > 1600) := by
    simp only [sizeof_ether_header, sizeof_EAPOLPacket]; omega
  intro ret s' evs frame hT hmem
  unfold EAPOLSocketSourceTransmit at hT
  cases hd : sock.deref source with
  | none => simp [hd] at hT
  | some obj =>
    simp only [hd, Option.isSome_some, if_true, hsz, if_false, readBytes_self] at hT
    by_cases hmain : sock = EAPOLSocketRef.main
    · simp only [hmain, if_true] at hT
      by_cases hwl : source.is_wireless = true
      · simp only [hwl, if_true] at hT
        by_cases hbv : source.bssid_valid = false
        · simp only [hbv, if_true] at hT
          by_cases hbv2 : (EAPOLSocketSourceUpdateWirelessInfo g w source).2.1.bssid_valid
              = false
          · simp only [hbv2, if_true, Option.some.injEq, Prod.mk.injEq] at hT
            obtain ⟨_, _, rfl⟩ := hT
            exact absurd hmem (update_wireless_no_sendto g w source frame)
          · simp only [hbv2, if_false, Option.some.injEq, Prod.mk.injEq] at hT
            obtain ⟨_, _, rfl⟩ := hT
            rw [List.mem_append] at hmem
            rcases hmem with hmem | hmem
            · exact absurd hmem (update_wireless_no_sendto g w source frame)
            · simp only [List.mem_singleton, Event.sendto.injEq] at hmem
              exact ⟨_, _, _, hmem⟩
        · simp only [hbv, if_false, Option.some.injEq, Prod.mk.injEq, List.nil_append] at hT
          obtain ⟨_, _, rfl⟩ := hT
          simp only [List.mem_singleton, Event.sendto.injEq] at hmem
          exact ⟨_, _, _, hmem⟩
      · simp only [hwl, if_false, Option.some.injEq, Prod.mk.injEq, List.nil_append] at hT
        obtain ⟨_, _, rfl⟩ := hT
        simp only [List.mem_singleton, Event.sendto.injEq] at hmem
        exact ⟨_, _, _, hmem⟩
    · simp only [hmain, if_false, Option.some.injEq, Prod.mk.injEq, List.nil_append] at hT
      obtain ⟨_, _, rfl⟩ := hT
      simp only [List.mem_singleton, Event.sendto.injEq] at hmem
      exact ⟨_, _, _, hmem⟩

theorem transmit_sends_one_frame (g : Globals) (w : Wireless) (sent : Int)
    (source : EAPOLSocketSource) (sock : EAPOLSocketRef) (obj : EAPOLSocket) (t : Nat)
    (b : List Byte) (hn : b.length ≤ 1582) (hd : sock.deref source = some obj)
    (hknown : sock ≠ EAPOLSocketRef.main ∨ source.is_wireless = false
      ∨ source.bssid_valid = true) :
    ∃ ret frame,
      EAPOLSocketSourceTransmit g w sent source sock t (some b) b.length
        = some (ret, source, [Event.sendto frame]) := by
  have hsz : ¬ (sizeof_ether_header + sizeof_EAPOLPacket + b.length > 1600) := by
    simp only [sizeof_ether_header, sizeof_EAPOLPacket]; omega
  unfold EAPOLSocketSourceTransmit
  simp only [hd, Option.isSome_some, if_true, hsz, if_false]
  by_cases hmain : sock = EAPOLSocketRef.main
  · simp only [hmain, if_true]
    by_cases hwl : source.is_wireless = true
    · have hbv : source.bssid_valid = true := by
        rcases hknown with h | h | h
        · exact absurd hmain h
        · rw [hwl] at h
          exact Bool.noConfusion h
        · exact h
      simp only [hwl, hbv, if_true, Bool.true_eq_false, if_false, List.nil_append]
      exact ⟨_, _, rfl⟩
    · simp only [hwl, if_false, List.nil_append]
      exact ⟨_, _, rfl⟩
  · simp only [hmain, if_false, List.nil_append]
    exact ⟨_, _, rfl⟩

theorem eapol_part_of_frame (dhost shost : ether_addr) (ether_type : Nat) (rest : List Byte) :
    (dhost.octets ++ shost.octets ++ htons_bytes ether_type ++ rest).drop 14 = rest
      ∧ (dhost.octets ++ shost.octets ++ htons_bytes ether_type ++ rest).length
          = 14 + rest.length := by
  simp [ether_addr.octets, htons_bytes]
  omega

theorem eapol_header_reads_back (t n : Nat) (b : List Byte) (ht : t < 256) (hn : n < 65536) :
    byteAt (eapol_header_bytes t n ++ b) 0 = EAPOL_802_1_X_PROTOCOL_VERSION
      ∧ EAPOLPacket_packet_type (eapol_header_bytes t n ++ b) = t
      ∧ EAPOLPacketGetLength (eapol_header_bytes t n ++ b) = n
      ∧ EAPOLPacket_body (eapol_header_bytes t n ++ b) = b
      ∧ (eapol_header_bytes t n ++ b).length = 4 + b.length := by
  refine ⟨rfl, ?_, ?_, rfl, ?_⟩
  · show (toByte t).val = t
    exact toByte_of_lt t ht
  · show (toByte (n / 256)).val * 256 + (toByte n).val = n
    rw [toByte_of_lt (n / 256) (by omega)]
    simp only [toByte]
    omega
  · simp [eapol_header_bytes, htons_bytes]
    omega

/-- C34: decoding undoes encoding.  For a packet type `t` in 0..255 and a body
`b` of `n = b.length ≤ 1582` octets, every frame `EAPOLSocketSourceTransmit`
passes to `sendto` has `18 + n` octets, passes `ether_header_valid` on that
length, and its EAPOL part (past the 14-octet Ethernet header, `4 + n` octets)
passes `eapol_header_valid` and the length check of `eapol_body_valid`, with
no trailing octets; read back it gives protocol version 1, packet type `t`,
body length `n` and body `b`; for `t` Start, Logoff or EncapsulatedASFAlert
`eapol_packet_valid` accepts it.  Such a frame is sent whenever the endpoint's
destination is known (a pre-auth endpoint, a wired source, or a valid BSSID). -/
theorem transmit_then_validate_roundtrip (V : List Byte → Nat → Bool) (g : Globals)
    (w : Wireless) (sent : Int) (source : EAPOLSocketSource) (sock : EAPOLSocketRef)
    (t : Nat) (b : List Byte) (ht : t < 256) (hn : b.length ≤ 1582) :
    (∀ ret s' evs frame,
      EAPOLSocketSourceTransmit g w sent source sock t (some b) b.length = some (ret, s', evs) →
      Event.sendto frame ∈ evs →
      frame.length = 18 + b.length
        ∧ ether_header_valid frame frame.length = true
        ∧ eapol_header_valid (frame.drop sizeof_ether_header)
            (frame.length - sizeof_ether_header) = true
        ∧ ¬ ((frame.length - sizeof_ether_header + UINT_MOD - sizeof_EAPOLPacket) % UINT_MOD
              < EAPOLPacketGetLength (frame.drop sizeof_ether_header))
        ∧ frame.length - sizeof_ether_header - sizeof_EAPOLPacket
            = EAPOLPacketGetLength (frame.drop sizeof_ether_header)
        ∧ byteAt (frame.drop sizeof_ether_header) 0 = 1
        ∧ EAPOLPacket_packet_type (frame.drop sizeof_ether_header) = t
        ∧ EAPOLPacketGetLength (frame.drop sizeof_ether_header) = b.length
        ∧ EAPOLPacket_body (frame.drop sizeof_ether_header) = b
        ∧ (t = kEAPOLPacketTypeStart ∨ t = kEAPOLPacketTypeLogoff
              ∨ t = kEAPOLPacketTypeEncapsulatedASFAlert →
            eapol_packet_valid V (frame.drop sizeof_ether_header)
              (frame.length - sizeof_ether_header) = true))
      ∧ (∀ obj, sock.deref source = some obj →
          sock ≠ EAPOLSocketRef.main ∨ source.is_wireless = false
            ∨ source.bssid_valid = true →
          ∃ ret frame,
            EAPOLSocketSourceTransmit g w sent source sock t (some b) b.length
              = some (ret, source, [Event.sendto frame])) := by
  refine ⟨?_, fun obj hd hk => transmit_sends_one_frame g w sent source sock obj t b hn hd hk⟩
  intro ret s' evs frame hT hmem
  obtain ⟨dhost, shost, et, hf⟩ :=
    transmit_frame_shape g w sent source sock t b hn ret s' evs frame hT hmem
  have hf2 : frame = dhost.octets ++ shost.octets ++ htons_bytes et
      ++ (eapol_header_bytes t b.length ++ b) := by
    rw [hf]
    simp only [List.append_assoc]
  obtain ⟨hdrop, hlen⟩ := eapol_part_of_frame dhost shost et (eapol_header_bytes t b.length ++ b)
  obtain ⟨hv, hty, hbl, hbody, hl4⟩ := eapol_header_reads_back t b.length b ht (by omega)
  rw [← hf2] at hdrop hlen
  rw [hl4] at hlen
  have hlen2 : frame.length - sizeof_ether_header = 4 + b.length := by
    rw [hlen, sizeof_ether_header]
    omega
  have hsub : (4 + b.length + UINT_MOD - sizeof_EAPOLPacket) % UINT_MOD = b.length := by
    rw [uint_sub_header (4 + b.length) (by omega) (by simp only [UINT_MOD]; omega)]
    omega
  have hhdr : eapol_header_valid (eapol_header_bytes t b.length ++ b) (4 + b.length) = true :=
    (eapol_header_valid_iff _ _).mpr (by omega)
  simp only [sizeof_ether_header] at hlen2 ⊢
  rw [hdrop, hlen2]
  refine ⟨by rw [hlen]; omega, (ether_header_valid_iff _ _).mpr (by rw [hlen]; omega), hhdr,
    ?_, ?_, hv, hty, hbl, hbody, ?_⟩
  · rw [hsub, hbl]
    exact Nat.lt_irrefl _
  · rw [hbl, sizeof_EAPOLPacket]
    omega
  · intro h134
    unfold eapol_packet_valid eapol_body_valid
    simp only [hhdr, Bool.true_eq_false, if_false, hsub, hbl, Nat.lt_irrefl, hty]
    simp only [kEAPOLPacketTypeStart, kEAPOLPacketTypeLogoff,
      kEAPOLPacketTypeEncapsulatedASFAlert, kEAPOLPacketTypeEAPPacket,
      kEAPOLPacketTypeKey] at h134 ⊢
    rcases h134 with h | h | h <;> subst h <;> simp

theorem transmit_then_validate_roundtrip_witness :
    EAPOLSocketSourceTransmit default_globals not_associated 20 wired_source
        EAPOLSocketRef.main 1 (some [0xaa, 0xbb]) 2
      = some (0, wired_source,
          [Event.sendto [0x01, 0x80, 0xc2, 0x00, 0x00, 0x03,
                         0x00, 0x11, 0x22, 0x33, 0x44, 0x55,
                         0x88, 0x8e, 0x01, 0x01, 0x00, 0x02, 0xaa, 0xbb]])
      ∧ eapol_packet_valid accept_all
          (([0x01, 0x80, 0xc2, 0x00, 0x00, 0x03, 0x00, 0x11, 0x22, 0x33, 0x44, 0x55,
             0x88, 0x8e, 0x01, 0x01, 0x00, 0x02, 0xaa, 0xbb] : List Byte).drop
            sizeof_ether_header)
          (([0x01, 0x80, 0xc2, 0x00, 0x00, 0x03, 0x00, 0x11, 0x22, 0x33, 0x44, 0x55,
             0x88, 0x8e, 0x01, 0x01, 0x00, 0x02, 0xaa, 0xbb] : List Byte).length
            - sizeof_ether_header) = true :=
  ⟨by decide,
   ((transmit_then_validate_roundtrip accept_all default_globals not_associated 20
      wired_source EAPOLSocketRef.main 1 [0xaa, 0xbb] (by decide) (by decide)).1
      0 wired_source _ _ (by decide) (List.mem_singleton.mpr rfl)).2.2.2.2.2.2.2.2.2
      (Or.inl rfl)⟩

theorem count_unschedule (s : EAPOLSocketSource) (h : count_matches s) :
    count_matches (EAPOLSocketSourceUnscheduleHandshakeNotification s).1 := by
  rw [unschedule_eq]
  exact h

theorem count_free (s : EAPOLSocketSource) (sock : EAPOLSocketRef) (obj : EAPOLSocket)
    (hd : sock.deref s = some obj) (h : count_matches s) :
    count_matches (EAPOLSocketFree s sock) := by
  cases sock with
  | main => exact h
  | preauth i =>
    have hi : i < s.preauth_sockets.length := by
      by_contra hge
      have hnone : s.preauth_sockets[i]? = none := List.getElem?_eq_none (by omega)
      have hd2 : s.preauth_sockets[i]? = some obj := hd
      rw [hnone] at hd2
      cases hd2
    unfold count_matches at h ⊢
    simp only [EAPOLSocketFree, List.length_eraseIdx, hi, if_true]
    rw [h]
    omega

theorem count_remove_with_bssid (s : EAPOLSocketSource) (b : ether_addr)
    (h : count_matches s) :
    count_matches (EAPOLSocketSourceRemoveSocketWithBSSID s b).1 := by
  rw [remove_with_bssid_eq]
  cases hf : s.preauth_sockets.find? (fun e => decide (e.bssid = b)) with
  | none => exact h
  | some e =>
    have hmem : e ∈ s.preauth_sockets := List.mem_of_find?_eq_some hf
    have hp : decide (e.bssid = b) = true := by
      simpa using List.find?_some hf
    have hlen : (s.preauth_sockets.eraseP (fun e => decide (e.bssid = b))).length
        = s.preauth_sockets.length - 1 := List.length_eraseP_of_mem hmem hp
    have hpos : 0 < s.preauth_sockets.length := List.length_pos_of_mem hmem
    unfold count_matches at h ⊢
    simp only
    rw [hlen, h]
    omega

theorem count_update_wireless (g : Globals) (w : Wireless) (s : EAPOLSocketSource)
    (h : count_matches s) :
    count_matches (EAPOLSocketSourceUpdateWirelessInfo g w s).2.1 := by
  unfold EAPOLSocketSourceUpdateWirelessInfo
  split
  · exact h
  · cases w.ap_mac with
    | none =>
      simp only [unschedule_eq]
      exact h
    | some a =>
      simp only
      split
      · split
        · exact count_remove_with_bssid s a h
        · exact h
      · exact h

theorem count_receive (g : Globals) (w : Wireless) (V : List Byte → Nat → Bool)
    (s : EAPOLSocketSource) (n : Int) (buf : List Byte) (h : count_matches s) :
    count_matches (EAPOLSocketSourceReceive g w V s n buf).1 := by
  by_cases hv : 0 < n ∧ ether_header_valid buf n.toNat = true
      ∧ (ether_type_of buf = EAPOL_802_1_X_ETHERTYPE
        ∨ ether_type_of buf = IEEE80211_PREAUTH_ETHERTYPE)
      ∧ eapol_header_valid (buf.drop sizeof_ether_header)
        (n.toNat - sizeof_ether_header) = true
      ∧ eapol_body_valid V (buf.drop sizeof_ether_header)
        (n.toNat - sizeof_ether_header) = true
  · obtain ⟨hn, he, ht, hh, hb⟩ := hv
    unfold EAPOLSocketSourceReceive
    simp only [not_le.mpr hn, he, ht, hh, hb, if_false, not_true_eq_false, Bool.true_eq_false]
    split
    · split
      · exact count_update_wireless g w s h
      · exact h
    · exact h
  · rw [receive_of_invalid g w V s n buf hv]
    exact h

theorem count_transmit (g : Globals) (w : Wireless) (sent : Int) (s : EAPOLSocketSource)
    (sock : EAPOLSocketRef) (t : Nat) (body : Option (List Byte)) (body_length : Nat)
    (r : Int × EAPOLSocketSource × List Event)
    (h : EAPOLSocketSourceTransmit g w sent s sock t body body_length = some r)
    (hc : count_matches s) : count_matches r.2.1 := by
  unfold EAPOLSocketSourceTransmit at h
  cases hd : sock.deref s with
  | none => simp [hd] at h
  | some obj =>
    simp only [hd] at h
    by_cases hsz : sizeof_ether_header + sizeof_EAPOLPacket
        + (if body.isSome then body_length else 0) > 1600
    · simp [hsz] at h
    · simp only [hsz, if_false] at h
      by_cases hmain : sock = EAPOLSocketRef.main
      · simp only [hmain, if_true] at h
        by_cases hwl : s.is_wireless = true
        · simp only [hwl, if_true] at h
          by_cases hbv : s.bssid_valid = false
          · simp only [hbv, if_true] at h
            by_cases hbv2 : (EAPOLSocketSourceUpdateWirelessInfo g w s).2.1.bssid_valid = false
            · simp only [hbv2, if_true, Option.some.injEq] at h
              subst h
              exact count_update_wireless g w s hc
            · simp only [hbv2, if_false, Bool.true_eq_false, Bool.false_eq_true,
                Option.some.injEq] at h
              subst h
              exact count_update_wireless g w s hc
          · simp only [hbv, if_false, Bool.true_eq_false, Bool.false_eq_true,
              Option.some.injEq] at h
            subst h
            exact hc
        · simp only [hwl, if_false, Bool.true_eq_false, Bool.false_eq_true,
            Option.some.injEq] at h
          subst h
          exact hc
      · simp only [hmain, if_false, Bool.true_eq_false, Bool.false_eq_true,
          Option.some.injEq] at h
        subst h
        exact hc

theorem count_link_status (g : Globals) (w : Wireless) (s : EAPOLSocketSource)
    (active : Option Bool) (h : count_matches s) :
    count_matches (EAPOLSocketSourceLinkStatusChanged g w s active).1 := by
  unfold EAPOLSocketSourceLinkStatusChanged
  have h1 : count_matches (match active with
      | some b => { s with link_active := b }
      | none => s) := by
    cases active <;> exact h
  simp only
  split
  · exact count_update_wireless g w _ h1
  · exact h1

theorem count_store (s s' : EAPOLSocketSource) (sock : EAPOLSocketRef)
    (f : EAPOLSocket → EAPOLSocket) (h : sock.store s f = some s')
    (hc : count_matches s) : count_matches s' := by
  unfold EAPOLSocketRef.store at h
  cases hd : sock.deref s with
  | none => simp [hd] at h
  | some obj =>
    simp only [hd] at h
    cases sock with
    | main =>
      simp only [Option.some.injEq] at h
      subst h
      exact hc
    | preauth i =>
      simp only [Option.some.injEq] at h
      subst h
      unfold count_matches at hc ⊢
      simp only [List.length_modify]
      exact hc

theorem count_mark (s : EAPOLSocketSource) (sock : EAPOLSocketRef) (h : count_matches s) :
    count_matches (EAPOLSocketMarkForRemoval s sock) := by
  cases sock with
  | main => exact h
  | preauth i =>
    unfold count_matches at h ⊢
    simp only [EAPOLSocketMarkForRemoval, List.length_modify]
    exact h

theorem count_mark_all (s : EAPOLSocketSource) (h : count_matches s) :
    count_matches (EAPOLSocketSourceMarkPreauthSocketsForRemoval s) := by
  rw [mark_all_eq]
  unfold count_matches at h ⊢
  simp only [List.length_map]
  exact h

theorem count_teardown (g : Globals) (s : EAPOLSocketSource) (h : count_matches s) :
    count_matches (preauth_teardown_state g s) := by
  unfold preauth_teardown_state
  split
  · exact count_mark_all s h
  · exact h

theorem filter_lengths (l : List EAPOLSocket) :
    (l.filter (fun e => !e.remove)).length + (l.filter (fun e => e.remove)).length
      = l.length := by
  induction l with
  | nil => rfl
  | cons x xs ih =>
    cases hx : x.remove <;> simp [List.filter_cons, hx] <;> omega

theorem flagged_positions_length (l : List EAPOLSocket) :
    ∀ i : Nat, (flagged_positions l i).length = (l.filter (fun e => e.remove)).length := by
  induction l with
  | nil =>
    intro i
    rfl
  | cons x xs ih =>
    intro i
    cases hx : x.remove with
    | true =>
      rw [flagged_positions_cons_true x xs i hx]
      simp [List.filter_cons, hx, ih]
    | false =>
      rw [flagged_positions_cons_false x xs i hx]
      simp [List.filter_cons, hx, ih]

theorem count_remove_preauth_sockets (s : EAPOLSocketSource) (h : count_matches s) :
    count_matches (EAPOLSocketSourceRemovePreauthSockets s).1 := by
  rw [remove_preauth_sockets_eq]
  have hl := filter_lengths s.preauth_sockets
  unfold count_matches at h ⊢
  simp only
  rw [h]
  omega

theorem count_observer (s : EAPOLSocketSource) (h : count_matches s) :
    count_matches (EAPOLSocketSourceObserver s).1 := by
  unfold EAPOLSocketSourceObserver
  split
  · exact count_remove_preauth_sockets s h
  · exact h

theorem remove_loop_count (ps : List Nat) :
    ∀ (s : EAPOLSocketSource) (k : Nat),
      (remove_loop s ps k).1.preauth_sockets_count
        = s.preauth_sockets_count - (ps.length : Int) := by
  induction ps with
  | nil =>
    intro s k
    simp [remove_loop]
  | cons p rest ih =>
    intro s k
    simp only [remove_loop]
    rw [ih]
    simp only [EAPOLSocketFree, List.length_cons]
    push_cast
    ring

theorem count_handshake_complete (s : EAPOLSocketSource) (st : SupplicantState)
    (r : EAPOLSocketSource × List Event)
    (h : EAPOLSocketSourceHandshakeComplete s st = some r) (hc : count_matches s) :
    count_matches r.1 := by
  unfold EAPOLSocketSourceHandshakeComplete at h
  cases hs : s.sock with
  | none => simp [hs] at h
  | some m =>
    simp only [hs, Option.some.injEq] at h
    subst h
    exact count_unschedule s hc

theorem count_create_socket (s : EAPOLSocketSource) (bssid : Option ether_addr)
    (malloc_ok : Bool) (h : count_matches s) :
    count_matches (EAPOLSocketSourceCreateSocket s bssid malloc_ok).2 := by
  unfold EAPOLSocketSourceCreateSocket
  split
  · exact h
  · cases bssid with
    | none => exact h
    | some b =>
      unfold count_matches at h ⊢
      simp only [List.length_append, List.length_singleton]
      rw [h]
      push_cast
      ring

theorem count_scan_callback (g : Globals) (s : EAPOLSocketSource)
    (bssid_list : Option (List ScanEntry)) (r : EAPOLSocketSource × List Event)
    (h : EAPOLSocketSourceScanCallback g s bssid_list = some r) (hc : count_matches s) :
    count_matches r.1 := by
  by_cases hskip : bssid_list = none ∨ s.bssid_valid = false
  · rw [scan_callback_skip g s bssid_list hskip] at h
    simp only [Option.some.injEq] at h
    subst h
    exact hc
  · cases bssid_list with
    | none => exact absurd (Or.inl rfl) hskip
    | some L =>
      have hv : s.bssid_valid = true := by
        cases hb : s.bssid_valid with
        | true => rfl
        | false => exact absurd (Or.inr hb) hskip
      cases hs : s.sock with
      | none =>
        unfold EAPOLSocketSourceScanCallback at h
        simp only [Option.map_eq_some'] at h
        obtain ⟨r0, hr0, rfl⟩ := h
        rw [if_neg (by rw [hv]; decide)] at hr0
        rw [scan_loop_no_main L s r0 hs hr0]
        exact hc
      | some m =>
        obtain ⟨evs, heq, _⟩ := scan_callback_eq g s m L hs hv
        rw [heq] at h
        simp only [Option.some.injEq] at h
        subst h
        unfold count_matches at hc ⊢
        simp only [List.length_append, List.length_map]
        rw [hc]
        push_cast
        ring

theorem count_create_supplicant (s : EAPOLSocketSource) (control_dict : Option ControlDict)
    (system_mode malloc_ok : Bool) (supp : Option Nat) (h : count_matches s) :
    count_matches
      (EAPOLSocketSourceCreateSupplicant s control_dict system_mode malloc_ok supp).2.1 := by
  unfold EAPOLSocketSourceCreateSupplicant
  simp only
  split
  · exact h
  · rename_i mode config heq
    cases malloc_ok with
    | false =>
      simp only [create_socket_fail]
      exact h
    | true =>
      have hcs : EAPOLSocketSourceCreateSocket { s with mode := mode } none true
          = (some EAPOLSocketRef.main, { s with mode := mode, sock := some zeroed_socket }) := by
        unfold EAPOLSocketSourceCreateSocket
        simp
      simp only [hcs]
      cases supp with
      | none => exact h
      | some sp => exact h

theorem count_set_pmk (s : EAPOLSocketSource) (sock : EAPOLSocketRef) (key_length : Int)
    (created : Option Nat) (result : Bool) (r : Bool × EAPOLSocketSource × List Event)
    (h : EAPOLSocketSetPMK s sock key_length created result = some r)
    (hc : count_matches s) : count_matches r.2.1 := by
  unfold EAPOLSocketSetPMK at h
  cases hd : sock.deref s with
  | none => simp [hd] at h
  | some obj =>
    simp only [hd] at h
    split at h
    · simp only [Option.some.injEq] at h
      subst h
      exact hc
    · split at h
      · split at h
        · simp only [Option.some.injEq] at h
          subst h
          unfold EAPOLSocketSourceScheduleHandshakeNotification
          rw [unschedule_eq]
          cases created with
          | none => exact hc
          | some c => exact hc
        · simp only [Option.some.injEq] at h
          subst h
          exact count_unschedule s hc
      · simp only [Option.some.injEq] at h
        subst h
        exact hc

theorem count_report_status (g : Globals) (s : EAPOLSocketSource) (sock : EAPOLSocketRef)
    (dict : Nat) (st : SupplicantState) (cs : EAPClientStatus)
    (r : EAPOLSocketSource × List Event)
    (h : EAPOLSocketReportStatus g s sock dict st cs = some r) (hc : count_matches s) :
    count_matches r.1 := by
  cases hcl : s.client with
  | none =>
    have hr := report_status_no_client g s sock dict st cs r hcl h
    subst hr
    exact hc
  | some client =>
    have hderef : ∃ obj, sock.deref s = some obj := by
      cases hd : sock.deref s with
      | none => unfold EAPOLSocketReportStatus at h; simp [hd] at h
      | some obj => exact ⟨obj, rfl⟩
    obtain ⟨obj, hd⟩ := hderef
    cases sock with
    | preauth i =>
      have he : s.preauth_sockets[i]? = some obj := hd
      rcases report_status_preauth_cases g s i obj client dict st cs he hcl with h' | h'
      · rw [h'] at h
        simp only [Option.some.injEq] at h
        subst h
        exact count_mark s _ hc
      · rw [h'] at h
        simp only [Option.some.injEq] at h
        subst h
        exact hc
    | main =>
      have hm : s.sock = some obj := hd
      have hk : count_matches { s with interest := none, authenticated := false } := hc
      cases st with
      | kSupplicantStateAuthenticated =>
        by_cases ha : s.authenticated = false
        · rw [report_status_main_auth_first g s obj client dict cs hm hcl ha] at h
          simp only [Option.some.injEq] at h
          subst h
          exact hc
        · have ha' : s.authenticated = true := by simpa using ha
          rw [report_status_main_auth_again g s obj client dict cs hm hcl ha'] at h
          simp only [Option.some.injEq] at h
          subst h
          exact hc
      | kSupplicantStateInactive =>
        rw [report_status_main_inactive g s obj client dict cs hm hcl] at h
        simp only [Option.some.injEq] at h
        subst h
        exact count_teardown g _ hk
      | kSupplicantStateHeld =>
        rw [report_status_main_held g s obj client dict cs hm hcl] at h
        simp only [Option.some.injEq] at h
        subst h
        exact count_teardown g _ hk
      | kSupplicantStateLogoff =>
        rw [report_status_main_logoff g s obj client dict cs hm hcl] at h
        simp only [Option.some.injEq] at h
        subst h
        exact count_teardown g s hc
      | kSupplicantStateConnecting =>
        rw [report_status_main_other g s obj client dict cs hm hcl _ (Or.inl rfl)] at h
        simp only [Option.some.injEq] at h
        subst h
        exact count_teardown g s hc
      | kSupplicantStateAcquired =>
        rw [report_status_main_other g s obj client dict cs hm hcl _ (Or.inr (Or.inl rfl))] at h
        simp only [Option.some.injEq] at h
        subst h
        exact count_teardown g s hc
      | kSupplicantStateAuthenticating =>
        rw [report_status_main_other g s obj client dict cs hm hcl _
          (Or.inr (Or.inr (Or.inl rfl)))] at h
        simp only [Option.some.injEq] at h
        subst h
        exact count_teardown g s hc
      | kSupplicantStateDisconnected =>
        rw [report_status_main_other g s obj client dict cs hm hcl _
          (Or.inr (Or.inr (Or.inr rfl)))] at h
        simp only [Option.some.injEq] at h
        subst h
        exact count_teardown g s hc

theorem count_step (g : Globals) (V : List Byte → Nat → Bool)
    (s s' : EAPOLSocketSource) (op : Op) (h : step g V s op = some s')
    (hc : count_matches s) : count_matches s' := by
  cases op with
  | Receive w n buf =>
    simp only [step, Option.some.injEq] at h
    subst h
    exact count_receive g w V s n buf hc
  | Transmit w sent sock t body bl =>
    simp only [step, Option.map_eq_some'] at h
    obtain ⟨r, hr, rfl⟩ := h
    exact count_transmit g w sent s sock t body bl r hr hc
  | LinkStatusChanged w active =>
    simp only [step, Option.some.injEq] at h
    subst h
    exact count_link_status g w s active hc
  | Observer =>
    simp only [step, Option.some.injEq] at h
    subst h
    exact count_observer s hc
  | ScanCallback l =>
    simp only [step, Option.map_eq_some'] at h
    obtain ⟨r, hr, rfl⟩ := h
    exact count_scan_callback g s l r hr hc
  | HandshakeComplete st =>
    simp only [step, Option.map_eq_some'] at h
    obtain ⟨r, hr, rfl⟩ := h
    exact count_handshake_complete s st r hr hc
  | EnableReceive sock func a1 a2 =>
    simp only [step, EAPOLSocketEnableReceive] at h
    exact count_store s s' sock
      (fun x => { x with func := func, arg1 := a1, arg2 := a2 }) h hc
  | DisableReceive sock =>
    simp only [step, EAPOLSocketDisableReceive] at h
    exact count_store s s' sock (fun x => { x with func := none }) h hc
  | SetPMK sock key_length created result =>
    simp only [step, Option.map_eq_some'] at h
    obtain ⟨r, hr, rfl⟩ := h
    exact count_set_pmk s sock key_length created result r hr hc
  | ReportStatus sock dict st cs =>
    simp only [step, Option.map_eq_some'] at h
    obtain ⟨r, hr, rfl⟩ := h
    exact count_report_status g s sock dict st cs r hr hc
  | CreateSupplicant cd sm mo sp =>
    simp only [step, Option.some.injEq] at h
    subst h
    exact count_create_supplicant s cd sm mo sp hc

theorem count_run (g : Globals) (V : List Byte → Nat → Bool) (ops : List Op) :
    ∀ s s' : EAPOLSocketSource, run g V s ops = some s' → count_matches s →
      count_matches s' := by
  induction ops with
  | nil =>
    intro s s' h hc
    simp only [run, Option.some.injEq] at h
    subst h
    exact hc
  | cons op rest ih =>
    intro s s' h hc
    obtain ⟨s1, h1, h2⟩ := run_cons g V s s' op rest h
    exact ih s1 s' h2 (count_step g V s s1 op h1 hc)

theorem count_create (g : Globals) (w : Wireless) (ether : ether_addr) (is_wireless : Bool)
    (active : Option Bool) (client : Option Nat) :
    count_matches (EAPOLSocketSourceCreate g w ether is_wireless active client).1 := by
  unfold EAPOLSocketSourceCreate
  simp only
  have h := count_link_status g w
    { client := none, ether := ether, rx := { eapol_p := none, length := 0 },
      mtu := 1400, is_wireless := is_wireless, is_wpa_enterprise := false,
      link_active := false, authenticated := false, interest := none, ssid := none,
      bssid := ⟨0, 0, 0, 0, 0, 0⟩, bssid_valid := false, process_removals := false,
      sock := none, preauth_sockets := [], preauth_sockets_count := 0,
      mode := EAPOLControlMode.kEAPOLControlModeNone } active rfl
  exact h

/-- C36: in every reachable state `preauth_sockets_count` is the number of
endpoints in the pre-auth queue, so it is never negative.  Creating an
endpoint and freeing an endpoint of the source keep this, and the main
endpoint is not a member of the queue: creating it (NULL BSSID) and freeing it
leave the queue and the count as they are, and creating or freeing a pre-auth
endpoint leaves `source->sock` as it is.  Therefore in
`EAPOLSocketSourceRemovePreauthSockets` the number of endpoints collected in
`remove_list` is at most its capacity `preauth_sockets_count`, after each of
the removals the count is still not negative, and at the end it is again the
number of endpoints in the queue. -/
theorem preauth_count_matches_queue (g : Globals) (V : List Byte → Nat → Bool)
    (s : EAPOLSocketSource) (hr : Reachable g V s) :
    count_matches s
      ∧ 0 ≤ s.preauth_sockets_count
      ∧ (∀ bssid malloc_ok,
          count_matches (EAPOLSocketSourceCreateSocket s bssid malloc_ok).2)
      ∧ (∀ sock obj, sock.deref s = some obj → count_matches (EAPOLSocketFree s sock))
      ∧ (∀ malloc_ok,
          (EAPOLSocketSourceCreateSocket s none malloc_ok).2.preauth_sockets
              = s.preauth_sockets
            ∧ (EAPOLSocketSourceCreateSocket s none malloc_ok).2.preauth_sockets_count
              = s.preauth_sockets_count)
      ∧ (∀ b malloc_ok, (EAPOLSocketSourceCreateSocket s (some b) malloc_ok).2.sock = s.sock)
      ∧ ((EAPOLSocketFree s EAPOLSocketRef.main).preauth_sockets = s.preauth_sockets
          ∧ (EAPOLSocketFree s EAPOLSocketRef.main).preauth_sockets_count
            = s.preauth_sockets_count)
      ∧ (∀ i, (EAPOLSocketFree s (EAPOLSocketRef.preauth i)).sock = s.sock)
      ∧ ((flagged_positions s.preauth_sockets 0).length : Int) ≤ s.preauth_sockets_count
      ∧ (∀ k, 0 ≤ (remove_loop s ((flagged_positions s.preauth_sockets 0).take k)
            0).1.preauth_sockets_count)
      ∧ count_matches (EAPOLSocketSourceRemovePreauthSockets s).1
      ∧ 0 ≤ (EAPOLSocketSourceRemovePreauthSockets s).1.preauth_sockets_count := by
  obtain ⟨w, ether, is_wireless, active, client, ops, hrun⟩ := hr
  have hc : count_matches s :=
    count_run g V ops _ s hrun (count_create g w ether is_wireless active client)
  have hflag : ((flagged_positions s.preauth_sockets 0).length : Int)
      ≤ s.preauth_sockets_count := by
    have hl := filter_lengths s.preauth_sockets
    rw [flagged_positions_length, hc]
    omega
  have hafter := count_remove_preauth_sockets s hc
  refine ⟨hc, ?_, fun bssid malloc_ok => count_create_socket s bssid malloc_ok hc,
    fun sock obj hd => count_free s sock obj hd hc, ?_, ?_, ⟨rfl, rfl⟩, fun _ => rfl, hflag,
    ?_, hafter, ?_⟩
  · rw [hc]
    exact Int.ofNat_nonneg _
  · intro malloc_ok
    cases malloc_ok <;> exact ⟨rfl, rfl⟩
  · intro b malloc_ok
    cases malloc_ok <;> rfl
  · intro k
    rw [remove_loop_count]
    have hk : ((flagged_positions s.preauth_sockets 0).take k).length
        ≤ (flagged_positions s.preauth_sockets 0).length := by
      rw [List.length_take]
      exact Nat.min_le_right _ _
    omega
  · rw [hafter]
    exact Int.ofNat_nonneg _

theorem preauth_count_matches_queue_witness :
    Reachable preauth_globals accept_all flagged_source
      ∧ flagged_source.preauth_sockets_count = 2
      ∧ count_matches flagged_source
      ∧ count_matches (EAPOLSocketSourceRemovePreauthSockets flagged_source).1 :=
  ⟨⟨associated_B, local_mac, true, some true, some 1, flagging_ops, by decide⟩,
    by decide,
    (preauth_count_matches_queue preauth_globals accept_all flagged_source
      ⟨associated_B, local_mac, true, some true, some 1, flagging_ops, by decide⟩).1,
    (preauth_count_matches_queue preauth_globals accept_all flagged_source
      ⟨associated_B, local_mac, true, some true, some 1, flagging_ops,
        by decide⟩).2.2.2.2.2.2.2.2.2.2.1⟩

end EAPOL
